import Mathlib

/-!
# Cedrus JPEG decode demo: buffer and queue orchestration

A shallow embedding of `demo.c`, `demo_decoder.c`, `demo_camera.c`, `dma_buf.c`
and `dma_heap.c`, and of the buffer, setup, streaming and output code of the
single-file program `cedrus-jpeg-decode-demo.c`, followed by theorems about
them.

Conventions of the embedding.

* A C pointer to a live object is the object itself, so the guards
  `if (!demo) return -EINVAL;` (a null pointer) have no counterpart here.
* `unsigned int` values are natural numbers, reduced modulo `2 ^ 32` where the
  code does arithmetic on them; `int` and `long` values are integers.
* Every call that leaves the program (a system call, a function of `libudev`
  or of the allocator, or one of the wrappers of `v4l2.c` and `media.c`, which
  are not part of the sources at hand) is recorded in a trace and answered by
  an oracle. The oracle is any function of the position of the
  call in the trace and of the call itself, so a statement quantified over all
  oracles covers every behaviour of the kernel.
* Undefined behaviour of C (a remainder by zero, an index outside a pool array)
  is the result `none`.
-/

namespace CedrusDemo

/-! ## Constants -/

/-- Error numbers of `errno.h`. -/
abbrev EIO : Int := 5
abbrev ENOMEM : Int := 12
abbrev ENODEV : Int := 19
abbrev EINVAL : Int := 22
abbrev ETIMEDOUT : Int := 110

/-- Buffer types of `linux/videodev2.h`. -/
abbrev V4L2_BUF_TYPE_VIDEO_CAPTURE : Nat := 1
abbrev V4L2_BUF_TYPE_VIDEO_OUTPUT : Nat := 2
abbrev V4L2_BUF_TYPE_VIDEO_CAPTURE_MPLANE : Nat := 9
abbrev V4L2_BUF_TYPE_VIDEO_OUTPUT_MPLANE : Nat := 10

/-- Memory modes of `linux/videodev2.h`. -/
abbrev V4L2_MEMORY_MMAP : Nat := 1
abbrev V4L2_MEMORY_DMABUF : Nat := 4

/-- Pixel formats of `linux/videodev2.h` (fourcc codes). -/
abbrev V4L2_PIX_FMT_JPEG : Nat := 0x4745504a
abbrev V4L2_PIX_FMT_MJPEG : Nat := 0x47504a4d
abbrev V4L2_PIX_FMT_NV16 : Nat := 0x3631564e

/-- Synchronisation flags of `linux/dma-buf.h`. -/
abbrev DMA_BUF_SYNC_READ : Nat := 1
abbrev DMA_BUF_SYNC_WRITE : Nat := 2
abbrev DMA_BUF_SYNC_START : Nat := 0
abbrev DMA_BUF_SYNC_END : Nat := 4

/-- Open flags `O_RDWR` and `O_NONBLOCK` of `fcntl.h`. -/
abbrev O_RDWR : Nat := 2
abbrev O_NONBLOCK : Nat := 0x800

/-- Entity functions of `linux/media.h`. -/
abbrev MEDIA_ENT_F_PROC_VIDEO_DECODER : Nat := 0x4008
abbrev MEDIA_ENT_F_CAM_SENSOR : Nat := 0x20001

/-- Pad flags of `linux/media.h`. -/
abbrev MEDIA_PAD_FL_SINK : Nat := 1
abbrev MEDIA_PAD_FL_SOURCE : Nat := 2

/-- Interface type `MEDIA_INTF_T_V4L_VIDEO` of `linux/media.h`. -/
abbrev MEDIA_INTF_T_V4L_VIDEO : Nat := 0x200

/-- Capability flag `V4L2_CAP_VIDEO_CAPTURE` of `linux/videodev2.h`. -/
abbrev V4L2_CAP_VIDEO_CAPTURE : Nat := 1

/-- Sizes in bytes of the records `struct media_v2_interface`,
`struct media_v2_entity`, `struct media_v2_pad` and `struct media_v2_link` of
`linux/media.h`. -/
abbrev SIZEOF_MEDIA_V2_INTERFACE : Nat := 112
abbrev SIZEOF_MEDIA_V2_ENTITY : Nat := 96
abbrev SIZEOF_MEDIA_V2_PAD : Nat := 32
abbrev SIZEOF_MEDIA_V2_LINK : Nat := 40

/-- The value `MAP_FAILED`, `(void *) -1`, of `sys/mman.h`. -/
abbrev MAP_FAILED : Int := -1

/-- The null pointer. -/
abbrev NULL : Int := 0

/-- Enumeration `enum demo_allocator` of `demo.h`. -/
abbrev DEMO_ALLOCATOR_V4L2 : Int := 0
abbrev DEMO_ALLOCATOR_DMA_HEAP : Int := 1

/-- Enumeration `enum demo_source` of `demo.h`. -/
abbrev DEMO_SOURCE_FILE : Int := 0
abbrev DEMO_SOURCE_CAMERA : Int := 1

/-- Reduction of a natural number to the range of `unsigned int`. -/
def u32 (n : Nat) : Nat := n % 2 ^ 32

/-! ## Data model (`demo.h`) -/

/-- One plane record of a kernel buffer descriptor (`struct v4l2_plane`): its
length, its offset in the device region, the bytes in use and the attached
share-handle. -/
structure V4l2Plane where
  length : Nat
  offset : Nat
  bytesused : Nat
  fd : Int
deriving DecidableEq, Repr, Inhabited

/-- The kernel buffer descriptor (`struct v4l2_buffer`) as far as the demo
reads and writes it. -/
structure V4l2Buffer where
  type : Nat
  memory : Nat
  index : Nat
  planes_count : Nat
  planes : Nat → V4l2Plane
deriving Inhabited

/-- The record `struct demo_buffer`: the arrays `planes[4]`, `data[4]` and
`dma_buf_fd[4]` are maps from the plane index. -/
structure DemoBuffer where
  buffer : V4l2Buffer
  planes_count : Nat
  data : Nat → Int
  dma_buf_fd : Nat → Int
deriving Inhabited

/-- The format descriptor (`struct v4l2_format`) as far as the demo fills it. -/
structure V4l2Format where
  type : Nat
  width : Nat
  height : Nat
  pixelformat : Nat
  sizeimage : Nat
deriving DecidableEq, Repr, Inhabited

/-- The record `struct demo_decoder`. -/
structure DemoDecoder where
  video_fd : Int
  output_memory : Nat
  output_type : Nat
  output_width : Nat
  output_height : Nat
  output_pixel_format : Nat
  output_format : V4l2Format
  output_buffers : List DemoBuffer
  output_buffers_count : Nat
  output_buffer_index : Nat
  capture_memory : Nat
  capture_type : Nat
  capture_width : Nat
  capture_height : Nat
  capture_pixel_format : Nat
  capture_format : V4l2Format
  capture_buffers : List DemoBuffer
  capture_buffers_count : Nat
  capture_buffer_index : Nat
deriving Inhabited

/-- The record `struct demo_camera`. -/
structure DemoCamera where
  video_fd : Int
  capture_memory : Nat
  capture_type : Nat
  capture_width : Nat
  capture_height : Nat
  capture_pixel_format : Nat
  capture_format : V4l2Format
  capture_buffers : List DemoBuffer
  capture_buffers_count : Nat
  capture_buffer_index : Nat
deriving Inhabited

/-- The record `struct demo_file`. -/
structure DemoFile where
  fd : Int
  size : Nat
deriving DecidableEq, Repr, Inhabited

/-- The record `struct demo`. -/
structure Demo where
  source : Int
  allocator : Int
  dma_heap_fd : Int
  width : Nat
  height : Nat
  file : DemoFile
  decoder : DemoDecoder
  camera : DemoCamera
deriving Inhabited

/-- A pointer into one of the three pool arrays, each declared with three
elements. -/
inductive BufferRef where
  | decoder_output (index : Nat)
  | decoder_capture (index : Nat)
  | camera_capture (index : Nat)
deriving DecidableEq, Repr

/-- Reading through a pool pointer; `none` for an index outside the array. -/
def Demo.load (demo : Demo) : BufferRef → Option DemoBuffer
  | .decoder_output i => if i < 3 then demo.decoder.output_buffers[i]? else none
  | .decoder_capture i => if i < 3 then demo.decoder.capture_buffers[i]? else none
  | .camera_capture i => if i < 3 then demo.camera.capture_buffers[i]? else none

/-- Writing through a pool pointer. -/
def Demo.store (demo : Demo) (ref : BufferRef) (b : DemoBuffer) : Demo :=
  match ref with
  | .decoder_output i =>
    { demo with decoder := { demo.decoder with
        output_buffers := demo.decoder.output_buffers.set i b } }
  | .decoder_capture i =>
    { demo with decoder := { demo.decoder with
        capture_buffers := demo.decoder.capture_buffers.set i b } }
  | .camera_capture i =>
    { demo with camera := { demo.camera with
        capture_buffers := demo.camera.capture_buffers.set i b } }

/-! ## Media graph (`linux/media.h`) -/

/-- The record `struct media_v2_interface` as far as the demo reads it: the
identifier, the interface type and the device number of its node. -/
structure MediaInterface where
  id : Nat
  intf_type : Nat
  major : Nat
  minor : Nat
deriving DecidableEq, Repr, Inhabited

/-- The record `struct media_v2_entity`: the identifier and the function. -/
structure MediaEntity where
  id : Nat
  function : Nat
deriving DecidableEq, Repr, Inhabited

/-- The record `struct media_v2_pad`. -/
structure MediaPad where
  id : Nat
  entity_id : Nat
  flags : Nat
deriving DecidableEq, Repr, Inhabited

/-- The record `struct media_v2_link`. -/
structure MediaLink where
  id : Nat
  source_id : Nat
  sink_id : Nat
  flags : Nat
deriving DecidableEq, Repr, Inhabited

/-- The record `struct media_v2_topology` as the kernel leaves it: the four
counts and the content of the four arrays its pointers refer to. -/
structure MediaTopology where
  num_interfaces : Nat
  num_entities : Nat
  num_pads : Nat
  num_links : Nat
  interfaces : List MediaInterface
  entities : List MediaEntity
  pads : List MediaPad
  links : List MediaLink
deriving DecidableEq, Repr, Inhabited

/-- The zeroed `struct media_v2_topology`. -/
def topology_zero : MediaTopology :=
  { num_interfaces := 0, num_entities := 0, num_pads := 0, num_links := 0
    interfaces := [], entities := [], pads := [], links := [] }

/-! ## Buffer lifecycle (`demo_decoder.c`, `demo_camera.c`) -/

/-- Function `demo_decoder_buffer_current` of `demo_decoder.c`: the return
value and the pointer stored in `*buffer`. -/
def demo_decoder_buffer_current (demo : Demo) (type : Nat) : Int × Option BufferRef :=
  if type = demo.decoder.output_type then
    (0, some (.decoder_output demo.decoder.output_buffer_index))
  else if type = demo.decoder.capture_type then
    (0, some (.decoder_capture demo.decoder.capture_buffer_index))
  else
    (-EINVAL, none)

/-- Function `demo_decoder_buffer_cycle` of `demo_decoder.c`: the return value
and the new state, `none` where the remainder is taken by zero. -/
def demo_decoder_buffer_cycle (demo : Demo) (type : Nat) : Option (Int × Demo) :=
  if type = demo.decoder.output_type then
    if demo.decoder.output_buffers_count = 0 then none
    else some (0, { demo with decoder := { demo.decoder with
      output_buffer_index :=
        u32 (demo.decoder.output_buffer_index + 1) % demo.decoder.output_buffers_count } })
  else if type = demo.decoder.capture_type then
    if demo.decoder.capture_buffers_count = 0 then none
    else some (0, { demo with decoder := { demo.decoder with
      capture_buffer_index :=
        u32 (demo.decoder.capture_buffer_index + 1) % demo.decoder.capture_buffers_count } })
  else
    some (-EINVAL, demo)

/-- Function `demo_camera_buffer_current` of `demo_camera.c`. -/
def demo_camera_buffer_current (demo : Demo) : Int × Option BufferRef :=
  (0, some (.camera_capture demo.camera.capture_buffer_index))

/-- Function `demo_camera_buffer_cycle` of `demo_camera.c`. -/
def demo_camera_buffer_cycle (demo : Demo) : Option (Int × Demo) :=
  if demo.camera.capture_buffers_count = 0 then none
  else some (0, { demo with camera := { demo.camera with
    capture_buffer_index :=
      u32 (demo.camera.capture_buffer_index + 1) % demo.camera.capture_buffers_count } })

/-! ## Calls that leave the program -/

/-- A call that leaves the program, with the arguments the demo passes. -/
inductive Call where
  | dma_buf_sync (fd : Int) (flags : Nat)
  | dma_heap_alloc (fd : Int) (size : Nat) (flags : Nat)
  | v4l2_buffer_query (video_fd : Int) (type memory index planes_count : Nat)
  | v4l2_buffer_export (video_fd : Int) (type index plane flags : Nat)
  | dup (fd : Int)
  | mmap (length : Nat) (fd : Int) (offset : Nat)
  | munmap (addr : Int) (length : Nat)
  | close (fd : Int)
  | v4l2_buffer_queue (video_fd : Int) (type index : Nat) (planes : List V4l2Plane)
  | v4l2_buffer_dequeue (video_fd : Int) (type memory : Nat)
  | v4l2_stream_on (video_fd : Int) (type : Nat)
  | v4l2_stream_off (video_fd : Int) (type : Nat)
  | v4l2_poll (video_fd : Int)
  | v4l2_pixel_format_check (video_fd : Int) (type pixel_format : Nat)
  | v4l2_format_try (video_fd : Int) (format : V4l2Format)
  | v4l2_format_set (video_fd : Int) (format : V4l2Format)
  | v4l2_buffers_request (video_fd : Int) (type memory count : Nat)
  | v4l2_buffers_destroy (video_fd : Int) (type memory : Nat)
  | dma_heap_open
  | read (fd : Int) (data : Int) (size : Nat)
  | open_dump
  | write (fd : Int) (data : Int) (size : Nat)
  | open (path : Int) (flags : Nat)
  | media_device_info (media_fd : Int)
  | media_topology_get (media_fd : Int) (num_interfaces num_entities num_pads num_links : Nat)
      (ptr_interfaces ptr_entities ptr_pads ptr_links : Int)
  | calloc (nmemb size : Nat)
  | free (ptr : Int)
  | udev_device_new_from_devnum (udev : Int) (major minor : Nat)
  | udev_device_get_devnode (device : Int)
  | udev_device_unref (device : Int)
  | v4l2_capabilities_probe (video_fd : Int)
  | udev_new
  | udev_enumerate_new (udev : Int)
  | udev_enumerate_add_match_subsystem (enumerate : Int)
  | udev_enumerate_scan_devices (enumerate : Int)
  | udev_enumerate_get_list_entry (enumerate : Int)
  | udev_list_entry_get_name (entry : Int)
  | udev_device_new_from_syspath (udev : Int) (path : Int)
  | udev_enumerate_unref (enumerate : Int)
  | udev_unref (udev : Int)
deriving DecidableEq, Repr

/-- The answer to a call: the value returned, the value of `errno` afterwards,
the value written through an out-parameter (a descriptor, a buffer index), the
plane records and format written back into a descriptor, the media graph
written back by a topology query and the entries of a device enumeration. -/
structure Reply where
  ret : Int
  errno : Int
  out : Int
  planes : Nat → V4l2Plane
  format : V4l2Format
  topology : MediaTopology := topology_zero
  entries : List Int := []
deriving Inhabited

/-- The oracle: the answer to the call issued at a given position of the
trace. -/
abbrev Kernel := Nat → Call → Reply

/-- The trace of the calls issued so far, oldest first. -/
abbrev World := List Call

/-- Issuing a call: it is appended to the trace and the oracle answers it. -/
def sys (k : Kernel) (w : World) (c : Call) : Reply × World :=
  (k w.length c, w ++ [c])

/-! ## Helpers of `v4l2.c` -/

/-- Modelled from the spec: `v4l2_type_base` of `v4l2.c`, which is not among
the sources; the spec speaks of output and capture queues whatever the number
of planes, so the multi-planar types are mapped to their single-planar base and
every other type to itself. -/
def v4l2_type_base (type : Nat) : Nat :=
  if type = V4L2_BUF_TYPE_VIDEO_OUTPUT_MPLANE then V4L2_BUF_TYPE_VIDEO_OUTPUT
  else if type = V4L2_BUF_TYPE_VIDEO_CAPTURE_MPLANE then V4L2_BUF_TYPE_VIDEO_CAPTURE
  else type

/-- Modelled from the spec: `v4l2_type_mplane_check` of `v4l2.c`, which is not
among the sources; true for the multi-planar buffer types. -/
def v4l2_type_mplane_check (type : Nat) : Bool :=
  type = V4L2_BUF_TYPE_VIDEO_OUTPUT_MPLANE || type = V4L2_BUF_TYPE_VIDEO_CAPTURE_MPLANE

/-- Modelled from the spec: `v4l2_buffer_plane_length` of `v4l2.c`, which is
not among the sources; the plane length read from the buffer descriptor. -/
def v4l2_buffer_plane_length (b : V4l2Buffer) (i : Nat) : Nat := (b.planes i).length

/-- Modelled from the spec: `v4l2_buffer_plane_offset` of `v4l2.c`, which is
not among the sources; the kernel-reported offset of the plane. -/
def v4l2_buffer_plane_offset (b : V4l2Buffer) (i : Nat) : Nat := (b.planes i).offset

/-- Modelled from the spec: `v4l2_buffer_plane_length_used` of `v4l2.c`, which
is not among the sources; the used length of the plane. -/
def v4l2_buffer_plane_length_used (b : V4l2Buffer) (i : Nat) : Nat := (b.planes i).bytesused

/-- Modelled from the spec: `v4l2_buffer_setup_plane_length_used` of `v4l2.c`,
which is not among the sources; it writes the used length of the plane. -/
def v4l2_buffer_setup_plane_length_used (b : V4l2Buffer) (i : Nat) (size : Nat) : V4l2Buffer :=
  { b with planes := Function.update b.planes i { b.planes i with bytesused := size } }

/-- Modelled from the spec: `v4l2_buffer_setup_fd` of `v4l2.c`, which is not
among the sources; it attaches a share-handle to the plane descriptor. -/
def v4l2_buffer_setup_fd (b : V4l2Buffer) (i : Nat) (fd : Int) : V4l2Buffer :=
  { b with planes := Function.update b.planes i { b.planes i with fd := fd } }

/-- The plane records of a descriptor that are handed to the kernel. -/
def V4l2Buffer.snapshot (b : V4l2Buffer) : List V4l2Plane :=
  (List.range b.planes_count).map b.planes

/-! ## Wrappers of `dma_buf.c` and `dma_heap.c` -/

/-- Function `dma_buf_sync` of `dma_buf.c`: one `DMA_BUF_IOCTL_SYNC` request;
a failed request yields `-errno`. -/
def dma_buf_sync (k : Kernel) (w : World) (fd : Int) (flags : Nat) : Int × World :=
  let r := sys k w (.dma_buf_sync fd flags)
  if r.1.ret ≠ 0 then (-r.1.errno, r.2) else (0, r.2)

/-- Function `dma_heap_alloc` of `dma_heap.c`: one `DMA_HEAP_IOCTL_ALLOC`
request; a failed request yields `-errno`, a successful one the descriptor. -/
def dma_heap_alloc (k : Kernel) (w : World) (fd : Int) (size : Nat) (flags : Nat) :
    Int × World :=
  let r := sys k w (.dma_heap_alloc fd size flags)
  if r.1.ret ≠ 0 then (-r.1.errno, r.2) else (r.1.out, r.2)

/-! ## Cache synchronisation (`demo.c`) -/

/-- Function `demo_buffer_sync_flags` of `demo.c`. -/
def demo_buffer_sync_flags (buffer : DemoBuffer) : Nat :=
  let type_base := v4l2_type_base buffer.buffer.type
  if type_base = V4L2_BUF_TYPE_VIDEO_OUTPUT then DMA_BUF_SYNC_WRITE
  else if type_base = V4L2_BUF_TYPE_VIDEO_CAPTURE then DMA_BUF_SYNC_READ
  else 0

/-- The loop of `demo_buffer_sync`: `n` planes remain, starting at plane `i`. -/
def demo_buffer_sync_loop (k : Kernel) (buffer : DemoBuffer) (flags : Nat) :
    Nat → Nat → World → Int × World
  | 0, _, w => (0, w)
  | n + 1, i, w =>
    let r := dma_buf_sync k w (buffer.dma_buf_fd i) flags
    if r.1 ≠ 0 then (r.1, r.2) else demo_buffer_sync_loop k buffer flags n (i + 1) r.2

/-- Function `demo_buffer_sync` of `demo.c`. -/
def demo_buffer_sync (k : Kernel) (w : World) (buffer : DemoBuffer) (flags : Nat) :
    Int × World :=
  if buffer.dma_buf_fd 0 < 0 then (0, w)
  else demo_buffer_sync_loop k buffer flags buffer.planes_count 0 w

/-- Function `demo_buffer_sync_begin` of `demo.c`. -/
def demo_buffer_sync_begin (k : Kernel) (w : World) (buffer : DemoBuffer) : Int × World :=
  let flags := demo_buffer_sync_flags buffer
  demo_buffer_sync k w buffer (flags ||| DMA_BUF_SYNC_START)

/-- Function `demo_buffer_sync_finish` of `demo.c`. -/
def demo_buffer_sync_finish (k : Kernel) (w : World) (buffer : DemoBuffer) : Int × World :=
  let flags := demo_buffer_sync_flags buffer
  demo_buffer_sync k w buffer (flags ||| DMA_BUF_SYNC_END)

/-! ## Buffer setup and cleanup (`demo.c`) -/

/-- Function `demo_buffer_setup_base` of `demo.c`. The three descriptor helpers
`v4l2_buffer_setup_base`, `v4l2_buffer_setup_index` and
`v4l2_buffer_setup_planes` fill the type, memory mode, index and plane count;
`v4l2_buffer_query` lets the kernel fill the plane records. -/
def demo_buffer_setup_base (k : Kernel) (w : World) (buffer : DemoBuffer) (video_fd : Int)
    (memory type index planes_count : Nat) : Int × DemoBuffer × World :=
  if (if v4l2_type_mplane_check type then decide (planes_count > 4)
      else decide (planes_count > 1)) then (-EINVAL, buffer, w)
  else
    let buffer1 : DemoBuffer :=
      { buffer with
        planes_count := planes_count
        dma_buf_fd := fun i => if i < planes_count then -1 else buffer.dma_buf_fd i }
    let r := sys k w (.v4l2_buffer_query video_fd type memory index planes_count)
    let buffer2 : DemoBuffer :=
      { buffer1 with
        buffer := { type := type, memory := memory, index := index,
                    planes_count := planes_count, planes := r.1.planes } }
    if r.1.ret ≠ 0 then (r.1.ret, buffer2, r.2) else (0, buffer2, r.2)

/-- The loop of `demo_buffer_setup_import`: `n` planes remain, starting at
plane `i`. The constant protection and sharing arguments of `mmap` are left
out of the trace. -/
def demo_buffer_setup_import_loop (k : Kernel) (demo : Demo) (import_buffer : DemoBuffer)
    (import_video_fd : Int) : Nat → Nat → DemoBuffer → World → Int × DemoBuffer × World
  | 0, _, buffer, w => (0, buffer, w)
  | n + 1, i, buffer, w =>
    let import_length := v4l2_buffer_plane_length import_buffer.buffer i
    let length := v4l2_buffer_plane_length buffer.buffer i
    if import_length < length then (-EINVAL, buffer, w)
    else if demo.allocator = DEMO_ALLOCATOR_DMA_HEAP then
      let fd := import_buffer.dma_buf_fd i
      if fd < 0 then (-EINVAL, buffer, w)
      else
        let buffer2 := { buffer with buffer := v4l2_buffer_setup_fd buffer.buffer i fd }
        let m := sys k w (.mmap length fd 0)
        if m.1.ret = MAP_FAILED then (-ENOMEM, buffer2, m.2)
        else
          demo_buffer_setup_import_loop k demo import_buffer import_video_fd n (i + 1)
            { buffer2 with data := Function.update buffer2.data i m.1.ret } m.2
    else
      let e := sys k w (.v4l2_buffer_export import_video_fd import_buffer.buffer.type
        import_buffer.buffer.index i O_RDWR)
      if e.1.ret ≠ 0 then (e.1.ret, buffer, e.2)
      else
        let fd := e.1.out
        let d := sys k e.2 (.dup fd)
        let buffer1 := { buffer with dma_buf_fd := Function.update buffer.dma_buf_fd i d.1.ret }
        let buffer2 := { buffer1 with buffer := v4l2_buffer_setup_fd buffer1.buffer i fd }
        let m := sys k d.2 (.mmap length fd 0)
        if m.1.ret = MAP_FAILED then (-ENOMEM, buffer2, m.2)
        else
          demo_buffer_setup_import_loop k demo import_buffer import_video_fd n (i + 1)
            { buffer2 with data := Function.update buffer2.data i m.1.ret } m.2

/-- Function `demo_buffer_setup_import` of `demo.c`. -/
def demo_buffer_setup_import (k : Kernel) (w : World) (demo : Demo) (buffer : DemoBuffer)
    (import_buffer : DemoBuffer) (import_video_fd : Int) : Int × DemoBuffer × World :=
  if buffer.planes_count ≠ import_buffer.planes_count then (-EINVAL, buffer, w)
  else
    demo_buffer_setup_import_loop k demo import_buffer import_video_fd
      buffer.planes_count 0 buffer w

/-- The loop of `demo_buffer_setup_dma_heap`. -/
def demo_buffer_setup_dma_heap_loop (k : Kernel) (demo : Demo) :
    Nat → Nat → DemoBuffer → World → Int × DemoBuffer × World
  | 0, _, buffer, w => (0, buffer, w)
  | n + 1, i, buffer, w =>
    let length := v4l2_buffer_plane_length buffer.buffer i
    let a := dma_heap_alloc k w demo.dma_heap_fd length O_RDWR
    let fd := a.1
    if fd < 0 then (-ENOMEM, buffer, a.2)
    else
      let buffer1 := { buffer with dma_buf_fd := Function.update buffer.dma_buf_fd i fd }
      let buffer2 := { buffer1 with buffer := v4l2_buffer_setup_fd buffer1.buffer i fd }
      let m := sys k a.2 (.mmap length fd 0)
      if m.1.ret = MAP_FAILED then (-ENOMEM, buffer2, m.2)
      else
        demo_buffer_setup_dma_heap_loop k demo n (i + 1)
          { buffer2 with data := Function.update buffer2.data i m.1.ret } m.2

/-- Function `demo_buffer_setup_dma_heap` of `demo.c`; its parameter
`video_fd` is not used by the body. -/
def demo_buffer_setup_dma_heap (k : Kernel) (w : World) (demo : Demo) (buffer : DemoBuffer)
    (_video_fd : Int) : Int × DemoBuffer × World :=
  demo_buffer_setup_dma_heap_loop k demo buffer.planes_count 0 buffer w

/-- The loop of `demo_buffer_setup_v4l2`. -/
def demo_buffer_setup_v4l2_loop (k : Kernel) (video_fd : Int) :
    Nat → Nat → DemoBuffer → World → Int × DemoBuffer × World
  | 0, _, buffer, w => (0, buffer, w)
  | n + 1, i, buffer, w =>
    let offset := v4l2_buffer_plane_offset buffer.buffer i
    let length := v4l2_buffer_plane_length buffer.buffer i
    let m := sys k w (.mmap length video_fd offset)
    if m.1.ret = MAP_FAILED then (-ENOMEM, buffer, m.2)
    else
      demo_buffer_setup_v4l2_loop k video_fd n (i + 1)
        { buffer with data := Function.update buffer.data i m.1.ret } m.2

/-- Function `demo_buffer_setup_v4l2` of `demo.c`. -/
def demo_buffer_setup_v4l2 (k : Kernel) (w : World) (_demo : Demo) (buffer : DemoBuffer)
    (video_fd : Int) : Int × DemoBuffer × World :=
  demo_buffer_setup_v4l2_loop k video_fd buffer.planes_count 0 buffer w

/-- Function `demo_buffer_setup` of `demo.c`; `none` when the camera pool is
indexed outside its three elements. -/
def demo_buffer_setup (k : Kernel) (w : World) (demo : Demo) (buffer : DemoBuffer)
    (video_fd : Int) (memory type index planes_count : Nat) (import_camera : Bool) :
    Option (Int × DemoBuffer × World) :=
  let b := demo_buffer_setup_base k w buffer video_fd memory type index planes_count
  if b.1 ≠ 0 then some b
  else if import_camera then
    match demo.load (.camera_capture index) with
    | none => none
    | some import_buffer =>
      some (demo_buffer_setup_import k b.2.2 demo b.2.1 import_buffer demo.camera.video_fd)
  else if demo.allocator = DEMO_ALLOCATOR_DMA_HEAP then
    some (demo_buffer_setup_dma_heap k b.2.2 demo b.2.1 video_fd)
  else if demo.allocator = DEMO_ALLOCATOR_V4L2 then
    some (demo_buffer_setup_v4l2 k b.2.2 demo b.2.1 video_fd)
  else some (-EINVAL, b.2.1, b.2.2)

/-- The loop of `demo_buffer_cleanup`: unmap the plane, then close its
share-handle when there is one. -/
def demo_buffer_cleanup_loop (k : Kernel) : Nat → Nat → DemoBuffer → World → DemoBuffer × World
  | 0, _, buffer, w => (buffer, w)
  | n + 1, i, buffer, w =>
    let length := v4l2_buffer_plane_length buffer.buffer i
    let u := sys k w (.munmap (buffer.data i) length)
    let buffer1 := { buffer with data := Function.update buffer.data i NULL }
    if buffer1.dma_buf_fd i ≥ 0 then
      let c := sys k u.2 (.close (buffer1.dma_buf_fd i))
      demo_buffer_cleanup_loop k n (i + 1)
        { buffer1 with dma_buf_fd := Function.update buffer1.dma_buf_fd i (-1) } c.2
    else demo_buffer_cleanup_loop k n (i + 1) buffer1 u.2

/-- Function `demo_buffer_cleanup` of `demo.c`. -/
def demo_buffer_cleanup (k : Kernel) (w : World) (buffer : DemoBuffer) : DemoBuffer × World :=
  demo_buffer_cleanup_loop k buffer.planes_count 0 buffer w

/-! ## Streaming (`demo_decoder.c`, `demo_camera.c`)

The timing helpers of `perf.c` and the diagnostics printed with `fprintf` and
`printf` change neither the state nor the calls and are left out. -/

/-- The value of an `int` converted to `unsigned int`, as the comparison of an
`int` with an `unsigned int` does. -/
def int_to_u32 (x : Int) : Nat := (x % 2 ^ 32).toNat

/-- The loop of `demo_decoder_run` that copies the used length of every plane
from the camera buffer to the output buffer. -/
def demo_decoder_run_copy_used (camera_buffer : DemoBuffer) : Nat → Nat → DemoBuffer → DemoBuffer
  | 0, _, buffer => buffer
  | n + 1, i, buffer =>
    let size := v4l2_buffer_plane_length_used camera_buffer.buffer i
    demo_decoder_run_copy_used camera_buffer n (i + 1)
      { buffer with buffer := v4l2_buffer_setup_plane_length_used buffer.buffer i size }

/-- The part of `demo_decoder_run` after the output buffer was queued. -/
def demo_decoder_run_stream (k : Kernel) (w : World) (demo : Demo) : Int × Demo × World :=
  let decoder := demo.decoder
  let s1 := sys k w (.v4l2_stream_on decoder.video_fd decoder.capture_type)
  if s1.1.ret ≠ 0 then (s1.1.ret, demo, s1.2)
  else
    let s2 := sys k s1.2 (.v4l2_stream_on decoder.video_fd decoder.output_type)
    if s2.1.ret ≠ 0 then (s2.1.ret, demo, s2.2)
    else
      let p := sys k s2.2 (.v4l2_poll decoder.video_fd)
      if p.1.ret ≤ 0 then ((if p.1.ret = 0 then -ETIMEDOUT else p.1.ret), demo, p.2)
      else
        let d1 := sys k p.2
          (.v4l2_buffer_dequeue decoder.video_fd decoder.capture_type decoder.capture_memory)
        if d1.1.ret ≠ 0 then (d1.1.ret, demo, d1.2)
        else
          let d2 := sys k d1.2
            (.v4l2_buffer_dequeue decoder.video_fd decoder.output_type decoder.output_memory)
          if d2.1.ret ≠ 0 then (d2.1.ret, demo, d2.2)
          else
            let o1 := sys k d2.2 (.v4l2_stream_off decoder.video_fd decoder.capture_type)
            if o1.1.ret ≠ 0 then (o1.1.ret, demo, o1.2)
            else
              let o2 := sys k o1.2 (.v4l2_stream_off decoder.video_fd decoder.output_type)
              if o2.1.ret ≠ 0 then (o2.1.ret, demo, o2.2)
              else (0, demo, o2.2)

/-- Function `demo_decoder_run` of `demo_decoder.c`. -/
def demo_decoder_run (k : Kernel) (w : World) (demo : Demo) : Option (Int × Demo × World) :=
  let decoder := demo.decoder
  let c := demo_decoder_buffer_current demo decoder.capture_type
  if c.1 ≠ 0 then some (c.1, demo, w)
  else
    match c.2.bind demo.load with
    | none => none
    | some buffer =>
      let q := sys k w (.v4l2_buffer_queue decoder.video_fd buffer.buffer.type
        buffer.buffer.index buffer.buffer.snapshot)
      if q.1.ret ≠ 0 then some (q.1.ret, demo, q.2)
      else
        let c2 := demo_decoder_buffer_current demo decoder.output_type
        if c2.1 ≠ 0 then some (c2.1, demo, q.2)
        else
          match c2.2, c2.2.bind demo.load with
          | some ref, some buffer =>
            let copied : Option DemoBuffer :=
              if demo.source = DEMO_SOURCE_CAMERA then
                match demo.load (.camera_capture decoder.capture_buffer_index) with
                | none => none
                | some camera_buffer =>
                  some (demo_decoder_run_copy_used camera_buffer buffer.planes_count 0 buffer)
              else some buffer
            match copied with
            | none => none
            | some buffer1 =>
              let demo1 := demo.store ref buffer1
              let q2 := sys k q.2 (.v4l2_buffer_queue decoder.video_fd buffer1.buffer.type
                buffer1.buffer.index buffer1.buffer.snapshot)
              if q2.1.ret ≠ 0 then some (q2.1.ret, demo1, q2.2)
              else some (demo_decoder_run_stream k q2.2 demo1)
          | _, _ => none

/-- The first loop of `demo_camera_roll`: queue the current buffer and cycle,
once per pool element. -/
def demo_camera_roll_queue (k : Kernel) : Nat → Demo → World → Option (Int × Demo × World)
  | 0, demo, w => some (0, demo, w)
  | n + 1, demo, w =>
    let c := demo_camera_buffer_current demo
    if c.1 ≠ 0 then some (c.1, demo, w)
    else
      match c.2.bind demo.load with
      | none => none
      | some buffer =>
        let q := sys k w (.v4l2_buffer_queue demo.camera.video_fd buffer.buffer.type
          buffer.buffer.index buffer.buffer.snapshot)
        if q.1.ret ≠ 0 then some (q.1.ret, demo, q.2)
        else
          match demo_camera_buffer_cycle demo with
          | none => none
          | some y =>
            if y.1 ≠ 0 then some (y.1, y.2, q.2)
            else demo_camera_roll_queue k n y.2 q.2

/-- The second loop of `demo_camera_roll`: queue again the buffer dequeued by
the previous round, wait, dequeue. The pointer `buffer_next` is `none` while it
is null. -/
def demo_camera_roll_capture (k : Kernel) (demo : Demo) :
    Nat → Option BufferRef → World → Option (Int × World)
  | 0, _, w => some (0, w)
  | n + 1, buffer_next, w =>
    let queued : Option (Int × World) :=
      match buffer_next with
      | none => some (0, w)
      | some ref =>
        match demo.load ref with
        | none => none
        | some b =>
          let q := sys k w (.v4l2_buffer_queue demo.camera.video_fd b.buffer.type
            b.buffer.index b.buffer.snapshot)
          some (q.1.ret, q.2)
    match queued with
    | none => none
    | some q =>
      if q.1 ≠ 0 then some (q.1, q.2)
      else
        let p := sys k q.2 (.v4l2_poll demo.camera.video_fd)
        if p.1.ret ≤ 0 then some ((if p.1.ret = 0 then -ETIMEDOUT else p.1.ret), p.2)
        else
          let d := sys k p.2 (.v4l2_buffer_dequeue demo.camera.video_fd
            demo.camera.capture_type demo.camera.capture_memory)
          if d.1.ret ≠ 0 then some (d.1.ret, d.2)
          else
            let index := int_to_u32 d.1.out
            demo_camera_roll_capture k demo n (some (.camera_capture index)) d.2

/-- The last loop of `demo_camera_roll`: one write-finished synchronisation
per pool element. -/
def demo_camera_roll_sync (k : Kernel) (demo : Demo) : Nat → Nat → World → Option (Int × World)
  | 0, _, w => some (0, w)
  | n + 1, i, w =>
    match demo.load (.camera_capture i) with
    | none => none
    | some buffer =>
      let r := demo_buffer_sync k w buffer (DMA_BUF_SYNC_WRITE ||| DMA_BUF_SYNC_END)
      if r.1 ≠ 0 then some (r.1, r.2)
      else demo_camera_roll_sync k demo n (i + 1) r.2

/-- Function `demo_camera_roll` of `demo_camera.c`. -/
def demo_camera_roll (k : Kernel) (w : World) (demo : Demo) : Option (Int × Demo × World) :=
  match demo_camera_roll_queue k demo.camera.capture_buffers_count demo w with
  | none => none
  | some (ret, demo1, w1) =>
    if ret ≠ 0 then some (ret, demo1, w1)
    else
      let camera := demo1.camera
      let s := sys k w1 (.v4l2_stream_on camera.video_fd camera.capture_type)
      if s.1.ret ≠ 0 then some (s.1.ret, demo1, s.2)
      else
        match demo_camera_roll_capture k demo1 (u32 (camera.capture_buffers_count + 1))
            none s.2 with
        | none => none
        | some (ret2, w2) =>
          if ret2 ≠ 0 then some (ret2, demo1, w2)
          else
            let o := sys k w2 (.v4l2_stream_off camera.video_fd camera.capture_type)
            if o.1.ret ≠ 0 then some (o.1.ret, demo1, o.2)
            else
              let c := demo_camera_buffer_current demo1
              if c.1 ≠ 0 then some (c.1, demo1, o.2)
              else
                match demo_camera_roll_sync k demo1 camera.capture_buffers_count 0 o.2 with
                | none => none
                | some (ret3, w3) => some (ret3, demo1, w3)

/-! ## File input and dump (`demo.c`) -/

/-- Function `demo_file_read` of `demo.c`. -/
def demo_file_read (k : Kernel) (w : World) (demo : Demo) : Option (Int × Demo × World) :=
  let c := demo_decoder_buffer_current demo demo.decoder.output_type
  if c.1 ≠ 0 then some (c.1, demo, w)
  else
    match c.2, c.2.bind demo.load with
    | some ref, some buffer =>
      let data := buffer.data 0
      let length := v4l2_buffer_plane_length buffer.buffer 0
      if length < demo.file.size then some (-ENOMEM, demo, w)
      else
        let b := demo_buffer_sync_begin k w buffer
        if b.1 ≠ 0 then some (b.1, demo, b.2)
        else
          let r := sys k b.2 (.read demo.file.fd data demo.file.size)
          if int_to_u32 r.1.ret < demo.file.size then some (1, demo, r.2)
          else
            let f := demo_buffer_sync_finish k r.2 buffer
            if f.1 ≠ 0 then some (f.1, demo, f.2)
            else
              let used := v4l2_buffer_setup_plane_length_used buffer.buffer 0 demo.file.size
              some (0, demo.store ref { buffer with buffer := used }, f.2)
    | _, _ => none

/-- Function `demo_file_close` of `demo.c`. -/
def demo_file_close (k : Kernel) (w : World) (demo : Demo) : Demo × World :=
  if demo.file.fd ≥ 0 then
    ({ demo with file := { demo.file with fd := -1 } }, (sys k w (.close demo.file.fd)).2)
  else (demo, w)

/-- The label `complete` of `demo_dump`: close the dump file when it was
opened, return the result. -/
def demo_dump_complete (k : Kernel) (w : World) (demo : Demo) (fd : Int) (ret : Int) :
    Int × Demo × World :=
  if fd ≥ 0 then (ret, demo, (sys k w (.close fd)).2) else (ret, demo, w)

/-- Function `demo_dump` of `demo.c`. The pointer `dump_path` is its address, a
natural number; the test after `open` compares that pointer with zero. -/
def demo_dump (k : Kernel) (w : World) (demo : Demo) (dump_path : Nat) :
    Option (Int × Demo × World) :=
  let c := demo_decoder_buffer_current demo demo.decoder.capture_type
  if c.1 ≠ 0 then some (c.1, demo, w)
  else
    match c.2.bind demo.load with
    | none => none
    | some buffer =>
      let size := v4l2_buffer_plane_length_used buffer.buffer 0
      let data := buffer.data 0
      let o := sys k w .open_dump
      let fd := o.1.ret
      if (dump_path : Int) < 0 then some (-o.1.errno, demo, o.2)
      else
        let b := demo_buffer_sync_begin k o.2 buffer
        if b.1 ≠ 0 then some (demo_dump_complete k b.2 demo fd b.1)
        else
          let x := sys k b.2 (.write fd data size)
          if int_to_u32 x.1.ret < size then some (demo_dump_complete k x.2 demo fd (- EIO))
          else
            let f := demo_buffer_sync_finish k x.2 buffer
            if f.1 ≠ 0 then some (demo_dump_complete k f.2 demo fd f.1)
            else some (demo_dump_complete k f.2 demo fd 0)

/-! ## Pipeline setup and teardown (`demo_camera.c`, `demo_decoder.c`, `demo.c`) -/

/-- Function `dma_heap_open` of `dma_heap.c`, called with the heap name
`reserved`: one `open`; a failed one yields `-errno`. -/
def dma_heap_open (k : Kernel) (w : World) : Int × World :=
  let r := sys k w .dma_heap_open
  if r.1.ret < 0 then (-r.1.errno, r.2) else (r.1.ret, r.2)

/-- The buffer loop of `demo_camera_setup` and the two buffer loops of
`demo_decoder_setup`: `demo_buffer_setup` on the pool elements `i`, `i + 1`,
... in turn, `n` of them, stopping at the first error. The pool is given by the
constructor of its pointers. -/
def demo_setup_buffers (k : Kernel) (pool : Nat → BufferRef) (video_fd : Int)
    (memory type planes_count : Nat) (import_camera : Bool) :
    Nat → Nat → Demo → World → Option (Int × Demo × World)
  | 0, _, demo, w => some (0, demo, w)
  | n + 1, i, demo, w =>
    match demo.load (pool i) with
    | none => none
    | some buffer =>
      match demo_buffer_setup k w demo buffer video_fd memory type i planes_count
          import_camera with
      | none => none
      | some r =>
        let demo1 := demo.store (pool i) r.2.1
        if r.1 ≠ 0 then some (r.1, demo1, r.2.2)
        else demo_setup_buffers k pool video_fd memory type planes_count import_camera
          n (i + 1) demo1 r.2.2

/-- Function `demo_camera_setup` of `demo_camera.c`. -/
def demo_camera_setup (k : Kernel) (w : World) (demo : Demo) : Option (Int × Demo × World) :=
  if demo.camera.video_fd < 0 then some (-ENODEV, demo, w)
  else if demo.allocator ≠ DEMO_ALLOCATOR_V4L2 ∧ demo.allocator ≠ DEMO_ALLOCATOR_DMA_HEAP then
    some (-EINVAL, demo, w)
  else
    let camera1 : DemoCamera :=
      { demo.camera with
        capture_memory :=
          if demo.allocator = DEMO_ALLOCATOR_V4L2 then V4L2_MEMORY_MMAP else V4L2_MEMORY_DMABUF
        capture_width := demo.width
        capture_height := demo.height
        capture_pixel_format := V4L2_PIX_FMT_MJPEG
        capture_type := V4L2_BUF_TYPE_VIDEO_CAPTURE }
    let demo1 := { demo with camera := camera1 }
    let planes_count := 1
    let check := sys k w (.v4l2_pixel_format_check camera1.video_fd camera1.capture_type
      camera1.capture_pixel_format)
    if check.1.ret = 0 then some (-EINVAL, demo1, check.2)
    else
      let size := u32 (camera1.capture_width * camera1.capture_height * 3)
      let format : V4l2Format :=
        { type := camera1.capture_type, width := camera1.capture_width,
          height := camera1.capture_height, pixelformat := camera1.capture_pixel_format,
          sizeimage := size }
      let t := sys k check.2 (.v4l2_format_try camera1.video_fd format)
      let demo2 := { demo1 with camera := { camera1 with capture_format := t.1.format } }
      if t.1.ret ≠ 0 then some (t.1.ret, demo2, t.2)
      else
        let f := sys k t.2 (.v4l2_format_set camera1.video_fd t.1.format)
        let demo3 := { demo1 with camera := { camera1 with capture_format := f.1.format } }
        if f.1.ret ≠ 0 then some (f.1.ret, demo3, f.2)
        else
          let count := 3
          let q := sys k f.2 (.v4l2_buffers_request camera1.video_fd camera1.capture_type
            camera1.capture_memory count)
          if q.1.ret ≠ 0 then some (q.1.ret, demo3, q.2)
          else
            match demo_setup_buffers k .camera_capture camera1.video_fd camera1.capture_memory
                camera1.capture_type planes_count false count 0 demo3 q.2 with
            | none => none
            | some (ret, demo4, w4) =>
              if ret ≠ 0 then some (ret, demo4, w4)
              else
                some (0, { demo4 with camera :=
                  { demo4.camera with capture_buffers_count := count } }, w4)

/-- The part of `demo_decoder_setup` from the request of the output pool on. -/
def demo_decoder_setup_buffers (k : Kernel) (w : World) (demo : Demo) (import_camera : Bool) :
    Option (Int × Demo × World) :=
  let decoder := demo.decoder
  let planes_count := 1
  let count := 3
  let q := sys k w (.v4l2_buffers_request decoder.video_fd decoder.output_type
    decoder.output_memory count)
  if q.1.ret ≠ 0 then some (q.1.ret, demo, q.2)
  else
    match demo_setup_buffers k .decoder_output decoder.video_fd decoder.output_memory
        decoder.output_type planes_count import_camera count 0 demo q.2 with
    | none => none
    | some (ret, demo1, w1) =>
      if ret ≠ 0 then some (ret, demo1, w1)
      else
        let demo2 := { demo1 with decoder := { demo1.decoder with output_buffers_count := count } }
        let decoder2 := demo2.decoder
        let q2 := sys k w1 (.v4l2_buffers_request decoder2.video_fd decoder2.capture_type
          decoder2.capture_memory count)
        if q2.1.ret ≠ 0 then some (q2.1.ret, demo2, q2.2)
        else
          match demo_setup_buffers k .decoder_capture decoder2.video_fd decoder2.capture_memory
              decoder2.capture_type planes_count false count 0 demo2 q2.2 with
          | none => none
          | some (ret3, demo3, w3) =>
            if ret3 ≠ 0 then some (ret3, demo3, w3)
            else
              some (0, { demo3 with decoder :=
                { demo3.decoder with capture_buffers_count := count } }, w3)

/-- The part of `demo_decoder_setup` from the pixel format checks to the
format setup, in the state `demo` in which the memory modes, sizes, pixel
formats and buffer types of the decoder are already assigned. -/
def demo_decoder_setup_formats (k : Kernel) (w : World) (demo : Demo) (import_camera : Bool) :
    Option (Int × Demo × World) :=
  let decoder1 := demo.decoder
  let c1 := sys k w (.v4l2_pixel_format_check decoder1.video_fd decoder1.output_type
    decoder1.output_pixel_format)
  if c1.1.ret = 0 then some (-EINVAL, demo, c1.2)
  else
    let c2 := sys k c1.2 (.v4l2_pixel_format_check decoder1.video_fd decoder1.capture_type
      decoder1.capture_pixel_format)
    if c2.1.ret = 0 then some (-EINVAL, demo, c2.2)
    else
      let size : Option Nat :=
        if import_camera then
          (demo.load (.camera_capture 0)).map fun b => v4l2_buffer_plane_length b.buffer 0
        else some (u32 (decoder1.output_width * decoder1.output_height * 3))
      match size with
      | none => none
      | some size =>
        let format : V4l2Format :=
          { type := decoder1.output_type, width := decoder1.output_width,
            height := decoder1.output_height, pixelformat := decoder1.output_pixel_format,
            sizeimage := size }
        let t := sys k c2.2 (.v4l2_format_try decoder1.video_fd format)
        let demo2 := { demo with decoder := { decoder1 with output_format := t.1.format } }
        if t.1.ret ≠ 0 then some (t.1.ret, demo2, t.2)
        else
          let f := sys k t.2 (.v4l2_format_set decoder1.video_fd t.1.format)
          let decoder3 := { decoder1 with output_format := f.1.format }
          if f.1.ret ≠ 0 then some (f.1.ret, { demo with decoder := decoder3 }, f.2)
          else
            let cformat : V4l2Format :=
              { type := decoder1.capture_type, width := decoder1.capture_width,
                height := decoder1.capture_height,
                pixelformat := decoder1.capture_pixel_format, sizeimage := 0 }
            let t2 := sys k f.2 (.v4l2_format_try decoder1.video_fd cformat)
            let decoder4 := { decoder3 with capture_format := t2.1.format }
            if t2.1.ret ≠ 0 then some (t2.1.ret, { demo with decoder := decoder4 }, t2.2)
            else
              let f2 := sys k t2.2 (.v4l2_format_set decoder1.video_fd t2.1.format)
              let decoder5 := { decoder3 with capture_format := f2.1.format }
              let demo5 := { demo with decoder := decoder5 }
              if f2.1.ret ≠ 0 then some (f2.1.ret, demo5, f2.2)
              else demo_decoder_setup_buffers k f2.2 demo5 import_camera

/-- Function `demo_decoder_setup` of `demo_decoder.c`. -/
def demo_decoder_setup (k : Kernel) (w : World) (demo : Demo) : Option (Int × Demo × World) :=
  if demo.decoder.video_fd < 0 then some (-ENODEV, demo, w)
  else
    let import_camera : Bool := decide (demo.source = DEMO_SOURCE_CAMERA)
    if demo.allocator ≠ DEMO_ALLOCATOR_V4L2 ∧ demo.allocator ≠ DEMO_ALLOCATOR_DMA_HEAP then
      some (-EINVAL, demo, w)
    else
      let decoder1 : DemoDecoder :=
        { demo.decoder with
          output_memory :=
            if demo.allocator = DEMO_ALLOCATOR_V4L2 then
              (if import_camera then V4L2_MEMORY_DMABUF else V4L2_MEMORY_MMAP)
            else V4L2_MEMORY_DMABUF
          capture_memory :=
            if demo.allocator = DEMO_ALLOCATOR_V4L2 then V4L2_MEMORY_MMAP
            else V4L2_MEMORY_DMABUF
          output_width := demo.width
          output_height := demo.height
          output_pixel_format := V4L2_PIX_FMT_JPEG
          capture_width := demo.width
          capture_height := demo.height
          capture_pixel_format := V4L2_PIX_FMT_NV16
          output_type := V4L2_BUF_TYPE_VIDEO_OUTPUT
          capture_type := V4L2_BUF_TYPE_VIDEO_CAPTURE }
      demo_decoder_setup_formats k w { demo with decoder := decoder1 } import_camera

/-- Function `demo_setup` of `demo.c`. -/
def demo_setup (k : Kernel) (w : World) (demo : Demo) (source allocator : Int)
    (width height : Nat) : Option (Int × Demo × World) :=
  let demo1 := { demo with source := source, allocator := allocator, width := width,
                           height := height }
  let heap : Int × Demo × World :=
    if allocator = DEMO_ALLOCATOR_DMA_HEAP then
      let h := dma_heap_open k w
      if h.1 < 0 then (h.1, demo1, h.2) else (0, { demo1 with dma_heap_fd := h.1 }, h.2)
    else (0, demo1, w)
  if heap.1 ≠ 0 then some heap
  else
    let cam : Option (Int × Demo × World) :=
      if source = DEMO_SOURCE_CAMERA then demo_camera_setup k heap.2.2 heap.2.1
      else some (0, heap.2.1, heap.2.2)
    match cam with
    | none => none
    | some (ret, demo2, w2) =>
      if ret ≠ 0 then some (ret, demo2, w2)
      else demo_decoder_setup k w2 demo2

/-- The buffer loops of `demo_decoder_cleanup` and `demo_camera_cleanup`:
`demo_buffer_cleanup` on `n` pool elements from `i` on. -/
def demo_cleanup_buffers (k : Kernel) (pool : Nat → BufferRef) :
    Nat → Nat → Demo → World → Option (Demo × World)
  | 0, _, demo, w => some (demo, w)
  | n + 1, i, demo, w =>
    match demo.load (pool i) with
    | none => none
    | some buffer =>
      let r := demo_buffer_cleanup k w buffer
      demo_cleanup_buffers k pool n (i + 1) (demo.store (pool i) r.1) r.2

/-- Function `demo_decoder_cleanup` of `demo_decoder.c`. -/
def demo_decoder_cleanup (k : Kernel) (w : World) (demo : Demo) : Option (Demo × World) :=
  match demo_cleanup_buffers k .decoder_output demo.decoder.output_buffers_count 0 demo w with
  | none => none
  | some (demo1, w1) =>
    let x := sys k w1 (.v4l2_buffers_destroy demo1.decoder.video_fd demo1.decoder.output_type
      demo1.decoder.output_memory)
    match demo_cleanup_buffers k .decoder_capture demo1.decoder.capture_buffers_count 0
        demo1 x.2 with
    | none => none
    | some (demo2, w2) =>
      some (demo2, (sys k w2 (.v4l2_buffers_destroy demo2.decoder.video_fd
        demo2.decoder.capture_type demo2.decoder.capture_memory)).2)

/-- Function `demo_camera_cleanup` of `demo_camera.c`. -/
def demo_camera_cleanup (k : Kernel) (w : World) (demo : Demo) : Option (Demo × World) :=
  match demo_cleanup_buffers k .camera_capture demo.camera.capture_buffers_count 0 demo w with
  | none => none
  | some (demo1, w1) =>
    some (demo1, (sys k w1 (.v4l2_buffers_destroy demo1.camera.video_fd
      demo1.camera.capture_type demo1.camera.capture_memory)).2)

/-- Function `demo_cleanup` of `demo.c`. -/
def demo_cleanup (k : Kernel) (w : World) (demo : Demo) : Option (Demo × World) :=
  match demo_decoder_cleanup k w demo with
  | none => none
  | some (demo1, w1) =>
    let cam : Option (Demo × World) :=
      if demo1.source = DEMO_SOURCE_CAMERA then demo_camera_cleanup k w1 demo1
      else some (demo1, w1)
    match cam with
    | none => none
    | some (demo2, w2) =>
      if demo2.allocator = DEMO_ALLOCATOR_DMA_HEAP then
        some (demo2, (sys k w2 (.close demo2.dma_heap_fd)).2)
      else some (demo2, w2)

/-- Function `demo_close` of `demo.c`. -/
def demo_close (k : Kernel) (w : World) (demo : Demo) : Demo × World :=
  let d : Demo × World :=
    if demo.decoder.video_fd ≥ 0 then
      ({ demo with decoder := { demo.decoder with video_fd := -1 } },
        (sys k w (.close demo.decoder.video_fd)).2)
    else (demo, w)
  if d.1.camera.video_fd ≥ 0 then
    ({ d.1 with camera := { d.1.camera with video_fd := -1 } },
      (sys k d.2 (.close d.1.camera.video_fd)).2)
  else d

/-- The part of `main` of `demo.c` that follows `demo_open`: setup, file read
or camera roll, decoder run, dump, cleanup. The locals `source`, `allocator`,
`width` and `height`, which `main` sets to the camera, the heap allocator and
1280 by 720, are parameters. The result is the exit status. -/
def main_pipeline (k : Kernel) (w : World) (demo : Demo) (source allocator : Int)
    (width height : Nat) (dump_path : Nat) : Option (Int × Demo × World) :=
  match demo_setup k w demo source allocator width height with
  | none => none
  | some (ret, demo1, w1) =>
    if ret ≠ 0 then some (1, demo1, w1)
    else
      let input : Option (Int × Demo × World) :=
        if source = DEMO_SOURCE_FILE then
          match demo_file_read k w1 demo1 with
          | none => none
          | some (r, d, x) =>
            if r ≠ 0 then some (r, d, x)
            else
              let c := demo_file_close k x d
              some (0, c.1, c.2)
        else demo_camera_roll k w1 demo1
      match input with
      | none => none
      | some (ret2, demo2, w2) =>
        if ret2 ≠ 0 then some (1, demo2, w2)
        else
          match demo_decoder_run k w2 demo2 with
          | none => none
          | some (ret3, demo3, w3) =>
            if ret3 ≠ 0 then some (1, demo3, w3)
            else
              match demo_dump k w3 demo3 dump_path with
              | none => none
              | some (ret4, demo4, w4) =>
                if ret4 ≠ 0 then some (1, demo4, w4)
                else
                  match demo_cleanup k w4 demo4 with
                  | none => none
                  | some (demo5, w5) =>
                    let c := demo_close k w5 demo5
                    some (0, c.1, c.2)

/-! ## Initial state and sample oracles -/

/-- A zeroed `struct demo_buffer`. -/
def buffer_zero : DemoBuffer :=
  { buffer := { type := 0, memory := 0, index := 0, planes_count := 0,
                planes := fun _ => { length := 0, offset := 0, bytesused := 0, fd := 0 } }
    planes_count := 0
    data := fun _ => 0
    dma_buf_fd := fun _ => 0 }

/-- A zeroed `struct v4l2_format`. -/
def format_zero : V4l2Format :=
  { type := 0, width := 0, height := 0, pixelformat := 0, sizeimage := 0 }

/-- The value `struct demo demo = { 0 }` with which `main` starts. -/
def demo_zero : Demo :=
  { source := 0, allocator := 0, dma_heap_fd := 0, width := 0, height := 0
    file := { fd := 0, size := 0 }
    decoder :=
      { video_fd := 0, output_memory := 0, output_type := 0, output_width := 0
        output_height := 0, output_pixel_format := 0, output_format := format_zero
        output_buffers := [buffer_zero, buffer_zero, buffer_zero]
        output_buffers_count := 0, output_buffer_index := 0
        capture_memory := 0, capture_type := 0, capture_width := 0, capture_height := 0
        capture_pixel_format := 0, capture_format := format_zero
        capture_buffers := [buffer_zero, buffer_zero, buffer_zero]
        capture_buffers_count := 0, capture_buffer_index := 0 }
    camera :=
      { video_fd := 0, capture_memory := 0, capture_type := 0, capture_width := 0
        capture_height := 0, capture_pixel_format := 0, capture_format := format_zero
        capture_buffers := [buffer_zero, buffer_zero, buffer_zero]
        capture_buffers_count := 0, capture_buffer_index := 0 } }

/-- A kernel in which every call succeeds: descriptors and addresses are
numbered after the position of the call, every plane is 4096 bytes long, reads
and writes are complete and every dequeue reports buffer 0. -/
def kernel_ok : Kernel := fun pos c =>
  let base : Reply :=
    { ret := 0, errno := 0, out := 0
      planes := fun i => { length := 4096, offset := 4096 * i, bytesused := 0, fd := 0 }
      format := format_zero }
  match c with
  | .dma_heap_alloc _ _ _ => { base with out := 100 + pos }
  | .v4l2_buffer_export _ _ _ _ _ => { base with out := 300 + pos }
  | .dup _ => { base with ret := 200 + pos }
  | .mmap _ _ _ => { base with ret := 4096 * (pos + 1) }
  | .v4l2_poll _ => { base with ret := 1 }
  | .v4l2_pixel_format_check _ _ _ => { base with ret := 1 }
  | .v4l2_format_try _ f => { base with format := f }
  | .v4l2_format_set _ f => { base with format := f }
  | .dma_heap_open => { base with ret := 3 }
  | .open_dump => { base with ret := 50 }
  | .read _ _ size => { base with ret := size }
  | .write _ _ size => { base with ret := size }
  | _ => base

/-- The state in which `demo_open` leaves the zeroed `struct demo` when it
found the decoder on descriptor 4 and the camera on descriptor 5. -/
def demo_opened : Demo :=
  { demo_zero with
    decoder := { demo_zero.decoder with video_fd := 4 }
    camera := { demo_zero.camera with video_fd := 5 } }

/-! ## Iteration and reachability -/

/-- Consecutive calls of `demo_decoder_buffer_cycle` for one buffer type, `n`
of them; the state after the last one. -/
def demo_decoder_buffer_cycle_times (type : Nat) : Nat → Demo → Option Demo
  | 0, demo => some demo
  | n + 1, demo =>
    match demo_decoder_buffer_cycle demo type with
    | none => none
    | some r => demo_decoder_buffer_cycle_times type n r.2

/-- Consecutive calls of `demo_camera_buffer_cycle`, `n` of them. -/
def demo_camera_buffer_cycle_times : Nat → Demo → Option Demo
  | 0, demo => some demo
  | n + 1, demo =>
    match demo_camera_buffer_cycle demo with
    | none => none
    | some r => demo_camera_buffer_cycle_times n r.2

/-- The output cursor of the decoder after `n` calls of cycle for the output
type. -/
def output_cursor_after (n : Nat) (demo : Demo) : Option Nat :=
  (demo_decoder_buffer_cycle_times demo.decoder.output_type n demo).map
    fun d => d.decoder.output_buffer_index

/-- The capture cursor of the decoder after `n` calls of cycle for the capture
type. -/
def capture_cursor_after (n : Nat) (demo : Demo) : Option Nat :=
  (demo_decoder_buffer_cycle_times demo.decoder.capture_type n demo).map
    fun d => d.decoder.capture_buffer_index

/-- The cursor of the camera after `n` calls of cycle. -/
def camera_cursor_after (n : Nat) (demo : Demo) : Option Nat :=
  (demo_camera_buffer_cycle_times n demo).map fun d => d.camera.capture_buffer_index

/-- One operation on the pipeline state among cycle, current,
`demo_decoder_run` and `demo_camera_roll`, under any kernel and from any
trace. -/
inductive Step : Demo → Demo → Prop where
  | decoder_cycle (d d1 : Demo) (type : Nat) (ret : Int) :
      demo_decoder_buffer_cycle d type = some (ret, d1) → Step d d1
  | decoder_current (d : Demo) (type : Nat) (r : Int × Option BufferRef) :
      demo_decoder_buffer_current d type = r → Step d d
  | camera_cycle (d d1 : Demo) (ret : Int) :
      demo_camera_buffer_cycle d = some (ret, d1) → Step d d1
  | camera_current (d : Demo) (r : Int × Option BufferRef) :
      demo_camera_buffer_current d = r → Step d d
  | decoder_run (d d1 : Demo) (k : Kernel) (w w1 : World) (ret : Int) :
      demo_decoder_run k w d = some (ret, d1, w1) → Step d d1
  | camera_roll (d d1 : Demo) (k : Kernel) (w w1 : World) (ret : Int) :
      demo_camera_roll k w d = some (ret, d1, w1) → Step d d1

/-- The cursor of the output queue indexes its pool. -/
def output_cursor_ok (d : Demo) : Prop :=
  d.decoder.output_buffer_index < d.decoder.output_buffers_count

/-- The cursor of the capture queue indexes its pool. -/
def capture_cursor_ok (d : Demo) : Prop :=
  d.decoder.capture_buffer_index < d.decoder.capture_buffers_count

/-- The cursor of the camera queue indexes its pool. -/
def camera_cursor_ok (d : Demo) : Prop :=
  d.camera.capture_buffer_index < d.camera.capture_buffers_count

/-- A state as setup leaves it: the buffer types of `demo_decoder_setup`, three
buffers in every pool, and cursors 1, 2 and 0. -/
def demo_sample : Demo :=
  { demo_opened with
    decoder :=
      { demo_opened.decoder with
        output_type := V4L2_BUF_TYPE_VIDEO_OUTPUT
        capture_type := V4L2_BUF_TYPE_VIDEO_CAPTURE
        output_buffers_count := 3
        capture_buffers_count := 3
        output_buffer_index := 1
        capture_buffer_index := 2 }
    camera :=
      { demo_opened.camera with
        capture_type := V4L2_BUF_TYPE_VIDEO_CAPTURE
        capture_buffers_count := 3
        capture_buffer_index := 0 } }

/-- The six numbers of the lifecycle bookkeeping agree in two states. -/
def same_cursors (d d1 : Demo) : Prop :=
  d1.decoder.output_buffer_index = d.decoder.output_buffer_index ∧
  d1.decoder.output_buffers_count = d.decoder.output_buffers_count ∧
  d1.decoder.capture_buffer_index = d.decoder.capture_buffer_index ∧
  d1.decoder.capture_buffers_count = d.decoder.capture_buffers_count ∧
  d1.camera.capture_buffer_index = d.camera.capture_buffer_index ∧
  d1.camera.capture_buffers_count = d.camera.capture_buffers_count

/-- The value that `dma_buf_sync` returns when its request is the call at
position `pos` of the trace. -/
def dma_buf_sync_result (k : Kernel) (pos : Nat) (fd : Int) (flags : Nat) : Int :=
  if (k pos (.dma_buf_sync fd flags)).ret ≠ 0 then -(k pos (.dma_buf_sync fd flags)).errno
  else 0

/-- The synchronisation calls for the planes `0`, ..., `m - 1` of a buffer. -/
def sync_calls (b : DemoBuffer) (flags : Nat) (m : Nat) : List Call :=
  (List.range m).map fun i => Call.dma_buf_sync (b.dma_buf_fd i) flags

/-- A multi-planar output buffer with two planes of 4096 bytes that carry the
share-handles 7 and 8. -/
def buffer_two : DemoBuffer :=
  { buffer :=
      { type := V4L2_BUF_TYPE_VIDEO_OUTPUT_MPLANE, memory := V4L2_MEMORY_DMABUF, index := 0
        planes_count := 2
        planes := fun i => { length := 4096, offset := 0, bytesused := 0, fd := 7 + i } }
    planes_count := 2
    data := fun i => 4096 * (i + 1)
    dma_buf_fd := fun i => 7 + i }

/-- A kernel like `kernel_ok` in which the second call of a trace, when it is a
synchronisation, fails with `EIO`. -/
def kernel_sync_fail : Kernel := fun pos c =>
  match c with
  | .dma_buf_sync _ _ =>
    if pos = 1 then { kernel_ok pos c with ret := -1, errno := EIO } else kernel_ok pos c
  | _ => kernel_ok pos c

/-- A single-planar capture buffer with one plane of 4096 bytes that carries
the share-handle 9. -/
def buffer_capture : DemoBuffer :=
  { buffer :=
      { type := V4L2_BUF_TYPE_VIDEO_CAPTURE, memory := V4L2_MEMORY_DMABUF, index := 0
        planes_count := 1
        planes := fun _ => { length := 4096, offset := 0, bytesused := 0, fd := 9 } }
    planes_count := 1
    data := fun _ => 4096
    dma_buf_fd := fun _ => 9 }

/-- The mapping calls of the kernel-mapped mode for the planes `0`, ...,
`m - 1` of a buffer: each from the video descriptor, at the offset and with the
length of the plane record. -/
def v4l2_mmap_calls (b : DemoBuffer) (video_fd : Int) (m : Nat) : List Call :=
  (List.range m).map fun i =>
    Call.mmap (v4l2_buffer_plane_length b.buffer i) video_fd (v4l2_buffer_plane_offset b.buffer i)

/-- The result of setting up, under `kernel_ok`, the zeroed buffer as buffer 0
of a single-planar capture queue on descriptor 4 in the kernel-mapped mode. -/
def kernel_mapped_sample : Int × DemoBuffer × World :=
  demo_buffer_setup_v4l2 kernel_ok [Call.v4l2_buffer_query 4 1 1 0 1] demo_opened
    (demo_buffer_setup_base kernel_ok [] buffer_zero 4 1 1 0 1).2.1 4

/-- One round of the loop of `demo_buffer_setup_import`, for plane `i`: the
error of the round, or 0 when the loop goes on to the next plane. -/
def demo_buffer_setup_import_plane (k : Kernel) (demo : Demo) (import_buffer : DemoBuffer)
    (import_video_fd : Int) (i : Nat) (buffer : DemoBuffer) (w : World) :
    Int × DemoBuffer × World :=
  demo_buffer_setup_import_loop k demo import_buffer import_video_fd 1 i buffer w

/-- The call is a `mmap`. -/
def Call.is_mmap : Call → Bool
  | .mmap _ _ _ => true
  | _ => false

/-- The call is a `dup`. -/
def Call.is_dup : Call → Bool
  | .dup _ => true
  | _ => false

/-- The call is an export of a plane with index `i` or above. -/
def Call.is_export_from (i : Nat) : Call → Bool
  | .v4l2_buffer_export _ _ _ plane _ => decide (i ≤ plane)
  | _ => false

/-- The call is an allocation from the heap. -/
def Call.is_heap_alloc : Call → Bool
  | .dma_heap_alloc _ _ _ => true
  | _ => false

/-- The call is a `munmap`. -/
def Call.is_munmap : Call → Bool
  | .munmap _ _ => true
  | _ => false

/-- The call is a `close`. -/
def Call.is_close : Call → Bool
  | .close _ => true
  | _ => false

/-- An importing buffer as `demo_buffer_setup_base` leaves it: two planes that
require 4096 and 8192 bytes, no share-handle, nothing mapped. -/
def buffer_import2 : DemoBuffer :=
  { buffer :=
      { type := V4L2_BUF_TYPE_VIDEO_OUTPUT_MPLANE, memory := V4L2_MEMORY_DMABUF, index := 0
        planes_count := 2
        planes := fun i => { length := 4096 * (i + 1), offset := 0, bytesused := 0, fd := 0 } }
    planes_count := 2
    data := fun _ => 0
    dma_buf_fd := fun _ => -1 }

/-- An importing buffer with two planes that require 4096 bytes each. -/
def buffer_import_fit : DemoBuffer :=
  { buffer_import2 with
    buffer := { buffer_import2.buffer with
      planes := fun _ => { length := 4096, offset := 0, bytesused := 0, fd := 0 } } }

/-- The opened state with the camera as source and the heap allocator on
descriptor 3. -/
def demo_heap : Demo :=
  { demo_opened with
    source := DEMO_SOURCE_CAMERA, allocator := DEMO_ALLOCATOR_DMA_HEAP, dma_heap_fd := 3 }

/-- The opened state with the camera as source and the kernel allocator. -/
def demo_v4l2 : Demo :=
  { demo_opened with source := DEMO_SOURCE_CAMERA, allocator := DEMO_ALLOCATOR_V4L2 }

/-- A kernel like `kernel_ok` in which every `mmap` fails. -/
def kernel_mmap_fail : Kernel := fun pos c =>
  match c with
  | .mmap _ _ _ => { kernel_ok pos c with ret := MAP_FAILED, errno := ENOMEM }
  | _ => kernel_ok pos c

/-- A kernel like `kernel_ok` in which every `mmap` of 8192 bytes or more
fails. -/
def kernel_mmap_fail_big : Kernel := fun pos c =>
  match c with
  | .mmap length _ _ =>
    if length < 8192 then kernel_ok pos c
    else { kernel_ok pos c with ret := MAP_FAILED, errno := ENOMEM }
  | _ => kernel_ok pos c

/-- An exporting buffer with two planes of 8192 bytes that carry the
share-handles 7 and 8. -/
def buffer_export_big : DemoBuffer :=
  { buffer_two with
    buffer := { buffer_two.buffer with
      planes := fun i => { length := 8192, offset := 0, bytesused := 0, fd := 7 + i } } }

/-- The descriptor that the export of plane `i` of the exporter returns, when
the rounds of the import loop take three calls each and the first one starts
at position `p0` of the trace. -/
def import_exported_fd (k : Kernel) (ib : DemoBuffer) (ivfd : Int) (p0 i : Nat) : Int :=
  (k (p0 + 3 * i) (.v4l2_buffer_export ivfd ib.buffer.type ib.buffer.index i O_RDWR)).out

/-- The three calls of a successful round of the import loop under the kernel
allocator, for plane `i` of the importer `b`: export the plane of the exporter,
duplicate the descriptor returned, map from the descriptor returned. -/
def import_plane_calls (k : Kernel) (ib : DemoBuffer) (ivfd : Int) (b : DemoBuffer)
    (p0 i : Nat) : List Call :=
  [Call.v4l2_buffer_export ivfd ib.buffer.type ib.buffer.index i O_RDWR,
   Call.dup (import_exported_fd k ib ivfd p0 i),
   Call.mmap (v4l2_buffer_plane_length b.buffer i) (import_exported_fd k ib ivfd p0 i) 0]

/-- The calls of a successful import under the heap allocator, for the planes
`0`, ..., `n - 1` of the importer `b`: one `mmap` per plane from the share-handle
of the exporter. -/
def import_heap_calls (ib b : DemoBuffer) (n : Nat) : List Call :=
  (List.range n).map fun i =>
    Call.mmap (v4l2_buffer_plane_length b.buffer i) (ib.dma_buf_fd i) 0

/-- The state after `demo_setup` under `kernel_ok` with the camera as source
and the heap allocator, at 1280 by 720; the zeroed state if setup were
undefined. -/
def demo_camera_heap_ready : Demo :=
  ((demo_setup kernel_ok [] demo_opened DEMO_SOURCE_CAMERA DEMO_ALLOCATOR_DMA_HEAP
    1280 720).map fun r => r.2.1).getD demo_zero

/-- Output buffer 0 of the decoder in `demo_camera_heap_ready`: it imports
capture buffer 0 of the camera. -/
def imported_heap_sample : DemoBuffer :=
  (demo_camera_heap_ready.load (.decoder_output 0)).getD buffer_zero

/-- The bracket is not silent on a buffer: under every kernel and after every
trace, `demo_buffer_sync_begin` and `demo_buffer_sync_finish` each issue
`dma_buf_sync` on the share-handles of the planes `0`, ..., `m - 1` with
`m ≥ 1`, and on all planes when they return 0. -/
def sync_reaches_handles (b : DemoBuffer) : Prop :=
  ∀ (k : Kernel) (w : World),
    (∃ m, 0 < m ∧ m ≤ b.planes_count ∧
      (demo_buffer_sync_begin k w b).2 =
        w ++ sync_calls b (demo_buffer_sync_flags b ||| DMA_BUF_SYNC_START) m ∧
      ((demo_buffer_sync_begin k w b).1 = 0 → m = b.planes_count)) ∧
    (∃ m, 0 < m ∧ m ≤ b.planes_count ∧
      (demo_buffer_sync_finish k w b).2 =
        w ++ sync_calls b (demo_buffer_sync_flags b ||| DMA_BUF_SYNC_END) m ∧
      ((demo_buffer_sync_finish k w b).1 = 0 → m = b.planes_count))

/-- The bracket is silent on a buffer: under every kernel and after every
trace, `demo_buffer_sync_begin` and `demo_buffer_sync_finish` return 0 and
issue no call. -/
def sync_is_silent (b : DemoBuffer) : Prop :=
  ∀ (k : Kernel) (w : World),
    demo_buffer_sync_begin k w b = (0, w) ∧ demo_buffer_sync_finish k w b = (0, w)

/-- The result of setting up, under `kernel_ok`, the zeroed buffer as output
buffer 0 of the decoder with import from the camera, in the state
`demo_camera_heap_ready`. -/
def imported_heap_setup : Int × DemoBuffer × World :=
  (demo_buffer_setup kernel_ok [] demo_camera_heap_ready buffer_zero 4 V4L2_MEMORY_DMABUF
    V4L2_BUF_TYPE_VIDEO_OUTPUT 0 1 true).getD (0, buffer_zero, [])

/-! ## Synchronisation events of a trace -/

/-- The handle and the flags of a synchronisation call; `none` for any other
call. -/
def Call.sync_event : Call → Option (Int × Nat)
  | .dma_buf_sync fd flags => some (fd, flags)
  | _ => none

/-- The synchronisation calls of a trace, in order, as pairs of handle and
flags. -/
def sync_events (t : List Call) : List (Int × Nat) := t.filterMap Call.sync_event

/-- The trace `w1` extends the trace `w` by calls whose synchronisation events
are `e`. -/
def emits (w w1 : World) (e : List (Int × Nat)) : Prop :=
  ∃ a, w1 = w ++ a ∧ sync_events a = e

/-- The flags of a synchronisation call carry `DMA_BUF_SYNC_END`; a call
without it is a `DMA_BUF_SYNC_START` call, that flag being zero. -/
def is_end (flags : Nat) : Bool := flags &&& DMA_BUF_SYNC_END != 0

/-- The number of START calls on the handle `fd` among the events. -/
def starts_on (fd : Int) (e : List (Int × Nat)) : Nat :=
  e.countP fun x => decide (x.1 = fd) && !is_end x.2

/-- The number of END calls on the handle `fd` among the events. -/
def ends_on (fd : Int) (e : List (Int × Nat)) : Nat :=
  e.countP fun x => decide (x.1 = fd) && is_end x.2

/-- The number of START calls among the events. -/
def count_start (e : List (Int × Nat)) : Nat := e.countP fun x => !is_end x.2

/-- The number of END calls among the events. -/
def count_end (e : List (Int × Nat)) : Nat := e.countP fun x => is_end x.2

/-- The events occur in matched pairs: at every point of the sequence and for
every handle there are at least as many START calls as END calls before that
point, so that every END is preceded by an unmatched START on the same handle;
at the end the numbers agree for every handle, and in total. -/
def sync_paired (e : List (Int × Nat)) : Prop :=
  (∀ n fd, ends_on fd (e.take n) ≤ starts_on fd (e.take n)) ∧
  (∀ fd, ends_on fd e = starts_on fd e) ∧
  count_start e = count_end e

/-- The events of synchronising the planes `0`, ..., `m - 1` of a buffer with
the flags given. -/
def sync_pairs (b : DemoBuffer) (flags : Nat) (m : Nat) : List (Int × Nat) :=
  (List.range m).map fun i => (b.dma_buf_fd i, flags)

/-- The opened state with an input file of 100 bytes on descriptor 6. -/
def demo_file_opened : Demo :=
  { demo_opened with file := { fd := 6, size := 100 } }

/-- A kernel like `kernel_ok` in which every `read` returns one byte less than
asked for. -/
def kernel_short_read : Kernel := fun pos c =>
  match c with
  | .read _ _ size => { kernel_ok pos c with ret := (size : Int) - 1 }
  | _ => kernel_ok pos c

/-- The exit status of a pipeline run and the numbers of START and of END
synchronisation calls in its trace. -/
def sync_summary (r : Option (Int × Demo × World)) : Option (Int × Nat × Nat) :=
  r.map fun x => (x.1, count_start (sync_events x.2.2), count_end (sync_events x.2.2))

/-- The pipeline run under `kernel_ok` with the file as source and the heap
allocator, from the state `demo_file_opened`. -/
def pipeline_file_sample : Int × Demo × World :=
  (main_pipeline kernel_ok [] demo_file_opened DEMO_SOURCE_FILE DEMO_ALLOCATOR_DMA_HEAP
    1280 720 1000).getD (1, demo_zero, [])

/-- The pipeline run under `kernel_ok` with the camera as source and the heap
allocator, from the state `demo_opened`. -/
def pipeline_camera_sample : Int × Demo × World :=
  (main_pipeline kernel_ok [] demo_opened DEMO_SOURCE_CAMERA DEMO_ALLOCATOR_DMA_HEAP
    1280 720 1000).getD (1, demo_zero, [])

/-! ## Helpers of `media.c` -/

/-- Modelled from the spec: `media_topology_entity_find_by_function` of
`media.c`, which is not among the sources; "find the entity whose declared
function matches the requested role", the first such entity in array order. -/
def media_topology_entity_find_by_function (topology : MediaTopology) (function : Nat) :
    Option MediaEntity :=
  topology.entities.find? fun e => decide (e.function = function)

/-- Modelled from the spec: `media_topology_pad_find_by_entity` of `media.c`,
which is not among the sources; "find that entity's sink-direction pad", the
first pad of the entity that carries a direction flag asked for. -/
def media_topology_pad_find_by_entity (topology : MediaTopology) (entity_id flags : Nat) :
    Option MediaPad :=
  topology.pads.find? fun p => decide (p.entity_id = entity_id) && decide (p.flags &&& flags ≠ 0)

/-- Modelled from the spec: `media_topology_link_find_by_pad` of `media.c`,
which is not among the sources; "find the link terminating at that pad", the
first link whose sink is the pad. The last argument carries the flags of the
pad, a sink pad at the only call. -/
def media_topology_link_find_by_pad (topology : MediaTopology) (pad_id _pad_flags : Nat) :
    Option MediaLink :=
  topology.links.find? fun l => decide (l.sink_id = pad_id)

/-- Modelled from the spec: `media_topology_pad_find_by_id` of `media.c`, which
is not among the sources; the pad with the identifier given ("follow it to the
link's source pad"). -/
def media_topology_pad_find_by_id (topology : MediaTopology) (id : Nat) : Option MediaPad :=
  topology.pads.find? fun p => decide (p.id = id)

/-- Modelled from the spec: `media_topology_link_find_by_entity` of `media.c`,
which is not among the sources; "find the link whose sink is that source pad's
entity", the first such link. The last argument is `MEDIA_PAD_FL_SINK` at the
only call. -/
def media_topology_link_find_by_entity (topology : MediaTopology) (entity_id _pad_flags : Nat) :
    Option MediaLink :=
  topology.links.find? fun l => decide (l.sink_id = entity_id)

/-- Modelled from the spec: `media_topology_interface_find_by_id` of `media.c`,
which is not among the sources; the interface with the identifier given
("resolve the terminating interface"). -/
def media_topology_interface_find_by_id (topology : MediaTopology) (id : Nat) :
    Option MediaInterface :=
  topology.interfaces.find? fun x => decide (x.id = id)

/-! ## Device discovery (`demo.c`)

The calls `media_device_info` and `media_topology_get` of `media.c`,
`v4l2_capabilities_probe` of `v4l2.c`, the functions of `libudev` and the
allocator leave the program and are answered by the oracle. A path is the
pointer to its characters. The device number built by `makedev` is the pair of
its major and minor numbers. -/

/-- The local pointers `interfaces`, `entities`, `pads` and `links` of
`demo_open_media_decoder` and `demo_open_media_camera`. -/
structure MediaArrays where
  interfaces : Int
  entities : Int
  pads : Int
  links : Int
deriving DecidableEq, Repr, Inhabited

/-- The four pointers as initialised, all null. -/
def media_arrays_null : MediaArrays :=
  { interfaces := NULL, entities := NULL, pads := NULL, links := NULL }

/-- The label `complete` of `demo_open_media_decoder` and of
`demo_open_media_camera`: close the media node, then free the arrays that were
allocated, the last one first. -/
def demo_open_media_complete (k : Kernel) (w : World) (media_fd : Int) (a : MediaArrays) :
    World :=
  let w1 := if media_fd ≥ 0 then (sys k w (.close media_fd)).2 else w
  let w2 := if a.links ≠ NULL then (sys k w1 (.free a.links)).2 else w1
  let w3 := if a.pads ≠ NULL then (sys k w2 (.free a.pads)).2 else w2
  let w4 := if a.entities ≠ NULL then (sys k w3 (.free a.entities)).2 else w3
  if a.interfaces ≠ NULL then (sys k w4 (.free a.interfaces)).2 else w4

/-- The statements of `demo_open_media_decoder` from `media_device_info` to the
second `media_topology_get`, which `demo_open_media_camera` repeats word for
word: the size query on the zeroed record, the test of the four counts, the
four allocations and the fill query. The result is the value of `ret`, the
record as the fill query left it when these statements ran to their end, the
pointers of the arrays allocated, and the trace. The byte counts passed to
`calloc` are products in `size_t`. -/
def demo_open_media_topology (k : Kernel) (w : World) (media_fd : Int) :
    Int × Option MediaTopology × MediaArrays × World :=
  let i := sys k w (.media_device_info media_fd)
  if i.1.ret ≠ 0 then (i.1.ret, none, media_arrays_null, i.2)
  else
    let t := sys k i.2 (.media_topology_get media_fd 0 0 0 0 NULL NULL NULL NULL)
    if t.1.ret ≠ 0 then (t.1.ret, none, media_arrays_null, t.2)
    else
      let topology := t.1.topology
      if topology.num_interfaces = 0 ∨ topology.num_entities = 0 ∨
          topology.num_pads = 0 ∨ topology.num_links = 0 then
        (-ENODEV, none, media_arrays_null, t.2)
      else
        let a1 := sys k t.2 (.calloc 1 (topology.num_interfaces * SIZEOF_MEDIA_V2_INTERFACE))
        let interfaces := a1.1.ret
        if interfaces = NULL then (-ENOMEM, none, media_arrays_null, a1.2)
        else
          let a2 := sys k a1.2 (.calloc 1 (topology.num_entities * SIZEOF_MEDIA_V2_ENTITY))
          let entities := a2.1.ret
          if entities = NULL then
            (-ENOMEM, none, { media_arrays_null with interfaces := interfaces }, a2.2)
          else
            let a3 := sys k a2.2 (.calloc 1 (topology.num_pads * SIZEOF_MEDIA_V2_PAD))
            let pads := a3.1.ret
            if pads = NULL then
              (-ENOMEM, none,
                { media_arrays_null with interfaces := interfaces, entities := entities }, a3.2)
            else
              let a4 := sys k a3.2 (.calloc 1 (topology.num_links * SIZEOF_MEDIA_V2_LINK))
              let links := a4.1.ret
              if links = NULL then
                (-ENOMEM, none,
                  { interfaces := interfaces, entities := entities, pads := pads, links := NULL },
                  a4.2)
              else
                let arrays : MediaArrays :=
                  { interfaces := interfaces, entities := entities, pads := pads, links := links }
                let f := sys k a4.2 (.media_topology_get media_fd topology.num_interfaces
                  topology.num_entities topology.num_pads topology.num_links
                  interfaces entities pads links)
                if f.1.ret ≠ 0 then (f.1.ret, none, arrays, f.2)
                else (0, some f.1.topology, arrays, f.2)

/-- The statements of `demo_open_media_decoder` that follow the fill query: the
six lookups, the device record of the interface found and the opening of its
node. The argument `video_fd` is the content of `*video_fd`; the result is the
value of `ret`, the content of `*video_fd` and the trace. The value of `errno`
is read after `udev_device_unref`. -/
def demo_open_media_decoder_resolve (k : Kernel) (w : World) (udev : Int)
    (topology : MediaTopology) (video_fd : Int) : Int × Int × World :=
  match media_topology_entity_find_by_function topology MEDIA_ENT_F_PROC_VIDEO_DECODER with
  | none => (-ENODEV, video_fd, w)
  | some base_entity =>
    match media_topology_pad_find_by_entity topology base_entity.id MEDIA_PAD_FL_SINK with
    | none => (-ENODEV, video_fd, w)
    | some sink_pad =>
      match media_topology_link_find_by_pad topology sink_pad.id sink_pad.flags with
      | none => (-ENODEV, video_fd, w)
      | some sink_link =>
        match media_topology_pad_find_by_id topology sink_link.source_id with
        | none => (-ENODEV, video_fd, w)
        | some source_pad =>
          match media_topology_link_find_by_entity topology source_pad.entity_id
              MEDIA_PAD_FL_SINK with
          | none => (-ENODEV, video_fd, w)
          | some source_link =>
            match media_topology_interface_find_by_id topology source_link.source_id with
            | none => (-ENODEV, video_fd, w)
            | some base_interface =>
              let dev := sys k w (.udev_device_new_from_devnum udev base_interface.major
                base_interface.minor)
              let device := dev.1.ret
              if device = NULL then (-ENODEV, video_fd, dev.2)
              else
                let p := sys k dev.2 (.udev_device_get_devnode device)
                let o := sys k p.2 (.open p.1.ret (O_RDWR ||| O_NONBLOCK))
                let u := sys k o.2 (.udev_device_unref device)
                if o.1.ret < 0 then (-u.1.errno, video_fd, u.2)
                else (0, o.1.ret, u.2)

/-- Function `demo_open_media_decoder` of `demo.c`. The argument `video_fd` is
the content of `*video_fd`; the result is the value returned, the content of
`*video_fd` and the trace. -/
def demo_open_media_decoder (k : Kernel) (w : World) (udev media_path : Int) (video_fd : Int) :
    Int × Int × World :=
  let o := sys k w (.open media_path O_RDWR)
  let media_fd := o.1.ret
  if media_fd < 0 then (-o.1.errno, video_fd, o.2)
  else
    let g := demo_open_media_topology k o.2 media_fd
    match g.2.1 with
    | none => (g.1, video_fd, demo_open_media_complete k g.2.2.2 media_fd g.2.2.1)
    | some topology =>
      let r := demo_open_media_decoder_resolve k g.2.2.2 udev topology video_fd
      (r.1, r.2.1, demo_open_media_complete k r.2.2 media_fd g.2.2.1)

/-- The body of the loop of `demo_open_media_camera` for one interface: the
descriptor of its node when the interface is accepted, and the trace. An
interface is passed over (`continue`) when it is not a video node, when it has
no device record, when its node does not open, when the capability probe fails
or when the capabilities lack `V4L2_CAP_VIDEO_CAPTURE`. -/
def demo_open_media_camera_try (k : Kernel) (w : World) (udev : Int)
    (interface : MediaInterface) : Option Int × World :=
  if interface.intf_type ≠ MEDIA_INTF_T_V4L_VIDEO then (none, w)
  else
    let dev := sys k w (.udev_device_new_from_devnum udev interface.major interface.minor)
    let device := dev.1.ret
    if device = NULL then (none, dev.2)
    else
      let p := sys k dev.2 (.udev_device_get_devnode device)
      let o := sys k p.2 (.open p.1.ret (O_RDWR ||| O_NONBLOCK))
      let u := sys k o.2 (.udev_device_unref device)
      let fd := o.1.ret
      if fd < 0 then (none, u.2)
      else
        let c := sys k u.2 (.v4l2_capabilities_probe fd)
        if c.1.ret ≠ 0 then (none, c.2)
        else
          let capabilities := int_to_u32 c.1.out
          if capabilities &&& V4L2_CAP_VIDEO_CAPTURE = 0 then (none, c.2)
          else (some fd, c.2)

/-- The loop of `demo_open_media_camera` over the interface array: `n`
interfaces remain, starting at index `i`; the first interface accepted ends the
loop with `*video_fd` set and `ret` zero, and `ret` is `-ENODEV` after the
last one. The result is `none` when the index is outside the records
delivered. -/
def demo_open_media_camera_loop (k : Kernel) (udev : Int) (interfaces : List MediaInterface) :
    Nat → Nat → Int → World → Option (Int × Int × World)
  | 0, _, video_fd, w => some (-ENODEV, video_fd, w)
  | n + 1, i, video_fd, w =>
    match interfaces[i]? with
    | none => none
    | some interface =>
      let r := demo_open_media_camera_try k w udev interface
      match r.1 with
      | some fd => some (0, fd, r.2)
      | none => demo_open_media_camera_loop k udev interfaces n (i + 1) video_fd r.2

/-- Function `demo_open_media_camera` of `demo.c`. -/
def demo_open_media_camera (k : Kernel) (w : World) (udev media_path : Int) (video_fd : Int) :
    Option (Int × Int × World) :=
  let o := sys k w (.open media_path O_RDWR)
  let media_fd := o.1.ret
  if media_fd < 0 then some (-o.1.errno, video_fd, o.2)
  else
    let g := demo_open_media_topology k o.2 media_fd
    match g.2.1 with
    | none => some (g.1, video_fd, demo_open_media_complete k g.2.2.2 media_fd g.2.2.1)
    | some topology =>
      match media_topology_entity_find_by_function topology MEDIA_ENT_F_CAM_SENSOR with
      | none =>
        some (-ENODEV, video_fd, demo_open_media_complete k g.2.2.2 media_fd g.2.2.1)
      | some _base_entity =>
        match demo_open_media_camera_loop k udev topology.interfaces topology.num_interfaces 0
            video_fd g.2.2.2 with
        | none => none
        | some r => some (r.1, r.2.1, demo_open_media_complete k r.2.2 media_fd g.2.2.1)

/-- A decoder graph: entity 1 is the decoder with sink pad 2 and source pad 3;
link 30 leads from pad 6 of entity 5 to pad 2; links 32 and 33 attach
interface 20, the video node 81:0, to the entities 5 and 8. -/
def topology_decoder : MediaTopology :=
  { num_interfaces := 1, num_entities := 3, num_pads := 4, num_links := 4
    interfaces := [{ id := 20, intf_type := MEDIA_INTF_T_V4L_VIDEO, major := 81, minor := 0 }]
    entities := [{ id := 1, function := MEDIA_ENT_F_PROC_VIDEO_DECODER },
                 { id := 5, function := 0x10001 }, { id := 8, function := 0x10001 }]
    pads := [{ id := 2, entity_id := 1, flags := MEDIA_PAD_FL_SINK },
             { id := 3, entity_id := 1, flags := MEDIA_PAD_FL_SOURCE },
             { id := 6, entity_id := 5, flags := MEDIA_PAD_FL_SOURCE },
             { id := 9, entity_id := 8, flags := MEDIA_PAD_FL_SINK }]
    links := [{ id := 30, source_id := 6, sink_id := 2, flags := 1 },
              { id := 31, source_id := 3, sink_id := 9, flags := 1 },
              { id := 32, source_id := 20, sink_id := 5, flags := 1 },
              { id := 33, source_id := 20, sink_id := 8, flags := 1 }] }

/-- A camera graph: entity 1 is the sensor; interface 40 is a sub-device node,
interfaces 41 and 42 are the video nodes 81:2 and 81:1. -/
def topology_camera : MediaTopology :=
  { num_interfaces := 3, num_entities := 2, num_pads := 2, num_links := 2
    interfaces := [{ id := 40, intf_type := 0x203, major := 81, minor := 3 },
                   { id := 41, intf_type := MEDIA_INTF_T_V4L_VIDEO, major := 81, minor := 2 },
                   { id := 42, intf_type := MEDIA_INTF_T_V4L_VIDEO, major := 81, minor := 1 }]
    entities := [{ id := 1, function := MEDIA_ENT_F_CAM_SENSOR },
                 { id := 2, function := 0x10001 }]
    pads := [{ id := 3, entity_id := 1, flags := MEDIA_PAD_FL_SOURCE },
             { id := 4, entity_id := 2, flags := MEDIA_PAD_FL_SINK }]
    links := [{ id := 50, source_id := 3, sink_id := 4, flags := 1 },
              { id := 51, source_id := 42, sink_id := 2, flags := 1 }] }

/-- A kernel and device library in which every call succeeds. Two media nodes
are enumerated, the entries 40 and 41, with the paths 540 and 541, which open
as the descriptors 7 and 8; the first carries `topology_camera`, the second
`topology_decoder`. The video node with the minor number `m` has the path
`600 + m` and opens as the descriptor `100 + m`; only the descriptor 101
reports `V4L2_CAP_VIDEO_CAPTURE`. Every other call is answered as by
`kernel_ok`. -/
def kernel_media : Kernel := fun pos c =>
  match c with
  | .udev_new => { kernel_ok pos c with ret := 900 }
  | .udev_enumerate_new _ => { kernel_ok pos c with ret := 901 }
  | .udev_enumerate_get_list_entry _ => { kernel_ok pos c with entries := [40, 41] }
  | .udev_list_entry_get_name entry => { kernel_ok pos c with ret := 700 + entry }
  | .udev_device_new_from_syspath _ path => { kernel_ok pos c with ret := path - 300 }
  | .udev_device_new_from_devnum _ _ minor => { kernel_ok pos c with ret := 500 + minor }
  | .udev_device_get_devnode device => { kernel_ok pos c with ret := device + 100 }
  | .open path _ => { kernel_ok pos c with ret := if path < 600 then path - 533 else path - 500 }
  | .media_topology_get media_fd _ _ _ _ _ _ _ _ =>
    { kernel_ok pos c with topology := if media_fd = 7 then topology_camera else topology_decoder }
  | .calloc _ _ => { kernel_ok pos c with ret := 1000 + pos }
  | .v4l2_capabilities_probe fd =>
    { kernel_ok pos c with out := if fd = 101 then 0x04200001 else 0x04208000 }
  | _ => kernel_ok pos c

/-! ## Traces of a probe -/

/-- The calls by which a probe opens the media node and asks for the sizes of
its graph. -/
def media_size_calls (media_path media_fd : Int) : List Call :=
  [.open media_path O_RDWR, .media_device_info media_fd,
   .media_topology_get media_fd 0 0 0 0 NULL NULL NULL NULL]

/-- The calls by which a probe allocates the four arrays for the counts of
`size` and has them filled. -/
def media_fill_calls (media_fd : Int) (size : MediaTopology) (a : MediaArrays) : List Call :=
  [.calloc 1 (size.num_interfaces * SIZEOF_MEDIA_V2_INTERFACE),
   .calloc 1 (size.num_entities * SIZEOF_MEDIA_V2_ENTITY),
   .calloc 1 (size.num_pads * SIZEOF_MEDIA_V2_PAD),
   .calloc 1 (size.num_links * SIZEOF_MEDIA_V2_LINK),
   .media_topology_get media_fd size.num_interfaces size.num_entities size.num_pads
     size.num_links a.interfaces a.entities a.pads a.links]

/-- The calls by which a probe closes the media node and frees four arrays. -/
def media_release_calls (media_fd : Int) (a : MediaArrays) : List Call :=
  [.close media_fd, .free a.links, .free a.pads, .free a.entities, .free a.interfaces]

/-- From the trace `w` on, the media node opens as the descriptor `media_fd`,
`media_device_info` succeeds and the size query succeeds and leaves the record
`size`. -/
def media_sized (k : Kernel) (w : World) (media_path media_fd : Int) (size : MediaTopology) :
    Prop :=
  (k w.length (.open media_path O_RDWR)).ret = media_fd ∧ 0 ≤ media_fd ∧
  (k (w.length + 1) (.media_device_info media_fd)).ret = 0 ∧
  (k (w.length + 2) (.media_topology_get media_fd 0 0 0 0 NULL NULL NULL NULL)).ret = 0 ∧
  (k (w.length + 2) (.media_topology_get media_fd 0 0 0 0 NULL NULL NULL NULL)).topology = size

/-- The four counts of the record are all non-zero. -/
def MediaTopology.populated (t : MediaTopology) : Prop :=
  t.num_interfaces ≠ 0 ∧ t.num_entities ≠ 0 ∧ t.num_pads ≠ 0 ∧ t.num_links ≠ 0

/-- After the size query of a probe that started at the trace `w`, the four
allocations succeed and return the pointers of `a`, and the fill query succeeds
and leaves the record `topology`. -/
def media_filled (k : Kernel) (w : World) (media_fd : Int) (size : MediaTopology)
    (a : MediaArrays) (topology : MediaTopology) : Prop :=
  (k (w.length + 3) (.calloc 1 (size.num_interfaces * SIZEOF_MEDIA_V2_INTERFACE))).ret
    = a.interfaces ∧ a.interfaces ≠ NULL ∧
  (k (w.length + 4) (.calloc 1 (size.num_entities * SIZEOF_MEDIA_V2_ENTITY))).ret
    = a.entities ∧ a.entities ≠ NULL ∧
  (k (w.length + 5) (.calloc 1 (size.num_pads * SIZEOF_MEDIA_V2_PAD))).ret
    = a.pads ∧ a.pads ≠ NULL ∧
  (k (w.length + 6) (.calloc 1 (size.num_links * SIZEOF_MEDIA_V2_LINK))).ret
    = a.links ∧ a.links ≠ NULL ∧
  (k (w.length + 7) (.media_topology_get media_fd size.num_interfaces size.num_entities
    size.num_pads size.num_links a.interfaces a.entities a.pads a.links)).ret = 0 ∧
  (k (w.length + 7) (.media_topology_get media_fd size.num_interfaces size.num_entities
    size.num_pads size.num_links a.interfaces a.entities a.pads a.links)).topology = topology

/-- The walk that the spec words as "entity→pad→link→pad→link→interface": the
six lookups in turn, each on what the one before it found, and nothing as soon
as one of them finds nothing. -/
def media_decoder_walk (topology : MediaTopology) : Option MediaInterface :=
  (media_topology_entity_find_by_function topology MEDIA_ENT_F_PROC_VIDEO_DECODER).bind
    fun base_entity =>
  (media_topology_pad_find_by_entity topology base_entity.id MEDIA_PAD_FL_SINK).bind
    fun sink_pad =>
  (media_topology_link_find_by_pad topology sink_pad.id sink_pad.flags).bind
    fun sink_link =>
  (media_topology_pad_find_by_id topology sink_link.source_id).bind
    fun source_pad =>
  (media_topology_link_find_by_entity topology source_pad.entity_id MEDIA_PAD_FL_SINK).bind
    fun source_link =>
  media_topology_interface_find_by_id topology source_link.source_id

/-- The calls by which a probe turns a device number into an open node. -/
def media_node_calls (udev : Int) (major minor : Nat) (device path : Int) : List Call :=
  [.udev_device_new_from_devnum udev major minor, .udev_device_get_devnode device,
   .open path (O_RDWR ||| O_NONBLOCK), .udev_device_unref device]

/-- From the trace `w` on, the device record of the number `major:minor` is
found as `device`, its node has the path `path` and opens as the descriptor
`fd`. -/
def media_node_opens (k : Kernel) (w : World) (udev : Int) (major minor : Nat)
    (device path fd : Int) : Prop :=
  (k w.length (.udev_device_new_from_devnum udev major minor)).ret = device ∧ device ≠ NULL ∧
  (k (w.length + 1) (.udev_device_get_devnode device)).ret = path ∧
  (k (w.length + 2) (.open path (O_RDWR ||| O_NONBLOCK))).ret = fd ∧ 0 ≤ fd

/-- The trace after the loop of `demo_open_media_camera` passed over `n`
interfaces, from the index `i` on, starting with the trace `w`. -/
def camera_scan (k : Kernel) (udev : Int) (interfaces : List MediaInterface) :
    Nat → Nat → World → World
  | 0, _, w => w
  | n + 1, i, w =>
    match interfaces[i]? with
    | none => w
    | some interface =>
      camera_scan k udev interfaces n (i + 1) (demo_open_media_camera_try k w udev interface).2

/-- The calls of the loop of `demo_open_media_camera` for one interface that
has a device record. -/
def camera_try_calls (udev : Int) (interface : MediaInterface) (device path fd : Int) :
    List Call :=
  [.udev_device_new_from_devnum udev interface.major interface.minor,
   .udev_device_get_devnode device, .open path (O_RDWR ||| O_NONBLOCK),
   .udev_device_unref device, .v4l2_capabilities_probe fd]

/-- From the trace `w` on, the interface is one the camera loop accepts with
the descriptor `fd`: it is a video node, its device record is found, its node
opens as `fd`, the capability probe succeeds and the capabilities include
`V4L2_CAP_VIDEO_CAPTURE`. -/
def camera_accepts (k : Kernel) (w : World) (udev : Int) (interface : MediaInterface)
    (device path fd : Int) : Prop :=
  interface.intf_type = MEDIA_INTF_T_V4L_VIDEO ∧
  media_node_opens k w udev interface.major interface.minor device path fd ∧
  (k (w.length + 4) (.v4l2_capabilities_probe fd)).ret = 0 ∧
  int_to_u32 (k (w.length + 4) (.v4l2_capabilities_probe fd)).out &&& V4L2_CAP_VIDEO_CAPTURE ≠ 0

/-! ## Resources of a probe -/

/-- The descriptor that the call closes. -/
def Call.closed : Call → Option Int
  | .close fd => some fd
  | _ => none

/-- The pointer that the call frees. -/
def Call.freed : Call → Option Int
  | .free ptr => some ptr
  | _ => none

/-- The call is an allocation. -/
def Call.allocating : Call → Bool
  | .calloc _ _ => true
  | _ => false

/-- The call closes a descriptor, frees an array or allocates one. -/
def Call.is_resource (c : Call) : Bool :=
  c.closed.isSome || c.freed.isSome || c.allocating

/-- The descriptors closed by the calls, in order. -/
def closes (e : List Call) : List Int := e.filterMap Call.closed

/-- The pointers freed by the calls, in order. -/
def frees (e : List Call) : List Int := e.filterMap Call.freed

/-- The pointers returned by the allocations among the calls that succeeded, in
order; the first call stands at the position `pos` of the trace. -/
def allocated (k : Kernel) : Nat → List Call → List Int
  | _, [] => []
  | pos, c :: e =>
    (if c.allocating = true ∧ (k pos c).ret ≠ NULL then [(k pos c).ret] else [])
      ++ allocated k (pos + 1) e

/-- The trace `w1` extends the trace `w` by calls that close, free and
allocate nothing. -/
def plain (w w1 : World) : Prop :=
  ∃ e, w1 = w ++ e ∧ ∀ c, c ∈ e → c.is_resource = false

/-! ## Probes of a search -/

/-- The call issued at the position `pos` of the trace succeeded: a positive
result for the wait, zero for every other call. -/
def call_ok (k : Kernel) (pos : Nat) (c : Call) : Bool :=
  match c with
  | .v4l2_poll _ => decide (0 < (k pos c).ret)
  | _ => decide ((k pos c).ret = 0)

/-- The number of calls of a script that are issued when the first call stands
at the position `pos` and each further call is issued only after the one
before it succeeded. -/
def issued (k : Kernel) : Nat → List Call → Nat
  | _, [] => 0
  | pos, c :: cs => if call_ok k pos c then issued k (pos + 1) cs + 1 else 1

/-- Every call of the script succeeds, the first one standing at the position
`pos`. -/
def all_ok (k : Kernel) : Nat → List Call → Bool
  | _, [] => true
  | pos, c :: cs => call_ok k pos c && all_ok k (pos + 1) cs

/-- The calls of `demo_decoder_run` from the first stream-on on, in the order
of the source text. -/
def stream_calls (demo : Demo) : List Call :=
  [.v4l2_stream_on demo.decoder.video_fd demo.decoder.capture_type,
   .v4l2_stream_on demo.decoder.video_fd demo.decoder.output_type,
   .v4l2_poll demo.decoder.video_fd,
   .v4l2_buffer_dequeue demo.decoder.video_fd demo.decoder.capture_type
     demo.decoder.capture_memory,
   .v4l2_buffer_dequeue demo.decoder.video_fd demo.decoder.output_type
     demo.decoder.output_memory,
   .v4l2_stream_off demo.decoder.video_fd demo.decoder.capture_type,
   .v4l2_stream_off demo.decoder.video_fd demo.decoder.output_type]

/-- The calls of `demo_decoder_run` in the order of the source text, for the
capture buffer and the output buffer that it queues. -/
def decode_calls (demo : Demo) (capture output : DemoBuffer) : List Call :=
  .v4l2_buffer_queue demo.decoder.video_fd capture.buffer.type capture.buffer.index
    capture.buffer.snapshot ::
  .v4l2_buffer_queue demo.decoder.video_fd output.buffer.type output.buffer.index
    output.buffer.snapshot ::
  stream_calls demo

/-! ## Traces whose calls all have a property -/

/-- The trace `w1` extends the trace `w` by calls that all have the property
`p`. -/
def extends_by (p : Call → Bool) (w w1 : World) : Prop :=
  ∃ e, w1 = w ++ e ∧ ∀ c, c ∈ e → p c = true

/-- The call is a dequeue. -/
def Call.is_dequeue : Call → Bool
  | .v4l2_buffer_dequeue _ _ _ => true
  | _ => false

/-- The call is a `write`. -/
def Call.is_write : Call → Bool
  | .write _ _ _ => true
  | _ => false

/-- The call is no `write`, or it is the `write` given. -/
def Call.writes_only (target : Call) (c : Call) : Bool := !c.is_write || decide (c = target)

/-- Two kernels answer alike except for what a dequeue reports: every call gets
the same return value from both, and every call other than a dequeue the same
answer altogether. -/
def same_but_dequeued (k k2 : Kernel) : Prop :=
  ∀ pos c, (k2 pos c).ret = (k pos c).ret ∧ (c.is_dequeue = false → k2 pos c = k pos c)

/-- A kernel like `kernel_ok` in which every dequeue reports buffer 2. -/
def kernel_dequeue_far : Kernel := fun pos c =>
  match c with
  | .v4l2_buffer_dequeue _ _ _ => { kernel_ok pos c with out := 2 }
  | _ => kernel_ok pos c

/-! ## The wait of a streaming cycle -/

/-- The call is a wait on a video descriptor. -/
def Call.is_poll : Call → Bool
  | .v4l2_poll _ => true
  | _ => false

/-- The call is no wait. -/
def Call.no_poll (c : Call) : Bool := !c.is_poll

/-- The expression `ret == 0 ? -ETIMEDOUT : ret` that `demo_decoder_run` and
`demo_camera_roll` return after a wait that gave `ret <= 0`. -/
def poll_error (ret : Int) : Int := if ret = 0 then -ETIMEDOUT else ret

/-- Every wait among the calls `e`, the first of which stands at the position
`pos`, gave a positive result. -/
def polls_ok (k : Kernel) (pos : Nat) (e : List Call) : Prop :=
  ∀ i fd, e[i]? = some (Call.v4l2_poll fd) → 0 < (k (pos + i) (.v4l2_poll fd)).ret

/-- The trace `w1` extends the trace `w` by calls among which every wait gave a
positive result. -/
def polls_pass (k : Kernel) (w w1 : World) : Prop :=
  ∃ e, w1 = w ++ e ∧ polls_ok k w.length e

/-- The trace `w1` extends the trace `w` either by calls among which every
wait gave a positive result, or by such calls followed by one last wait that
gave zero or less, after which `ret` is the value of `poll_error`. -/
def poll_run (k : Kernel) (ret : Int) (w w1 : World) : Prop :=
  polls_pass k w w1 ∨
  ∃ w0 fd, polls_pass k w w0 ∧ w1 = w0 ++ [Call.v4l2_poll fd] ∧
    (k w0.length (.v4l2_poll fd)).ret ≤ 0 ∧
    ret = poll_error (k w0.length (.v4l2_poll fd)).ret

/-- A kernel like `kernel_ok` in which every wait times out. -/
def kernel_poll_timeout : Kernel := fun pos c =>
  match c with
  | .v4l2_poll _ => { kernel_ok pos c with ret := 0 }
  | _ => kernel_ok pos c

/-- A kernel like `kernel_ok` in which every wait fails with -1. -/
def kernel_poll_error : Kernel := fun pos c =>
  match c with
  | .v4l2_poll _ => { kernel_ok pos c with ret := -1, errno := EIO }
  | _ => kernel_ok pos c

/-- The run of `demo_decoder_run` from the state `demo_sample` under a kernel
in which the wait times out. -/
def decode_timeout_sample : Int × Demo × World :=
  (demo_decoder_run kernel_poll_timeout [] demo_sample).getD (0, demo_zero, [])

/-- The run of `demo_camera_roll` from the state `demo_sample` under a kernel
in which the wait fails. -/
def roll_error_sample : Int × Demo × World :=
  (demo_camera_roll kernel_poll_error [] demo_sample).getD (0, demo_zero, [])

/-! ## The script of a camera roll -/

/-- The queue call of `demo_camera_roll` for the element `i` of the camera
pool; for an index outside the array, the call for a zeroed buffer. -/
def camera_queue_call (demo : Demo) (i : Nat) : Call :=
  .v4l2_buffer_queue demo.camera.video_fd
    ((demo.load (.camera_capture i)).getD buffer_zero).buffer.type
    ((demo.load (.camera_capture i)).getD buffer_zero).buffer.index
    ((demo.load (.camera_capture i)).getD buffer_zero).buffer.snapshot

/-- The wait and the dequeue of one iteration of the capture loop of
`demo_camera_roll`. -/
def camera_wait_calls (demo : Demo) : List Call :=
  [.v4l2_poll demo.camera.video_fd,
   .v4l2_buffer_dequeue demo.camera.video_fd demo.camera.capture_type
     demo.camera.capture_memory]

/-- The buffer index that the dequeue of the iteration `j` of the capture loop
reports, as the `unsigned int` the loop keeps, when the first wait of the loop
stands at the position `p0` of the trace: the first iteration takes two calls,
every later one three. -/
def roll_dequeued (k : Kernel) (demo : Demo) (p0 j : Nat) : Nat :=
  int_to_u32 (k (p0 + 3 * j + 1) (.v4l2_buffer_dequeue demo.camera.video_fd
    demo.camera.capture_type demo.camera.capture_memory)).out

/-- The calls of a successful `demo_camera_roll` on a pool of `n` buffers with
the cursor at `c`, started at the position `pos` of the trace, up to the
stream-off: the queue calls of the buffers `c`, `c + 1`, ... modulo `n`, the
stream-on, the wait and the dequeue of the first iteration, then for each of
the `n` further iterations the queue call of the buffer that the iteration
before dequeued, the wait and the dequeue, and last the stream-off. -/
def roll_calls (k : Kernel) (demo : Demo) (pos n c : Nat) : List Call :=
  (List.range n).map (fun i => camera_queue_call demo ((c + i) % n)) ++
  [Call.v4l2_stream_on demo.camera.video_fd demo.camera.capture_type] ++
  camera_wait_calls demo ++
  (List.range n).flatMap (fun j =>
    camera_queue_call demo (roll_dequeued k demo (pos + n + 1) j) :: camera_wait_calls demo) ++
  [Call.v4l2_stream_off demo.camera.video_fd demo.camera.capture_type]

/-- The call queues a buffer. -/
def Call.is_queue : Call → Bool
  | .v4l2_buffer_queue _ _ _ _ => true
  | _ => false

/-- The call starts a stream. -/
def Call.is_stream_on : Call → Bool
  | .v4l2_stream_on _ _ => true
  | _ => false

/-- The call stops a stream. -/
def Call.is_stream_off : Call → Bool
  | .v4l2_stream_off _ _ => true
  | _ => false

/-- The call is a synchronisation of a share-handle. -/
def Call.is_sync : Call → Bool
  | .dma_buf_sync _ _ => true
  | _ => false

/-- A kernel like `kernel_ok` in which a dequeue at the position `pos` of the
trace reports the buffer `pos % 2`. -/
def kernel_dequeue_turn : Kernel := fun pos c =>
  match c with
  | .v4l2_buffer_dequeue _ _ _ => { kernel_ok pos c with out := (pos % 2 : Nat) }
  | _ => kernel_ok pos c

/-- The run of `demo_camera_roll` from the state `demo_camera_heap_ready` under
`kernel_dequeue_turn`. -/
def roll_turn_sample : Int × Demo × World :=
  (demo_camera_roll kernel_dequeue_turn [] demo_camera_heap_ready).getD (1, demo_zero, [])

/-- A kernel like `kernel_ok` in which every dequeue reports the buffer 7. -/
def kernel_dequeue_wild : Kernel := fun pos c =>
  match c with
  | .v4l2_buffer_dequeue _ _ _ => { kernel_ok pos c with out := 7 }
  | _ => kernel_ok pos c

/-! ## The single-file demo (`cedrus-jpeg-decode-demo.c`)

The single-file program decodes one file with the decoder alone. Its record
`struct cedrus_demo_buffer` has the fields of `struct demo_buffer` and is
embedded as `DemoBuffer`. The part of `main` before `cedrus_demo_setup` (the
opening of the input file and the device discovery of `cedrus_demo_open`) is
not embedded: the state it leaves, the descriptor of the input file and its
size are parameters. -/

/-- Enumeration `enum cedrus_demo_allocator`. -/
abbrev CEDRUS_DEMO_ALLOCATOR_V4L2 : Int := 0
abbrev CEDRUS_DEMO_ALLOCATOR_DMA_HEAP : Int := 1

/-- The record `struct cedrus_demo`. -/
structure Cedrus where
  media_fd : Int
  video_fd : Int
  dma_heap_fd : Int
  allocator : Int
  memory : Nat
  output_type : Nat
  output_width : Nat
  output_height : Nat
  output_pixel_format : Nat
  output_format : V4l2Format
  output_buffers : List DemoBuffer
  output_buffers_count : Nat
  output_buffer_index : Nat
  capture_type : Nat
  capture_width : Nat
  capture_height : Nat
  capture_pixel_format : Nat
  capture_format : V4l2Format
  capture_buffers : List DemoBuffer
  capture_buffers_count : Nat
  capture_buffer_index : Nat
deriving Inhabited

/-- A pointer into one of the two pool arrays of `struct cedrus_demo`, each
declared with three elements. -/
inductive CedrusRef where
  | output (index : Nat)
  | capture (index : Nat)
deriving DecidableEq, Repr

/-- Reading through a pool pointer; `none` for an index outside the array. -/
def Cedrus.load (demo : Cedrus) : CedrusRef → Option DemoBuffer
  | .output i => if i < 3 then demo.output_buffers[i]? else none
  | .capture i => if i < 3 then demo.capture_buffers[i]? else none

/-- Writing through a pool pointer. -/
def Cedrus.store (demo : Cedrus) (ref : CedrusRef) (b : DemoBuffer) : Cedrus :=
  match ref with
  | .output i => { demo with output_buffers := demo.output_buffers.set i b }
  | .capture i => { demo with capture_buffers := demo.capture_buffers.set i b }

/-- The loop of `cedrus_demo_buffer_setup` under the heap allocator. -/
def cedrus_demo_buffer_setup_dma_heap_loop (k : Kernel) (dma_heap_fd : Int) :
    Nat → Nat → DemoBuffer → World → Int × DemoBuffer × World
  | 0, _, buffer, w => (0, buffer, w)
  | n + 1, i, buffer, w =>
    let length := v4l2_buffer_plane_length buffer.buffer i
    let a := dma_heap_alloc k w dma_heap_fd length O_RDWR
    let fd := a.1
    if fd < 0 then (-ENOMEM, buffer, a.2)
    else
      let buffer1 := { buffer with dma_buf_fd := Function.update buffer.dma_buf_fd i fd }
      let buffer2 := { buffer1 with buffer := v4l2_buffer_setup_fd buffer1.buffer i fd }
      let m := sys k a.2 (.mmap length fd 0)
      if m.1.ret = MAP_FAILED then (-ENOMEM, buffer2, m.2)
      else
        cedrus_demo_buffer_setup_dma_heap_loop k dma_heap_fd n (i + 1)
          { buffer2 with data := Function.update buffer2.data i m.1.ret } m.2

/-- Function `cedrus_demo_buffer_setup`. The loop under the kernel allocator
has the text of the loop of `demo_buffer_setup_v4l2`. -/
def cedrus_demo_buffer_setup (k : Kernel) (w : World) (demo : Cedrus) (buffer : DemoBuffer)
    (type index planes_count : Nat) : Int × DemoBuffer × World :=
  if (if v4l2_type_mplane_check type then decide (planes_count > 4)
      else decide (planes_count > 1)) then (-EINVAL, buffer, w)
  else
    let buffer1 : DemoBuffer := { buffer with planes_count := planes_count }
    let r := sys k w (.v4l2_buffer_query demo.video_fd type demo.memory index planes_count)
    let buffer2 : DemoBuffer :=
      { buffer1 with
        buffer := { type := type, memory := demo.memory, index := index,
                    planes_count := planes_count, planes := r.1.planes } }
    if r.1.ret ≠ 0 then (r.1.ret, buffer2, r.2)
    else if demo.allocator = CEDRUS_DEMO_ALLOCATOR_DMA_HEAP then
      cedrus_demo_buffer_setup_dma_heap_loop k demo.dma_heap_fd planes_count 0 buffer2 r.2
    else if demo.allocator = CEDRUS_DEMO_ALLOCATOR_V4L2 then
      demo_buffer_setup_v4l2_loop k demo.video_fd planes_count 0 buffer2 r.2
    else (0, buffer2, r.2)

/-- The first loop of `cedrus_demo_buffer_cleanup`: unmap every plane. -/
def cedrus_demo_buffer_cleanup_unmap (k : Kernel) :
    Nat → Nat → DemoBuffer → World → DemoBuffer × World
  | 0, _, buffer, w => (buffer, w)
  | n + 1, i, buffer, w =>
    let length := v4l2_buffer_plane_length buffer.buffer i
    let u := sys k w (.munmap (buffer.data i) length)
    cedrus_demo_buffer_cleanup_unmap k n (i + 1)
      { buffer with data := Function.update buffer.data i NULL } u.2

/-- The second loop of `cedrus_demo_buffer_cleanup`: close the share-handle of
every plane. -/
def cedrus_demo_buffer_cleanup_close (k : Kernel) :
    Nat → Nat → DemoBuffer → World → DemoBuffer × World
  | 0, _, buffer, w => (buffer, w)
  | n + 1, i, buffer, w =>
    let c := sys k w (.close (buffer.dma_buf_fd i))
    cedrus_demo_buffer_cleanup_close k n (i + 1)
      { buffer with dma_buf_fd := Function.update buffer.dma_buf_fd i (-1) } c.2

/-- Function `cedrus_demo_buffer_cleanup`. -/
def cedrus_demo_buffer_cleanup (k : Kernel) (w : World) (demo : Cedrus) (buffer : DemoBuffer) :
    DemoBuffer × World :=
  let u := cedrus_demo_buffer_cleanup_unmap k buffer.planes_count 0 buffer w
  if demo.allocator = CEDRUS_DEMO_ALLOCATOR_DMA_HEAP then
    cedrus_demo_buffer_cleanup_close k u.1.planes_count 0 u.1 u.2
  else u

/-- Function `cedrus_demo_buffer_current`: the return value and the pointer
stored in `*buffer`. -/
def cedrus_demo_buffer_current (demo : Cedrus) (type : Nat) : Int × Option CedrusRef :=
  if type = demo.output_type then (0, some (.output demo.output_buffer_index))
  else if type = demo.capture_type then (0, some (.capture demo.capture_buffer_index))
  else (-EINVAL, none)

/-- Function `cedrus_demo_buffer_cycle`; `none` where the remainder is taken by
zero. No function of the program calls it. -/
def cedrus_demo_buffer_cycle (demo : Cedrus) (type : Nat) : Option (Int × Cedrus) :=
  if type = demo.output_type then
    if demo.output_buffers_count = 0 then none
    else some (0, { demo with
      output_buffer_index := u32 (demo.output_buffer_index + 1) % demo.output_buffers_count })
  else if type = demo.capture_type then
    if demo.capture_buffers_count = 0 then none
    else some (0, { demo with
      capture_buffer_index := u32 (demo.capture_buffer_index + 1) % demo.capture_buffers_count })
  else some (-EINVAL, demo)

/-- Function `cedrus_demo_buffer_access`: the return value, the state, and the
values of `*data` and `*size` afterwards, `data` and `size` being their values
before. -/
def cedrus_demo_buffer_access (demo : Cedrus) (type plane_index : Nat) (data : Int)
    (size : Nat) : Option (Int × Cedrus × Int × Nat) :=
  let c := cedrus_demo_buffer_current demo type
  if c.1 ≠ 0 then some (c.1, demo, data, size)
  else
    match c.2, c.2.bind demo.load with
    | some ref, some buffer =>
      if plane_index ≥ buffer.planes_count then some (-EINVAL, demo, data, size)
      else
        let data1 := buffer.data plane_index
        if type = demo.output_type then
          let length := v4l2_buffer_plane_length buffer.buffer plane_index
          if length < size then some (-EINVAL, demo, data1, size)
          else
            let used := v4l2_buffer_setup_plane_length_used buffer.buffer plane_index size
            some (0, demo.store ref { buffer with buffer := used }, data1, size)
        else if type = demo.capture_type then
          some (0, demo, data1, v4l2_buffer_plane_length_used buffer.buffer plane_index)
        else some (0, demo, data1, size)
    | _, _ => none

/-- Function `cedrus_demo_buffer_sync`. Its loop has the text of the loop of
`demo_buffer_sync`. -/
def cedrus_demo_buffer_sync (k : Kernel) (w : World) (demo : Cedrus) (type : Nat) (flags : Nat) :
    Option (Int × World) :=
  if demo.allocator ≠ CEDRUS_DEMO_ALLOCATOR_DMA_HEAP then some (0, w)
  else if type ≠ demo.output_type ∧ type ≠ demo.capture_type then some (-EINVAL, w)
  else
    let flags1 :=
      if type = demo.output_type then flags ||| DMA_BUF_SYNC_WRITE
      else flags ||| DMA_BUF_SYNC_READ
    let c := cedrus_demo_buffer_current demo type
    if c.1 ≠ 0 then some (c.1, w)
    else
      match c.2.bind demo.load with
      | none => none
      | some buffer => some (demo_buffer_sync_loop k buffer flags1 buffer.planes_count 0 w)

/-- Function `cedrus_demo_buffer_sync_begin`. -/
def cedrus_demo_buffer_sync_begin (k : Kernel) (w : World) (demo : Cedrus) (type : Nat) :
    Option (Int × World) :=
  cedrus_demo_buffer_sync k w demo type DMA_BUF_SYNC_START

/-- Function `cedrus_demo_buffer_sync_finish`. -/
def cedrus_demo_buffer_sync_finish (k : Kernel) (w : World) (demo : Cedrus) (type : Nat) :
    Option (Int × World) :=
  cedrus_demo_buffer_sync k w demo type DMA_BUF_SYNC_END

/-- The buffer loops of `cedrus_demo_setup`: `cedrus_demo_buffer_setup` on the
pool elements `i`, `i + 1`, ... in turn, `n` of them, stopping at the first
error. -/
def cedrus_demo_setup_buffers (k : Kernel) (pool : Nat → CedrusRef) (type planes_count : Nat) :
    Nat → Nat → Cedrus → World → Option (Int × Cedrus × World)
  | 0, _, demo, w => some (0, demo, w)
  | n + 1, i, demo, w =>
    match demo.load (pool i) with
    | none => none
    | some buffer =>
      let r := cedrus_demo_buffer_setup k w demo buffer type i planes_count
      let demo1 := demo.store (pool i) r.2.1
      if r.1 ≠ 0 then some (r.1, demo1, r.2.2)
      else cedrus_demo_setup_buffers k pool type planes_count n (i + 1) demo1 r.2.2

/-- The part of `cedrus_demo_setup` from the request of the output pool on. -/
def cedrus_demo_setup_pools (k : Kernel) (w : World) (demo : Cedrus) :
    Option (Int × Cedrus × World) :=
  let planes_count := 1
  let count := 3
  let q := sys k w (.v4l2_buffers_request demo.video_fd demo.output_type demo.memory count)
  if q.1.ret ≠ 0 then some (q.1.ret, demo, q.2)
  else
    match cedrus_demo_setup_buffers k .output demo.output_type planes_count count 0 demo q.2 with
    | none => none
    | some (ret, demo1, w1) =>
      if ret ≠ 0 then some (ret, demo1, w1)
      else
        let demo2 := { demo1 with output_buffers_count := count }
        let q2 := sys k w1 (.v4l2_buffers_request demo2.video_fd demo2.capture_type
          demo2.memory count)
        if q2.1.ret ≠ 0 then some (q2.1.ret, demo2, q2.2)
        else
          match cedrus_demo_setup_buffers k .capture demo2.capture_type planes_count count 0
              demo2 q2.2 with
          | none => none
          | some (ret3, demo3, w3) =>
            if ret3 ≠ 0 then some (ret3, demo3, w3)
            else some (0, { demo3 with capture_buffers_count := count }, w3)

/-- The part of `cedrus_demo_setup` from the pixel format checks on, in the
state in which the memory mode, the allocator, the buffer types, the sizes and
the pixel formats are already assigned. -/
def cedrus_demo_setup_formats (k : Kernel) (w : World) (demo : Cedrus) :
    Option (Int × Cedrus × World) :=
  let c1 := sys k w (.v4l2_pixel_format_check demo.video_fd demo.output_type
    demo.output_pixel_format)
  if c1.1.ret = 0 then some (-EINVAL, demo, c1.2)
  else
    let c2 := sys k c1.2 (.v4l2_pixel_format_check demo.video_fd demo.capture_type
      demo.capture_pixel_format)
    if c2.1.ret = 0 then some (-EINVAL, demo, c2.2)
    else
      let size := u32 (demo.output_width * demo.output_height)
      let format : V4l2Format :=
        { type := demo.output_type, width := demo.output_width, height := demo.output_height,
          pixelformat := demo.output_pixel_format, sizeimage := size }
      let t := sys k c2.2 (.v4l2_format_try demo.video_fd format)
      let demo2 := { demo with output_format := t.1.format }
      if t.1.ret ≠ 0 then some (t.1.ret, demo2, t.2)
      else
        let f := sys k t.2 (.v4l2_format_set demo.video_fd t.1.format)
        let demo3 := { demo with output_format := f.1.format }
        if f.1.ret ≠ 0 then some (f.1.ret, demo3, f.2)
        else
          let cformat : V4l2Format :=
            { type := demo.capture_type, width := demo.capture_width,
              height := demo.capture_height, pixelformat := demo.capture_pixel_format,
              sizeimage := 0 }
          let t2 := sys k f.2 (.v4l2_format_try demo.video_fd cformat)
          let demo4 := { demo3 with capture_format := t2.1.format }
          if t2.1.ret ≠ 0 then some (t2.1.ret, demo4, t2.2)
          else
            let f2 := sys k t2.2 (.v4l2_format_set demo.video_fd t2.1.format)
            let demo5 := { demo3 with capture_format := f2.1.format }
            if f2.1.ret ≠ 0 then some (f2.1.ret, demo5, f2.2)
            else cedrus_demo_setup_pools k f2.2 demo5

/-- Function `cedrus_demo_setup`. -/
def cedrus_demo_setup (k : Kernel) (w : World) (demo : Cedrus) (allocator : Int) :
    Option (Int × Cedrus × World) :=
  let mode : Option (Int × Cedrus × World) :=
    if allocator = CEDRUS_DEMO_ALLOCATOR_V4L2 then
      some (0, { demo with memory := V4L2_MEMORY_MMAP }, w)
    else if allocator = CEDRUS_DEMO_ALLOCATOR_DMA_HEAP then
      let h := dma_heap_open k w
      let demo1 := { demo with memory := V4L2_MEMORY_DMABUF }
      if h.1 < 0 then some (h.1, demo1, h.2)
      else some (0, { demo1 with dma_heap_fd := h.1 }, h.2)
    else some (-EINVAL, demo, w)
  match mode with
  | none => none
  | some (ret, demo1, w1) =>
    if ret ≠ 0 then some (ret, demo1, w1)
    else
      let demo2 : Cedrus :=
        { demo1 with
          allocator := allocator
          output_type := V4L2_BUF_TYPE_VIDEO_OUTPUT
          capture_type := V4L2_BUF_TYPE_VIDEO_CAPTURE
          output_width := 1280
          output_height := 720
          output_pixel_format := V4L2_PIX_FMT_JPEG
          capture_width := 1280
          capture_height := 720
          capture_pixel_format := V4L2_PIX_FMT_NV16 }
      cedrus_demo_setup_formats k w1 demo2

/-- The buffer loops of `cedrus_demo_cleanup`. -/
def cedrus_demo_cleanup_buffers (k : Kernel) (pool : Nat → CedrusRef) :
    Nat → Nat → Cedrus → World → Option (Cedrus × World)
  | 0, _, demo, w => some (demo, w)
  | n + 1, i, demo, w =>
    match demo.load (pool i) with
    | none => none
    | some buffer =>
      let r := cedrus_demo_buffer_cleanup k w demo buffer
      cedrus_demo_cleanup_buffers k pool n (i + 1) (demo.store (pool i) r.1) r.2

/-- Function `cedrus_demo_cleanup`. -/
def cedrus_demo_cleanup (k : Kernel) (w : World) (demo : Cedrus) : Option (Cedrus × World) :=
  match cedrus_demo_cleanup_buffers k .output demo.output_buffers_count 0 demo w with
  | none => none
  | some (demo1, w1) =>
    let x := sys k w1 (.v4l2_buffers_destroy demo1.video_fd demo1.output_type demo1.memory)
    match cedrus_demo_cleanup_buffers k .capture demo1.capture_buffers_count 0 demo1 x.2 with
    | none => none
    | some (demo2, w2) =>
      let y := sys k w2 (.v4l2_buffers_destroy demo2.video_fd demo2.capture_type demo2.memory)
      if demo2.allocator = CEDRUS_DEMO_ALLOCATOR_DMA_HEAP then
        some (demo2, (sys k y.2 (.close demo2.dma_heap_fd)).2)
      else some (demo2, y.2)

/-- Function `cedrus_demo_close`. -/
def cedrus_demo_close (k : Kernel) (w : World) (demo : Cedrus) : Cedrus × World :=
  let d : Cedrus × World :=
    if demo.media_fd ≥ 0 then
      ({ demo with media_fd := -1 }, (sys k w (.close demo.media_fd)).2)
    else (demo, w)
  if d.1.video_fd ≥ 0 then
    ({ d.1 with video_fd := -1 }, (sys k d.2 (.close d.1.video_fd)).2)
  else d

/-- The part of `cedrus_demo_run` after the output buffer was queued. -/
def cedrus_demo_run_stream (k : Kernel) (w : World) (demo : Cedrus) : Int × World :=
  let s1 := sys k w (.v4l2_stream_on demo.video_fd demo.capture_type)
  if s1.1.ret ≠ 0 then (s1.1.ret, s1.2)
  else
    let s2 := sys k s1.2 (.v4l2_stream_on demo.video_fd demo.output_type)
    if s2.1.ret ≠ 0 then (s2.1.ret, s2.2)
    else
      let p := sys k s2.2 (.v4l2_poll demo.video_fd)
      if p.1.ret ≤ 0 then (p.1.ret, p.2)
      else
        let d1 := sys k p.2 (.v4l2_buffer_dequeue demo.video_fd demo.capture_type demo.memory)
        if d1.1.ret ≠ 0 then (d1.1.ret, d1.2)
        else
          let d2 := sys k d1.2 (.v4l2_buffer_dequeue demo.video_fd demo.output_type demo.memory)
          if d2.1.ret ≠ 0 then (d2.1.ret, d2.2)
          else
            let o1 := sys k d2.2 (.v4l2_stream_off demo.video_fd demo.capture_type)
            if o1.1.ret ≠ 0 then (o1.1.ret, o1.2)
            else
              let o2 := sys k o1.2 (.v4l2_stream_off demo.video_fd demo.output_type)
              if o2.1.ret ≠ 0 then (o2.1.ret, o2.2)
              else (0, o2.2)

/-- Function `cedrus_demo_run`; it does not write to the state. -/
def cedrus_demo_run (k : Kernel) (w : World) (demo : Cedrus) : Option (Int × World) :=
  let c := cedrus_demo_buffer_current demo demo.capture_type
  if c.1 ≠ 0 then some (c.1, w)
  else
    match c.2.bind demo.load with
    | none => none
    | some buffer =>
      let q := sys k w (.v4l2_buffer_queue demo.video_fd buffer.buffer.type
        buffer.buffer.index buffer.buffer.snapshot)
      if q.1.ret ≠ 0 then some (q.1.ret, q.2)
      else
        let c2 := cedrus_demo_buffer_current demo demo.output_type
        if c2.1 ≠ 0 then some (c2.1, q.2)
        else
          match c2.2.bind demo.load with
          | none => none
          | some buffer2 =>
            let q2 := sys k q.2 (.v4l2_buffer_queue demo.video_fd buffer2.buffer.type
              buffer2.buffer.index buffer2.buffer.snapshot)
            if q2.1.ret ≠ 0 then some (q2.1.ret, q2.2)
            else some (cedrus_demo_run_stream k q2.2 demo)

/-- The part of `main` from the opening of the output file on: the output
write, the cleanup and the closing of the files. The output path is a constant
and the file is opened with the flags of the dump file of `demo_dump`, so the
call is `open_dump`. -/
def cedrus_main_output (k : Kernel) (w : World) (demo : Cedrus) (input_fd : Int) :
    Option (Int × Cedrus × World) :=
  let o := sys k w .open_dump
  let output_fd := o.1.ret
  if output_fd < 0 then some (1, demo, o.2)
  else
    match cedrus_demo_buffer_access demo demo.capture_type 0 0 0 with
    | none => none
    | some (ret, demo1, output_data, output_size) =>
      if ret ≠ 0 then some (1, demo1, o.2)
      else
        match cedrus_demo_buffer_sync_begin k o.2 demo1 demo1.capture_type with
        | none => none
        | some b =>
          if b.1 ≠ 0 then some (1, demo1, b.2)
          else
            let x := sys k b.2 (.write output_fd output_data output_size)
            if int_to_u32 x.1.ret < output_size then some (1, demo1, x.2)
            else
              match cedrus_demo_buffer_sync_finish k x.2 demo1 demo1.capture_type with
              | none => none
              | some f =>
                if f.1 ≠ 0 then some (1, demo1, f.2)
                else
                  match cedrus_demo_cleanup k f.2 demo1 with
                  | none => none
                  | some (demo2, w2) =>
                    let c := cedrus_demo_close k w2 demo2
                    let c1 := sys k c.2 (.close input_fd)
                    let c2 := sys k c1.2 (.close output_fd)
                    some (0, c.1, c2.2)

/-- The part of `main` from the input read on, in the state that
`cedrus_demo_setup` left. The locals `input_data` and `output_data` are not
initialised; they are written by `cedrus_demo_buffer_access` before they are
read and start as the null pointer here. -/
def cedrus_main_read (k : Kernel) (w : World) (demo : Cedrus) (input_fd : Int)
    (input_size : Nat) : Option (Int × Cedrus × World) :=
  match cedrus_demo_buffer_access demo demo.output_type 0 0 input_size with
  | none => none
  | some (ret, demo1, input_data, input_size1) =>
    if ret ≠ 0 then some (1, demo1, w)
    else
      match cedrus_demo_buffer_sync_begin k w demo1 demo1.output_type with
      | none => none
      | some b =>
        if b.1 ≠ 0 then some (1, demo1, b.2)
        else
          let r := sys k b.2 (.read input_fd input_data input_size1)
          if int_to_u32 r.1.ret < input_size1 then some (1, demo1, r.2)
          else
            match cedrus_demo_buffer_sync_finish k r.2 demo1 demo1.output_type with
            | none => none
            | some f =>
              if f.1 ≠ 0 then some (1, demo1, f.2)
              else
                match cedrus_demo_run k f.2 demo1 with
                | none => none
                | some d =>
                  if d.1 ≠ 0 then some (1, demo1, d.2)
                  else cedrus_main_output k d.2 demo1 input_fd

/-- The part of `main` that follows `cedrus_demo_open`: setup with the heap
allocator, input read, decode, output write, cleanup. The result is the exit
status. -/
def cedrus_main (k : Kernel) (w : World) (demo : Cedrus) (input_fd : Int) (input_size : Nat) :
    Option (Int × Cedrus × World) :=
  match cedrus_demo_setup k w demo CEDRUS_DEMO_ALLOCATOR_DMA_HEAP with
  | none => none
  | some (ret, demo1, w1) =>
    if ret ≠ 0 then some (1, demo1, w1)
    else cedrus_main_read k w1 demo1 input_fd input_size

/-- The value `struct cedrus_demo demo = { 0 }` after `cedrus_demo_open` found
the media device on descriptor 8 and the decoder on descriptor 4. -/
def cedrus_opened : Cedrus :=
  { media_fd := 8, video_fd := 4, dma_heap_fd := 0, allocator := 0, memory := 0
    output_type := 0, output_width := 0, output_height := 0, output_pixel_format := 0
    output_format := format_zero
    output_buffers := [buffer_zero, buffer_zero, buffer_zero]
    output_buffers_count := 0, output_buffer_index := 0
    capture_type := 0, capture_width := 0, capture_height := 0, capture_pixel_format := 0
    capture_format := format_zero
    capture_buffers := [buffer_zero, buffer_zero, buffer_zero]
    capture_buffers_count := 0, capture_buffer_index := 0 }

/-! ## The calls of a buffer cleanup -/

/-- The calls of `demo_buffer_cleanup` for the plane `i` of a buffer: the
`munmap` of its mapping in the length of the plane record, then the `close` of
its share-handle when there is one. -/
def cleanup_plane_calls (b : DemoBuffer) (i : Nat) : List Call :=
  Call.munmap (b.data i) (v4l2_buffer_plane_length b.buffer i) ::
    (if 0 ≤ b.dma_buf_fd i then [Call.close (b.dma_buf_fd i)] else [])

/-- A buffer with three planes of which the first and the last carry the
share-handles 7 and 9 and the second carries none. -/
def buffer_three : DemoBuffer :=
  { buffer :=
      { type := V4L2_BUF_TYPE_VIDEO_OUTPUT_MPLANE, memory := V4L2_MEMORY_DMABUF, index := 0
        planes_count := 3
        planes := fun i => { length := 4096 * (i + 1), offset := 0, bytesused := 0, fd := 7 + i } }
    planes_count := 3
    data := fun i => 4096 * (i + 1)
    dma_buf_fd := fun i => if i = 1 then -1 else 7 + i }

/-! ## Sample states and oracles for the input, the decode and the dump -/

/-- Error numbers `EBADF` and `EACCES` of `errno.h`. -/
abbrev EBADF : Int := 9
abbrev EACCES : Int := 13

/-- The state after `cedrus_demo_setup` with the heap allocator under
`kernel_ok`, from the state `cedrus_opened`. -/
def cedrus_ready : Cedrus :=
  ((cedrus_demo_setup kernel_ok [] cedrus_opened CEDRUS_DEMO_ALLOCATOR_DMA_HEAP).map
    fun r => r.2.1).getD cedrus_opened

/-- The state after `demo_setup` under `kernel_ok` with the file as source and
the heap allocator, at 1280 by 720, for the input file of 100 bytes of
`demo_file_opened`. -/
def demo_file_ready : Demo :=
  ((demo_setup kernel_ok [] demo_file_opened DEMO_SOURCE_FILE DEMO_ALLOCATOR_DMA_HEAP
    1280 720).map fun r => r.2.1).getD demo_zero

/-- The opened state with an empty input file on descriptor 6. -/
def demo_file_empty : Demo :=
  { demo_opened with file := { fd := 6, size := 0 } }

/-- The state after `demo_setup` under `kernel_ok` with the file as source and
the heap allocator, for the empty input file of `demo_file_empty`. -/
def demo_file_empty_ready : Demo :=
  ((demo_setup kernel_ok [] demo_file_empty DEMO_SOURCE_FILE DEMO_ALLOCATOR_DMA_HEAP
    1280 720).map fun r => r.2.1).getD demo_zero

/-- A kernel like `kernel_ok` in which every `read` fails: it returns -1. -/
def kernel_read_error : Kernel := fun pos c =>
  match c with
  | .read _ _ _ => { kernel_ok pos c with ret := -1, errno := EIO }
  | _ => kernel_ok pos c

/-- A kernel like `kernel_ok` in which every buffer query reports 2048 bytes in
use in every plane. -/
def kernel_used : Kernel := fun pos c =>
  match c with
  | .v4l2_buffer_query _ _ _ _ _ =>
    { kernel_ok pos c with
      planes := fun i => { length := 4096, offset := 4096 * i, bytesused := 2048, fd := 0 } }
  | _ => kernel_ok pos c

/-- A kernel like `kernel_used` in which every `write` fails: it returns -1. -/
def kernel_write_error : Kernel := fun pos c =>
  match c with
  | .write _ _ _ => { kernel_used pos c with ret := -1, errno := EIO }
  | _ => kernel_used pos c

/-- A kernel like `kernel_used` in which the dump file cannot be opened: `open`
returns -1 with `EACCES`, and a `write` to a negative descriptor returns -1
with `EBADF`. -/
def kernel_dump_fail : Kernel := fun pos c =>
  match c with
  | .open_dump => { kernel_used pos c with ret := -1, errno := EACCES }
  | .write fd _ _ =>
    if fd < 0 then { kernel_used pos c with ret := -1, errno := EBADF } else kernel_used pos c
  | _ => kernel_used pos c

/-- A kernel like `kernel_ok` in which the query of the buffer `index` of the
camera, on descriptor 5, reports `1000 * (index + 1)` bytes in use. -/
def kernel_camera_used : Kernel := fun pos c =>
  match c with
  | .v4l2_buffer_query fd _ _ index _ =>
    { kernel_ok pos c with
      planes := fun i =>
        { length := 4096, offset := 4096 * i,
          bytesused := if fd = 5 then 1000 * (index + 1) else 0, fd := 0 } }
  | _ => kernel_ok pos c

/-- The state after `demo_setup` under `kernel_camera_used` with the camera as
source and the heap allocator, with the output cursor of the decoder moved to 1
and its capture cursor to 2. -/
def demo_chain_ready : Demo :=
  let d := ((demo_setup kernel_camera_used [] demo_opened DEMO_SOURCE_CAMERA
    DEMO_ALLOCATOR_DMA_HEAP 1280 720).map fun r => r.2.1).getD demo_zero
  { d with decoder := { d.decoder with output_buffer_index := 1, capture_buffer_index := 2 } }

/-- The bytes in use in plane 0 of the buffer behind a pool pointer. -/
def used_length (demo : Demo) (ref : BufferRef) : Option Nat :=
  (demo.load ref).map fun b => v4l2_buffer_plane_length_used b.buffer 0

/-- The share-handle attached to plane 0 of the descriptor of the buffer behind
a pool pointer. -/
def attached_handle (demo : Demo) (ref : BufferRef) : Option Int :=
  (demo.load ref).map fun b => (b.buffer.planes 0).fd

/-- The share-handle of plane 0 that the buffer behind a pool pointer owns. -/
def owned_handle (demo : Demo) (ref : BufferRef) : Option Int :=
  (demo.load ref).map fun b => b.dma_buf_fd 0

/-- The exit status of a run, whether its trace holds the opening of the dump
or output file, and the `write` calls of its trace. -/
def output_summary {α : Type} (r : Option (Int × α × World)) :
    Option (Int × Bool × List Call) :=
  r.map fun x => (x.1, x.2.2.contains Call.open_dump, x.2.2.filter Call.is_write)

/-! ## The size estimate of the compressed format -/

/-- The opened state with the input file of `demo_file_opened`, in which
`demo_setup` has stored the file as source, the heap allocator with the heap
on descriptor 3, and the size 1280 by 720. -/
def demo_file_sized : Demo :=
  { demo_file_opened with
    source := DEMO_SOURCE_FILE, allocator := DEMO_ALLOCATOR_DMA_HEAP, dma_heap_fd := 3
    width := 1280, height := 720 }

/-- The output format that `demo_decoder_setup` hands to `v4l2_format_try`, for
the size estimate given. -/
def decoder_output_format (demo : Demo) (size : Nat) : V4l2Format :=
  { type := V4L2_BUF_TYPE_VIDEO_OUTPUT, width := demo.width, height := demo.height,
    pixelformat := V4L2_PIX_FMT_JPEG, sizeimage := size }

/-- The output format that `cedrus_demo_setup` hands to `v4l2_format_try`, for
the size estimate given. -/
def cedrus_output_format (size : Nat) : V4l2Format :=
  { type := V4L2_BUF_TYPE_VIDEO_OUTPUT, width := 1280, height := 720,
    pixelformat := V4L2_PIX_FMT_JPEG, sizeimage := size }

/-- The state after `demo_setup` under `kernel_ok` with the camera as source
and the kernel allocator, at 1280 by 720; the zeroed state if setup were
undefined. -/
def demo_camera_v4l2_ready : Demo :=
  ((demo_setup kernel_ok [] demo_opened DEMO_SOURCE_CAMERA DEMO_ALLOCATOR_V4L2
    1280 720).map fun r => r.2.1).getD demo_zero

/-- The result of setting up, under `kernel_ok`, the zeroed buffer as output
buffer 0 of the decoder with import from the camera, in the state
`demo_camera_v4l2_ready`. -/
def imported_export_setup : Int × DemoBuffer × World :=
  (demo_buffer_setup kernel_ok [] demo_camera_v4l2_ready buffer_zero 4 V4L2_MEMORY_DMABUF
    V4L2_BUF_TYPE_VIDEO_OUTPUT 0 1 true).getD (1, buffer_zero, [])

theorem u32_of_lt {n : Nat} (h : n < 2 ^ 32) : u32 n = n := Nat.mod_eq_of_lt h

/-- Two residues `(c + i) % N` and `(c + j) % N` differ when `i < j < i + N`. -/
theorem add_mod_ne_of_lt {N c i j : Nat} (hij : i < j) (hj : j < i + N) :
    (c + i) % N ≠ (c + j) % N := by
  intro h
  have h1 : (c + i) ≡ (c + j) [MOD N] := h
  have h2 : N ∣ (c + j) - (c + i) := (Nat.modEq_iff_dvd' (by omega)).mp h1
  have h3 : (c + j) - (c + i) = j - i := by omega
  rw [h3] at h2
  have := Nat.le_of_dvd (by omega) h2
  omega

/-- One call of cycle for the output type, on a pool that is not empty. -/
theorem decoder_cycle_output_step (demo : Demo)
    (hN : demo.decoder.output_buffers_count ≠ 0) :
    ∃ d, demo_decoder_buffer_cycle demo demo.decoder.output_type = some (0, d) ∧
      d.decoder.output_buffer_index =
        u32 (demo.decoder.output_buffer_index + 1) % demo.decoder.output_buffers_count ∧
      d.decoder.output_buffers_count = demo.decoder.output_buffers_count ∧
      d.decoder.output_type = demo.decoder.output_type := by
  simp [demo_decoder_buffer_cycle, hN]

/-- One call of cycle for the capture type, on a pool that is not empty. -/
theorem decoder_cycle_capture_step (demo : Demo)
    (hne : demo.decoder.capture_type ≠ demo.decoder.output_type)
    (hN : demo.decoder.capture_buffers_count ≠ 0) :
    ∃ d, demo_decoder_buffer_cycle demo demo.decoder.capture_type = some (0, d) ∧
      d.decoder.capture_buffer_index =
        u32 (demo.decoder.capture_buffer_index + 1) % demo.decoder.capture_buffers_count ∧
      d.decoder.capture_buffers_count = demo.decoder.capture_buffers_count ∧
      d.decoder.capture_type = demo.decoder.capture_type ∧
      d.decoder.output_type = demo.decoder.output_type := by
  simp [demo_decoder_buffer_cycle, hN, hne]

/-- One call of cycle for the camera, on a pool that is not empty. -/
theorem camera_cycle_step (demo : Demo) (hN : demo.camera.capture_buffers_count ≠ 0) :
    ∃ d, demo_camera_buffer_cycle demo = some (0, d) ∧
      d.camera.capture_buffer_index =
        u32 (demo.camera.capture_buffer_index + 1) % demo.camera.capture_buffers_count ∧
      d.camera.capture_buffers_count = demo.camera.capture_buffers_count := by
  simp [demo_camera_buffer_cycle, hN]

/-- The successor of a cursor below a pool size that fits an `unsigned int`. -/
theorem u32_succ_mod {N c : Nat} (h32 : N < 2 ^ 32) (hc : c < N) :
    u32 (c + 1) % N = (c + 1) % N := by
  rw [u32_of_lt (by omega)]

/-- The output cursor after `n` calls of cycle is `(c + n) % N`. -/
theorem output_cursor_after_eq (n : Nat) : ∀ (demo : Demo),
    demo.decoder.output_buffers_count < 2 ^ 32 →
    demo.decoder.output_buffer_index < demo.decoder.output_buffers_count →
    output_cursor_after n demo =
      some ((demo.decoder.output_buffer_index + n) % demo.decoder.output_buffers_count) := by
  induction n with
  | zero =>
    intro demo _ hc
    simp [output_cursor_after, demo_decoder_buffer_cycle_times, Nat.mod_eq_of_lt hc]
  | succ n ih =>
    intro demo h32 hc
    obtain ⟨d, hd, hi, hcnt, hty⟩ := decoder_cycle_output_step demo (by omega)
    have hlt : d.decoder.output_buffer_index < d.decoder.output_buffers_count := by
      rw [hi, hcnt]; exact Nat.mod_lt _ (by omega)
    have := ih d (by rw [hcnt]; exact h32) hlt
    simp only [output_cursor_after, demo_decoder_buffer_cycle_times, hd] at this ⊢
    rw [hty] at this
    rw [this, hi, hcnt, u32_succ_mod h32 hc]
    congr 1
    rw [Nat.add_mod, Nat.mod_mod, ← Nat.add_mod]
    congr 1
    omega

/-- The capture cursor after `n` calls of cycle is `(c + n) % N`. -/
theorem capture_cursor_after_eq (n : Nat) : ∀ (demo : Demo),
    demo.decoder.capture_type ≠ demo.decoder.output_type →
    demo.decoder.capture_buffers_count < 2 ^ 32 →
    demo.decoder.capture_buffer_index < demo.decoder.capture_buffers_count →
    capture_cursor_after n demo =
      some ((demo.decoder.capture_buffer_index + n) % demo.decoder.capture_buffers_count) := by
  induction n with
  | zero =>
    intro demo _ _ hc
    simp [capture_cursor_after, demo_decoder_buffer_cycle_times, Nat.mod_eq_of_lt hc]
  | succ n ih =>
    intro demo hne h32 hc
    obtain ⟨d, hd, hi, hcnt, hty, hoty⟩ := decoder_cycle_capture_step demo hne (by omega)
    have hlt : d.decoder.capture_buffer_index < d.decoder.capture_buffers_count := by
      rw [hi, hcnt]; exact Nat.mod_lt _ (by omega)
    have := ih d (by rw [hty, hoty]; exact hne) (by rw [hcnt]; exact h32) hlt
    simp only [capture_cursor_after, demo_decoder_buffer_cycle_times, hd] at this ⊢
    rw [hty] at this
    rw [this, hi, hcnt, u32_succ_mod h32 hc]
    congr 1
    rw [Nat.add_mod, Nat.mod_mod, ← Nat.add_mod]
    congr 1
    omega

/-- The camera cursor after `n` calls of cycle is `(c + n) % N`. -/
theorem camera_cursor_after_eq (n : Nat) : ∀ (demo : Demo),
    demo.camera.capture_buffers_count < 2 ^ 32 →
    demo.camera.capture_buffer_index < demo.camera.capture_buffers_count →
    camera_cursor_after n demo =
      some ((demo.camera.capture_buffer_index + n) % demo.camera.capture_buffers_count) := by
  induction n with
  | zero =>
    intro demo _ hc
    simp [camera_cursor_after, demo_camera_buffer_cycle_times, Nat.mod_eq_of_lt hc]
  | succ n ih =>
    intro demo h32 hc
    obtain ⟨d, hd, hi, hcnt⟩ := camera_cycle_step demo (by omega)
    have hlt : d.camera.capture_buffer_index < d.camera.capture_buffers_count := by
      rw [hi, hcnt]; exact Nat.mod_lt _ (by omega)
    have := ih d (by rw [hcnt]; exact h32) hlt
    simp only [camera_cursor_after, demo_camera_buffer_cycle_times, hd] at this ⊢
    rw [this, hi, hcnt, u32_succ_mod h32 hc]
    congr 1
    rw [Nat.add_mod, Nat.mod_mod, ← Nat.add_mod]
    congr 1
    omega

/-- A cursor that advances by `(c + n) % N` returns to `c` after `N` steps,
stays below `N`, and takes different values at two steps less than `N` apart. -/
theorem cursor_walk {N c : Nat} (hc : c < N) (f : Nat → Option Nat)
    (hf : ∀ n, f n = some ((c + n) % N)) :
    f N = some c ∧ (∀ i, ∃ v, f i = some v ∧ v < N) ∧
    (∀ i j, i < j → j < i + N → f i ≠ f j) := by
  refine ⟨?_, ?_, ?_⟩
  · rw [hf, Nat.add_mod_right, Nat.mod_eq_of_lt hc]
  · intro i
    exact ⟨_, hf i, Nat.mod_lt _ (by omega)⟩
  · intro i j hij hj h
    rw [hf, hf] at h
    exact add_mod_ne_of_lt hij hj (Option.some.inj h)

/-- Claim C1. For a pool of size `N` with `1 ≤ N` (an `unsigned int`) and a
cursor `c < N`, `N` calls of `demo_decoder_buffer_cycle` for the output type,
for the capture type (the two types being different), and `N` calls of
`demo_camera_buffer_cycle`, bring the cursor of that queue back to `c`; the
cursor after any number of calls is below `N`, and the cursors after `i` and
after `j` calls differ whenever `i < j < i + N`, so the `N` values visited in
one round are pairwise distinct. -/
theorem cycle_round_trip (demo : Demo) :
    (1 ≤ demo.decoder.output_buffers_count →
      demo.decoder.output_buffers_count < 2 ^ 32 →
      demo.decoder.output_buffer_index < demo.decoder.output_buffers_count →
      output_cursor_after demo.decoder.output_buffers_count demo =
          some demo.decoder.output_buffer_index ∧
        (∀ i, ∃ v, output_cursor_after i demo = some v ∧
          v < demo.decoder.output_buffers_count) ∧
        (∀ i j, i < j → j < i + demo.decoder.output_buffers_count →
          output_cursor_after i demo ≠ output_cursor_after j demo)) ∧
    (1 ≤ demo.decoder.capture_buffers_count →
      demo.decoder.capture_buffers_count < 2 ^ 32 →
      demo.decoder.capture_buffer_index < demo.decoder.capture_buffers_count →
      demo.decoder.capture_type ≠ demo.decoder.output_type →
      capture_cursor_after demo.decoder.capture_buffers_count demo =
          some demo.decoder.capture_buffer_index ∧
        (∀ i, ∃ v, capture_cursor_after i demo = some v ∧
          v < demo.decoder.capture_buffers_count) ∧
        (∀ i j, i < j → j < i + demo.decoder.capture_buffers_count →
          capture_cursor_after i demo ≠ capture_cursor_after j demo)) ∧
    (1 ≤ demo.camera.capture_buffers_count →
      demo.camera.capture_buffers_count < 2 ^ 32 →
      demo.camera.capture_buffer_index < demo.camera.capture_buffers_count →
      camera_cursor_after demo.camera.capture_buffers_count demo =
          some demo.camera.capture_buffer_index ∧
        (∀ i, ∃ v, camera_cursor_after i demo = some v ∧
          v < demo.camera.capture_buffers_count) ∧
        (∀ i j, i < j → j < i + demo.camera.capture_buffers_count →
          camera_cursor_after i demo ≠ camera_cursor_after j demo)) := by
  refine ⟨?_, ?_, ?_⟩
  · intro _ h32 hc
    exact cursor_walk hc _ (fun n => output_cursor_after_eq n demo h32 hc)
  · intro _ h32 hc hne
    exact cursor_walk hc _ (fun n => capture_cursor_after_eq n demo hne h32 hc)
  · intro _ h32 hc
    exact cursor_walk hc _ (fun n => camera_cursor_after_eq n demo h32 hc)

theorem cycle_round_trip_witness :
    output_cursor_after 3 demo_sample = some 1 ∧
    capture_cursor_after 3 demo_sample = some 2 ∧
    camera_cursor_after 3 demo_sample = some 0 ∧
    output_cursor_after 1 demo_sample ≠ output_cursor_after 2 demo_sample :=
  ⟨((cycle_round_trip demo_sample).1 (by decide) (by decide) (by decide)).1,
   ((cycle_round_trip demo_sample).2.1 (by decide) (by decide) (by decide) (by decide)).1,
   ((cycle_round_trip demo_sample).2.2 (by decide) (by decide) (by decide)).1,
   ((cycle_round_trip demo_sample).1 (by decide) (by decide) (by decide)).2.2 1 2
     (by decide) (by decide)⟩

theorem same_cursors_refl (d : Demo) : same_cursors d d := by
  simp [same_cursors]

theorem same_cursors_store (d : Demo) (ref : BufferRef) (b : DemoBuffer) :
    same_cursors d (d.store ref b) := by
  cases ref <;> simp [same_cursors, Demo.store]

theorem demo_decoder_run_stream_state (k : Kernel) (w : World) (d : Demo) :
    (demo_decoder_run_stream k w d).2.1 = d := by
  unfold demo_decoder_run_stream
  simp only
  repeat' split
  all_goals rfl

theorem demo_decoder_run_cursors (k : Kernel) (w w1 : World) (d d1 : Demo) (ret : Int)
    (h : demo_decoder_run k w d = some (ret, d1, w1)) : same_cursors d d1 := by
  unfold demo_decoder_run at h
  simp only at h
  repeat' split at h
  all_goals first
    | (simp at h; done)
    | (simp only [Option.some.injEq, Prod.mk.injEq] at h
       obtain ⟨_, rfl, _⟩ := h
       first | exact same_cursors_refl _ | exact same_cursors_store _ _ _)
    | (have h2 := congrArg (fun x => x.2.1) (Option.some.inj h)
       simp only [demo_decoder_run_stream_state] at h2
       subst h2
       exact same_cursors_store _ _ _)

theorem camera_cycle_cursors (d d1 : Demo) (ret : Int)
    (h : demo_camera_buffer_cycle d = some (ret, d1)) :
    d1.decoder = d.decoder ∧
    d1.camera.capture_buffers_count = d.camera.capture_buffers_count ∧
    d1.camera.capture_buffer_index < d1.camera.capture_buffers_count := by
  unfold demo_camera_buffer_cycle at h
  split at h
  · simp at h
  · rename_i hz
    simp only [Option.some.injEq, Prod.mk.injEq] at h
    obtain ⟨_, rfl⟩ := h
    exact ⟨rfl, rfl, Nat.mod_lt _ (Nat.pos_of_ne_zero hz)⟩

/-- The first loop of `demo_camera_roll` leaves the decoder and the pool size
of the camera alone and keeps the camera cursor inside the pool. -/
theorem demo_camera_roll_queue_cursors (k : Kernel) (n : Nat) :
    ∀ (d d1 : Demo) (w w1 : World) (ret : Int),
      demo_camera_roll_queue k n d w = some (ret, d1, w1) →
      d1.decoder = d.decoder ∧
      d1.camera.capture_buffers_count = d.camera.capture_buffers_count ∧
      (camera_cursor_ok d → camera_cursor_ok d1) := by
  induction n with
  | zero =>
    intro d d1 w w1 ret h
    simp only [demo_camera_roll_queue, Option.some.injEq, Prod.mk.injEq] at h
    obtain ⟨_, rfl, _⟩ := h
    exact ⟨rfl, rfl, id⟩
  | succ n ih =>
    intro d d1 w w1 ret h
    unfold demo_camera_roll_queue at h
    simp only at h
    split at h
    · simp only [Option.some.injEq, Prod.mk.injEq] at h
      obtain ⟨_, rfl, _⟩ := h
      exact ⟨rfl, rfl, id⟩
    · split at h
      · simp at h
      · split at h
        · simp only [Option.some.injEq, Prod.mk.injEq] at h
          obtain ⟨_, rfl, _⟩ := h
          exact ⟨rfl, rfl, id⟩
        · cases hy : demo_camera_buffer_cycle d with
          | none => simp [hy] at h
          | some y =>
            simp only [hy] at h
            have hc := camera_cycle_cursors d y.2 y.1 hy
            split at h
            · simp only [Option.some.injEq, Prod.mk.injEq] at h
              obtain ⟨_, rfl, _⟩ := h
              exact ⟨hc.1, hc.2.1, fun _ => hc.2.2⟩
            · have := ih _ _ _ _ _ h
              exact ⟨this.1.trans hc.1, this.2.1.trans hc.2.1, fun _ => this.2.2 hc.2.2⟩

/-- The state after `demo_camera_roll` is the state after its first loop. -/
theorem demo_camera_roll_cursors (k : Kernel) (d d1 : Demo) (w w1 : World) (ret : Int)
    (h : demo_camera_roll k w d = some (ret, d1, w1)) :
    d1.decoder = d.decoder ∧
    d1.camera.capture_buffers_count = d.camera.capture_buffers_count ∧
    (camera_cursor_ok d → camera_cursor_ok d1) := by
  unfold demo_camera_roll at h
  cases hq : demo_camera_roll_queue k d.camera.capture_buffers_count d w with
  | none => simp [hq] at h
  | some r =>
    obtain ⟨r0, dq, wq⟩ := r
    have hc := demo_camera_roll_queue_cursors k _ _ _ _ _ _ hq
    simp only [hq] at h
    repeat' split at h
    all_goals first
      | (simp at h; done)
      | (simp only [Option.some.injEq, Prod.mk.injEq] at h
         obtain ⟨_, rfl, _⟩ := h
         exact hc)

theorem decoder_cycle_cursors (d d1 : Demo) (type : Nat) (ret : Int)
    (h : demo_decoder_buffer_cycle d type = some (ret, d1)) :
    (output_cursor_ok d → output_cursor_ok d1) ∧
    (capture_cursor_ok d → capture_cursor_ok d1) ∧
    (camera_cursor_ok d → camera_cursor_ok d1) := by
  unfold demo_decoder_buffer_cycle at h
  repeat' split at h
  all_goals first
    | (simp at h; done)
    | (rename_i hz
       simp only [Option.some.injEq, Prod.mk.injEq] at h
       obtain ⟨_, rfl⟩ := h
       refine ⟨fun h => ?_, fun h => ?_, fun h => ?_⟩
       all_goals first
         | exact h
         | exact Nat.mod_lt _ (Nat.pos_of_ne_zero hz))

/-- Every operation of `Step` keeps each cursor inside its pool. -/
theorem step_cursors (d d1 : Demo) (h : Step d d1) :
    (output_cursor_ok d → output_cursor_ok d1) ∧
    (capture_cursor_ok d → capture_cursor_ok d1) ∧
    (camera_cursor_ok d → camera_cursor_ok d1) := by
  match h with
  | .decoder_cycle _ _ type ret h => exact decoder_cycle_cursors d d1 type ret h
  | .decoder_current _ type r h => exact ⟨id, id, id⟩
  | .camera_cycle _ _ ret h =>
    have hc := camera_cycle_cursors d d1 ret h
    refine ⟨fun h => ?_, fun h => ?_, fun _ => hc.2.2⟩
    · unfold output_cursor_ok at h ⊢; rw [hc.1]; exact h
    · unfold capture_cursor_ok at h ⊢; rw [hc.1]; exact h
  | .camera_current _ r h => exact ⟨id, id, id⟩
  | .decoder_run _ _ k w w1 ret h =>
    obtain ⟨h1, h2, h3, h4, h5, h6⟩ := demo_decoder_run_cursors k w w1 d d1 ret h
    refine ⟨fun h => ?_, fun h => ?_, fun h => ?_⟩
    · unfold output_cursor_ok at h ⊢; omega
    · unfold capture_cursor_ok at h ⊢; omega
    · unfold camera_cursor_ok at h ⊢; omega
  | .camera_roll _ _ k w w1 ret h =>
    have hc := demo_camera_roll_cursors k d d1 w w1 ret h
    refine ⟨fun h => ?_, fun h => ?_, hc.2.2⟩
    · unfold output_cursor_ok at h ⊢; rw [hc.1]; exact h
    · unfold capture_cursor_ok at h ⊢; rw [hc.1]; exact h

/-- Claim C2. One call of cycle on a queue with pool size `N` (an `unsigned
int`) and cursor `c < N` returns 0 and sets the cursor to `(c + 1) % N`, which
is below `N`: for the output type, for the capture type (when the two types
differ) and for the camera. Hence each of the three properties `cursor < pool
size` is kept by every sequence of cycle, current, `demo_decoder_run` and
`demo_camera_roll`, under any kernel. With a pool size of 0, as in the zeroed
state before setup, the remainder is undefined. -/
theorem cursor_invariant :
    (∀ demo : Demo, demo.decoder.output_buffers_count < 2 ^ 32 →
      demo.decoder.output_buffer_index < demo.decoder.output_buffers_count →
      ∃ d, demo_decoder_buffer_cycle demo demo.decoder.output_type = some (0, d) ∧
        d.decoder.output_buffer_index =
          (demo.decoder.output_buffer_index + 1) % demo.decoder.output_buffers_count ∧
        d.decoder.output_buffers_count = demo.decoder.output_buffers_count ∧
        d.decoder.output_buffer_index < d.decoder.output_buffers_count) ∧
    (∀ demo : Demo, demo.decoder.capture_type ≠ demo.decoder.output_type →
      demo.decoder.capture_buffers_count < 2 ^ 32 →
      demo.decoder.capture_buffer_index < demo.decoder.capture_buffers_count →
      ∃ d, demo_decoder_buffer_cycle demo demo.decoder.capture_type = some (0, d) ∧
        d.decoder.capture_buffer_index =
          (demo.decoder.capture_buffer_index + 1) % demo.decoder.capture_buffers_count ∧
        d.decoder.capture_buffers_count = demo.decoder.capture_buffers_count ∧
        d.decoder.capture_buffer_index < d.decoder.capture_buffers_count) ∧
    (∀ demo : Demo, demo.camera.capture_buffers_count < 2 ^ 32 →
      demo.camera.capture_buffer_index < demo.camera.capture_buffers_count →
      ∃ d, demo_camera_buffer_cycle demo = some (0, d) ∧
        d.camera.capture_buffer_index =
          (demo.camera.capture_buffer_index + 1) % demo.camera.capture_buffers_count ∧
        d.camera.capture_buffers_count = demo.camera.capture_buffers_count ∧
        d.camera.capture_buffer_index < d.camera.capture_buffers_count) ∧
    (∀ d d1 : Demo, Relation.ReflTransGen Step d d1 →
      (output_cursor_ok d → output_cursor_ok d1) ∧
      (capture_cursor_ok d → capture_cursor_ok d1) ∧
      (camera_cursor_ok d → camera_cursor_ok d1)) ∧
    (∀ demo : Demo, demo.decoder.output_buffers_count = 0 →
      demo_decoder_buffer_cycle demo demo.decoder.output_type = none) ∧
    (∀ demo : Demo, demo.decoder.capture_type ≠ demo.decoder.output_type →
      demo.decoder.capture_buffers_count = 0 →
      demo_decoder_buffer_cycle demo demo.decoder.capture_type = none) ∧
    (∀ demo : Demo, demo.camera.capture_buffers_count = 0 →
      demo_camera_buffer_cycle demo = none) ∧
    demo_zero.decoder.output_buffers_count = 0 ∧
    demo_zero.decoder.capture_buffers_count = 0 ∧
    demo_zero.camera.capture_buffers_count = 0 := by
  refine ⟨?_, ?_, ?_, ?_, ?_, ?_, ?_, rfl, rfl, rfl⟩
  · intro demo h32 hc
    obtain ⟨d, hd, hi, hcnt, _⟩ := decoder_cycle_output_step demo (by omega)
    rw [u32_succ_mod h32 hc] at hi
    exact ⟨d, hd, hi, hcnt, by rw [hi, hcnt]; exact Nat.mod_lt _ (by omega)⟩
  · intro demo hne h32 hc
    obtain ⟨d, hd, hi, hcnt, _⟩ := decoder_cycle_capture_step demo hne (by omega)
    rw [u32_succ_mod h32 hc] at hi
    exact ⟨d, hd, hi, hcnt, by rw [hi, hcnt]; exact Nat.mod_lt _ (by omega)⟩
  · intro demo h32 hc
    obtain ⟨d, hd, hi, hcnt⟩ := camera_cycle_step demo (by omega)
    rw [u32_succ_mod h32 hc] at hi
    exact ⟨d, hd, hi, hcnt, by rw [hi, hcnt]; exact Nat.mod_lt _ (by omega)⟩
  · intro d d1 h
    induction h with
    | refl => exact ⟨id, id, id⟩
    | tail _ hstep ih =>
      have hs := step_cursors _ _ hstep
      exact ⟨fun h => hs.1 (ih.1 h), fun h => hs.2.1 (ih.2.1 h), fun h => hs.2.2 (ih.2.2 h)⟩
  · intro demo h0
    simp [demo_decoder_buffer_cycle, h0]
  · intro demo hne h0
    simp [demo_decoder_buffer_cycle, h0, hne]
  · intro demo h0
    simp [demo_camera_buffer_cycle, h0]

theorem cursor_invariant_witness :
    (∃ d, demo_decoder_buffer_cycle demo_sample demo_sample.decoder.output_type = some (0, d) ∧
      d.decoder.output_buffer_index =
        (demo_sample.decoder.output_buffer_index + 1) %
          demo_sample.decoder.output_buffers_count ∧
      d.decoder.output_buffers_count = demo_sample.decoder.output_buffers_count ∧
      d.decoder.output_buffer_index < d.decoder.output_buffers_count) ∧
    (∃ d, demo_decoder_buffer_cycle demo_sample demo_sample.decoder.capture_type = some (0, d) ∧
      d.decoder.capture_buffer_index =
        (demo_sample.decoder.capture_buffer_index + 1) %
          demo_sample.decoder.capture_buffers_count ∧
      d.decoder.capture_buffers_count = demo_sample.decoder.capture_buffers_count ∧
      d.decoder.capture_buffer_index < d.decoder.capture_buffers_count) ∧
    (∃ d, demo_camera_buffer_cycle demo_sample = some (0, d) ∧
      d.camera.capture_buffer_index =
        (demo_sample.camera.capture_buffer_index + 1) %
          demo_sample.camera.capture_buffers_count ∧
      d.camera.capture_buffers_count = demo_sample.camera.capture_buffers_count ∧
      d.camera.capture_buffer_index < d.camera.capture_buffers_count) ∧
    demo_decoder_buffer_cycle demo_zero demo_zero.decoder.output_type = none ∧
    demo_camera_buffer_cycle demo_zero = none :=
  ⟨cursor_invariant.1 demo_sample (by decide) (by decide),
   cursor_invariant.2.1 demo_sample (by decide) (by decide) (by decide),
   cursor_invariant.2.2.1 demo_sample (by decide) (by decide),
   cursor_invariant.2.2.2.2.1 demo_zero rfl,
   cursor_invariant.2.2.2.2.2.2.1 demo_zero rfl⟩

/-! ## Traces -/

theorem sys_world (k : Kernel) (w : World) (c : Call) : (sys k w c).2 = w ++ [c] := rfl

theorem sys_reply (k : Kernel) (w : World) (c : Call) : (sys k w c).1 = k w.length c := rfl

theorem dma_buf_sync_world (k : Kernel) (w : World) (fd : Int) (flags : Nat) :
    (dma_buf_sync k w fd flags).2 = w ++ [Call.dma_buf_sync fd flags] := by
  unfold dma_buf_sync
  simp only [sys_world]
  split <;> rfl

theorem dma_buf_sync_ret (k : Kernel) (w : World) (fd : Int) (flags : Nat) :
    (dma_buf_sync k w fd flags).1 =
      if (k w.length (.dma_buf_sync fd flags)).ret ≠ 0 then
        -(k w.length (.dma_buf_sync fd flags)).errno
      else 0 := by
  unfold dma_buf_sync
  simp only [sys_reply]
  split <;> rfl

/-- A list of consecutive planes, shifted by one. -/
theorem range_succ_map_shift {α : Type} (g : Nat → α) (i0 m : Nat) :
    (List.range (m + 1)).map (fun j => g (i0 + j)) =
      g i0 :: (List.range m).map (fun j => g (i0 + 1 + j)) := by
  rw [List.range_succ_eq_map, List.map_cons, List.map_map]
  congr 1
  apply List.map_congr_left
  intro j _
  simp only [Function.comp, Nat.succ_eq_add_one]
  congr 1
  omega

/-- The calls issued by the loop of `demo_buffer_sync` are synchronisations of
the handles of consecutive planes, all with the flags given; there are as many
as planes when the result is 0. -/
theorem demo_buffer_sync_loop_trace (k : Kernel) (b : DemoBuffer) (f : Nat) (n : Nat) :
    ∀ (i0 : Nat) (w : World), ∃ m, m ≤ n ∧
      (demo_buffer_sync_loop k b f n i0 w).2 =
        w ++ (List.range m).map (fun j => Call.dma_buf_sync (b.dma_buf_fd (i0 + j)) f) ∧
      ((demo_buffer_sync_loop k b f n i0 w).1 = 0 → m = n) := by
  induction n with
  | zero =>
    intro i0 w
    exact ⟨0, le_refl _, by simp [demo_buffer_sync_loop], fun _ => rfl⟩
  | succ n ih =>
    intro i0 w
    unfold demo_buffer_sync_loop
    simp only
    split
    · rename_i hne
      refine ⟨1, by omega, ?_, fun h => absurd h hne⟩
      simp [dma_buf_sync_world, List.range_succ_eq_map]
    · obtain ⟨m, hm, ht, h0⟩ := ih (i0 + 1) (dma_buf_sync k w (b.dma_buf_fd i0) f).2
      refine ⟨m + 1, by omega, ?_, fun h => by rw [h0 h]⟩
      rw [ht, dma_buf_sync_world,
        range_succ_map_shift (fun i => Call.dma_buf_sync (b.dma_buf_fd i) f)]
      simp

/-- Every call that `demo_buffer_sync` adds to the trace is a synchronisation
of the handle of a plane, with the flags given. -/
theorem demo_buffer_sync_trace (k : Kernel) (w : World) (b : DemoBuffer) (f : Nat) :
    ∃ m, m ≤ b.planes_count ∧ (demo_buffer_sync k w b f).2 = w ++ sync_calls b f m ∧
      ((demo_buffer_sync k w b f).1 = 0 → 0 ≤ b.dma_buf_fd 0 → m = b.planes_count) := by
  unfold demo_buffer_sync
  split
  · exact ⟨0, Nat.zero_le _, by simp [sync_calls], fun _ h => by omega⟩
  · obtain ⟨m, hm, ht, h0⟩ := demo_buffer_sync_loop_trace k b f b.planes_count 0 w
    exact ⟨m, hm, by simpa [sync_calls] using ht, fun h _ => h0 h⟩

/-- The direction flags are one of none, read and write. -/
theorem demo_buffer_sync_flags_cases (b : DemoBuffer) :
    demo_buffer_sync_flags b = 0 ∨ demo_buffer_sync_flags b = DMA_BUF_SYNC_READ ∨
      demo_buffer_sync_flags b = DMA_BUF_SYNC_WRITE := by
  unfold demo_buffer_sync_flags
  simp only
  split
  · exact Or.inr (Or.inr rfl)
  · split
    · exact Or.inr (Or.inl rfl)
    · exact Or.inl rfl

/-- Claim C6. For a buffer whose type has base type `VIDEO_OUTPUT`,
`demo_buffer_sync_begin` is `demo_buffer_sync` with the flags
`DMA_BUF_SYNC_WRITE | DMA_BUF_SYNC_START` and `demo_buffer_sync_finish` is
`demo_buffer_sync` with `DMA_BUF_SYNC_WRITE | DMA_BUF_SYNC_END`, and every call
they add to the trace is a `dma_buf_sync` with these flags; for base type
`VIDEO_CAPTURE` the same holds with `DMA_BUF_SYNC_READ`. For every buffer the
flags of begin and of finish have the same direction bits, begin has the end
bit clear and finish has it set. -/
theorem sync_direction (k : Kernel) (w : World) (b : DemoBuffer) :
    (v4l2_type_base b.buffer.type = V4L2_BUF_TYPE_VIDEO_OUTPUT →
      demo_buffer_sync_begin k w b =
          demo_buffer_sync k w b (DMA_BUF_SYNC_WRITE ||| DMA_BUF_SYNC_START) ∧
        demo_buffer_sync_finish k w b =
          demo_buffer_sync k w b (DMA_BUF_SYNC_WRITE ||| DMA_BUF_SYNC_END) ∧
        (∃ m, (demo_buffer_sync_begin k w b).2 =
          w ++ sync_calls b (DMA_BUF_SYNC_WRITE ||| DMA_BUF_SYNC_START) m) ∧
        (∃ m, (demo_buffer_sync_finish k w b).2 =
          w ++ sync_calls b (DMA_BUF_SYNC_WRITE ||| DMA_BUF_SYNC_END) m)) ∧
    (v4l2_type_base b.buffer.type = V4L2_BUF_TYPE_VIDEO_CAPTURE →
      demo_buffer_sync_begin k w b =
          demo_buffer_sync k w b (DMA_BUF_SYNC_READ ||| DMA_BUF_SYNC_START) ∧
        demo_buffer_sync_finish k w b =
          demo_buffer_sync k w b (DMA_BUF_SYNC_READ ||| DMA_BUF_SYNC_END) ∧
        (∃ m, (demo_buffer_sync_begin k w b).2 =
          w ++ sync_calls b (DMA_BUF_SYNC_READ ||| DMA_BUF_SYNC_START) m) ∧
        (∃ m, (demo_buffer_sync_finish k w b).2 =
          w ++ sync_calls b (DMA_BUF_SYNC_READ ||| DMA_BUF_SYNC_END) m)) ∧
    (demo_buffer_sync_begin k w b =
        demo_buffer_sync k w b (demo_buffer_sync_flags b ||| DMA_BUF_SYNC_START) ∧
      demo_buffer_sync_finish k w b =
        demo_buffer_sync k w b (demo_buffer_sync_flags b ||| DMA_BUF_SYNC_END) ∧
      (demo_buffer_sync_flags b ||| DMA_BUF_SYNC_START) &&&
          (DMA_BUF_SYNC_READ ||| DMA_BUF_SYNC_WRITE) =
        (demo_buffer_sync_flags b ||| DMA_BUF_SYNC_END) &&&
          (DMA_BUF_SYNC_READ ||| DMA_BUF_SYNC_WRITE) ∧
      (demo_buffer_sync_flags b ||| DMA_BUF_SYNC_START) &&& DMA_BUF_SYNC_END = 0 ∧
      (demo_buffer_sync_flags b ||| DMA_BUF_SYNC_END) &&& DMA_BUF_SYNC_END =
        DMA_BUF_SYNC_END) := by
  refine ⟨fun h => ?_, fun h => ?_, rfl, rfl, ?_⟩
  · have hf : demo_buffer_sync_flags b = DMA_BUF_SYNC_WRITE := by
      simp [demo_buffer_sync_flags, h]
    have hb : demo_buffer_sync_begin k w b =
        demo_buffer_sync k w b (DMA_BUF_SYNC_WRITE ||| DMA_BUF_SYNC_START) := by
      simp only [demo_buffer_sync_begin, hf]
    have he : demo_buffer_sync_finish k w b =
        demo_buffer_sync k w b (DMA_BUF_SYNC_WRITE ||| DMA_BUF_SYNC_END) := by
      simp only [demo_buffer_sync_finish, hf]
    refine ⟨hb, he, ?_, ?_⟩
    · obtain ⟨m, _, ht, _⟩ := demo_buffer_sync_trace k w b
        (DMA_BUF_SYNC_WRITE ||| DMA_BUF_SYNC_START)
      exact ⟨m, by rw [hb]; exact ht⟩
    · obtain ⟨m, _, ht, _⟩ := demo_buffer_sync_trace k w b
        (DMA_BUF_SYNC_WRITE ||| DMA_BUF_SYNC_END)
      exact ⟨m, by rw [he]; exact ht⟩
  · have hf : demo_buffer_sync_flags b = DMA_BUF_SYNC_READ := by
      simp [demo_buffer_sync_flags, h]
    have hb : demo_buffer_sync_begin k w b =
        demo_buffer_sync k w b (DMA_BUF_SYNC_READ ||| DMA_BUF_SYNC_START) := by
      simp only [demo_buffer_sync_begin, hf]
    have he : demo_buffer_sync_finish k w b =
        demo_buffer_sync k w b (DMA_BUF_SYNC_READ ||| DMA_BUF_SYNC_END) := by
      simp only [demo_buffer_sync_finish, hf]
    refine ⟨hb, he, ?_, ?_⟩
    · obtain ⟨m, _, ht, _⟩ := demo_buffer_sync_trace k w b
        (DMA_BUF_SYNC_READ ||| DMA_BUF_SYNC_START)
      exact ⟨m, by rw [hb]; exact ht⟩
    · obtain ⟨m, _, ht, _⟩ := demo_buffer_sync_trace k w b
        (DMA_BUF_SYNC_READ ||| DMA_BUF_SYNC_END)
      exact ⟨m, by rw [he]; exact ht⟩
  · rcases demo_buffer_sync_flags_cases b with h | h | h <;> rw [h] <;> decide

theorem sync_direction_witness :
    (demo_buffer_sync_begin kernel_ok [] buffer_two =
        demo_buffer_sync kernel_ok [] buffer_two (DMA_BUF_SYNC_WRITE ||| DMA_BUF_SYNC_START) ∧
      demo_buffer_sync_finish kernel_ok [] buffer_two =
        demo_buffer_sync kernel_ok [] buffer_two (DMA_BUF_SYNC_WRITE ||| DMA_BUF_SYNC_END) ∧
      (∃ m, (demo_buffer_sync_begin kernel_ok [] buffer_two).2 =
        [] ++ sync_calls buffer_two (DMA_BUF_SYNC_WRITE ||| DMA_BUF_SYNC_START) m) ∧
      (∃ m, (demo_buffer_sync_finish kernel_ok [] buffer_two).2 =
        [] ++ sync_calls buffer_two (DMA_BUF_SYNC_WRITE ||| DMA_BUF_SYNC_END) m)) ∧
    (demo_buffer_sync_begin kernel_ok [] buffer_capture =
        demo_buffer_sync kernel_ok [] buffer_capture
          (DMA_BUF_SYNC_READ ||| DMA_BUF_SYNC_START) ∧
      demo_buffer_sync_finish kernel_ok [] buffer_capture =
        demo_buffer_sync kernel_ok [] buffer_capture (DMA_BUF_SYNC_READ ||| DMA_BUF_SYNC_END) ∧
      (∃ m, (demo_buffer_sync_begin kernel_ok [] buffer_capture).2 =
        [] ++ sync_calls buffer_capture (DMA_BUF_SYNC_READ ||| DMA_BUF_SYNC_START) m) ∧
      (∃ m, (demo_buffer_sync_finish kernel_ok [] buffer_capture).2 =
        [] ++ sync_calls buffer_capture (DMA_BUF_SYNC_READ ||| DMA_BUF_SYNC_END) m)) :=
  ⟨(sync_direction kernel_ok [] buffer_two).1 (by decide),
   (sync_direction kernel_ok [] buffer_capture).2.1 (by decide)⟩

theorem dma_buf_sync_eq (k : Kernel) (w : World) (fd : Int) (flags : Nat) :
    dma_buf_sync k w fd flags =
      (dma_buf_sync_result k w.length fd flags, w ++ [Call.dma_buf_sync fd flags]) := by
  unfold dma_buf_sync dma_buf_sync_result
  simp only [sys_world, sys_reply]
  split <;> rfl

/-- When the calls for the first `n` planes from `i0` on all succeed, the loop
of `demo_buffer_sync` issues them all and returns 0. -/
theorem demo_buffer_sync_loop_ok (k : Kernel) (b : DemoBuffer) (f : Nat) (n : Nat) :
    ∀ (i0 : Nat) (w : World),
      (∀ i, i < n → dma_buf_sync_result k (w.length + i) (b.dma_buf_fd (i0 + i)) f = 0) →
      demo_buffer_sync_loop k b f n i0 w =
        (0, w ++ (List.range n).map (fun j => Call.dma_buf_sync (b.dma_buf_fd (i0 + j)) f)) := by
  induction n with
  | zero => intro i0 w _; simp [demo_buffer_sync_loop]
  | succ n ih =>
    intro i0 w h
    have h0 := h 0 (by omega)
    simp only [Nat.add_zero] at h0
    unfold demo_buffer_sync_loop
    simp only [dma_buf_sync_eq, h0, ne_eq, not_true_eq_false, if_false]
    rw [ih (i0 + 1) (w ++ [Call.dma_buf_sync (b.dma_buf_fd i0) f]),
      range_succ_map_shift (fun i => Call.dma_buf_sync (b.dma_buf_fd i) f)]
    · simp
    · intro i hi
      have := h (i + 1) (by omega)
      have e1 : (w ++ [Call.dma_buf_sync (b.dma_buf_fd i0) f]).length + i = w.length + (i + 1) := by
        simp; omega
      have e2 : i0 + 1 + i = i0 + (i + 1) := by omega
      rw [e1, e2]; exact this

/-- When the call for plane `i0 + j` is the first to fail, the loop of
`demo_buffer_sync` returns its error and issues no call for a later plane. -/
theorem demo_buffer_sync_loop_fail (k : Kernel) (b : DemoBuffer) (f : Nat) (n : Nat) :
    ∀ (i0 : Nat) (w : World) (j : Nat), j < n →
      (∀ i, i < j → dma_buf_sync_result k (w.length + i) (b.dma_buf_fd (i0 + i)) f = 0) →
      dma_buf_sync_result k (w.length + j) (b.dma_buf_fd (i0 + j)) f ≠ 0 →
      demo_buffer_sync_loop k b f n i0 w =
        (dma_buf_sync_result k (w.length + j) (b.dma_buf_fd (i0 + j)) f,
          w ++ (List.range (j + 1)).map
            (fun j => Call.dma_buf_sync (b.dma_buf_fd (i0 + j)) f)) := by
  induction n with
  | zero => intro i0 w j hj; omega
  | succ n ih =>
    intro i0 w j hj h hf
    unfold demo_buffer_sync_loop
    simp only [dma_buf_sync_eq]
    cases j with
    | zero =>
      simp only [Nat.add_zero] at hf ⊢
      simp [hf, List.range_succ_eq_map]
    | succ j =>
      have h0 := h 0 (by omega)
      simp only [Nat.add_zero] at h0
      simp only [h0, ne_eq, not_true_eq_false, if_false]
      have e1 : (w ++ [Call.dma_buf_sync (b.dma_buf_fd i0) f]).length + j = w.length + (j + 1) := by
        simp; omega
      have e2 : i0 + 1 + j = i0 + (j + 1) := by omega
      rw [ih (i0 + 1) (w ++ [Call.dma_buf_sync (b.dma_buf_fd i0) f]) j (by omega),
        range_succ_map_shift (fun i => Call.dma_buf_sync (b.dma_buf_fd i) f) i0 (j + 1)]
      · rw [e1, e2]; simp
      · intro i hi
        have := h (i + 1) (by omega)
        have e3 : (w ++ [Call.dma_buf_sync (b.dma_buf_fd i0) f]).length + i
            = w.length + (i + 1) := by simp; omega
        have e4 : i0 + 1 + i = i0 + (i + 1) := by omega
        rw [e3, e4]; exact this
      · rw [e1, e2]; exact hf

/-- Claim C10. For a buffer with `n` planes that all carry a share-handle,
`demo_buffer_sync` with flags `f`, called after the trace `w`: when the call
for every plane succeeds it returns 0 and has issued exactly the `n` calls
`dma_buf_sync (dma_buf_fd[i], f)` for `i = 0, ..., n - 1` in this order; when
the call for plane `j` is the first that fails it returns the error of that
call and has issued the calls for the planes `0, ..., j` only. -/
theorem sync_every_plane (k : Kernel) (w : World) (b : DemoBuffer) (f : Nat)
    (hfd : ∀ i, i < b.planes_count → 0 ≤ b.dma_buf_fd i) :
    ((∀ i, i < b.planes_count →
        dma_buf_sync_result k (w.length + i) (b.dma_buf_fd i) f = 0) →
      demo_buffer_sync k w b f = (0, w ++ sync_calls b f b.planes_count) ∧
      (sync_calls b f b.planes_count).length = b.planes_count) ∧
    (∀ j, j < b.planes_count →
      (∀ i, i < j → dma_buf_sync_result k (w.length + i) (b.dma_buf_fd i) f = 0) →
      dma_buf_sync_result k (w.length + j) (b.dma_buf_fd j) f ≠ 0 →
      demo_buffer_sync k w b f =
        (dma_buf_sync_result k (w.length + j) (b.dma_buf_fd j) f,
          w ++ sync_calls b f (j + 1))) := by
  constructor
  · intro h
    refine ⟨?_, by simp [sync_calls]⟩
    unfold demo_buffer_sync
    split
    · rename_i hneg
      have hn : b.planes_count = 0 := by
        by_contra hn
        have := hfd 0 (Nat.pos_of_ne_zero hn)
        omega
      simp [sync_calls, hn]
    · have := demo_buffer_sync_loop_ok k b f b.planes_count 0 w (by simpa using h)
      simpa [sync_calls] using this
  · intro j hj h hf
    unfold demo_buffer_sync
    have h0 := hfd 0 (by omega)
    rw [if_neg (by omega)]
    have := demo_buffer_sync_loop_fail k b f b.planes_count 0 w j hj (by simpa using h)
      (by simpa using hf)
    simpa [sync_calls] using this

theorem sync_every_plane_witness :
    (demo_buffer_sync kernel_ok [] buffer_two 6 = (0, [] ++ sync_calls buffer_two 6 2) ∧
      (sync_calls buffer_two 6 2).length = 2) ∧
    demo_buffer_sync kernel_sync_fail [] buffer_two 6 =
      (dma_buf_sync_result kernel_sync_fail (([] : World).length + 1)
        (buffer_two.dma_buf_fd 1) 6, [] ++ sync_calls buffer_two 6 (1 + 1)) :=
  ⟨(sync_every_plane kernel_ok [] buffer_two 6 (by decide)).1 (by decide),
   (sync_every_plane kernel_sync_fail [] buffer_two 6 (by decide)).2 1 (by decide)
     (by decide) (by decide)⟩

/-! ## Kernel-mapped buffers -/

/-- The loop of `demo_buffer_setup_v4l2` changes only the mapped addresses of
the planes from `i0` on. -/
theorem demo_buffer_setup_v4l2_loop_frame (k : Kernel) (video_fd : Int) (n : Nat) :
    ∀ (i0 : Nat) (b : DemoBuffer) (w : World),
      (demo_buffer_setup_v4l2_loop k video_fd n i0 b w).2.1.buffer = b.buffer ∧
      (demo_buffer_setup_v4l2_loop k video_fd n i0 b w).2.1.dma_buf_fd = b.dma_buf_fd ∧
      (demo_buffer_setup_v4l2_loop k video_fd n i0 b w).2.1.planes_count = b.planes_count ∧
      (∀ j, j < i0 → (demo_buffer_setup_v4l2_loop k video_fd n i0 b w).2.1.data j = b.data j) := by
  induction n with
  | zero => intro i0 b w; simp [demo_buffer_setup_v4l2_loop]
  | succ n ih =>
    intro i0 b w
    unfold demo_buffer_setup_v4l2_loop
    simp only
    split
    · simp
    · refine ⟨(ih _ _ _).1, (ih _ _ _).2.1, (ih _ _ _).2.2.1, fun j hj => ?_⟩
      rw [(ih _ _ _).2.2.2 j (by omega)]
      simp only
      rw [Function.update_noteq (by omega)]

/-- A successful run of the loop of `demo_buffer_setup_v4l2` has issued one
mapping call per plane and stored the address returned for each. -/
theorem demo_buffer_setup_v4l2_loop_ok (k : Kernel) (video_fd : Int) (n : Nat) :
    ∀ (i0 : Nat) (b : DemoBuffer) (w : World),
      (demo_buffer_setup_v4l2_loop k video_fd n i0 b w).1 = 0 →
      (demo_buffer_setup_v4l2_loop k video_fd n i0 b w).2.2 =
        w ++ (List.range n).map (fun j =>
          Call.mmap (v4l2_buffer_plane_length b.buffer (i0 + j)) video_fd
            (v4l2_buffer_plane_offset b.buffer (i0 + j))) ∧
      (∀ j, j < n →
        (demo_buffer_setup_v4l2_loop k video_fd n i0 b w).2.1.data (i0 + j) =
          (k (w.length + j) (.mmap (v4l2_buffer_plane_length b.buffer (i0 + j)) video_fd
            (v4l2_buffer_plane_offset b.buffer (i0 + j)))).ret ∧
        (demo_buffer_setup_v4l2_loop k video_fd n i0 b w).2.1.data (i0 + j) ≠ MAP_FAILED) := by
  induction n with
  | zero => intro i0 b w _; simp [demo_buffer_setup_v4l2_loop]
  | succ n ih =>
    intro i0 b w
    unfold demo_buffer_setup_v4l2_loop
    simp only
    split
    · intro h; simp at h
    · rename_i hm
      intro h
      obtain ⟨ht, hd⟩ := ih (i0 + 1) _ _ h
      refine ⟨?_, fun j hj => ?_⟩
      · rw [ht, sys_world, range_succ_map_shift (fun i =>
          Call.mmap (v4l2_buffer_plane_length b.buffer i) video_fd
            (v4l2_buffer_plane_offset b.buffer i))]
        simp
      · cases j with
        | zero =>
          simp only [Nat.add_zero]
          rw [(demo_buffer_setup_v4l2_loop_frame k video_fd n (i0 + 1) _ _).2.2.2
            i0 (by omega)]
          simp only [Function.update_same, sys_reply]
          exact ⟨trivial, hm⟩
        | succ j =>
          have := hd j (by omega)
          have e1 : (sys k w (.mmap (v4l2_buffer_plane_length b.buffer i0) video_fd
              (v4l2_buffer_plane_offset b.buffer i0))).2.length + j = w.length + (j + 1) := by
            simp [sys_world]; omega
          have e2 : i0 + 1 + j = i0 + (j + 1) := by omega
          rw [e1, e2] at this
          exact this

/-- What a successful `demo_buffer_setup_base` leaves: the plane count, the
sentinel in every share-handle slot below it, the descriptor with the plane
records reported by the kernel, and one query in the trace. -/
theorem demo_buffer_setup_base_ok (k : Kernel) (w : World) (b : DemoBuffer) (video_fd : Int)
    (memory type index n : Nat)
    (h : (demo_buffer_setup_base k w b video_fd memory type index n).1 = 0) :
    (demo_buffer_setup_base k w b video_fd memory type index n).2.1.planes_count = n ∧
    (∀ i, i < n →
      (demo_buffer_setup_base k w b video_fd memory type index n).2.1.dma_buf_fd i = -1) ∧
    (∀ i, n ≤ i →
      (demo_buffer_setup_base k w b video_fd memory type index n).2.1.dma_buf_fd i =
        b.dma_buf_fd i) ∧
    (demo_buffer_setup_base k w b video_fd memory type index n).2.1.buffer =
      { type := type, memory := memory, index := index, planes_count := n,
        planes := (k w.length (.v4l2_buffer_query video_fd type memory index n)).planes } ∧
    (demo_buffer_setup_base k w b video_fd memory type index n).2.1.data = b.data ∧
    (demo_buffer_setup_base k w b video_fd memory type index n).2.2 =
      w ++ [Call.v4l2_buffer_query video_fd type memory index n] := by
  unfold demo_buffer_setup_base at h ⊢
  by_cases hg : (if v4l2_type_mplane_check type then decide (n > 4)
      else decide (n > 1)) = true
  · rw [if_pos hg] at h
    simp at h
  · rw [if_neg hg] at h ⊢
    by_cases hr : (sys k w (Call.v4l2_buffer_query video_fd type memory index n)).1.ret = 0
    · simp only [hr, ne_eq, not_true_eq_false, if_false]
      refine ⟨trivial, fun i hi => ?_, fun i hi => ?_, ?_, trivial, ?_⟩
      · simp [hi]
      · simp [Nat.not_lt.mpr hi]
      · simp [sys_reply]
      · simp [sys_world]
    · simp [hr] at h

/-- Claim C8. A buffer set up successfully by `demo_buffer_setup` in the
kernel-mapped mode (allocator `DEMO_ALLOCATOR_V4L2`, no import) has the
sentinel -1 in `dma_buf_fd[i]` for every `i < planes_count`; the calls of the
setup are one query and then, per plane, one `mmap` from the video descriptor
at the offset and with the length that the kernel reported, whose result is
stored in `data[i]`, so no share-handle is created; and on such a buffer
`demo_buffer_sync_begin` and `demo_buffer_sync_finish` return 0 and issue no
call, under any kernel and after any trace. -/
theorem kernel_mapped_no_handle (k : Kernel) (w : World) (demo : Demo) (buffer : DemoBuffer)
    (video_fd : Int) (memory type index planes_count : Nat) (r : Int × DemoBuffer × World)
    (ha : demo.allocator = DEMO_ALLOCATOR_V4L2)
    (hs : demo_buffer_setup k w demo buffer video_fd memory type index planes_count false =
      some r)
    (h0 : r.1 = 0) :
    r.2.1.planes_count = planes_count ∧
    (∀ i, i < planes_count → r.2.1.dma_buf_fd i = -1) ∧
    r.2.1.buffer.planes =
      (k w.length (.v4l2_buffer_query video_fd type memory index planes_count)).planes ∧
    r.2.2 = w ++ [Call.v4l2_buffer_query video_fd type memory index planes_count] ++
      v4l2_mmap_calls r.2.1 video_fd planes_count ∧
    (∀ i, i < planes_count →
      r.2.1.data i = (k (w.length + 1 + i) (.mmap (v4l2_buffer_plane_length r.2.1.buffer i)
        video_fd (v4l2_buffer_plane_offset r.2.1.buffer i))).ret ∧
      r.2.1.data i ≠ MAP_FAILED) ∧
    (∀ (k2 : Kernel) (w2 : World),
      demo_buffer_sync_begin k2 w2 r.2.1 = (0, w2) ∧
      demo_buffer_sync_finish k2 w2 r.2.1 = (0, w2)) := by
  unfold demo_buffer_setup at hs
  simp only [ha] at hs
  split at hs
  · rename_i hb
    simp only [Option.some.injEq] at hs
    subst hs
    exact absurd h0 hb
  · rename_i hb
    simp only [Bool.false_eq_true, if_false, show ¬ (DEMO_ALLOCATOR_V4L2 = DEMO_ALLOCATOR_DMA_HEAP)
      by decide, if_true, Option.some.injEq] at hs
    subst hs
    have hb0 : (demo_buffer_setup_base k w buffer video_fd memory type index planes_count).1 = 0 :=
      by simpa using hb
    obtain ⟨hn, hfd, _, hbuf, _, htr⟩ :=
      demo_buffer_setup_base_ok k w buffer video_fd memory type index planes_count hb0
    unfold demo_buffer_setup_v4l2 at h0 ⊢
    rw [hn] at h0 ⊢
    obtain ⟨f1, f2, f3, _⟩ := demo_buffer_setup_v4l2_loop_frame k video_fd planes_count 0
      (demo_buffer_setup_base k w buffer video_fd memory type index planes_count).2.1
      (demo_buffer_setup_base k w buffer video_fd memory type index planes_count).2.2
    obtain ⟨ht, hd⟩ := demo_buffer_setup_v4l2_loop_ok k video_fd planes_count 0 _ _ h0
    refine ⟨by rw [f3, hn], fun i hi => by rw [f2]; exact hfd i hi, by rw [f1, hbuf], ?_,
      fun i hi => ?_, fun k2 w2 => ?_⟩
    · rw [ht]
      simp only [v4l2_mmap_calls, f1]
      rw [htr]
      simp
    · rw [f1]
      have hl : (demo_buffer_setup_base k w buffer video_fd memory type index
          planes_count).2.2.length = w.length + 1 := by rw [htr]; simp
      have := hd i hi
      rw [Nat.zero_add, hl] at this
      exact this
    · have hsync : ∀ f, demo_buffer_sync k2 w2
          (demo_buffer_setup_v4l2_loop k video_fd planes_count 0
            (demo_buffer_setup_base k w buffer video_fd memory type index planes_count).2.1
            (demo_buffer_setup_base k w buffer video_fd memory type index
              planes_count).2.2).2.1 f = (0, w2) := by
        intro f
        unfold demo_buffer_sync
        rw [f2, f3, hn]
        by_cases hz : planes_count = 0
        · subst hz
          split <;> simp [demo_buffer_sync_loop]
        · rw [hfd 0 (Nat.pos_of_ne_zero hz)]
          simp
      exact ⟨hsync _, hsync _⟩

theorem kernel_mapped_no_handle_witness :
    kernel_mapped_sample.2.1.dma_buf_fd 0 = -1 ∧
    kernel_mapped_sample.2.2 = [] ++ [Call.v4l2_buffer_query 4 1 1 0 1] ++
      v4l2_mmap_calls kernel_mapped_sample.2.1 4 1 ∧
    demo_buffer_sync_begin kernel_ok [] kernel_mapped_sample.2.1 = (0, []) ∧
    demo_buffer_sync_finish kernel_ok [] kernel_mapped_sample.2.1 = (0, []) :=
  ⟨(kernel_mapped_no_handle kernel_ok [] demo_opened buffer_zero 4 1 1 0 1
      kernel_mapped_sample rfl rfl rfl).2.1 0 (by decide),
   (kernel_mapped_no_handle kernel_ok [] demo_opened buffer_zero 4 1 1 0 1
      kernel_mapped_sample rfl rfl rfl).2.2.2.1,
   ((kernel_mapped_no_handle kernel_ok [] demo_opened buffer_zero 4 1 1 0 1
      kernel_mapped_sample rfl rfl rfl).2.2.2.2.2 kernel_ok []).1,
   ((kernel_mapped_no_handle kernel_ok [] demo_opened buffer_zero 4 1 1 0 1
      kernel_mapped_sample rfl rfl rfl).2.2.2.2.2 kernel_ok []).2⟩

/-! ## Imported buffers -/

theorem v4l2_buffer_setup_fd_length (b : V4l2Buffer) (i : Nat) (fd : Int) (j : Nat) :
    v4l2_buffer_plane_length (v4l2_buffer_setup_fd b i fd) j = v4l2_buffer_plane_length b j := by
  unfold v4l2_buffer_plane_length v4l2_buffer_setup_fd
  by_cases h : j = i
  · subst h; simp
  · simp [Function.update_noteq h]

theorem v4l2_buffer_setup_fd_other (b : V4l2Buffer) (i : Nat) (fd : Int) (j : Nat) (h : j ≠ i) :
    (v4l2_buffer_setup_fd b i fd).planes j = b.planes j := by
  simp [v4l2_buffer_setup_fd, Function.update_noteq h]

theorem v4l2_buffer_setup_fd_same (b : V4l2Buffer) (i : Nat) (fd : Int) :
    ((v4l2_buffer_setup_fd b i fd).planes i).fd = fd := by
  simp [v4l2_buffer_setup_fd]

/-- The loop of `demo_buffer_setup_import` over the planes `i0`, ...,
`i0 + n - 1` keeps the plane count and every plane length, and leaves the
planes outside this range as they are. -/
theorem demo_buffer_setup_import_loop_frame (k : Kernel) (demo : Demo) (ib : DemoBuffer)
    (ivfd : Int) (n : Nat) :
    ∀ (i0 : Nat) (b : DemoBuffer) (w : World),
      (demo_buffer_setup_import_loop k demo ib ivfd n i0 b w).2.1.planes_count =
        b.planes_count ∧
      (∀ j, v4l2_buffer_plane_length
          (demo_buffer_setup_import_loop k demo ib ivfd n i0 b w).2.1.buffer j =
        v4l2_buffer_plane_length b.buffer j) ∧
      (∀ j, j < i0 ∨ i0 + n ≤ j →
        (demo_buffer_setup_import_loop k demo ib ivfd n i0 b w).2.1.data j = b.data j ∧
        (demo_buffer_setup_import_loop k demo ib ivfd n i0 b w).2.1.dma_buf_fd j =
          b.dma_buf_fd j ∧
        (demo_buffer_setup_import_loop k demo ib ivfd n i0 b w).2.1.buffer.planes j =
          b.buffer.planes j) := by
  induction n with
  | zero => intro i0 b w; simp [demo_buffer_setup_import_loop]
  | succ n ih =>
    intro i0 b w
    unfold demo_buffer_setup_import_loop
    simp only
    repeat' split
    all_goals first
      | (refine ⟨rfl, fun j => ?_, fun j hj => ?_⟩
         · first | rfl | exact v4l2_buffer_setup_fd_length _ _ _ _
         · have hne : j ≠ i0 := by omega
           refine ⟨rfl, ?_, ?_⟩
           · first | rfl | exact Function.update_noteq hne _ _
           · first | rfl | exact v4l2_buffer_setup_fd_other _ _ _ _ hne)
      | (refine ⟨(ih _ _ _).1, fun j => ?_, fun j hj => ?_⟩
         · rw [(ih _ _ _).2.1 j]
           exact v4l2_buffer_setup_fd_length _ _ _ _
         · have hne : j ≠ i0 := by omega
           rw [((ih _ _ _).2.2 j (by omega)).1, ((ih _ _ _).2.2 j (by omega)).2.1,
             ((ih _ _ _).2.2 j (by omega)).2.2]
           refine ⟨?_, ?_, ?_⟩
           · exact Function.update_noteq hne _ _
           · first | rfl | exact Function.update_noteq hne _ _
           · exact v4l2_buffer_setup_fd_other _ _ _ _ hne)

/-- The loop of `demo_buffer_setup_import` is its first round followed, when
that round succeeds, by the loop over the remaining planes. -/
theorem demo_buffer_setup_import_loop_succ (k : Kernel) (demo : Demo) (ib : DemoBuffer)
    (ivfd : Int) (n i : Nat) (b : DemoBuffer) (w : World) :
    demo_buffer_setup_import_loop k demo ib ivfd (n + 1) i b w =
      if (demo_buffer_setup_import_plane k demo ib ivfd i b w).1 ≠ 0 then
        demo_buffer_setup_import_plane k demo ib ivfd i b w
      else
        demo_buffer_setup_import_loop k demo ib ivfd n (i + 1)
          (demo_buffer_setup_import_plane k demo ib ivfd i b w).2.1
          (demo_buffer_setup_import_plane k demo ib ivfd i b w).2.2 := by
  unfold demo_buffer_setup_import_plane
  rw [demo_buffer_setup_import_loop, demo_buffer_setup_import_loop]
  simp only [demo_buffer_setup_import_loop]
  repeat' split
  all_goals first
    | rfl
    | (exfalso; simp_all)

/-- The loop over `m + n` planes is the loop over the first `m` followed, when
it succeeds, by the loop over the other `n`. -/
theorem demo_buffer_setup_import_loop_split (k : Kernel) (demo : Demo) (ib : DemoBuffer)
    (ivfd : Int) (m : Nat) :
    ∀ (n i0 : Nat) (b : DemoBuffer) (w : World),
      demo_buffer_setup_import_loop k demo ib ivfd (m + n) i0 b w =
        if (demo_buffer_setup_import_loop k demo ib ivfd m i0 b w).1 ≠ 0 then
          demo_buffer_setup_import_loop k demo ib ivfd m i0 b w
        else
          demo_buffer_setup_import_loop k demo ib ivfd n (i0 + m)
            (demo_buffer_setup_import_loop k demo ib ivfd m i0 b w).2.1
            (demo_buffer_setup_import_loop k demo ib ivfd m i0 b w).2.2 := by
  induction m with
  | zero => intro n i0 b w; simp [demo_buffer_setup_import_loop]
  | succ m ih =>
    intro n i0 b w
    have e : m + 1 + n = (m + n) + 1 := by omega
    rw [e, demo_buffer_setup_import_loop_succ, demo_buffer_setup_import_loop_succ]
    by_cases hp : (demo_buffer_setup_import_plane k demo ib ivfd i0 b w).1 ≠ 0
    · simp only [if_pos hp]
    · simp only [if_neg hp]
      rw [ih]
      have e2 : i0 + 1 + m = i0 + (m + 1) := by omega
      rw [e2]

/-- A round for a plane whose importer length exceeds the exporter length
returns `-EINVAL` without any call and without touching the buffer. -/
theorem demo_buffer_setup_import_plane_short (k : Kernel) (demo : Demo) (ib : DemoBuffer)
    (ivfd : Int) (i : Nat) (b : DemoBuffer) (w : World)
    (h : v4l2_buffer_plane_length ib.buffer i < v4l2_buffer_plane_length b.buffer i) :
    demo_buffer_setup_import_plane k demo ib ivfd i b w = (-EINVAL, b, w) := by
  unfold demo_buffer_setup_import_plane
  rw [demo_buffer_setup_import_loop]
  simp [h]

/-- The calls of one round for plane `i`: at most one export, of plane `i`, at
most one `dup` and at most one `mmap`, and nothing else. -/
theorem demo_buffer_setup_import_plane_trace (k : Kernel) (demo : Demo) (ib : DemoBuffer)
    (ivfd : Int) (i : Nat) (b : DemoBuffer) (w : World) :
    ∃ t, (demo_buffer_setup_import_plane k demo ib ivfd i b w).2.2 = w ++ t ∧
      t.countP Call.is_mmap ≤ 1 ∧ t.countP Call.is_dup ≤ 1 ∧
      t.countP (Call.is_export_from 0) ≤ 1 ∧
      (∀ c, c ∈ t → Call.is_export_from (i + 1) c = false ∧ Call.is_heap_alloc c = false ∧
        Call.is_munmap c = false ∧ Call.is_close c = false) := by
  unfold demo_buffer_setup_import_plane
  rw [demo_buffer_setup_import_loop]
  simp only [demo_buffer_setup_import_loop, sys_world]
  repeat' split
  all_goals first
    | exact ⟨[], (List.append_nil _).symm, by simp⟩
    | (simp only [List.append_assoc]
       refine ⟨_, rfl, ?_⟩
       simp [Call.is_mmap, Call.is_dup, Call.is_export_from, Call.is_heap_alloc,
         Call.is_munmap, Call.is_close])

theorem is_export_from_mono (a c : Nat) (x : Call) (hac : a ≤ c)
    (hx : Call.is_export_from a x = false) : Call.is_export_from c x = false := by
  cases x
  case v4l2_buffer_export v t i p f =>
    simp only [Call.is_export_from, decide_eq_false_iff_not] at hx ⊢
    omega
  all_goals rfl

/-- The calls of the loop over `m` planes from `i0` on: at most `m` exports, all
of planes below `i0 + m`, at most `m` calls of `dup` and of `mmap`, and
nothing else. -/
theorem demo_buffer_setup_import_loop_trace (k : Kernel) (demo : Demo) (ib : DemoBuffer)
    (ivfd : Int) (m : Nat) :
    ∀ (i0 : Nat) (b : DemoBuffer) (w : World),
      ∃ t, (demo_buffer_setup_import_loop k demo ib ivfd m i0 b w).2.2 = w ++ t ∧
        t.countP Call.is_mmap ≤ m ∧ t.countP Call.is_dup ≤ m ∧
        t.countP (Call.is_export_from 0) ≤ m ∧
        (∀ c, c ∈ t → Call.is_export_from (i0 + m) c = false ∧ Call.is_heap_alloc c = false ∧
          Call.is_munmap c = false ∧ Call.is_close c = false) := by
  induction m with
  | zero => intro i0 b w; exact ⟨[], by simp [demo_buffer_setup_import_loop]⟩
  | succ m ih =>
    intro i0 b w
    rw [demo_buffer_setup_import_loop_succ]
    obtain ⟨t, ht, h1, h2, h3, h4⟩ := demo_buffer_setup_import_plane_trace k demo ib ivfd i0 b w
    have mono := is_export_from_mono
    split
    · refine ⟨t, ht, by omega, by omega, by omega, fun c hc => ?_⟩
      exact ⟨mono _ _ c (by omega) (h4 c hc).1, (h4 c hc).2⟩
    · obtain ⟨t2, ht2, g1, g2, g3, g4⟩ := ih (i0 + 1)
        (demo_buffer_setup_import_plane k demo ib ivfd i0 b w).2.1
        (demo_buffer_setup_import_plane k demo ib ivfd i0 b w).2.2
      refine ⟨t ++ t2, by rw [ht2, ht, List.append_assoc], ?_, ?_, ?_, fun c hc => ?_⟩
      · rw [List.countP_append]; omega
      · rw [List.countP_append]; omega
      · rw [List.countP_append]; omega
      · rcases List.mem_append.mp hc with hc | hc
        · exact ⟨mono _ _ c (by omega) (h4 c hc).1, (h4 c hc).2⟩
        · exact ⟨mono _ _ c (by omega) (g4 c hc).1, (g4 c hc).2⟩

/-- Claim C3, counterexample. The importer and the exporter have two planes
each and plane 1 of the importer requires more than the exporter has, yet
`demo_buffer_setup_import` returns `-ENOMEM`, not `-EINVAL`: the `mmap` of
plane 0 fails before the length of plane 1 is looked at. -/
theorem import_short_plane_not_einval :
    buffer_import2.planes_count = buffer_two.planes_count ∧
    v4l2_buffer_plane_length buffer_two.buffer 1 <
      v4l2_buffer_plane_length buffer_import2.buffer 1 ∧
    (demo_buffer_setup_import kernel_mmap_fail [] demo_heap buffer_import2 buffer_two 5).1 =
      -ENOMEM ∧
    (demo_buffer_setup_import kernel_mmap_fail [] demo_heap buffer_import2 buffer_two 5).1 ≠
      -EINVAL := by
  decide

/-- Claim C3, amended. `demo_buffer_setup_import` returns `-EINVAL` without any
call and without touching the buffer when the plane counts differ. With equal
plane counts and a plane `i` whose importer length exceeds the exporter
length, it does exactly what the loop over the planes below `i` does and then
stops: the result is not 0, it is `-EINVAL` when that loop succeeded and the
error of that loop otherwise; the calls are at most `i` exports, all of planes
below `i`, at most `i` calls of `dup` and at most `i` calls of `mmap`; and the
mapped address, the share-handle and the plane record of every plane from `i`
on are left as they were. -/
theorem import_rejects_short_exporter (k : Kernel) (w : World) (demo : Demo)
    (buffer import_buffer : DemoBuffer) (import_video_fd : Int) :
    (buffer.planes_count ≠ import_buffer.planes_count →
      demo_buffer_setup_import k w demo buffer import_buffer import_video_fd =
        (-EINVAL, buffer, w)) ∧
    (∀ i, buffer.planes_count = import_buffer.planes_count → i < buffer.planes_count →
      v4l2_buffer_plane_length import_buffer.buffer i <
        v4l2_buffer_plane_length buffer.buffer i →
      (demo_buffer_setup_import k w demo buffer import_buffer import_video_fd).1 ≠ 0 ∧
      ((demo_buffer_setup_import_loop k demo import_buffer import_video_fd i 0 buffer w).1 = 0 →
        (demo_buffer_setup_import k w demo buffer import_buffer import_video_fd).1 = -EINVAL) ∧
      ((demo_buffer_setup_import_loop k demo import_buffer import_video_fd i 0 buffer w).1 ≠ 0 →
        (demo_buffer_setup_import k w demo buffer import_buffer import_video_fd).1 =
          (demo_buffer_setup_import_loop k demo import_buffer import_video_fd i 0 buffer w).1) ∧
      (demo_buffer_setup_import k w demo buffer import_buffer import_video_fd).2 =
        (demo_buffer_setup_import_loop k demo import_buffer import_video_fd i 0 buffer w).2 ∧
      (∃ t, (demo_buffer_setup_import k w demo buffer import_buffer import_video_fd).2.2 =
          w ++ t ∧
        t.countP Call.is_mmap ≤ i ∧ t.countP Call.is_dup ≤ i ∧
        t.countP (Call.is_export_from 0) ≤ i ∧
        (∀ c, c ∈ t → Call.is_export_from i c = false)) ∧
      (∀ j, i ≤ j →
        (demo_buffer_setup_import k w demo buffer import_buffer import_video_fd).2.1.data j =
          buffer.data j ∧
        (demo_buffer_setup_import k w demo buffer import_buffer
            import_video_fd).2.1.dma_buf_fd j = buffer.dma_buf_fd j ∧
        (demo_buffer_setup_import k w demo buffer import_buffer
            import_video_fd).2.1.buffer.planes j = buffer.buffer.planes j)) := by
  constructor
  · intro h
    simp [demo_buffer_setup_import, h]
  · intro i hc hi hlen
    have hn : buffer.planes_count = i + ((buffer.planes_count - i - 1) + 1) := by omega
    have key : demo_buffer_setup_import k w demo buffer import_buffer import_video_fd =
        if (demo_buffer_setup_import_loop k demo import_buffer import_video_fd i 0 buffer w).1 ≠ 0
        then demo_buffer_setup_import_loop k demo import_buffer import_video_fd i 0 buffer w
        else (-EINVAL,
          (demo_buffer_setup_import_loop k demo import_buffer import_video_fd i 0 buffer w).2) := by
      unfold demo_buffer_setup_import
      rw [if_neg (by simpa using hc), hn, demo_buffer_setup_import_loop_split]
      split
      · rfl
      · rw [demo_buffer_setup_import_loop_succ, Nat.zero_add,
          demo_buffer_setup_import_plane_short]
        · simp
        · rw [(demo_buffer_setup_import_loop_frame k demo import_buffer import_video_fd i 0
            buffer w).2.1 i]
          exact hlen
    obtain ⟨t, ht, c1, c2, c3, c4⟩ :=
      demo_buffer_setup_import_loop_trace k demo import_buffer import_video_fd i 0 buffer w
    have hfr := (demo_buffer_setup_import_loop_frame k demo import_buffer import_video_fd i 0
      buffer w).2.2
    rw [key]
    by_cases hp :
        (demo_buffer_setup_import_loop k demo import_buffer import_video_fd i 0 buffer w).1 ≠ 0
    · rw [if_pos hp]
      refine ⟨hp, fun h => absurd h hp, fun _ => rfl, rfl, ⟨t, ht, c1, c2, c3, fun c hc => ?_⟩,
        fun j hj => hfr j (Or.inr (by omega))⟩
      have := (c4 c hc).1
      rwa [Nat.zero_add] at this
    · rw [if_neg hp]
      refine ⟨by simp, fun _ => rfl, fun h => absurd h hp, rfl,
        ⟨t, ht, c1, c2, c3, fun c hc => ?_⟩, fun j hj => hfr j (Or.inr (by omega))⟩
      have := (c4 c hc).1
      rwa [Nat.zero_add] at this

/-- A round under the heap allocator, when the length fits, the exporter plane
has a share-handle and the `mmap` succeeds: the plane is attached to and mapped
from the exporter's own handle, and the share-handle slot of the importer is
not written. -/
theorem demo_buffer_setup_import_plane_heap (k : Kernel) (demo : Demo) (ib : DemoBuffer)
    (ivfd : Int) (i : Nat) (b : DemoBuffer) (w : World)
    (ha : demo.allocator = DEMO_ALLOCATOR_DMA_HEAP)
    (hlen : v4l2_buffer_plane_length b.buffer i ≤ v4l2_buffer_plane_length ib.buffer i)
    (hfd : 0 ≤ ib.dma_buf_fd i)
    (hmap : (k w.length (.mmap (v4l2_buffer_plane_length b.buffer i) (ib.dma_buf_fd i) 0)).ret ≠
      MAP_FAILED) :
    demo_buffer_setup_import_plane k demo ib ivfd i b w =
      (0,
        { b with
          buffer := v4l2_buffer_setup_fd b.buffer i (ib.dma_buf_fd i)
          data := Function.update b.data i
            (k w.length (.mmap (v4l2_buffer_plane_length b.buffer i) (ib.dma_buf_fd i) 0)).ret },
        w ++ [Call.mmap (v4l2_buffer_plane_length b.buffer i) (ib.dma_buf_fd i) 0]) := by
  unfold demo_buffer_setup_import_plane
  rw [demo_buffer_setup_import_loop]
  simp only [demo_buffer_setup_import_loop, sys_world, sys_reply, ha, if_true,
    if_neg (Nat.not_lt.mpr hlen), if_neg (Int.not_lt.mpr hfd), if_neg hmap]

/-- A round under the kernel allocator, when the length fits and the export
and the `mmap` succeed: the plane is attached to and mapped from the exported
handle, and the share-handle slot of the importer receives its duplicate. -/
theorem demo_buffer_setup_import_plane_export (k : Kernel) (demo : Demo) (ib : DemoBuffer)
    (ivfd : Int) (i : Nat) (b : DemoBuffer) (w : World)
    (ha : demo.allocator ≠ DEMO_ALLOCATOR_DMA_HEAP)
    (hlen : v4l2_buffer_plane_length b.buffer i ≤ v4l2_buffer_plane_length ib.buffer i)
    (hexp : (k w.length (.v4l2_buffer_export ivfd ib.buffer.type ib.buffer.index i O_RDWR)).ret = 0)
    (hmap : (k (w.length + 2) (.mmap (v4l2_buffer_plane_length b.buffer i)
      (k w.length (.v4l2_buffer_export ivfd ib.buffer.type ib.buffer.index i O_RDWR)).out 0)).ret ≠
      MAP_FAILED) :
    demo_buffer_setup_import_plane k demo ib ivfd i b w =
      (0,
        { b with
          dma_buf_fd := Function.update b.dma_buf_fd i
            (k (w.length + 1) (.dup
              (k w.length (.v4l2_buffer_export ivfd ib.buffer.type ib.buffer.index i
                O_RDWR)).out)).ret
          buffer := v4l2_buffer_setup_fd b.buffer i
            (k w.length (.v4l2_buffer_export ivfd ib.buffer.type ib.buffer.index i O_RDWR)).out
          data := Function.update b.data i
            (k (w.length + 2) (.mmap (v4l2_buffer_plane_length b.buffer i)
              (k w.length (.v4l2_buffer_export ivfd ib.buffer.type ib.buffer.index i
                O_RDWR)).out 0)).ret },
        w ++ [Call.v4l2_buffer_export ivfd ib.buffer.type ib.buffer.index i O_RDWR,
          Call.dup (k w.length (.v4l2_buffer_export ivfd ib.buffer.type ib.buffer.index i
            O_RDWR)).out,
          Call.mmap (v4l2_buffer_plane_length b.buffer i)
            (k w.length (.v4l2_buffer_export ivfd ib.buffer.type ib.buffer.index i
              O_RDWR)).out 0]) := by
  unfold demo_buffer_setup_import_plane
  rw [demo_buffer_setup_import_loop]
  simp [demo_buffer_setup_import_loop, sys_world, sys_reply, ha, Nat.not_lt.mpr hlen, hexp,
    hmap]

/-- Under the heap allocator, when every length fits, every exporter plane has
a share-handle and every `mmap` succeeds, the loop of
`demo_buffer_setup_import` succeeds with one `mmap` per plane, from the
exporter's own handle. -/
theorem demo_buffer_setup_import_loop_heap_ok (k : Kernel) (demo : Demo) (ib : DemoBuffer)
    (ivfd : Int) (p0 : Nat) (ha : demo.allocator = DEMO_ALLOCATOR_DMA_HEAP)
    (hmap : ∀ pos l fd o, (k pos (.mmap l fd o)).ret ≠ MAP_FAILED) (n : Nat) :
    ∀ (i0 : Nat) (b : DemoBuffer) (w : World), w.length = p0 + i0 →
      (∀ j, j < n → v4l2_buffer_plane_length b.buffer (i0 + j) ≤
        v4l2_buffer_plane_length ib.buffer (i0 + j)) →
      (∀ j, j < n → 0 ≤ ib.dma_buf_fd (i0 + j)) →
      (demo_buffer_setup_import_loop k demo ib ivfd n i0 b w).1 = 0 ∧
      (demo_buffer_setup_import_loop k demo ib ivfd n i0 b w).2.2 =
        w ++ (List.range n).map (fun j =>
          Call.mmap (v4l2_buffer_plane_length b.buffer (i0 + j)) (ib.dma_buf_fd (i0 + j)) 0) ∧
      (demo_buffer_setup_import_loop k demo ib ivfd n i0 b w).2.1.dma_buf_fd = b.dma_buf_fd ∧
      (∀ j, j < n →
        ((demo_buffer_setup_import_loop k demo ib ivfd n i0 b w).2.1.buffer.planes
          (i0 + j)).fd = ib.dma_buf_fd (i0 + j) ∧
        (demo_buffer_setup_import_loop k demo ib ivfd n i0 b w).2.1.data (i0 + j) =
          (k (p0 + (i0 + j)) (.mmap (v4l2_buffer_plane_length b.buffer (i0 + j))
            (ib.dma_buf_fd (i0 + j)) 0)).ret) := by
  induction n with
  | zero => intro i0 b w _ _ _; simp [demo_buffer_setup_import_loop]
  | succ n ih =>
    intro i0 b w hw hlen hfd
    have hl0 := hlen 0 (by omega)
    have hf0 := hfd 0 (by omega)
    rw [Nat.add_zero] at hl0 hf0
    have hround := demo_buffer_setup_import_plane_heap k demo ib ivfd i0 b w ha hl0 hf0
      (hmap _ _ _ _)
    rw [demo_buffer_setup_import_loop_succ, hround]
    simp only [ne_eq, not_true_eq_false, if_false]
    have hih := ih (i0 + 1)
      { b with
        buffer := v4l2_buffer_setup_fd b.buffer i0 (ib.dma_buf_fd i0)
        data := Function.update b.data i0
          (k w.length (.mmap (v4l2_buffer_plane_length b.buffer i0) (ib.dma_buf_fd i0) 0)).ret }
      (w ++ [Call.mmap (v4l2_buffer_plane_length b.buffer i0) (ib.dma_buf_fd i0) 0])
      (by simp; omega)
      (fun j hj => by
        have := hlen (j + 1) (by omega)
        simp only [v4l2_buffer_setup_fd_length]
        have e : i0 + 1 + j = i0 + (j + 1) := by omega
        rw [e]; exact this)
      (fun j hj => by
        have := hfd (j + 1) (by omega)
        have e : i0 + 1 + j = i0 + (j + 1) := by omega
        rw [e]; exact this)
    obtain ⟨h1, h2, h3, h4⟩ := hih
    have hfr := (demo_buffer_setup_import_loop_frame k demo ib ivfd n (i0 + 1)
      { b with
        buffer := v4l2_buffer_setup_fd b.buffer i0 (ib.dma_buf_fd i0)
        data := Function.update b.data i0
          (k w.length (.mmap (v4l2_buffer_plane_length b.buffer i0) (ib.dma_buf_fd i0) 0)).ret }
      (w ++ [Call.mmap (v4l2_buffer_plane_length b.buffer i0) (ib.dma_buf_fd i0) 0])).2.2 i0
      (Or.inl (by omega))
    refine ⟨h1, ?_, h3, fun j hj => ?_⟩
    · rw [h2, range_succ_map_shift (fun i =>
        Call.mmap (v4l2_buffer_plane_length b.buffer i) (ib.dma_buf_fd i) 0)]
      simp [v4l2_buffer_setup_fd_length]
    · cases j with
      | zero =>
        simp only [Nat.add_zero]
        rw [hfr.1, hfr.2.2]
        simp only [Function.update_same, v4l2_buffer_setup_fd_same, hw, true_and]
      | succ j =>
        have := h4 j (by omega)
        have e : i0 + 1 + j = i0 + (j + 1) := by omega
        simp only [v4l2_buffer_setup_fd_length, e] at this
        exact this

/-- A list of the calls of consecutive planes, shifted by one. -/
theorem range_succ_flatMap_shift {α : Type} (g : Nat → List α) (i0 m : Nat) :
    (List.range (m + 1)).flatMap (fun j => g (i0 + j)) =
      g i0 ++ (List.range m).flatMap (fun j => g (i0 + 1 + j)) := by
  rw [List.range_succ_eq_map, List.flatMap_cons, List.flatMap_map]
  congr 1
  apply List.flatMap_congr
  intro j _
  simp only [Nat.succ_eq_add_one]
  congr 1
  omega

/-- Under the kernel allocator, when every length fits and every export and
every `mmap` succeeds, the loop of `demo_buffer_setup_import` succeeds with an
export, a `dup` and an `mmap` per plane. -/
theorem demo_buffer_setup_import_loop_export_ok (k : Kernel) (demo : Demo) (ib : DemoBuffer)
    (ivfd : Int) (p0 : Nat) (ha : demo.allocator ≠ DEMO_ALLOCATOR_DMA_HEAP)
    (hexp : ∀ pos v t i p f, (k pos (.v4l2_buffer_export v t i p f)).ret = 0)
    (hmap : ∀ pos l fd o, (k pos (.mmap l fd o)).ret ≠ MAP_FAILED) (n : Nat) :
    ∀ (i0 : Nat) (b : DemoBuffer) (w : World), w.length = p0 + 3 * i0 →
      (∀ j, j < n → v4l2_buffer_plane_length b.buffer (i0 + j) ≤
        v4l2_buffer_plane_length ib.buffer (i0 + j)) →
      (demo_buffer_setup_import_loop k demo ib ivfd n i0 b w).1 = 0 ∧
      (demo_buffer_setup_import_loop k demo ib ivfd n i0 b w).2.2 =
        w ++ (List.range n).flatMap (fun j => import_plane_calls k ib ivfd b p0 (i0 + j)) ∧
      (∀ j, j < n →
        ((demo_buffer_setup_import_loop k demo ib ivfd n i0 b w).2.1.buffer.planes
          (i0 + j)).fd = import_exported_fd k ib ivfd p0 (i0 + j) ∧
        (demo_buffer_setup_import_loop k demo ib ivfd n i0 b w).2.1.dma_buf_fd (i0 + j) =
          (k (p0 + 3 * (i0 + j) + 1) (.dup (import_exported_fd k ib ivfd p0 (i0 + j)))).ret ∧
        (demo_buffer_setup_import_loop k demo ib ivfd n i0 b w).2.1.data (i0 + j) =
          (k (p0 + 3 * (i0 + j) + 2) (.mmap (v4l2_buffer_plane_length b.buffer (i0 + j))
            (import_exported_fd k ib ivfd p0 (i0 + j)) 0)).ret) := by
  induction n with
  | zero => intro i0 b w _ _; simp [demo_buffer_setup_import_loop]
  | succ n ih =>
    intro i0 b w hw hlen
    have hl0 := hlen 0 (by omega)
    rw [Nat.add_zero] at hl0
    have hround := demo_buffer_setup_import_plane_export k demo ib ivfd i0 b w ha hl0
      (hexp _ _ _ _ _ _) (hmap _ _ _ _)
    rw [demo_buffer_setup_import_loop_succ, hround]
    simp only [ne_eq, not_true_eq_false, if_false]
    rw [hw]
    have hfdeq : (k (p0 + 3 * i0)
        (.v4l2_buffer_export ivfd ib.buffer.type ib.buffer.index i0 O_RDWR)).out =
        import_exported_fd k ib ivfd p0 i0 := rfl
    simp only [hfdeq]
    have hih := ih (i0 + 1)
      { b with
        dma_buf_fd := Function.update b.dma_buf_fd i0
          (k (p0 + 3 * i0 + 1) (.dup (import_exported_fd k ib ivfd p0 i0))).ret
        buffer := v4l2_buffer_setup_fd b.buffer i0 (import_exported_fd k ib ivfd p0 i0)
        data := Function.update b.data i0
          (k (p0 + 3 * i0 + 2) (.mmap (v4l2_buffer_plane_length b.buffer i0)
            (import_exported_fd k ib ivfd p0 i0) 0)).ret }
      (w ++ [Call.v4l2_buffer_export ivfd ib.buffer.type ib.buffer.index i0 O_RDWR,
          Call.dup (import_exported_fd k ib ivfd p0 i0),
          Call.mmap (v4l2_buffer_plane_length b.buffer i0)
            (import_exported_fd k ib ivfd p0 i0) 0])
      (by simp; omega)
      (fun j hj => by
        have := hlen (j + 1) (by omega)
        simp only [v4l2_buffer_setup_fd_length]
        have e : i0 + 1 + j = i0 + (j + 1) := by omega
        rw [e]; exact this)
    obtain ⟨h1, h2, h4⟩ := hih
    have hfr := (demo_buffer_setup_import_loop_frame k demo ib ivfd n (i0 + 1)
      { b with
        dma_buf_fd := Function.update b.dma_buf_fd i0
          (k (p0 + 3 * i0 + 1) (.dup (import_exported_fd k ib ivfd p0 i0))).ret
        buffer := v4l2_buffer_setup_fd b.buffer i0 (import_exported_fd k ib ivfd p0 i0)
        data := Function.update b.data i0
          (k (p0 + 3 * i0 + 2) (.mmap (v4l2_buffer_plane_length b.buffer i0)
            (import_exported_fd k ib ivfd p0 i0) 0)).ret }
      (w ++ [Call.v4l2_buffer_export ivfd ib.buffer.type ib.buffer.index i0 O_RDWR,
          Call.dup (import_exported_fd k ib ivfd p0 i0),
          Call.mmap (v4l2_buffer_plane_length b.buffer i0)
            (import_exported_fd k ib ivfd p0 i0) 0])).2.2 i0 (Or.inl (by omega))
    refine ⟨h1, ?_, fun j hj => ?_⟩
    · rw [h2, range_succ_flatMap_shift (fun i => import_plane_calls k ib ivfd b p0 i)]
      simp [import_plane_calls, v4l2_buffer_setup_fd_length]
    · cases j with
      | zero =>
        simp only [Nat.add_zero]
        rw [hfr.1, hfr.2.1, hfr.2.2]
        simp only [Function.update_same, v4l2_buffer_setup_fd_same, and_self]
      | succ j =>
        have := h4 j (by omega)
        have e : i0 + 1 + j = i0 + (j + 1) := by omega
        simp only [v4l2_buffer_setup_fd_length, e] at this
        exact this

/-- Claim C4, counterexample. The importer and the exporter have two planes
each and no importer plane requires more than the exporter has, yet
`demo_buffer_setup_import` fails, with `-ENOMEM`: the `mmap` of plane 0
fails. -/
theorem import_fit_can_fail :
    buffer_import_fit.planes_count = buffer_two.planes_count ∧
    (∀ i, i < buffer_import_fit.planes_count →
      v4l2_buffer_plane_length buffer_import_fit.buffer i ≤
        v4l2_buffer_plane_length buffer_two.buffer i) ∧
    (demo_buffer_setup_import kernel_mmap_fail [] demo_heap buffer_import_fit buffer_two 5).1 =
      -ENOMEM ∧
    (demo_buffer_setup_import kernel_mmap_fail [] demo_heap buffer_import_fit buffer_two 5).1 ≠
      0 := by
  decide

/-- Claim C4, amended. Let the importer and the exporter have equal plane
counts, let no importer plane require more than the exporter has, and let
every export and every `mmap` of the kernel succeed. Under the heap allocator,
when every exporter plane has a share-handle, `demo_buffer_setup_import`
returns 0 after one `mmap` per plane: each plane is attached to and mapped from
the share-handle of the exporter, and the share-handle slots of the importer
are not written. Under the other allocator it returns 0 after an export, a
`dup` and an `mmap` per plane: each plane is attached to and mapped from the
descriptor that the export returned, and the share-handle slot of the importer
holds the duplicate of that descriptor. -/
theorem import_fit_succeeds (k : Kernel) (w : World) (demo : Demo)
    (buffer import_buffer : DemoBuffer) (import_video_fd : Int)
    (hc : buffer.planes_count = import_buffer.planes_count)
    (hlen : ∀ i, i < buffer.planes_count →
      v4l2_buffer_plane_length buffer.buffer i ≤ v4l2_buffer_plane_length import_buffer.buffer i)
    (hexp : ∀ pos v t i p f, (k pos (.v4l2_buffer_export v t i p f)).ret = 0)
    (hmap : ∀ pos l fd o, (k pos (.mmap l fd o)).ret ≠ MAP_FAILED) :
    (demo.allocator = DEMO_ALLOCATOR_DMA_HEAP →
      (∀ i, i < buffer.planes_count → 0 ≤ import_buffer.dma_buf_fd i) →
      (demo_buffer_setup_import k w demo buffer import_buffer import_video_fd).1 = 0 ∧
      (demo_buffer_setup_import k w demo buffer import_buffer import_video_fd).2.2 =
        w ++ import_heap_calls import_buffer buffer buffer.planes_count ∧
      (demo_buffer_setup_import k w demo buffer import_buffer import_video_fd).2.1.dma_buf_fd =
        buffer.dma_buf_fd ∧
      (∀ i, i < buffer.planes_count →
        ((demo_buffer_setup_import k w demo buffer import_buffer
          import_video_fd).2.1.buffer.planes i).fd = import_buffer.dma_buf_fd i ∧
        (demo_buffer_setup_import k w demo buffer import_buffer import_video_fd).2.1.data i =
          (k (w.length + i) (.mmap (v4l2_buffer_plane_length buffer.buffer i)
            (import_buffer.dma_buf_fd i) 0)).ret ∧
        (demo_buffer_setup_import k w demo buffer import_buffer import_video_fd).2.1.data i ≠
          MAP_FAILED)) ∧
    (demo.allocator ≠ DEMO_ALLOCATOR_DMA_HEAP →
      (demo_buffer_setup_import k w demo buffer import_buffer import_video_fd).1 = 0 ∧
      (demo_buffer_setup_import k w demo buffer import_buffer import_video_fd).2.2 =
        w ++ (List.range buffer.planes_count).flatMap
          (import_plane_calls k import_buffer import_video_fd buffer w.length) ∧
      (∀ i, i < buffer.planes_count →
        ((demo_buffer_setup_import k w demo buffer import_buffer
          import_video_fd).2.1.buffer.planes i).fd =
            import_exported_fd k import_buffer import_video_fd w.length i ∧
        (demo_buffer_setup_import k w demo buffer import_buffer
          import_video_fd).2.1.dma_buf_fd i =
            (k (w.length + 3 * i + 1)
              (.dup (import_exported_fd k import_buffer import_video_fd w.length i))).ret ∧
        (demo_buffer_setup_import k w demo buffer import_buffer import_video_fd).2.1.data i =
          (k (w.length + 3 * i + 2) (.mmap (v4l2_buffer_plane_length buffer.buffer i)
            (import_exported_fd k import_buffer import_video_fd w.length i) 0)).ret ∧
        (demo_buffer_setup_import k w demo buffer import_buffer import_video_fd).2.1.data i ≠
          MAP_FAILED)) := by
  have hun : demo_buffer_setup_import k w demo buffer import_buffer import_video_fd =
      demo_buffer_setup_import_loop k demo import_buffer import_video_fd buffer.planes_count 0
        buffer w := by
    unfold demo_buffer_setup_import
    rw [if_neg (by simpa using hc)]
  rw [hun]
  constructor
  · intro ha hfd
    obtain ⟨h1, h2, h3, h4⟩ := demo_buffer_setup_import_loop_heap_ok k demo import_buffer
      import_video_fd w.length ha hmap buffer.planes_count 0 buffer w rfl
      (fun j hj => by rw [Nat.zero_add]; exact hlen j hj)
      (fun j hj => by rw [Nat.zero_add]; exact hfd j hj)
    refine ⟨h1, ?_, h3, fun i hi => ?_⟩
    · rw [h2]; simp [import_heap_calls]
    · have := h4 i hi
      simp only [Nat.zero_add] at this
      exact ⟨this.1, this.2, by rw [this.2]; exact hmap _ _ _ _⟩
  · intro ha
    obtain ⟨h1, h2, h4⟩ := demo_buffer_setup_import_loop_export_ok k demo import_buffer
      import_video_fd w.length ha hexp hmap buffer.planes_count 0 buffer w rfl
      (fun j hj => by rw [Nat.zero_add]; exact hlen j hj)
    refine ⟨h1, ?_, fun i hi => ?_⟩
    · rw [h2]; simp
    · have := h4 i hi
      simp only [Nat.zero_add] at this
      exact ⟨this.1, this.2.1, this.2.2, by rw [this.2.2]; exact hmap _ _ _ _⟩

theorem kernel_ok_export (pos : Nat) (v : Int) (t i p f : Nat) :
    (kernel_ok pos (.v4l2_buffer_export v t i p f)).ret = 0 := rfl

theorem kernel_ok_mmap (pos l : Nat) (fd : Int) (o : Nat) :
    (kernel_ok pos (.mmap l fd o)).ret ≠ MAP_FAILED := by
  show ((4096 * (pos + 1) : Nat) : Int) ≠ -1
  omega

theorem import_rejects_short_exporter_witness :
    demo_buffer_setup_import kernel_ok [] demo_heap buffer_capture buffer_two 5 =
      (-EINVAL, buffer_capture, []) ∧
    (demo_buffer_setup_import kernel_ok [] demo_heap buffer_import2 buffer_two 5).1 = -EINVAL :=
  ⟨(import_rejects_short_exporter kernel_ok [] demo_heap buffer_capture buffer_two 5).1
      (by decide),
   ((import_rejects_short_exporter kernel_ok [] demo_heap buffer_import2 buffer_two 5).2 1
      (by decide) (by decide) (by decide)).2.1 (by decide)⟩

theorem import_fit_succeeds_witness :
    (demo_buffer_setup_import kernel_ok [] demo_heap buffer_import_fit buffer_two 5).1 = 0 ∧
    (demo_buffer_setup_import kernel_ok [] demo_v4l2 buffer_import_fit buffer_two 5).1 = 0 :=
  ⟨((import_fit_succeeds kernel_ok [] demo_heap buffer_import_fit buffer_two 5 (by decide)
      (by decide) kernel_ok_export kernel_ok_mmap).1 (by decide) (by decide)).1,
   ((import_fit_succeeds kernel_ok [] demo_v4l2 buffer_import_fit buffer_two 5 (by decide)
      (by decide) kernel_ok_export kernel_ok_mmap).2 (by decide)).1⟩

/-- Claim C5, the code at the failing input. A buffer with two planes whose
plane 0 is mapped and whose plane 1 fails to map: each of the three setup paths
returns `-ENOMEM` and its calls end with the failed `mmap`; no `munmap` and no
`close` is issued, plane 0 stays mapped and, on the paths that own a
share-handle for plane 0, that handle stays open. -/
theorem setup_error_keeps_mappings :
    (demo_buffer_setup_v4l2 kernel_mmap_fail_big [] demo_v4l2 buffer_import2 4).1 = -ENOMEM ∧
    (demo_buffer_setup_v4l2 kernel_mmap_fail_big [] demo_v4l2 buffer_import2 4).2.2 =
      [Call.mmap 4096 4 0, Call.mmap 8192 4 0] ∧
    (demo_buffer_setup_v4l2 kernel_mmap_fail_big [] demo_v4l2 buffer_import2 4).2.1.data 0 =
      4096 ∧
    (demo_buffer_setup_dma_heap kernel_mmap_fail_big [] demo_heap buffer_import2 4).1 =
      -ENOMEM ∧
    (demo_buffer_setup_dma_heap kernel_mmap_fail_big [] demo_heap buffer_import2 4).2.2 =
      [Call.dma_heap_alloc 3 4096 2, Call.mmap 4096 100 0,
       Call.dma_heap_alloc 3 8192 2, Call.mmap 8192 102 0] ∧
    (demo_buffer_setup_dma_heap kernel_mmap_fail_big [] demo_heap buffer_import2 4).2.1.data 0 =
      8192 ∧
    (demo_buffer_setup_dma_heap kernel_mmap_fail_big [] demo_heap
      buffer_import2 4).2.1.dma_buf_fd 0 = 100 ∧
    (demo_buffer_setup_dma_heap kernel_mmap_fail_big [] demo_heap
      buffer_import2 4).2.1.dma_buf_fd 1 = 102 ∧
    (demo_buffer_setup_import kernel_mmap_fail_big [] demo_v4l2 buffer_import2
      buffer_export_big 5).1 = -ENOMEM ∧
    (demo_buffer_setup_import kernel_mmap_fail_big [] demo_v4l2 buffer_import2
      buffer_export_big 5).2.2 =
      [Call.v4l2_buffer_export 5 10 0 0 2, Call.dup 300, Call.mmap 4096 300 0,
       Call.v4l2_buffer_export 5 10 0 1 2, Call.dup 303, Call.mmap 8192 303 0] ∧
    (demo_buffer_setup_import kernel_mmap_fail_big [] demo_v4l2 buffer_import2
      buffer_export_big 5).2.1.data 0 = 12288 ∧
    (demo_buffer_setup_import kernel_mmap_fail_big [] demo_v4l2 buffer_import2
      buffer_export_big 5).2.1.dma_buf_fd 0 = 201 := by
  decide

/-! ## Synchronisation of heap-exported and imported buffers -/

/-- On a buffer whose plane 0 has a share-handle, `demo_buffer_sync` issues a
call for plane 0 when there is a plane at all, and for every plane when it
returns 0. -/
theorem demo_buffer_sync_issues (k : Kernel) (w : World) (b : DemoBuffer) (f : Nat)
    (h0 : 0 ≤ b.dma_buf_fd 0) :
    ∃ m, (0 < b.planes_count → 0 < m) ∧ m ≤ b.planes_count ∧
      (demo_buffer_sync k w b f).2 = w ++ sync_calls b f m ∧
      ((demo_buffer_sync k w b f).1 = 0 → m = b.planes_count) := by
  unfold demo_buffer_sync
  rw [if_neg (by omega)]
  cases hn : b.planes_count with
  | zero => exact ⟨0, by simp, by simp, by simp [demo_buffer_sync_loop, sync_calls], fun _ => rfl⟩
  | succ n =>
    rw [demo_buffer_sync_loop]
    split
    · rename_i hne
      refine ⟨1, fun _ => by omega, by omega, ?_, fun h => absurd h hne⟩
      simp [dma_buf_sync_world, sync_calls, List.range_succ_eq_map]
    · obtain ⟨m, hm, ht, hz⟩ := demo_buffer_sync_loop_trace k b f n 1
        (dma_buf_sync k w (b.dma_buf_fd 0) f).2
      refine ⟨m + 1, fun _ => by omega, by omega, ?_, fun h => by rw [hz h]⟩
      rw [ht, dma_buf_sync_world]
      have := range_succ_map_shift (fun i => Call.dma_buf_sync (b.dma_buf_fd i) f) 0 m
      simp only [Nat.zero_add] at this
      simp only [sync_calls, this]
      simp [Nat.add_comm]

/-- The loop of `demo_buffer_setup_dma_heap` keeps the plane count and leaves
the planes below `i0` as they are. -/
theorem demo_buffer_setup_dma_heap_loop_frame (k : Kernel) (demo : Demo) (n : Nat) :
    ∀ (i0 : Nat) (b : DemoBuffer) (w : World),
      (demo_buffer_setup_dma_heap_loop k demo n i0 b w).2.1.planes_count = b.planes_count ∧
      (∀ j, j < i0 →
        (demo_buffer_setup_dma_heap_loop k demo n i0 b w).2.1.dma_buf_fd j = b.dma_buf_fd j ∧
        (demo_buffer_setup_dma_heap_loop k demo n i0 b w).2.1.buffer.planes j =
          b.buffer.planes j) := by
  induction n with
  | zero => intro i0 b w; simp [demo_buffer_setup_dma_heap_loop]
  | succ n ih =>
    intro i0 b w
    unfold demo_buffer_setup_dma_heap_loop
    simp only
    repeat' split
    all_goals first
      | (refine ⟨rfl, fun j hj => ?_⟩
         have hne : j ≠ i0 := by omega
         exact ⟨by first | rfl | exact Function.update_noteq hne _ _,
           by first | rfl | exact v4l2_buffer_setup_fd_other _ _ _ _ hne⟩)
      | (refine ⟨(ih _ _ _).1, fun j hj => ?_⟩
         have hne : j ≠ i0 := by omega
         rw [((ih _ _ _).2 j (by omega)).1, ((ih _ _ _).2 j (by omega)).2]
         exact ⟨Function.update_noteq hne _ _, v4l2_buffer_setup_fd_other _ _ _ _ hne⟩)

/-- After a successful run of the loop of `demo_buffer_setup_dma_heap` every
plane it went over has a share-handle, and the plane is attached to it. -/
theorem demo_buffer_setup_dma_heap_loop_ok (k : Kernel) (demo : Demo) (n : Nat) :
    ∀ (i0 : Nat) (b : DemoBuffer) (w : World),
      (demo_buffer_setup_dma_heap_loop k demo n i0 b w).1 = 0 →
      ∀ j, j < n →
        0 ≤ (demo_buffer_setup_dma_heap_loop k demo n i0 b w).2.1.dma_buf_fd (i0 + j) ∧
        ((demo_buffer_setup_dma_heap_loop k demo n i0 b w).2.1.buffer.planes (i0 + j)).fd =
          (demo_buffer_setup_dma_heap_loop k demo n i0 b w).2.1.dma_buf_fd (i0 + j) := by
  induction n with
  | zero => intro i0 b w _ j hj; omega
  | succ n ih =>
    intro i0 b w
    unfold demo_buffer_setup_dma_heap_loop
    simp only
    split
    · intro h; simp at h
    · rename_i hfd
      split
      · intro h; simp at h
      · intro h j hj
        cases j with
        | zero =>
          simp only [Nat.add_zero]
          rw [((demo_buffer_setup_dma_heap_loop_frame k demo n (i0 + 1) _ _).2 i0 (by omega)).1,
            ((demo_buffer_setup_dma_heap_loop_frame k demo n (i0 + 1) _ _).2 i0 (by omega)).2]
          simp only [Function.update_same, v4l2_buffer_setup_fd_same, and_true]
          omega
        | succ j =>
          have := ih (i0 + 1) _ _ h j (by omega)
          have e : i0 + 1 + j = i0 + (j + 1) := by omega
          rw [e] at this
          exact this

/-- Under the heap allocator a round of the import loop does not write the
share-handle slots of the importer. -/
theorem demo_buffer_setup_import_plane_heap_fd (k : Kernel) (demo : Demo) (ib : DemoBuffer)
    (ivfd : Int) (i : Nat) (b : DemoBuffer) (w : World)
    (ha : demo.allocator = DEMO_ALLOCATOR_DMA_HEAP) :
    (demo_buffer_setup_import_plane k demo ib ivfd i b w).2.1.dma_buf_fd = b.dma_buf_fd := by
  unfold demo_buffer_setup_import_plane
  rw [demo_buffer_setup_import_loop]
  simp only [demo_buffer_setup_import_loop, ha, if_true]
  repeat' split
  all_goals rfl

/-- Under the heap allocator the import loop does not write the share-handle
slots of the importer. -/
theorem demo_buffer_setup_import_loop_heap_fd (k : Kernel) (demo : Demo) (ib : DemoBuffer)
    (ivfd : Int) (ha : demo.allocator = DEMO_ALLOCATOR_DMA_HEAP) (n : Nat) :
    ∀ (i0 : Nat) (b : DemoBuffer) (w : World),
      (demo_buffer_setup_import_loop k demo ib ivfd n i0 b w).2.1.dma_buf_fd = b.dma_buf_fd := by
  induction n with
  | zero => intro i0 b w; simp [demo_buffer_setup_import_loop]
  | succ n ih =>
    intro i0 b w
    rw [demo_buffer_setup_import_loop_succ]
    split
    · exact demo_buffer_setup_import_plane_heap_fd k demo ib ivfd i0 b w ha
    · rw [ih]
      exact demo_buffer_setup_import_plane_heap_fd k demo ib ivfd i0 b w ha

/-- Under the kernel allocator a successful round of the import loop stores in
the share-handle slot of the plane the result of a `dup` of the descriptor the
plane is attached to. -/
theorem demo_buffer_setup_import_plane_export_fd (k : Kernel) (demo : Demo) (ib : DemoBuffer)
    (ivfd : Int) (i : Nat) (b : DemoBuffer) (w : World)
    (ha : demo.allocator ≠ DEMO_ALLOCATOR_DMA_HEAP)
    (h0 : (demo_buffer_setup_import_plane k demo ib ivfd i b w).1 = 0) :
    ∃ pos fd,
      (demo_buffer_setup_import_plane k demo ib ivfd i b w).2.1.dma_buf_fd i =
        (k pos (.dup fd)).ret ∧
      ((demo_buffer_setup_import_plane k demo ib ivfd i b w).2.1.buffer.planes i).fd = fd := by
  unfold demo_buffer_setup_import_plane at h0 ⊢
  rw [demo_buffer_setup_import_loop] at h0 ⊢
  simp only [demo_buffer_setup_import_loop, if_neg ha] at h0 ⊢
  by_cases h1 : v4l2_buffer_plane_length ib.buffer i < v4l2_buffer_plane_length b.buffer i
  · rw [if_pos h1] at h0
    simp at h0
  · rw [if_neg h1] at h0 ⊢
    by_cases h2 :
        (sys k w (Call.v4l2_buffer_export ivfd ib.buffer.type ib.buffer.index i O_RDWR)).1.ret ≠ 0
    · rw [if_pos h2] at h0
      exact absurd h0 h2
    · rw [if_neg h2] at h0 ⊢
      split at h0
      · simp at h0
      · rename_i h3
        rw [if_neg h3]
        refine ⟨(sys k w (Call.v4l2_buffer_export ivfd ib.buffer.type ib.buffer.index i
            O_RDWR)).2.length,
          (sys k w (Call.v4l2_buffer_export ivfd ib.buffer.type ib.buffer.index i O_RDWR)).1.out,
          ?_, v4l2_buffer_setup_fd_same _ _ _⟩
        simp only [Function.update_same, sys_reply]

/-- Under the kernel allocator, after a successful run of the import loop the
share-handle slot of every plane it went over holds the result of a `dup` of
the descriptor the plane is attached to. -/
theorem demo_buffer_setup_import_loop_export_fd (k : Kernel) (demo : Demo) (ib : DemoBuffer)
    (ivfd : Int) (ha : demo.allocator ≠ DEMO_ALLOCATOR_DMA_HEAP) (n : Nat) :
    ∀ (i0 : Nat) (b : DemoBuffer) (w : World),
      (demo_buffer_setup_import_loop k demo ib ivfd n i0 b w).1 = 0 →
      ∀ j, j < n → ∃ pos fd,
        (demo_buffer_setup_import_loop k demo ib ivfd n i0 b w).2.1.dma_buf_fd (i0 + j) =
          (k pos (.dup fd)).ret ∧
        ((demo_buffer_setup_import_loop k demo ib ivfd n i0 b w).2.1.buffer.planes
          (i0 + j)).fd = fd := by
  induction n with
  | zero => intro i0 b w _ j hj; omega
  | succ n ih =>
    intro i0 b w
    rw [demo_buffer_setup_import_loop_succ]
    split
    · rename_i hne
      intro h; exact absurd h hne
    · rename_i hz
      intro h j hj
      cases j with
      | zero =>
        obtain ⟨pos, fd, e1, e2⟩ := demo_buffer_setup_import_plane_export_fd k demo ib ivfd i0 b w
          ha (by simpa using hz)
        have hfr := (demo_buffer_setup_import_loop_frame k demo ib ivfd n (i0 + 1)
          (demo_buffer_setup_import_plane k demo ib ivfd i0 b w).2.1
          (demo_buffer_setup_import_plane k demo ib ivfd i0 b w).2.2).2.2 i0 (Or.inl (by omega))
        simp only [Nat.add_zero]
        refine ⟨pos, fd, ?_, ?_⟩
        · rw [hfr.2.1, e1]
        · rw [hfr.2.2, e2]
      | succ j =>
        have := ih (i0 + 1) _ _ h j (by omega)
        have e : i0 + 1 + j = i0 + (j + 1) := by omega
        rw [e] at this
        exact this

/-- Claim C9, counterexample. Under `kernel_ok`, with the camera as source and
the heap allocator, `demo_setup` succeeds; output buffer 0 of the decoder is
imported, its plane 0 is attached to the share-handle 106 of the camera
buffer, but its own `dma_buf_fd[0]` is -1, and `demo_buffer_sync_begin` and
`demo_buffer_sync_finish` on it return 0 without any call. -/
theorem imported_heap_sync_is_silent :
    (demo_setup kernel_ok [] demo_opened DEMO_SOURCE_CAMERA DEMO_ALLOCATOR_DMA_HEAP
      1280 720).map (fun r => r.1) = some 0 ∧
    imported_heap_sample.planes_count = 1 ∧
    (imported_heap_sample.buffer.planes 0).fd = 106 ∧
    imported_heap_sample.dma_buf_fd 0 = -1 ∧
    demo_buffer_sync_begin kernel_ok [] imported_heap_sample = (0, []) ∧
    demo_buffer_sync_finish kernel_ok [] imported_heap_sample = (0, []) := by
  decide

theorem sync_reaches_handles_of_fd (b : DemoBuffer) (hn : 0 < b.planes_count)
    (h0 : 0 ≤ b.dma_buf_fd 0) : sync_reaches_handles b := by
  intro k w
  constructor
  · obtain ⟨m, h1, h2, h3, h4⟩ := demo_buffer_sync_issues k w b
      (demo_buffer_sync_flags b ||| DMA_BUF_SYNC_START) h0
    exact ⟨m, h1 hn, h2, h3, h4⟩
  · obtain ⟨m, h1, h2, h3, h4⟩ := demo_buffer_sync_issues k w b
      (demo_buffer_sync_flags b ||| DMA_BUF_SYNC_END) h0
    exact ⟨m, h1 hn, h2, h3, h4⟩

theorem sync_is_silent_of_fd (b : DemoBuffer)
    (h : ∀ i, i < b.planes_count → b.dma_buf_fd i = -1) : sync_is_silent b := by
  have hsync : ∀ (k : Kernel) (w : World) (f : Nat), demo_buffer_sync k w b f = (0, w) := by
    intro k w f
    unfold demo_buffer_sync
    by_cases hz : b.planes_count = 0
    · rw [hz]
      split <;> simp [demo_buffer_sync_loop]
    · rw [h 0 (Nat.pos_of_ne_zero hz)]
      simp
  intro k w
  exact ⟨hsync _ _ _, hsync _ _ _⟩

/-- Claim C9, amended. A buffer set up successfully by
`demo_buffer_setup_dma_heap` has in `dma_buf_fd[i]`, for every plane, a
share-handle to which the plane is attached, and so has a buffer set up
successfully by `demo_buffer_setup_import` under an allocator other than the
heap when every `dup` succeeded; on such a buffer with at least one plane the
bracket is not silent: begin and finish issue `dma_buf_sync` on the handle of
plane 0 and go on plane by plane, to the last plane when they return 0. A
buffer set up successfully by `demo_buffer_setup` with import under the heap
allocator has -1 in `dma_buf_fd[i]` for every plane, and the bracket is silent
on it. -/
theorem sync_on_owned_handles (k : Kernel) (w : World) (demo : Demo) (buffer : DemoBuffer) :
    (∀ video_fd, (demo_buffer_setup_dma_heap k w demo buffer video_fd).1 = 0 →
      (∀ i, i < buffer.planes_count →
        0 ≤ (demo_buffer_setup_dma_heap k w demo buffer video_fd).2.1.dma_buf_fd i ∧
        ((demo_buffer_setup_dma_heap k w demo buffer video_fd).2.1.buffer.planes i).fd =
          (demo_buffer_setup_dma_heap k w demo buffer video_fd).2.1.dma_buf_fd i) ∧
      (0 < buffer.planes_count →
        sync_reaches_handles (demo_buffer_setup_dma_heap k w demo buffer video_fd).2.1)) ∧
    (∀ import_buffer import_video_fd, demo.allocator ≠ DEMO_ALLOCATOR_DMA_HEAP →
      (demo_buffer_setup_import k w demo buffer import_buffer import_video_fd).1 = 0 →
      (∀ pos fd, 0 ≤ (k pos (.dup fd)).ret) →
      (∀ i, i < buffer.planes_count →
        0 ≤ (demo_buffer_setup_import k w demo buffer import_buffer
          import_video_fd).2.1.dma_buf_fd i ∧
        ∃ pos,
          (demo_buffer_setup_import k w demo buffer import_buffer
            import_video_fd).2.1.dma_buf_fd i =
          (k pos (.dup ((demo_buffer_setup_import k w demo buffer import_buffer
            import_video_fd).2.1.buffer.planes i).fd)).ret) ∧
      (0 < buffer.planes_count →
        sync_reaches_handles
          (demo_buffer_setup_import k w demo buffer import_buffer import_video_fd).2.1)) ∧
    (∀ video_fd memory type index planes_count r,
      demo.allocator = DEMO_ALLOCATOR_DMA_HEAP →
      demo_buffer_setup k w demo buffer video_fd memory type index planes_count true = some r →
      r.1 = 0 →
      r.2.1.planes_count = planes_count ∧
      (∀ i, i < planes_count → r.2.1.dma_buf_fd i = -1) ∧
      sync_is_silent r.2.1) := by
  refine ⟨fun video_fd h0 => ?_, fun ib ivfd ha h0 hdup => ?_,
    fun video_fd memory type index planes_count r ha hs h0 => ?_⟩
  · unfold demo_buffer_setup_dma_heap at h0 ⊢
    have hok := demo_buffer_setup_dma_heap_loop_ok k demo buffer.planes_count 0 buffer w h0
    have hpc := (demo_buffer_setup_dma_heap_loop_frame k demo buffer.planes_count 0 buffer w).1
    refine ⟨fun i hi => ?_, fun hn => ?_⟩
    · have := hok i hi
      rwa [Nat.zero_add] at this
    · apply sync_reaches_handles_of_fd
      · rw [hpc]; exact hn
      · have := (hok 0 hn).1
        rwa [Nat.zero_add] at this
  · have hun : demo_buffer_setup_import k w demo buffer ib ivfd =
        demo_buffer_setup_import_loop k demo ib ivfd buffer.planes_count 0 buffer w := by
      unfold demo_buffer_setup_import at h0 ⊢
      split
      · rename_i hc
        rw [if_pos hc] at h0
        simp at h0
      · rfl
    rw [hun] at h0 ⊢
    have hok := demo_buffer_setup_import_loop_export_fd k demo ib ivfd ha buffer.planes_count 0
      buffer w h0
    have hpc := (demo_buffer_setup_import_loop_frame k demo ib ivfd buffer.planes_count 0
      buffer w).1
    have hfd : ∀ i, i < buffer.planes_count →
        0 ≤ (demo_buffer_setup_import_loop k demo ib ivfd buffer.planes_count 0 buffer
          w).2.1.dma_buf_fd i ∧
        ∃ pos,
          (demo_buffer_setup_import_loop k demo ib ivfd buffer.planes_count 0 buffer
            w).2.1.dma_buf_fd i =
          (k pos (.dup ((demo_buffer_setup_import_loop k demo ib ivfd buffer.planes_count 0
            buffer w).2.1.buffer.planes i).fd)).ret := by
      intro i hi
      obtain ⟨pos, fd, e1, e2⟩ := hok i hi
      rw [Nat.zero_add] at e1 e2
      exact ⟨by rw [e1]; exact hdup _ _, pos, by rw [e1, e2]⟩
    refine ⟨hfd, fun hn => ?_⟩
    apply sync_reaches_handles_of_fd
    · rw [hpc]; exact hn
    · exact (hfd 0 hn).1
  · unfold demo_buffer_setup at hs
    simp only [↓reduceIte] at hs
    split at hs
    · rename_i hb
      simp only [Option.some.injEq] at hs
      subst hs
      exact absurd h0 hb
    · rename_i hb
      have hb0 : (demo_buffer_setup_base k w buffer video_fd memory type index
          planes_count).1 = 0 := by simpa using hb
      obtain ⟨hn, hfd, _, _, _, _⟩ :=
        demo_buffer_setup_base_ok k w buffer video_fd memory type index planes_count hb0
      split at hs
      · simp at hs
      · rename_i ibuf _
        simp only [Option.some.injEq] at hs
        subst hs
        have hun : demo_buffer_setup_import k
            (demo_buffer_setup_base k w buffer video_fd memory type index planes_count).2.2 demo
            (demo_buffer_setup_base k w buffer video_fd memory type index planes_count).2.1
            ibuf demo.camera.video_fd =
            demo_buffer_setup_import_loop k demo ibuf demo.camera.video_fd
              (demo_buffer_setup_base k w buffer video_fd memory type index
                planes_count).2.1.planes_count 0
              (demo_buffer_setup_base k w buffer video_fd memory type index planes_count).2.1
              (demo_buffer_setup_base k w buffer video_fd memory type index
                planes_count).2.2 := by
          unfold demo_buffer_setup_import at h0 ⊢
          split
          · rename_i hc
            rw [if_pos hc] at h0
            simp at h0
          · rfl
        rw [hun]
        have hpc := (demo_buffer_setup_import_loop_frame k demo ibuf demo.camera.video_fd
          (demo_buffer_setup_base k w buffer video_fd memory type index
            planes_count).2.1.planes_count 0
          (demo_buffer_setup_base k w buffer video_fd memory type index planes_count).2.1
          (demo_buffer_setup_base k w buffer video_fd memory type index planes_count).2.2).1
        have hfdeq := demo_buffer_setup_import_loop_heap_fd k demo ibuf demo.camera.video_fd ha
          (demo_buffer_setup_base k w buffer video_fd memory type index
            planes_count).2.1.planes_count 0
          (demo_buffer_setup_base k w buffer video_fd memory type index planes_count).2.1
          (demo_buffer_setup_base k w buffer video_fd memory type index planes_count).2.2
        have hall : ∀ i, i < planes_count →
            (demo_buffer_setup_import_loop k demo ibuf demo.camera.video_fd
              (demo_buffer_setup_base k w buffer video_fd memory type index
                planes_count).2.1.planes_count 0
              (demo_buffer_setup_base k w buffer video_fd memory type index planes_count).2.1
              (demo_buffer_setup_base k w buffer video_fd memory type index
                planes_count).2.2).2.1.dma_buf_fd i = -1 := by
          intro i hi
          rw [hfdeq]
          exact hfd i hi
        refine ⟨by rw [hpc, hn], hall, ?_⟩
        apply sync_is_silent_of_fd
        intro i hi
        rw [hpc, hn] at hi
        exact hall i hi

theorem kernel_ok_dup (pos : Nat) (fd : Int) : 0 ≤ (kernel_ok pos (.dup fd)).ret := by
  show (0 : Int) ≤ 200 + (pos : Int)
  omega

theorem sync_on_owned_handles_witness :
    sync_reaches_handles
      (demo_buffer_setup_dma_heap kernel_ok [] demo_heap buffer_import_fit 4).2.1 ∧
    sync_reaches_handles
      (demo_buffer_setup_import kernel_ok [] demo_v4l2 buffer_import_fit buffer_two 5).2.1 ∧
    sync_is_silent imported_heap_setup.2.1 :=
  ⟨((sync_on_owned_handles kernel_ok [] demo_heap buffer_import_fit).1 4 (by decide)).2
      (by decide),
   ((sync_on_owned_handles kernel_ok [] demo_v4l2 buffer_import_fit).2.1 buffer_two 5
      (by decide) (by decide) kernel_ok_dup).2 (by decide),
   ((sync_on_owned_handles kernel_ok [] demo_camera_heap_ready buffer_zero).2.2 4
      V4L2_MEMORY_DMABUF V4L2_BUF_TYPE_VIDEO_OUTPUT 0 1 imported_heap_setup (by decide) rfl
      (by decide)).2.2⟩

/-! ## Matched synchronisation pairs -/

theorem sync_events_append (a b : List Call) :
    sync_events (a ++ b) = sync_events a ++ sync_events b := by
  simp [sync_events, List.filterMap_append]

theorem emits_refl (w : World) : emits w w [] := ⟨[], by simp, rfl⟩

theorem emits_trans {w w1 w2 : World} {e1 e2 : List (Int × Nat)} (h1 : emits w w1 e1)
    (h2 : emits w1 w2 e2) : emits w w2 (e1 ++ e2) := by
  obtain ⟨a, rfl, rfl⟩ := h1
  obtain ⟨b, rfl, rfl⟩ := h2
  exact ⟨a ++ b, by simp, sync_events_append a b⟩

/-- Two quiet extensions make a quiet extension. -/
theorem quiet_trans {w w1 w2 : World} (h1 : emits w w1 []) (h2 : emits w1 w2 []) :
    emits w w2 [] := by
  have := emits_trans h1 h2
  simpa using this

/-- A call other than a synchronisation extends the trace quietly. -/
theorem quiet_sys {w w1 : World} (k : Kernel) (c : Call) (h1 : emits w w1 [])
    (hc : c.sync_event = none) : emits w (sys k w1 c).2 [] := by
  refine quiet_trans h1 ⟨[c], rfl, ?_⟩
  simp [sync_events, hc]

theorem sync_events_sync_calls (b : DemoBuffer) (f m : Nat) :
    sync_events (sync_calls b f m) = sync_pairs b f m := by
  unfold sync_events sync_calls sync_pairs
  induction (List.range m) with
  | nil => rfl
  | cons i l ih => simp [Call.sync_event, ih]

/-- What `demo_buffer_sync` adds to the trace: nothing on a buffer without a
share-handle on plane 0, and otherwise the events of the first `m` planes,
with `m` the plane count when it returns 0. -/
theorem demo_buffer_sync_emits (k : Kernel) (w : World) (b : DemoBuffer) (f : Nat) :
    ∃ m, m ≤ b.planes_count ∧ emits w (demo_buffer_sync k w b f).2 (sync_pairs b f m) ∧
      (b.dma_buf_fd 0 < 0 → m = 0) ∧
      ((demo_buffer_sync k w b f).1 = 0 → 0 ≤ b.dma_buf_fd 0 → m = b.planes_count) := by
  by_cases hfd : b.dma_buf_fd 0 < 0
  · refine ⟨0, Nat.zero_le _, ?_, fun _ => rfl, fun _ h => by omega⟩
    unfold demo_buffer_sync
    rw [if_pos hfd]
    exact emits_refl w
  · obtain ⟨m, hm, ht, hz⟩ := demo_buffer_sync_trace k w b f
    exact ⟨m, hm, ⟨_, ht, sync_events_sync_calls b f m⟩, fun h => absurd h hfd, hz⟩

theorem sync_paired_nil : sync_paired [] := by
  refine ⟨fun n fd => ?_, fun fd => rfl, rfl⟩
  simp [ends_on, starts_on]

theorem sync_paired_append {a b : List (Int × Nat)} (ha : sync_paired a) (hb : sync_paired b) :
    sync_paired (a ++ b) := by
  obtain ⟨a1, a2, a3⟩ := ha
  obtain ⟨b1, b2, b3⟩ := hb
  refine ⟨fun n fd => ?_, fun fd => ?_, ?_⟩
  · rw [List.take_append_eq_append_take]
    have h1 := a1 n fd
    have h2 := b1 (n - a.length) fd
    unfold ends_on starts_on at h1 h2 ⊢
    rw [List.countP_append, List.countP_append]
    omega
  · have h1 := a2 fd
    have h2 := b2 fd
    unfold ends_on starts_on at h1 h2 ⊢
    rw [List.countP_append, List.countP_append]
    omega
  · unfold count_start count_end at a3 b3 ⊢
    rw [List.countP_append, List.countP_append]
    omega

theorem starts_on_map_start (l : List Int) (fs : Nat) (hs : is_end fs = false) (fd : Int) :
    starts_on fd (l.map fun x => (x, fs)) = l.countP (fun x => decide (x = fd)) ∧
    ends_on fd (l.map fun x => (x, fs)) = 0 := by
  unfold starts_on ends_on
  rw [List.countP_map, List.countP_map]
  constructor
  · apply List.countP_congr
    intro x _
    simp [hs]
  · rw [List.countP_eq_zero]
    intro x _
    simp [hs]

theorem ends_on_map_end (l : List Int) (fe : Nat) (he : is_end fe = true) (fd : Int) :
    ends_on fd (l.map fun x => (x, fe)) = l.countP (fun x => decide (x = fd)) ∧
    starts_on fd (l.map fun x => (x, fe)) = 0 := by
  unfold starts_on ends_on
  rw [List.countP_map, List.countP_map]
  constructor
  · apply List.countP_congr
    intro x _
    simp [he]
  · rw [List.countP_eq_zero]
    intro x _
    simp [he]

/-- A run of START calls on a list of handles followed by a run of END calls
on the same handles is matched. -/
theorem sync_paired_block (l : List Int) (fs fe : Nat) (hs : is_end fs = false)
    (he : is_end fe = true) :
    sync_paired ((l.map fun x => (x, fs)) ++ (l.map fun x => (x, fe))) := by
  refine ⟨fun n fd => ?_, fun fd => ?_, ?_⟩
  · rw [List.take_append_eq_append_take]
    obtain ⟨s1, s2⟩ := starts_on_map_start l fs hs fd
    obtain ⟨e1, e2⟩ := ends_on_map_end l fe he fd
    have hE1 : ends_on fd ((l.map fun x => (x, fs)).take n) = 0 := by
      have := List.Sublist.countP_le (fun x : Int × Nat => decide (x.1 = fd) && is_end x.2)
        (List.take_sublist n (l.map fun x => (x, fs)))
      unfold ends_on at s2 ⊢
      omega
    have hE2 : ends_on fd ((l.map fun x => (x, fe)).take (n - (l.map fun x => (x, fs)).length))
        ≤ l.countP (fun x => decide (x = fd)) := by
      have := List.Sublist.countP_le (fun x : Int × Nat => decide (x.1 = fd) && is_end x.2)
        (List.take_sublist (n - (l.map fun x => (x, fs)).length) (l.map fun x => (x, fe)))
      unfold ends_on at e1 ⊢
      omega
    by_cases hn : (l.map fun x => (x, fs)).length ≤ n
    · rw [List.take_of_length_le hn] at hE1 ⊢
      unfold ends_on starts_on at *
      rw [List.countP_append, List.countP_append]
      omega
    · have hz : n - (l.map fun x => (x, fs)).length = 0 := by omega
      rw [hz, List.take_zero, List.append_nil]
      omega
  · obtain ⟨s1, s2⟩ := starts_on_map_start l fs hs fd
    obtain ⟨e1, e2⟩ := ends_on_map_end l fe he fd
    unfold ends_on starts_on at *
    rw [List.countP_append, List.countP_append]
    omega
  · unfold count_start count_end
    rw [List.countP_append, List.countP_append, List.countP_map, List.countP_map,
      List.countP_map, List.countP_map]
    have h1 : l.countP ((fun x : Int × Nat => !is_end x.2) ∘ fun x => (x, fs)) = l.length := by
      rw [List.countP_eq_length]; intro x _; simp [hs]
    have h2 : l.countP ((fun x : Int × Nat => !is_end x.2) ∘ fun x => (x, fe)) = 0 := by
      rw [List.countP_eq_zero]; intro x _; simp [he]
    have h3 : l.countP ((fun x : Int × Nat => is_end x.2) ∘ fun x => (x, fs)) = 0 := by
      rw [List.countP_eq_zero]; intro x _; simp [hs]
    have h4 : l.countP ((fun x : Int × Nat => is_end x.2) ∘ fun x => (x, fe)) = l.length := by
      rw [List.countP_eq_length]; intro x _; simp [he]
    omega

theorem sync_pairs_eq_map (b : DemoBuffer) (f m : Nat) :
    sync_pairs b f m = ((List.range m).map b.dma_buf_fd).map fun x => (x, f) := by
  simp [sync_pairs, List.map_map, Function.comp]

/-- The events of a begin and a finish over the same planes of a buffer are
matched. -/
theorem sync_paired_begin_finish (b : DemoBuffer) (m : Nat) :
    sync_paired (sync_pairs b (demo_buffer_sync_flags b ||| DMA_BUF_SYNC_START) m ++
      sync_pairs b (demo_buffer_sync_flags b ||| DMA_BUF_SYNC_END) m) := by
  rw [sync_pairs_eq_map, sync_pairs_eq_map]
  apply sync_paired_block
  · rcases demo_buffer_sync_flags_cases b with h | h | h <;> rw [h] <;> decide
  · rcases demo_buffer_sync_flags_cases b with h | h | h <;> rw [h] <;> decide

/-! ## Setup issues no synchronisation call -/

theorem dma_heap_alloc_quiet (k : Kernel) (w : World) (fd : Int) (size flags : Nat) :
    emits w (dma_heap_alloc k w fd size flags).2 [] := by
  unfold dma_heap_alloc
  simp only
  split <;> exact quiet_sys k _ (emits_refl w) (by rfl)

theorem dma_heap_open_quiet (k : Kernel) (w : World) : emits w (dma_heap_open k w).2 [] := by
  unfold dma_heap_open
  simp only
  split <;> exact quiet_sys k _ (emits_refl w) (by rfl)

theorem demo_buffer_setup_base_quiet (k : Kernel) (w : World) (b : DemoBuffer) (video_fd : Int)
    (memory type index n : Nat) :
    emits w (demo_buffer_setup_base k w b video_fd memory type index n).2.2 [] := by
  unfold demo_buffer_setup_base
  simp only
  repeat' split
  all_goals first
    | exact emits_refl w
    | exact quiet_sys k _ (emits_refl w) (by rfl)

theorem demo_buffer_setup_v4l2_loop_quiet (k : Kernel) (video_fd : Int) (n : Nat) :
    ∀ (i0 : Nat) (b : DemoBuffer) (w : World),
      emits w (demo_buffer_setup_v4l2_loop k video_fd n i0 b w).2.2 [] := by
  induction n with
  | zero => intro i0 b w; exact emits_refl w
  | succ n ih =>
    intro i0 b w
    unfold demo_buffer_setup_v4l2_loop
    simp only
    split
    · exact quiet_sys k _ (emits_refl w) (by rfl)
    · exact quiet_trans (quiet_sys k _ (emits_refl w) (by rfl)) (ih _ _ _)

theorem demo_buffer_setup_dma_heap_loop_quiet (k : Kernel) (demo : Demo) (n : Nat) :
    ∀ (i0 : Nat) (b : DemoBuffer) (w : World),
      emits w (demo_buffer_setup_dma_heap_loop k demo n i0 b w).2.2 [] := by
  induction n with
  | zero => intro i0 b w; exact emits_refl w
  | succ n ih =>
    intro i0 b w
    unfold demo_buffer_setup_dma_heap_loop
    simp only
    split
    · exact dma_heap_alloc_quiet _ _ _ _ _
    · split
      · exact quiet_sys k _ (dma_heap_alloc_quiet _ _ _ _ _) (by rfl)
      · exact quiet_trans (quiet_sys k _ (dma_heap_alloc_quiet _ _ _ _ _) (by rfl)) (ih _ _ _)

theorem demo_buffer_setup_import_plane_quiet (k : Kernel) (demo : Demo) (ib : DemoBuffer)
    (ivfd : Int) (i : Nat) (b : DemoBuffer) (w : World) :
    emits w (demo_buffer_setup_import_plane k demo ib ivfd i b w).2.2 [] := by
  unfold demo_buffer_setup_import_plane
  rw [demo_buffer_setup_import_loop]
  simp only [demo_buffer_setup_import_loop]
  repeat' split
  all_goals first
    | exact emits_refl w
    | exact quiet_sys k _ (emits_refl w) (by rfl)
    | exact quiet_sys k _ (quiet_sys k _ (quiet_sys k _ (emits_refl w) (by rfl)) (by rfl)) (by rfl)

theorem demo_buffer_setup_import_loop_quiet (k : Kernel) (demo : Demo) (ib : DemoBuffer)
    (ivfd : Int) (n : Nat) :
    ∀ (i0 : Nat) (b : DemoBuffer) (w : World),
      emits w (demo_buffer_setup_import_loop k demo ib ivfd n i0 b w).2.2 [] := by
  induction n with
  | zero => intro i0 b w; exact emits_refl w
  | succ n ih =>
    intro i0 b w
    rw [demo_buffer_setup_import_loop_succ]
    split
    · exact demo_buffer_setup_import_plane_quiet _ _ _ _ _ _ _
    · exact quiet_trans (demo_buffer_setup_import_plane_quiet _ _ _ _ _ _ _) (ih _ _ _)

theorem demo_buffer_setup_quiet (k : Kernel) (w : World) (demo : Demo) (b : DemoBuffer)
    (video_fd : Int) (memory type index n : Nat) (imp : Bool) (r : Int × DemoBuffer × World)
    (h : demo_buffer_setup k w demo b video_fd memory type index n imp = some r) :
    emits w r.2.2 [] := by
  have hb := demo_buffer_setup_base_quiet k w b video_fd memory type index n
  unfold demo_buffer_setup at h
  simp only at h
  repeat' split at h
  all_goals first
    | (simp at h; done)
    | (simp only [Option.some.injEq] at h
       subst h
       first
        | exact hb
        | (unfold demo_buffer_setup_import
           split
           · exact hb
           · exact quiet_trans hb (demo_buffer_setup_import_loop_quiet _ _ _ _ _ _ _ _))
        | exact quiet_trans hb (demo_buffer_setup_dma_heap_loop_quiet _ _ _ _ _ _)
        | exact quiet_trans hb (demo_buffer_setup_v4l2_loop_quiet _ _ _ _ _ _))

theorem demo_setup_buffers_quiet (k : Kernel) (pool : Nat → BufferRef) (video_fd : Int)
    (memory type planes_count : Nat) (imp : Bool) (n : Nat) :
    ∀ (i : Nat) (demo : Demo) (w : World) (r : Int × Demo × World),
      demo_setup_buffers k pool video_fd memory type planes_count imp n i demo w = some r →
      emits w r.2.2 [] := by
  induction n with
  | zero =>
    intro i demo w r h
    simp only [demo_setup_buffers, Option.some.injEq] at h
    subst h
    exact emits_refl w
  | succ n ih =>
    intro i demo w r h
    unfold demo_setup_buffers at h
    split at h
    · simp at h
    · split at h
      · simp at h
      · rename_i x hx
        have hq := demo_buffer_setup_quiet _ _ _ _ _ _ _ _ _ _ _ hx
        simp only at h
        split at h
        · simp only [Option.some.injEq] at h
          subst h
          exact hq
        · exact quiet_trans hq (ih _ _ _ _ h)

theorem demo_setup_buffers_quiet3 (k : Kernel) (pool : Nat → BufferRef) (video_fd : Int)
    (memory type planes_count : Nat) (imp : Bool) (n i : Nat) (demo d1 : Demo) (w w1 : World)
    (ret : Int)
    (h : demo_setup_buffers k pool video_fd memory type planes_count imp n i demo w =
      some (ret, d1, w1)) : emits w w1 [] :=
  demo_setup_buffers_quiet k pool video_fd memory type planes_count imp n i demo w _ h

theorem demo_camera_setup_quiet (k : Kernel) (w w1 : World) (demo d1 : Demo) (ret : Int)
    (h : demo_camera_setup k w demo = some (ret, d1, w1)) : emits w w1 [] := by
  unfold demo_camera_setup at h
  simp only at h
  repeat' split at h
  all_goals first
    | (simp at h; done)
    | (simp only [Option.some.injEq, Prod.mk.injEq] at h
       obtain ⟨_, _, rfl⟩ := h
       first
        | exact emits_refl _
        | (refine quiet_trans ?_ (demo_setup_buffers_quiet3 k _ _ _ _ _ _ _ _ _ _ _ _ _
            (by assumption))
           repeat (refine quiet_sys k _ ?_ (by rfl))
           exact emits_refl _)
        | (repeat (refine quiet_sys k _ ?_ (by rfl))
           exact emits_refl _))

theorem demo_decoder_setup_buffers_quiet (k : Kernel) (w w1 : World) (demo d1 : Demo)
    (imp : Bool) (ret : Int)
    (h : demo_decoder_setup_buffers k w demo imp = some (ret, d1, w1)) : emits w w1 [] := by
  unfold demo_decoder_setup_buffers at h
  simp only at h
  split at h
  · simp only [Option.some.injEq, Prod.mk.injEq] at h
    obtain ⟨_, _, rfl⟩ := h
    exact quiet_sys k _ (emits_refl _) (by rfl)
  · split at h
    · simp at h
    · rename_i r0 d0 w0 hb1
      have q1 : emits w w0 [] :=
        quiet_trans (quiet_sys k _ (emits_refl _) (by rfl))
          (demo_setup_buffers_quiet3 k _ _ _ _ _ _ _ _ _ _ _ _ _ hb1)
      split at h
      · simp only [Option.some.injEq, Prod.mk.injEq] at h
        obtain ⟨_, _, rfl⟩ := h
        exact q1
      · split at h
        · simp only [Option.some.injEq, Prod.mk.injEq] at h
          obtain ⟨_, _, rfl⟩ := h
          exact quiet_sys k _ q1 (by rfl)
        · split at h
          · simp at h
          · rename_i r2 d2 w2 hb2
            have q2 : emits w w2 [] :=
              quiet_trans (quiet_sys k _ q1 (by rfl))
                (demo_setup_buffers_quiet3 k _ _ _ _ _ _ _ _ _ _ _ _ _ hb2)
            split at h
            all_goals
              simp only [Option.some.injEq, Prod.mk.injEq] at h
              obtain ⟨_, _, rfl⟩ := h
              exact q2

theorem demo_decoder_setup_formats_quiet (k : Kernel) (w w1 : World) (demo d1 : Demo)
    (imp : Bool) (ret : Int)
    (h : demo_decoder_setup_formats k w demo imp = some (ret, d1, w1)) : emits w w1 [] := by
  unfold demo_decoder_setup_formats at h
  simp only at h
  repeat' split at h
  all_goals first
    | (simp at h; done)
    | (simp only [Option.some.injEq, Prod.mk.injEq] at h
       obtain ⟨_, _, rfl⟩ := h
       repeat (refine quiet_sys k _ ?_ (by rfl))
       exact emits_refl _)
    | (refine quiet_trans ?_ (demo_decoder_setup_buffers_quiet k _ _ _ _ _ _ h)
       repeat (refine quiet_sys k _ ?_ (by rfl))
       exact emits_refl _)

theorem demo_decoder_setup_quiet (k : Kernel) (w w1 : World) (demo d1 : Demo) (ret : Int)
    (h : demo_decoder_setup k w demo = some (ret, d1, w1)) : emits w w1 [] := by
  unfold demo_decoder_setup at h
  by_cases h1 : demo.decoder.video_fd < 0
  · rw [if_pos h1] at h
    simp only [Option.some.injEq, Prod.mk.injEq] at h
    obtain ⟨_, _, rfl⟩ := h
    exact emits_refl _
  · rw [if_neg h1] at h
    by_cases h2 : demo.allocator ≠ DEMO_ALLOCATOR_V4L2 ∧ demo.allocator ≠ DEMO_ALLOCATOR_DMA_HEAP
    · simp only [if_pos h2, Option.some.injEq, Prod.mk.injEq] at h
      obtain ⟨_, _, rfl⟩ := h
      exact emits_refl _
    · simp only [if_neg h2] at h
      exact demo_decoder_setup_formats_quiet k _ _ _ _ _ _ h

theorem demo_setup_quiet (k : Kernel) (w w1 : World) (demo d1 : Demo) (source allocator : Int)
    (width height : Nat) (ret : Int)
    (h : demo_setup k w demo source allocator width height = some (ret, d1, w1)) :
    emits w w1 [] := by
  unfold demo_setup at h
  have hq := dma_heap_open_quiet k w
  by_cases ha : allocator = DEMO_ALLOCATOR_DMA_HEAP
  · simp only [if_pos ha] at h
    by_cases hh : (dma_heap_open k w).1 < 0
    · simp only [if_pos hh] at h
      rw [if_pos (by omega)] at h
      simp only [Option.some.injEq, Prod.mk.injEq] at h
      obtain ⟨_, _, rfl⟩ := h
      exact hq
    · simp only [if_neg hh, ne_eq, not_true_eq_false, if_false] at h
      by_cases hs : source = DEMO_SOURCE_CAMERA
      · simp only [if_pos hs] at h
        split at h
        · simp at h
        · rename_i r0 d0 w0 hc
          have q1 := quiet_trans hq (demo_camera_setup_quiet k _ _ _ _ _ hc)
          split at h
          · simp only [Option.some.injEq, Prod.mk.injEq] at h
            obtain ⟨_, _, rfl⟩ := h
            exact q1
          · exact quiet_trans q1 (demo_decoder_setup_quiet k _ _ _ _ _ h)
      · simp only [if_neg hs, ne_eq, not_true_eq_false, if_false] at h
        exact quiet_trans hq (demo_decoder_setup_quiet k _ _ _ _ _ h)
  · simp only [if_neg ha, ne_eq, not_true_eq_false, if_false] at h
    by_cases hs : source = DEMO_SOURCE_CAMERA
    · simp only [if_pos hs] at h
      split at h
      · simp at h
      · rename_i r0 d0 w0 hc
        have q1 := demo_camera_setup_quiet k _ _ _ _ _ hc
        split at h
        · simp only [Option.some.injEq, Prod.mk.injEq] at h
          obtain ⟨_, _, rfl⟩ := h
          exact q1
        · exact quiet_trans q1 (demo_decoder_setup_quiet k _ _ _ _ _ h)
    · simp only [if_neg hs, ne_eq, not_true_eq_false, if_false] at h
      exact demo_decoder_setup_quiet k _ _ _ _ _ h

/-! ## Streaming issues no synchronisation call -/

theorem demo_decoder_run_stream_quiet (k : Kernel) (w : World) (demo : Demo) :
    emits w (demo_decoder_run_stream k w demo).2.2 [] := by
  unfold demo_decoder_run_stream
  simp only
  repeat' split
  all_goals
    dsimp only
    repeat (refine quiet_sys k _ ?_ (by rfl))
    exact emits_refl _

theorem demo_decoder_run_quiet (k : Kernel) (w w1 : World) (demo d1 : Demo) (ret : Int)
    (h : demo_decoder_run k w demo = some (ret, d1, w1)) : emits w w1 [] := by
  unfold demo_decoder_run at h
  simp only at h
  repeat' split at h
  all_goals first
    | (simp at h; done)
    | (simp only [Option.some.injEq, Prod.mk.injEq] at h
       obtain ⟨_, _, rfl⟩ := h
       repeat (refine quiet_sys k _ ?_ (by rfl))
       exact emits_refl _)
    | (have h2 := congrArg (fun x => x.2.2) (Option.some.inj h)
       simp only at h2
       subst h2
       refine quiet_trans ?_ (demo_decoder_run_stream_quiet k _ _)
       repeat (refine quiet_sys k _ ?_ (by rfl))
       exact emits_refl _)

theorem demo_camera_roll_queue_quiet (k : Kernel) (n : Nat) :
    ∀ (d d1 : Demo) (w w1 : World) (ret : Int),
      demo_camera_roll_queue k n d w = some (ret, d1, w1) → emits w w1 [] := by
  induction n with
  | zero =>
    intro d d1 w w1 ret h
    simp only [demo_camera_roll_queue, Option.some.injEq, Prod.mk.injEq] at h
    obtain ⟨_, _, rfl⟩ := h
    exact emits_refl _
  | succ n ih =>
    intro d d1 w w1 ret h
    unfold demo_camera_roll_queue at h
    simp only at h
    repeat' split at h
    all_goals first
      | (simp at h; done)
      | (simp only [Option.some.injEq, Prod.mk.injEq] at h
         obtain ⟨_, _, rfl⟩ := h
         repeat (refine quiet_sys k _ ?_ (by rfl))
         exact emits_refl _)
      | (refine quiet_trans ?_ (ih _ _ _ _ _ h)
         repeat (refine quiet_sys k _ ?_ (by rfl))
         exact emits_refl _)

theorem demo_camera_roll_capture_quiet (k : Kernel) (demo : Demo) (n : Nat) :
    ∀ (next : Option BufferRef) (w w1 : World) (ret : Int),
      demo_camera_roll_capture k demo n next w = some (ret, w1) → emits w w1 [] := by
  induction n with
  | zero =>
    intro next w w1 ret h
    simp only [demo_camera_roll_capture, Option.some.injEq, Prod.mk.injEq] at h
    obtain ⟨_, rfl⟩ := h
    exact emits_refl _
  | succ n ih =>
    intro next w w1 ret h
    unfold demo_camera_roll_capture at h
    simp only at h
    split at h
    · simp at h
    · rename_i q hq
      have q1 : emits w q.2 [] := by
        split at hq
        · simp only [Option.some.injEq] at hq
          subst hq
          exact emits_refl _
        · split at hq
          · simp at hq
          · simp only [Option.some.injEq] at hq
            subst hq
            exact quiet_sys k _ (emits_refl _) (by rfl)
      repeat' split at h
      all_goals first
        | (simp only [Option.some.injEq, Prod.mk.injEq] at h
           obtain ⟨_, rfl⟩ := h
           repeat (refine quiet_sys k _ ?_ (by rfl))
           exact q1)
        | (refine quiet_trans ?_ (ih _ _ _ _ h)
           repeat (refine quiet_sys k _ ?_ (by rfl))
           exact q1)

/-- The last loop of `demo_camera_roll` issues only write-finished
synchronisation calls. -/
theorem demo_camera_roll_sync_emits (k : Kernel) (demo : Demo) (n : Nat) :
    ∀ (i : Nat) (w w1 : World) (ret : Int),
      demo_camera_roll_sync k demo n i w = some (ret, w1) →
      ∃ e, emits w w1 e ∧ ∀ x, x ∈ e → x.2 = DMA_BUF_SYNC_WRITE ||| DMA_BUF_SYNC_END := by
  induction n with
  | zero =>
    intro i w w1 ret h
    simp only [demo_camera_roll_sync, Option.some.injEq, Prod.mk.injEq] at h
    obtain ⟨_, rfl⟩ := h
    exact ⟨[], emits_refl _, by simp⟩
  | succ n ih =>
    intro i w w1 ret h
    unfold demo_camera_roll_sync at h
    split at h
    · simp at h
    · rename_i buffer _
      obtain ⟨m, _, he, _, _⟩ := demo_buffer_sync_emits k w buffer
        (DMA_BUF_SYNC_WRITE ||| DMA_BUF_SYNC_END)
      have hall : ∀ x, x ∈ sync_pairs buffer (DMA_BUF_SYNC_WRITE ||| DMA_BUF_SYNC_END) m →
          x.2 = DMA_BUF_SYNC_WRITE ||| DMA_BUF_SYNC_END := by
        intro x hx
        simp only [sync_pairs, List.mem_map] at hx
        obtain ⟨_, _, rfl⟩ := hx
        rfl
      simp only at h
      split at h
      · simp only [Option.some.injEq, Prod.mk.injEq] at h
        obtain ⟨_, rfl⟩ := h
        exact ⟨_, he, hall⟩
      · obtain ⟨e2, h2, hall2⟩ := ih _ _ _ _ h
        refine ⟨_, emits_trans he h2, fun x hx => ?_⟩
        rcases List.mem_append.mp hx with hx | hx
        · exact hall x hx
        · exact hall2 x hx

/-- The synchronisation calls of `demo_camera_roll` are all write-finished
calls. -/
theorem demo_camera_roll_emits (k : Kernel) (w w1 : World) (demo d1 : Demo) (ret : Int)
    (h : demo_camera_roll k w demo = some (ret, d1, w1)) :
    ∃ e, emits w w1 e ∧ ∀ x, x ∈ e → x.2 = DMA_BUF_SYNC_WRITE ||| DMA_BUF_SYNC_END := by
  unfold demo_camera_roll at h
  split at h
  · simp at h
  · rename_i r0 d0 w0 hq
    have q0 := demo_camera_roll_queue_quiet k _ _ _ _ _ _ hq
    simp only at h
    split at h
    · simp only [Option.some.injEq, Prod.mk.injEq] at h
      obtain ⟨_, _, rfl⟩ := h
      exact ⟨[], q0, by simp⟩
    · split at h
      · simp only [Option.some.injEq, Prod.mk.injEq] at h
        obtain ⟨_, _, rfl⟩ := h
        exact ⟨[], quiet_sys k _ q0 (by rfl), by simp⟩
      · split at h
        · simp at h
        · rename_i r2 w2 hcap
          have q2 := quiet_trans (quiet_sys k _ q0 (by rfl))
            (demo_camera_roll_capture_quiet k _ _ _ _ _ _ hcap)
          split at h
          · simp only [Option.some.injEq, Prod.mk.injEq] at h
            obtain ⟨_, _, rfl⟩ := h
            exact ⟨[], q2, by simp⟩
          · split at h
            · simp only [Option.some.injEq, Prod.mk.injEq] at h
              obtain ⟨_, _, rfl⟩ := h
              exact ⟨[], quiet_sys k _ q2 (by rfl), by simp⟩
            · split at h
              · simp only [Option.some.injEq, Prod.mk.injEq] at h
                obtain ⟨_, _, rfl⟩ := h
                exact ⟨[], quiet_sys k _ q2 (by rfl), by simp⟩
              · split at h
                · simp at h
                · rename_i r3 w3 hsync
                  simp only [Option.some.injEq, Prod.mk.injEq] at h
                  obtain ⟨_, _, rfl⟩ := h
                  obtain ⟨e, he, hall⟩ := demo_camera_roll_sync_emits k _ _ _ _ _ _ hsync
                  have := emits_trans (quiet_sys k _ q2 (by rfl)) he
                  simp only [List.nil_append] at this
                  exact ⟨e, this, hall⟩

/-! ## The brackets of the file input and of the dump -/

/-- A begin that returns 0, one call that is not a synchronisation, and a
finish that returns 0, on the same buffer: the events are matched. -/
theorem sync_bracket_paired (k : Kernel) (w : World) (buffer : DemoBuffer) (c : Call)
    (hc : c.sync_event = none) (hb : (demo_buffer_sync_begin k w buffer).1 = 0)
    (hf : (demo_buffer_sync_finish k (sys k (demo_buffer_sync_begin k w buffer).2 c).2
      buffer).1 = 0) :
    ∃ e, emits w (demo_buffer_sync_finish k (sys k (demo_buffer_sync_begin k w buffer).2 c).2
      buffer).2 e ∧ sync_paired e := by
  unfold demo_buffer_sync_begin demo_buffer_sync_finish at *
  simp only at *
  obtain ⟨m1, _, e1, z1, n1⟩ := demo_buffer_sync_emits k w buffer
    (demo_buffer_sync_flags buffer ||| DMA_BUF_SYNC_START)
  obtain ⟨m2, _, e2, z2, n2⟩ := demo_buffer_sync_emits k
    (sys k (demo_buffer_sync k w buffer
      (demo_buffer_sync_flags buffer ||| DMA_BUF_SYNC_START)).2 c).2 buffer
    (demo_buffer_sync_flags buffer ||| DMA_BUF_SYNC_END)
  have hm : m1 = m2 := by
    by_cases hfd : buffer.dma_buf_fd 0 < 0
    · rw [z1 hfd, z2 hfd]
    · rw [n1 hb (by omega), n2 hf (by omega)]
  subst hm
  have hmid : emits (demo_buffer_sync k w buffer
      (demo_buffer_sync_flags buffer ||| DMA_BUF_SYNC_START)).2
      (sys k (demo_buffer_sync k w buffer
        (demo_buffer_sync_flags buffer ||| DMA_BUF_SYNC_START)).2 c).2 [] :=
    quiet_sys k c (emits_refl _) hc
  have := emits_trans (emits_trans e1 hmid) e2
  simp only [List.append_nil] at this
  exact ⟨_, this, sync_paired_begin_finish buffer m1⟩

/-- A successful `demo_file_read` issues matched synchronisation calls. -/
theorem demo_file_read_emits (k : Kernel) (w w1 : World) (demo d1 : Demo)
    (h : demo_file_read k w demo = some (0, d1, w1)) :
    ∃ e, emits w w1 e ∧ sync_paired e := by
  unfold demo_file_read at h
  simp only at h
  repeat' split at h
  all_goals first
    | (simp at h; done)
    | (simp only [Option.some.injEq, Prod.mk.injEq] at h
       obtain ⟨h0, _, _⟩ := h
       exfalso
       omega)
    | (rename_i hb _ hf
       simp only [Option.some.injEq, Prod.mk.injEq] at h
       obtain ⟨_, _, rfl⟩ := h
       exact sync_bracket_paired k w _ _ (by rfl) (by simpa using hb) (by simpa using hf))

theorem demo_file_close_quiet (k : Kernel) (w : World) (demo : Demo) :
    emits w (demo_file_close k w demo).2 [] := by
  unfold demo_file_close
  split
  · exact quiet_sys k _ (emits_refl _) (by rfl)
  · exact emits_refl _

theorem demo_dump_complete_quiet (k : Kernel) (w : World) (demo : Demo) (fd ret : Int) :
    emits w (demo_dump_complete k w demo fd ret).2.2 [] ∧
    (demo_dump_complete k w demo fd ret).1 = ret := by
  unfold demo_dump_complete
  split
  · exact ⟨quiet_sys k _ (emits_refl _) (by rfl), rfl⟩
  · exact ⟨emits_refl _, rfl⟩

/-- A successful `demo_dump` issues matched synchronisation calls. -/
theorem demo_dump_emits (k : Kernel) (w w1 : World) (demo d1 : Demo) (dump_path : Nat)
    (h : demo_dump k w demo dump_path = some (0, d1, w1)) :
    ∃ e, emits w w1 e ∧ sync_paired e := by
  unfold demo_dump at h
  simp only at h
  have hpath : ¬ ((dump_path : Int) < 0) := by omega
  simp only [if_neg hpath] at h
  split at h
  · simp only [Option.some.injEq, Prod.mk.injEq] at h
    rename_i hne
    exact absurd h.1 hne
  · split at h
    · simp at h
    · rename_i buffer _
      split at h
      · rename_i hne
        have h2 := congrArg (fun x => x.1) (Option.some.inj h)
        simp only [(demo_dump_complete_quiet k _ _ _ _).2] at h2
        exact absurd h2 hne
      · rename_i hb
        split at h
        · have h2 := congrArg (fun x => x.1) (Option.some.inj h)
          simp only [(demo_dump_complete_quiet k _ _ _ _).2] at h2
          exact absurd h2 (by decide)
        · split at h
          · rename_i hne
            have h2 := congrArg (fun x => x.1) (Option.some.inj h)
            simp only [(demo_dump_complete_quiet k _ _ _ _).2] at h2
            exact absurd h2 hne
          · rename_i hf
            have h2 := congrArg (fun x => x.2.2) (Option.some.inj h)
            simp only at h2
            subst h2
            obtain ⟨e, he, hp⟩ := sync_bracket_paired k (sys k w Call.open_dump).2 buffer
              (Call.write (sys k w Call.open_dump).1.ret (buffer.data 0)
                (v4l2_buffer_plane_length_used buffer.buffer 0)) (by rfl)
              (by simpa using hb) (by simpa using hf)
            have h3 := emits_trans (emits_trans (quiet_sys k Call.open_dump (emits_refl w)
              (by rfl)) he) (demo_dump_complete_quiet k _ demo (sys k w Call.open_dump).1.ret 0).1
            simp only [List.nil_append, List.append_nil] at h3
            exact ⟨e, h3, hp⟩

/-! ## Teardown issues no synchronisation call -/

theorem demo_buffer_cleanup_loop_quiet (k : Kernel) (n : Nat) :
    ∀ (i : Nat) (b : DemoBuffer) (w : World),
      emits w (demo_buffer_cleanup_loop k n i b w).2 [] := by
  induction n with
  | zero => intro i b w; exact emits_refl _
  | succ n ih =>
    intro i b w
    unfold demo_buffer_cleanup_loop
    simp only
    split
    · exact quiet_trans (quiet_sys k _ (quiet_sys k _ (emits_refl _) (by rfl)) (by rfl))
        (ih _ _ _)
    · exact quiet_trans (quiet_sys k _ (emits_refl _) (by rfl)) (ih _ _ _)

theorem demo_cleanup_buffers_quiet (k : Kernel) (pool : Nat → BufferRef) (n : Nat) :
    ∀ (i : Nat) (demo d1 : Demo) (w w1 : World),
      demo_cleanup_buffers k pool n i demo w = some (d1, w1) → emits w w1 [] := by
  induction n with
  | zero =>
    intro i demo d1 w w1 h
    simp only [demo_cleanup_buffers, Option.some.injEq, Prod.mk.injEq] at h
    obtain ⟨_, rfl⟩ := h
    exact emits_refl _
  | succ n ih =>
    intro i demo d1 w w1 h
    unfold demo_cleanup_buffers at h
    split at h
    · simp at h
    · exact quiet_trans (demo_buffer_cleanup_loop_quiet k _ _ _ _) (ih _ _ _ _ _ h)

theorem demo_decoder_cleanup_quiet (k : Kernel) (w w1 : World) (demo d1 : Demo)
    (h : demo_decoder_cleanup k w demo = some (d1, w1)) : emits w w1 [] := by
  unfold demo_decoder_cleanup at h
  split at h
  · simp at h
  · rename_i d0 w0 h1
    have q1 := demo_cleanup_buffers_quiet k _ _ _ _ _ _ _ h1
    simp only at h
    split at h
    · simp at h
    · rename_i d2 w2 h2
      have q2 := demo_cleanup_buffers_quiet k _ _ _ _ _ _ _ h2
      simp only [Option.some.injEq, Prod.mk.injEq] at h
      obtain ⟨_, rfl⟩ := h
      exact quiet_sys k _ (quiet_trans (quiet_sys k _ q1 (by rfl)) q2) (by rfl)

theorem demo_camera_cleanup_quiet (k : Kernel) (w w1 : World) (demo d1 : Demo)
    (h : demo_camera_cleanup k w demo = some (d1, w1)) : emits w w1 [] := by
  unfold demo_camera_cleanup at h
  split at h
  · simp at h
  · rename_i d0 w0 h1
    have q1 := demo_cleanup_buffers_quiet k _ _ _ _ _ _ _ h1
    simp only [Option.some.injEq, Prod.mk.injEq] at h
    obtain ⟨_, rfl⟩ := h
    exact quiet_sys k _ q1 (by rfl)

theorem demo_cleanup_quiet (k : Kernel) (w w1 : World) (demo d1 : Demo)
    (h : demo_cleanup k w demo = some (d1, w1)) : emits w w1 [] := by
  unfold demo_cleanup at h
  split at h
  · simp at h
  · rename_i d0 w0 h1
    have q1 := demo_decoder_cleanup_quiet k _ _ _ _ h1
    simp only at h
    split at h
    · simp at h
    · rename_i d2 w2 h2
      have q2 : emits w w2 [] := by
        split at h2
        · exact quiet_trans q1 (demo_camera_cleanup_quiet k _ _ _ _ h2)
        · simp only [Option.some.injEq, Prod.mk.injEq] at h2
          obtain ⟨_, rfl⟩ := h2
          exact q1
      split at h
      · simp only [Option.some.injEq, Prod.mk.injEq] at h
        obtain ⟨_, rfl⟩ := h
        exact quiet_sys k _ q2 (by rfl)
      · simp only [Option.some.injEq, Prod.mk.injEq] at h
        obtain ⟨_, rfl⟩ := h
        exact q2

theorem demo_close_quiet (k : Kernel) (w : World) (demo : Demo) :
    emits w (demo_close k w demo).2 [] := by
  unfold demo_close
  simp only
  repeat' split
  all_goals
    dsimp only
    repeat (refine quiet_sys k _ ?_ (by rfl))
    exact emits_refl _

/-! ## The pipeline -/

/-- Claim C7, counterexample. Under `kernel_ok`, with the camera as source and
the heap allocator, the pipeline ends with exit status 0 after one START and
four END calls: `demo_camera_roll` issues a write-finished call on each of the
three camera buffers, the first of them on handle 106 before any START. With
the file as source and a short `read`, the pipeline ends with exit status 1
after one START and no END call. -/
theorem pipeline_sync_unmatched :
    sync_summary (main_pipeline kernel_ok [] demo_opened DEMO_SOURCE_CAMERA
      DEMO_ALLOCATOR_DMA_HEAP 1280 720 1000) = some (0, 1, 4) ∧
    (sync_events pipeline_camera_sample.2.2).head? =
      some (106, DMA_BUF_SYNC_WRITE ||| DMA_BUF_SYNC_END) ∧
    sync_summary (main_pipeline kernel_short_read [] demo_file_opened DEMO_SOURCE_FILE
      DEMO_ALLOCATOR_DMA_HEAP 1280 720 1000) = some (1, 1, 0) := by
  decide

/-- Claim C7, amended. In every pipeline run that ends with exit status 0,
under any kernel, allocator and source, the synchronisation calls are those of
`demo_camera_roll`, which are all write-finished calls
(`DMA_BUF_SYNC_WRITE | DMA_BUF_SYNC_END`) and of which there are none with the
file as source, followed by calls in matched pairs: every END is preceded by
an unmatched START on the same handle, and the numbers of START and END calls
agree, for every handle and in total. -/
theorem pipeline_sync_pairs (k : Kernel) (w w1 : World) (demo d1 : Demo)
    (source allocator : Int) (width height dump_path : Nat)
    (h : main_pipeline k w demo source allocator width height dump_path = some (0, d1, w1)) :
    ∃ roll rest, emits w w1 (roll ++ rest) ∧
      (∀ x, x ∈ roll → x.2 = DMA_BUF_SYNC_WRITE ||| DMA_BUF_SYNC_END) ∧
      (source = DEMO_SOURCE_FILE → roll = []) ∧
      sync_paired rest := by
  unfold main_pipeline at h
  split at h
  · simp at h
  · rename_i r1 ds ws hsetup
    have qs := demo_setup_quiet k _ _ _ _ _ _ _ _ _ hsetup
    try simp only at h
    split at h
    · simp at h
    · rename_i hr1
      have hr1z : r1 = 0 := by simpa using hr1
      split at h
      · simp at h
      · rename_i r2 d2 w2 hinput
        have hin : (∃ roll rest, emits ws w2 (roll ++ rest) ∧
            (∀ x, x ∈ roll → x.2 = DMA_BUF_SYNC_WRITE ||| DMA_BUF_SYNC_END) ∧
            (source = DEMO_SOURCE_FILE → roll = []) ∧ sync_paired rest) ∨ r2 ≠ 0 := by
          by_cases hr2 : r2 = 0
          · left
            subst hr2
            split at hinput
            · split at hinput
              · simp at hinput
              · rename_i r d x hread
                split at hinput
                · rename_i hne
                  simp only [Option.some.injEq, Prod.mk.injEq] at hinput
                  exact absurd hinput.1 hne
                · rename_i hz
                  have hz0 : r = 0 := by simpa using hz
                  subst hz0
                  simp only [Option.some.injEq, Prod.mk.injEq] at hinput
                  obtain ⟨_, _, rfl⟩ := hinput
                  obtain ⟨e, he, hp⟩ := demo_file_read_emits k _ _ _ _ hread
                  have := emits_trans he (demo_file_close_quiet k x d)
                  simp only [List.append_nil] at this
                  exact ⟨[], e, by simpa using this, by simp, fun _ => rfl, hp⟩
            · rename_i hsrc
              obtain ⟨e, he, hall⟩ := demo_camera_roll_emits k _ _ _ _ _ hinput
              exact ⟨e, [], by simpa using he, hall, fun hs => absurd hs hsrc, sync_paired_nil⟩
          · right
            exact hr2
        split at h
        · simp at h
        · rename_i hr2
          rcases hin with ⟨roll, rest, hemit, hall, hfile, hpair⟩ | hne
          · split at h
            · simp at h
            · rename_i r3 d3 w3 hrun
              have qr := demo_decoder_run_quiet k _ _ _ _ _ hrun
              try simp only at h
              split at h
              · simp at h
              · rename_i hr3
                split at h
                · simp at h
                · rename_i r4 d4 w4 hdump
                  try simp only at h
                  split at h
                  · simp at h
                  · rename_i hr4
                    have hr4z : r4 = 0 := by simpa using hr4
                    subst hr4z
                    obtain ⟨ed, hed, hpd⟩ := demo_dump_emits k _ _ _ _ _ hdump
                    split at h
                    · simp at h
                    · rename_i d5 w5 hclean
                      have qc := demo_cleanup_quiet k _ _ _ _ hclean
                      simp only [Option.some.injEq, Prod.mk.injEq] at h
                      obtain ⟨_, _, rfl⟩ := h
                      have hall2 := emits_trans (emits_trans (emits_trans (emits_trans
                        (emits_trans qs hemit) qr) hed) qc) (demo_close_quiet k w5 d5)
                      simp only [List.nil_append, List.append_nil, List.append_assoc] at hall2
                      exact ⟨roll, rest ++ ed, hall2, hall, hfile, sync_paired_append hpair hpd⟩
          · exact absurd (by simpa using hr2) hne

theorem pipeline_sync_pairs_witness :
    main_pipeline kernel_ok [] demo_opened DEMO_SOURCE_CAMERA DEMO_ALLOCATOR_DMA_HEAP
        1280 720 1000
      = some (0, pipeline_camera_sample.2.1, pipeline_camera_sample.2.2) ∧
    ∃ roll rest, emits [] pipeline_camera_sample.2.2 (roll ++ rest) ∧
      (∀ x, x ∈ roll → x.2 = DMA_BUF_SYNC_WRITE ||| DMA_BUF_SYNC_END) ∧
      (DEMO_SOURCE_CAMERA = DEMO_SOURCE_FILE → roll = []) ∧
      sync_paired rest :=
  ⟨rfl, pipeline_sync_pairs kernel_ok [] pipeline_camera_sample.2.2 demo_opened
    pipeline_camera_sample.2.1 DEMO_SOURCE_CAMERA DEMO_ALLOCATOR_DMA_HEAP 1280 720 1000 rfl⟩

/-! ## Device discovery: the common part -/

theorem demo_open_media_topology_empty (k : Kernel) (w : World) (media_path media_fd : Int)
    (size : MediaTopology) (hs : media_sized k w media_path media_fd size)
    (hz : ¬ size.populated) :
    demo_open_media_topology k (w ++ [.open media_path O_RDWR]) media_fd
      = (-ENODEV, none, media_arrays_null, w ++ media_size_calls media_path media_fd) := by
  obtain ⟨_, _, hinfo, hret, htopo⟩ := hs
  have hz2 : size.num_interfaces = 0 ∨ size.num_entities = 0 ∨ size.num_pads = 0 ∨
      size.num_links = 0 := by
    unfold MediaTopology.populated at hz
    omega
  unfold demo_open_media_topology
  simp only [sys_reply, sys_world, List.length_append, List.length_cons, List.length_nil,
    List.append_assoc, List.cons_append, List.nil_append, Nat.zero_add, hinfo, hret, htopo,
    ne_eq, not_true_eq_false, if_false, hz2, if_true, media_size_calls]

theorem demo_open_media_topology_filled (k : Kernel) (w : World) (media_path media_fd : Int)
    (size topology : MediaTopology) (a : MediaArrays)
    (hs : media_sized k w media_path media_fd size) (hp : size.populated)
    (hf : media_filled k w media_fd size a topology) :
    demo_open_media_topology k (w ++ [.open media_path O_RDWR]) media_fd
      = (0, some topology, a,
          w ++ media_size_calls media_path media_fd ++ media_fill_calls media_fd size a) := by
  obtain ⟨_, _, hinfo, hret, htopo⟩ := hs
  obtain ⟨h1, n1, h2, n2, h3, n3, h4, n4, hfr, hft⟩ := hf
  have hz2 : ¬ (size.num_interfaces = 0 ∨ size.num_entities = 0 ∨ size.num_pads = 0 ∨
      size.num_links = 0) := by
    unfold MediaTopology.populated at hp
    omega
  unfold demo_open_media_topology
  simp only [sys_reply, sys_world, List.length_append, List.length_cons, List.length_nil,
    List.append_assoc, List.cons_append, List.nil_append, Nat.zero_add, hinfo, hret, htopo,
    ne_eq, not_true_eq_false, if_false, hz2, h1, n1, h2, n2, h3, n3, h4, n4, hfr, hft,
    media_size_calls, media_fill_calls]

theorem demo_open_media_complete_all (k : Kernel) (w : World) (media_fd : Int) (a : MediaArrays)
    (hfd : 0 ≤ media_fd) (n1 : a.interfaces ≠ NULL) (n2 : a.entities ≠ NULL)
    (n3 : a.pads ≠ NULL) (n4 : a.links ≠ NULL) :
    demo_open_media_complete k w media_fd a = w ++ media_release_calls media_fd a := by
  unfold demo_open_media_complete
  simp only [sys_world, ge_iff_le, hfd, if_true, ne_eq, n1, n2, n3, n4, not_false_eq_true,
    List.append_assoc, List.cons_append, List.nil_append, media_release_calls]

theorem demo_open_media_complete_null (k : Kernel) (w : World) (media_fd : Int)
    (hfd : 0 ≤ media_fd) :
    demo_open_media_complete k w media_fd media_arrays_null = w ++ [.close media_fd] := by
  unfold demo_open_media_complete
  simp [sys_world, hfd, media_arrays_null]

theorem media_topology_entity_find_by_function_none (topology : MediaTopology) (function : Nat)
    (h : ∀ e, e ∈ topology.entities → e.function ≠ function) :
    media_topology_entity_find_by_function topology function = none := by
  unfold media_topology_entity_find_by_function
  rw [List.find?_eq_none]
  intro e he
  simpa using h e he

/-- The probe for the decoder up to the lookups, when the graph was fetched. -/
theorem demo_open_media_decoder_fetched (k : Kernel) (w : World)
    (udev media_path video_fd media_fd : Int) (size topology : MediaTopology) (a : MediaArrays)
    (hs : media_sized k w media_path media_fd size) (hp : size.populated)
    (hf : media_filled k w media_fd size a topology) :
    demo_open_media_decoder k w udev media_path video_fd
      = ((demo_open_media_decoder_resolve k
            (w ++ media_size_calls media_path media_fd ++ media_fill_calls media_fd size a)
            udev topology video_fd).1,
         (demo_open_media_decoder_resolve k
            (w ++ media_size_calls media_path media_fd ++ media_fill_calls media_fd size a)
            udev topology video_fd).2.1,
         (demo_open_media_decoder_resolve k
            (w ++ media_size_calls media_path media_fd ++ media_fill_calls media_fd size a)
            udev topology video_fd).2.2 ++ media_release_calls media_fd a) := by
  have hfetch := demo_open_media_topology_filled k w media_path media_fd size topology a hs hp hf
  obtain ⟨hopen, hfd, _⟩ := hs
  obtain ⟨_, n1, _, n2, _, n3, _, n4, _⟩ := hf
  unfold demo_open_media_decoder
  simp only [sys_reply, sys_world, hopen, not_lt.mpr hfd, if_false, hfetch]
  rw [demo_open_media_complete_all k _ media_fd a hfd n1 n2 n3 n4]

/-- The probe for the decoder when the size query reports an empty graph. -/
theorem demo_open_media_decoder_empty (k : Kernel) (w : World)
    (udev media_path video_fd media_fd : Int) (size : MediaTopology)
    (hs : media_sized k w media_path media_fd size) (hz : ¬ size.populated) :
    demo_open_media_decoder k w udev media_path video_fd
      = (-ENODEV, video_fd, w ++ media_size_calls media_path media_fd ++ [.close media_fd]) := by
  have hfetch := demo_open_media_topology_empty k w media_path media_fd size hs hz
  obtain ⟨hopen, hfd, _⟩ := hs
  unfold demo_open_media_decoder
  simp only [sys_reply, sys_world, hopen, not_lt.mpr hfd, if_false, hfetch]
  rw [demo_open_media_complete_null k _ media_fd hfd]

/-- The probe for the camera when the size query reports an empty graph. -/
theorem demo_open_media_camera_empty (k : Kernel) (w : World)
    (udev media_path video_fd media_fd : Int) (size : MediaTopology)
    (hs : media_sized k w media_path media_fd size) (hz : ¬ size.populated) :
    demo_open_media_camera k w udev media_path video_fd
      = some (-ENODEV, video_fd,
          w ++ media_size_calls media_path media_fd ++ [.close media_fd]) := by
  have hfetch := demo_open_media_topology_empty k w media_path media_fd size hs hz
  obtain ⟨hopen, hfd, _⟩ := hs
  unfold demo_open_media_camera
  simp only [sys_reply, sys_world, hopen, not_lt.mpr hfd, if_false, hfetch]
  rw [demo_open_media_complete_null k _ media_fd hfd]

/-- The probe for the camera up to the loop, when the graph was fetched. -/
theorem demo_open_media_camera_fetched (k : Kernel) (w : World)
    (udev media_path video_fd media_fd : Int) (size topology : MediaTopology) (a : MediaArrays)
    (hs : media_sized k w media_path media_fd size) (hp : size.populated)
    (hf : media_filled k w media_fd size a topology) :
    demo_open_media_camera k w udev media_path video_fd
      = match media_topology_entity_find_by_function topology MEDIA_ENT_F_CAM_SENSOR with
        | none => some (-ENODEV, video_fd,
            w ++ media_size_calls media_path media_fd ++ media_fill_calls media_fd size a
              ++ media_release_calls media_fd a)
        | some _ =>
          (demo_open_media_camera_loop k udev topology.interfaces topology.num_interfaces 0
            video_fd
            (w ++ media_size_calls media_path media_fd ++ media_fill_calls media_fd size a)).map
            fun r => (r.1, r.2.1, r.2.2 ++ media_release_calls media_fd a) := by
  have hfetch := demo_open_media_topology_filled k w media_path media_fd size topology a hs hp hf
  obtain ⟨hopen, hfd, _⟩ := hs
  obtain ⟨_, n1, _, n2, _, n3, _, n4, _⟩ := hf
  unfold demo_open_media_camera
  simp only [sys_reply, sys_world, hopen, not_lt.mpr hfd, if_false, hfetch]
  cases media_topology_entity_find_by_function topology MEDIA_ENT_F_CAM_SENSOR with
  | none => simp only [demo_open_media_complete_all k _ media_fd a hfd n1 n2 n3 n4]
  | some e =>
    simp only
    cases demo_open_media_camera_loop k udev topology.interfaces topology.num_interfaces 0
        video_fd (w ++ media_size_calls media_path media_fd ++ media_fill_calls media_fd size a) with
    | none => rfl
    | some r => simp only [Option.map, demo_open_media_complete_all k _ media_fd a hfd n1 n2 n3 n4]

/-- The lookups of `demo_open_media_decoder` are the walk of the spec. -/
theorem demo_open_media_decoder_resolve_walk (k : Kernel) (w : World) (udev : Int)
    (topology : MediaTopology) (video_fd : Int) :
    demo_open_media_decoder_resolve k w udev topology video_fd
      = match media_decoder_walk topology with
        | none => (-ENODEV, video_fd, w)
        | some base_interface =>
          let dev := sys k w (.udev_device_new_from_devnum udev base_interface.major
            base_interface.minor)
          if dev.1.ret = NULL then (-ENODEV, video_fd, dev.2)
          else
            let p := sys k dev.2 (.udev_device_get_devnode dev.1.ret)
            let o := sys k p.2 (.open p.1.ret (O_RDWR ||| O_NONBLOCK))
            let u := sys k o.2 (.udev_device_unref dev.1.ret)
            if o.1.ret < 0 then (-u.1.errno, video_fd, u.2)
            else (0, o.1.ret, u.2) := by
  unfold demo_open_media_decoder_resolve media_decoder_walk
  cases media_topology_entity_find_by_function topology MEDIA_ENT_F_PROC_VIDEO_DECODER with
  | none => rfl
  | some e =>
    simp only [Option.bind]
    cases media_topology_pad_find_by_entity topology e.id MEDIA_PAD_FL_SINK with
    | none => rfl
    | some p =>
      simp only
      cases media_topology_link_find_by_pad topology p.id p.flags with
      | none => rfl
      | some l =>
        simp only
        cases media_topology_pad_find_by_id topology l.source_id with
        | none => rfl
        | some q =>
          simp only
          cases media_topology_link_find_by_entity topology q.entity_id MEDIA_PAD_FL_SINK with
          | none => rfl
          | some l2 => simp only

theorem demo_open_media_decoder_resolve_opens (k : Kernel) (w : World) (udev : Int)
    (topology : MediaTopology) (video_fd : Int) (x : MediaInterface) (device path fd : Int)
    (hw : media_decoder_walk topology = some x)
    (ho : media_node_opens k w udev x.major x.minor device path fd) :
    demo_open_media_decoder_resolve k w udev topology video_fd
      = (0, fd, w ++ media_node_calls udev x.major x.minor device path) := by
  obtain ⟨hd, hn, hp, hf, h0⟩ := ho
  rw [demo_open_media_decoder_resolve_walk, hw]
  simp only [sys_reply, sys_world, List.length_append, List.length_cons, List.length_nil,
    Nat.zero_add, hd, hn, hp, hf, not_lt.mpr h0, if_false, List.append_assoc,
    List.cons_append, List.nil_append, media_node_calls]

/-- What the walk finds lies at the end of a chain of records of the graph. -/
theorem media_decoder_walk_sound (topology : MediaTopology) (x : MediaInterface)
    (h : media_decoder_walk topology = some x) :
    ∃ e p l q l2, e ∈ topology.entities ∧ e.function = MEDIA_ENT_F_PROC_VIDEO_DECODER ∧
      p ∈ topology.pads ∧ p.entity_id = e.id ∧ p.flags &&& MEDIA_PAD_FL_SINK ≠ 0 ∧
      l ∈ topology.links ∧ l.sink_id = p.id ∧
      q ∈ topology.pads ∧ q.id = l.source_id ∧
      l2 ∈ topology.links ∧ l2.sink_id = q.entity_id ∧
      x ∈ topology.interfaces ∧ x.id = l2.source_id := by
  unfold media_decoder_walk at h
  simp only [Option.bind_eq_some] at h
  obtain ⟨e, he, p, hp, l, hl, q, hq, l2, hl2, hx⟩ := h
  refine ⟨e, p, l, q, l2, ?_⟩
  unfold media_topology_entity_find_by_function at he
  unfold media_topology_pad_find_by_entity at hp
  unfold media_topology_link_find_by_pad at hl
  unfold media_topology_pad_find_by_id at hq
  unfold media_topology_link_find_by_entity at hl2
  unfold media_topology_interface_find_by_id at hx
  have e1 := List.find?_some he
  have p1 := List.find?_some hp
  have l1 := List.find?_some hl
  have q1 := List.find?_some hq
  have l21 := List.find?_some hl2
  have x1 := List.find?_some hx
  simp only [Bool.and_eq_true, decide_eq_true_eq] at e1 p1 l1 q1 l21 x1
  exact ⟨List.mem_of_find?_eq_some he, e1, List.mem_of_find?_eq_some hp, p1.1, p1.2,
    List.mem_of_find?_eq_some hl, l1, List.mem_of_find?_eq_some hq, q1,
    List.mem_of_find?_eq_some hl2, l21, List.mem_of_find?_eq_some hx, x1⟩

/-- Claim C11. Let the media node open and the size query succeed. When the
size query reports zero interfaces, zero entities, zero pads or zero links,
`demo_open_media_decoder` and `demo_open_media_camera` return `-ENODEV`, leave
`*video_fd` as it was and issue nothing after the size query but the closing
of the media node: no allocation, no fill query, no opening of a video node.
When the four counts are non-zero and the graph delivered by the fill query
has no entity with the decoder function (the camera-sensor function), the
function returns `-ENODEV`, leaves `*video_fd` as it was and issues nothing
after the fill query but the closing of the media node and the release of the
four arrays. -/
theorem media_probe_not_found (k : Kernel) (w : World)
    (udev media_path video_fd media_fd : Int) (size : MediaTopology)
    (hs : media_sized k w media_path media_fd size) :
    ((size.num_interfaces = 0 ∨ size.num_entities = 0 ∨ size.num_pads = 0 ∨
        size.num_links = 0) →
      demo_open_media_decoder k w udev media_path video_fd
        = (-ENODEV, video_fd, w ++ media_size_calls media_path media_fd ++ [.close media_fd]) ∧
      demo_open_media_camera k w udev media_path video_fd
        = some (-ENODEV, video_fd,
            w ++ media_size_calls media_path media_fd ++ [.close media_fd])) ∧
    (size.populated → ∀ (a : MediaArrays) (topology : MediaTopology),
      media_filled k w media_fd size a topology →
      ((∀ e, e ∈ topology.entities → e.function ≠ MEDIA_ENT_F_PROC_VIDEO_DECODER) →
        demo_open_media_decoder k w udev media_path video_fd
          = (-ENODEV, video_fd,
              w ++ media_size_calls media_path media_fd ++ media_fill_calls media_fd size a
                ++ media_release_calls media_fd a)) ∧
      ((∀ e, e ∈ topology.entities → e.function ≠ MEDIA_ENT_F_CAM_SENSOR) →
        demo_open_media_camera k w udev media_path video_fd
          = some (-ENODEV, video_fd,
              w ++ media_size_calls media_path media_fd ++ media_fill_calls media_fd size a
                ++ media_release_calls media_fd a))) := by
  refine ⟨fun hz => ?_, fun hp a topology hf => ⟨fun hd => ?_, fun hc => ?_⟩⟩
  · have hz2 : ¬ size.populated := by
      unfold MediaTopology.populated
      omega
    exact ⟨demo_open_media_decoder_empty k w udev media_path video_fd media_fd size hs hz2,
      demo_open_media_camera_empty k w udev media_path video_fd media_fd size hs hz2⟩
  · rw [demo_open_media_decoder_fetched k w udev media_path video_fd media_fd size topology a
      hs hp hf]
    unfold demo_open_media_decoder_resolve
    rw [media_topology_entity_find_by_function_none topology _ hd]
  · rw [demo_open_media_camera_fetched k w udev media_path video_fd media_fd size topology a
      hs hp hf, media_topology_entity_find_by_function_none topology _ hc]

theorem media_probe_not_found_witness :
    (demo_open_media_decoder kernel_ok [] 900 540 (-1)
        = (-ENODEV, -1, media_size_calls 540 0 ++ [.close 0]) ∧
      demo_open_media_camera kernel_ok [] 900 540 (-1)
        = some (-ENODEV, -1, media_size_calls 540 0 ++ [.close 0])) ∧
    demo_open_media_decoder kernel_media [] 900 540 (-1)
      = (-ENODEV, -1, media_size_calls 540 7 ++
          media_fill_calls 7 topology_camera ⟨1003, 1004, 1005, 1006⟩ ++
          media_release_calls 7 ⟨1003, 1004, 1005, 1006⟩) ∧
    demo_open_media_camera kernel_media [] 900 541 (-1)
      = some (-ENODEV, -1, media_size_calls 541 8 ++
          media_fill_calls 8 topology_decoder ⟨1003, 1004, 1005, 1006⟩ ++
          media_release_calls 8 ⟨1003, 1004, 1005, 1006⟩) :=
  ⟨(media_probe_not_found kernel_ok [] 900 540 (-1) 0 topology_zero
      ⟨rfl, by decide, rfl, rfl, rfl⟩).1 (by decide),
   ((media_probe_not_found kernel_media [] 900 540 (-1) 7 topology_camera
      ⟨rfl, by decide, rfl, rfl, rfl⟩).2 ⟨by decide, by decide, by decide, by decide⟩ ⟨1003, 1004, 1005, 1006⟩ topology_camera
      ⟨rfl, by decide, rfl, by decide, rfl, by decide, rfl, by decide, rfl, rfl⟩).1 (by decide),
   ((media_probe_not_found kernel_media [] 900 541 (-1) 8 topology_decoder
      ⟨rfl, by decide, rfl, rfl, rfl⟩).2 ⟨by decide, by decide, by decide, by decide⟩ ⟨1003, 1004, 1005, 1006⟩ topology_decoder
      ⟨rfl, by decide, rfl, by decide, rfl, by decide, rfl, by decide, rfl, rfl⟩).2 (by decide)⟩

/-- Claim C12. Let the media node open and its graph be fetched (the size
query reports four non-zero counts, the four allocations and the fill query
succeed). If the lookups find the decoder entity `E`, a sink pad `P` of `E`, a
link `L1` that ends at `P`, the pad `Q` at the source of `L1`, a link `L2`
whose sink is the entity of `Q`, and the interface `I` at the source of `L2`,
and if the device record of `I.major:I.minor` is found and its node opens as
`fd`, then `demo_open_media_decoder` returns 0 with `*video_fd = fd`, and its
calls after the fill query are the lookup of that device number, the opening
of that node, and the release of the media node and of the four arrays. If one
of the six lookups finds nothing, it returns `-ENODEV`, leaves `*video_fd` as
it was and opens no node. The interface found lies at the end of such a chain
of records of the graph. -/
theorem media_decoder_resolves (k : Kernel) (w : World)
    (udev media_path video_fd media_fd : Int) (size topology : MediaTopology) (a : MediaArrays)
    (hs : media_sized k w media_path media_fd size) (hp : size.populated)
    (hf : media_filled k w media_fd size a topology) :
    (∀ (E : MediaEntity) (P : MediaPad) (L1 : MediaLink) (Q : MediaPad) (L2 : MediaLink)
        (I : MediaInterface),
      media_topology_entity_find_by_function topology MEDIA_ENT_F_PROC_VIDEO_DECODER = some E →
      media_topology_pad_find_by_entity topology E.id MEDIA_PAD_FL_SINK = some P →
      media_topology_link_find_by_pad topology P.id P.flags = some L1 →
      media_topology_pad_find_by_id topology L1.source_id = some Q →
      media_topology_link_find_by_entity topology Q.entity_id MEDIA_PAD_FL_SINK = some L2 →
      media_topology_interface_find_by_id topology L2.source_id = some I →
      media_decoder_walk topology = some I ∧
      ∀ device path fd,
        media_node_opens k
          (w ++ media_size_calls media_path media_fd ++ media_fill_calls media_fd size a)
          udev I.major I.minor device path fd →
        demo_open_media_decoder k w udev media_path video_fd
          = (0, fd,
              w ++ media_size_calls media_path media_fd ++ media_fill_calls media_fd size a
                ++ media_node_calls udev I.major I.minor device path
                ++ media_release_calls media_fd a)) ∧
    (media_decoder_walk topology = none →
      demo_open_media_decoder k w udev media_path video_fd
        = (-ENODEV, video_fd,
            w ++ media_size_calls media_path media_fd ++ media_fill_calls media_fd size a
              ++ media_release_calls media_fd a)) ∧
    (∀ I, media_decoder_walk topology = some I →
      ∃ E P L1 Q L2, E ∈ topology.entities ∧ E.function = MEDIA_ENT_F_PROC_VIDEO_DECODER ∧
        P ∈ topology.pads ∧ P.entity_id = E.id ∧ P.flags &&& MEDIA_PAD_FL_SINK ≠ 0 ∧
        L1 ∈ topology.links ∧ L1.sink_id = P.id ∧
        Q ∈ topology.pads ∧ Q.id = L1.source_id ∧
        L2 ∈ topology.links ∧ L2.sink_id = Q.entity_id ∧
        I ∈ topology.interfaces ∧ I.id = L2.source_id) := by
  have hdec := demo_open_media_decoder_fetched k w udev media_path video_fd media_fd size
    topology a hs hp hf
  refine ⟨fun E P L1 Q L2 I hE hP hL1 hQ hL2 hI => ?_, fun hnone => ?_,
    fun I hI => media_decoder_walk_sound topology I hI⟩
  · have hw : media_decoder_walk topology = some I := by
      simp only [media_decoder_walk, hE, hP, hL1, hQ, hL2, hI, Option.bind]
    refine ⟨hw, fun device path fd ho => ?_⟩
    rw [hdec, demo_open_media_decoder_resolve_opens k _ udev topology video_fd I device path fd
      hw ho]
  · rw [hdec, demo_open_media_decoder_resolve_walk, hnone]

theorem media_decoder_resolves_witness :
    media_decoder_walk topology_decoder = some ⟨20, MEDIA_INTF_T_V4L_VIDEO, 81, 0⟩ ∧
    demo_open_media_decoder kernel_media [] 900 541 (-1)
      = (0, 100, media_size_calls 541 8 ++
          media_fill_calls 8 topology_decoder ⟨1003, 1004, 1005, 1006⟩ ++
          media_node_calls 900 81 0 500 600 ++
          media_release_calls 8 ⟨1003, 1004, 1005, 1006⟩) :=
  have h := (media_decoder_resolves kernel_media [] 900 541 (-1) 8 topology_decoder
    topology_decoder ⟨1003, 1004, 1005, 1006⟩ ⟨rfl, by decide, rfl, rfl, rfl⟩
    ⟨by decide, by decide, by decide, by decide⟩
    ⟨rfl, by decide, rfl, by decide, rfl, by decide, rfl, by decide, rfl, rfl⟩).1
    ⟨1, MEDIA_ENT_F_PROC_VIDEO_DECODER⟩ ⟨2, 1, MEDIA_PAD_FL_SINK⟩ ⟨30, 6, 2, 1⟩
    ⟨6, 5, MEDIA_PAD_FL_SOURCE⟩ ⟨32, 20, 5, 1⟩ ⟨20, MEDIA_INTF_T_V4L_VIDEO, 81, 0⟩
    (by decide) (by decide) (by decide) (by decide) (by decide) (by decide)
  ⟨h.1, h.2 500 600 100 ⟨rfl, by decide, rfl, rfl, by decide⟩⟩

/-! ## Device discovery: the camera loop -/

/-- The loop body accepts an interface exactly when it is a video node whose
device record is found, whose node opens, whose capability probe succeeds and
whose capabilities include capture; its calls are then the five calls for that
interface. -/
theorem demo_open_media_camera_try_some (k : Kernel) (w : World) (udev : Int)
    (x : MediaInterface) (fd : Int) :
    (demo_open_media_camera_try k w udev x).1 = some fd ↔
      ∃ device path, camera_accepts k w udev x device path fd := by
  unfold demo_open_media_camera_try camera_accepts media_node_opens
  simp only [sys_reply, sys_world, List.length_append, List.length_cons, List.length_nil,
    Nat.zero_add]
  constructor
  · intro h
    split at h
    · simp at h
    · rename_i ht
      split at h
      · simp at h
      · rename_i hd
        split at h
        · simp at h
        · rename_i hfd
          split at h
          · simp at h
          · rename_i hr
            split at h
            · simp at h
            · rename_i hc
              simp only [Option.some.injEq] at h
              subst h
              exact ⟨_, _, by simpa using ht, ⟨rfl, hd, rfl, rfl, not_lt.mp hfd⟩,
                by simpa using hr, hc⟩
  · rintro ⟨device, path, ht, ⟨hd, hn, hp, hf, h0⟩, hr, hc⟩
    subst hd
    subst hp
    subst hf
    simp only [ht, ne_eq, not_true_eq_false, if_false, hn, not_lt.mpr h0, hr, hc]

theorem demo_open_media_camera_try_trace (k : Kernel) (w : World) (udev : Int)
    (x : MediaInterface) (device path fd : Int) (h : camera_accepts k w udev x device path fd) :
    demo_open_media_camera_try k w udev x
      = (some fd, w ++ camera_try_calls udev x device path fd) := by
  obtain ⟨ht, ⟨hd, hn, hp, hf, h0⟩, hr, hc⟩ := h
  unfold demo_open_media_camera_try camera_try_calls
  simp only [sys_reply, sys_world, List.length_append, List.length_cons, List.length_nil,
    Nat.zero_add, ht, ne_eq, not_true_eq_false, if_false, hd, hn, hp, hf, not_lt.mpr h0, hr, hc,
    List.append_assoc, List.cons_append, List.nil_append]

/-- The calls of the loop body concern the interface at hand only. -/
theorem demo_open_media_camera_try_calls (k : Kernel) (w : World) (udev : Int)
    (x : MediaInterface) :
    ∃ device path fd n, (demo_open_media_camera_try k w udev x).2
      = w ++ (camera_try_calls udev x device path fd).take n := by
  refine ⟨(k w.length (.udev_device_new_from_devnum udev x.major x.minor)).ret,
    (k (w.length + 1) (.udev_device_get_devnode
      (k w.length (.udev_device_new_from_devnum udev x.major x.minor)).ret)).ret,
    (k (w.length + 2) (.open (k (w.length + 1) (.udev_device_get_devnode
      (k w.length (.udev_device_new_from_devnum udev x.major x.minor)).ret)).ret
      (O_RDWR ||| O_NONBLOCK))).ret, ?_⟩
  unfold demo_open_media_camera_try camera_try_calls
  simp only [sys_reply, sys_world, List.length_append, List.length_cons, List.length_nil,
    Nat.zero_add]
  split
  · exact ⟨0, by simp⟩
  · split
    · exact ⟨1, by simp⟩
    · split
      · exact ⟨4, by simp⟩
      · split
        · exact ⟨5, by simp⟩
        · split
          · exact ⟨5, by simp⟩
          · exact ⟨5, by simp⟩

/-- The loop returns `-ENODEV` when it passes over every interface. -/
theorem demo_open_media_camera_loop_none (k : Kernel) (udev : Int)
    (interfaces : List MediaInterface) (video_fd : Int) :
    ∀ (n i : Nat) (w : World), i + n ≤ interfaces.length →
      (∀ m y, m < n → interfaces[i + m]? = some y →
        (demo_open_media_camera_try k (camera_scan k udev interfaces m i w) udev y).1 = none) →
      demo_open_media_camera_loop k udev interfaces n i video_fd w
        = some (-ENODEV, video_fd, camera_scan k udev interfaces n i w) := by
  intro n
  induction n with
  | zero => intro i w _ _; rfl
  | succ n ih =>
    intro i w hlen hskip
    have hi : i < interfaces.length := by omega
    have hx : interfaces[i]? = some interfaces[i] := List.getElem?_eq_getElem hi
    have h0 := hskip 0 interfaces[i] (by omega) (by simp)
    unfold demo_open_media_camera_loop camera_scan
    simp only [hx]
    simp only [camera_scan] at h0
    simp only [h0]
    refine ih (i + 1) _ (by omega) fun m y hm hy => ?_
    have := hskip (m + 1) y (by omega) (by rw [← hy]; congr 1; omega)
    simpa only [camera_scan, hx] using this

/-- The loop stops at the first interface it accepts. -/
theorem demo_open_media_camera_loop_first (k : Kernel) (udev : Int)
    (interfaces : List MediaInterface) (video_fd : Int) :
    ∀ (n i : Nat) (w : World) (j : Nat) (x : MediaInterface) (fd : Int),
      i + n ≤ interfaces.length → j < n →
      (∀ m y, m < j → interfaces[i + m]? = some y →
        (demo_open_media_camera_try k (camera_scan k udev interfaces m i w) udev y).1 = none) →
      interfaces[i + j]? = some x →
      (demo_open_media_camera_try k (camera_scan k udev interfaces j i w) udev x).1 = some fd →
      demo_open_media_camera_loop k udev interfaces n i video_fd w
        = some (0, fd,
            (demo_open_media_camera_try k (camera_scan k udev interfaces j i w) udev x).2) := by
  intro n
  induction n with
  | zero => intro i w j x fd _ hj; omega
  | succ n ih =>
    intro i w j x fd hlen hj hskip hx hacc
    have hi : i < interfaces.length := by omega
    have hxi : interfaces[i]? = some interfaces[i] := List.getElem?_eq_getElem hi
    unfold demo_open_media_camera_loop
    simp only [hxi]
    cases j with
    | zero =>
      simp only [Nat.add_zero, hxi, Option.some.injEq] at hx
      subst hx
      simp only [camera_scan] at hacc ⊢
      simp only [hacc]
    | succ j =>
      have h0 := hskip 0 interfaces[i] (by omega) (by simp)
      simp only [camera_scan] at h0
      simp only [h0]
      have := ih (i + 1) (demo_open_media_camera_try k w udev interfaces[i]).2 j x fd
        (by omega) (by omega)
        (fun m y hm hy => by
          have := hskip (m + 1) y (by omega) (by rw [← hy]; congr 1; omega)
          simpa only [camera_scan, hxi] using this)
        (by rw [← hx]; congr 1; omega)
        (by simpa only [camera_scan, hxi] using hacc)
      rw [this]
      simp only [camera_scan, hxi]

/-- Claim C13. Let the media node open and its graph be fetched, let the graph
contain a camera-sensor entity and hold the interfaces it counts. The loop body
accepts an interface exactly when it is of V4L video-node kind, its device
record is found, its node opens, the capability probe succeeds and the
capabilities include `V4L2_CAP_VIDEO_CAPTURE`, and all its calls concern that
interface. If the interface at index `j` is accepted with the descriptor `fd`
and every interface before it is passed over, `demo_open_media_camera` returns
0 with `*video_fd = fd`, and after the calls for that interface it only
releases the media node and the arrays: no later interface is examined. If
every interface is passed over it returns `-ENODEV` and leaves `*video_fd` as
it was. -/
theorem media_camera_first_capture (k : Kernel) (w : World)
    (udev media_path video_fd media_fd : Int) (size topology : MediaTopology) (a : MediaArrays)
    (hs : media_sized k w media_path media_fd size) (hp : size.populated)
    (hf : media_filled k w media_fd size a topology)
    (hent : ∃ e, e ∈ topology.entities ∧ e.function = MEDIA_ENT_F_CAM_SENSOR)
    (hlen : topology.num_interfaces ≤ topology.interfaces.length) :
    (∀ (w1 : World) (x : MediaInterface) (fd : Int),
      ((demo_open_media_camera_try k w1 udev x).1 = some fd ↔
        ∃ device path, camera_accepts k w1 udev x device path fd) ∧
      ∃ device path fd1 n, (demo_open_media_camera_try k w1 udev x).2
        = w1 ++ (camera_try_calls udev x device path fd1).take n) ∧
    (∀ (j : Nat) (x : MediaInterface) (device path fd : Int),
      j < topology.num_interfaces → topology.interfaces[j]? = some x →
      (∀ i y, i < j → topology.interfaces[i]? = some y →
        (demo_open_media_camera_try k
          (camera_scan k udev topology.interfaces i 0
            (w ++ media_size_calls media_path media_fd ++ media_fill_calls media_fd size a))
          udev y).1 = none) →
      camera_accepts k
        (camera_scan k udev topology.interfaces j 0
          (w ++ media_size_calls media_path media_fd ++ media_fill_calls media_fd size a))
        udev x device path fd →
      demo_open_media_camera k w udev media_path video_fd
        = some (0, fd,
            camera_scan k udev topology.interfaces j 0
              (w ++ media_size_calls media_path media_fd ++ media_fill_calls media_fd size a)
              ++ camera_try_calls udev x device path fd
              ++ media_release_calls media_fd a)) ∧
    ((∀ i y, i < topology.num_interfaces → topology.interfaces[i]? = some y →
        (demo_open_media_camera_try k
          (camera_scan k udev topology.interfaces i 0
            (w ++ media_size_calls media_path media_fd ++ media_fill_calls media_fd size a))
          udev y).1 = none) →
      demo_open_media_camera k w udev media_path video_fd
        = some (-ENODEV, video_fd,
            camera_scan k udev topology.interfaces topology.num_interfaces 0
              (w ++ media_size_calls media_path media_fd ++ media_fill_calls media_fd size a)
              ++ media_release_calls media_fd a)) := by
  have hcam := demo_open_media_camera_fetched k w udev media_path video_fd media_fd size
    topology a hs hp hf
  obtain ⟨e, he, hfun⟩ := hent
  have hfind : ∃ e1, media_topology_entity_find_by_function topology MEDIA_ENT_F_CAM_SENSOR
      = some e1 := by
    unfold media_topology_entity_find_by_function
    cases hq : topology.entities.find? fun e => decide (e.function = MEDIA_ENT_F_CAM_SENSOR) with
    | some e1 => exact ⟨e1, rfl⟩
    | none =>
      rw [List.find?_eq_none] at hq
      have := hq e he
      simp [hfun] at this
  obtain ⟨e1, he1⟩ := hfind
  rw [he1] at hcam
  refine ⟨fun w1 x fd => ⟨demo_open_media_camera_try_some k w1 udev x fd,
    demo_open_media_camera_try_calls k w1 udev x⟩, ?_, ?_⟩
  · intro j x device path fd hj hx hskip hacc
    have htr := demo_open_media_camera_try_trace k _ udev x device path fd hacc
    have hloop := demo_open_media_camera_loop_first k udev topology.interfaces video_fd
      topology.num_interfaces 0
      (w ++ media_size_calls media_path media_fd ++ media_fill_calls media_fd size a)
      j x fd (by omega) hj
      (fun m y hm hy => hskip m y hm (by simpa using hy)) (by simpa using hx)
      (by rw [htr])
    rw [hcam, hloop, htr]
    rfl
  · intro hskip
    have hloop := demo_open_media_camera_loop_none k udev topology.interfaces video_fd
      topology.num_interfaces 0
      (w ++ media_size_calls media_path media_fd ++ media_fill_calls media_fd size a)
      (by omega) (fun m y hm hy => hskip m y hm (by simpa using hy))
    rw [hcam, hloop]
    rfl

theorem media_camera_first_capture_witness :
    demo_open_media_camera kernel_media [] 900 540 (-1)
      = some (0, 101, media_size_calls 540 7 ++
          media_fill_calls 7 topology_camera ⟨1003, 1004, 1005, 1006⟩ ++
          camera_try_calls 900 ⟨41, MEDIA_INTF_T_V4L_VIDEO, 81, 2⟩ 502 602 102 ++
          camera_try_calls 900 ⟨42, MEDIA_INTF_T_V4L_VIDEO, 81, 1⟩ 501 601 101 ++
          media_release_calls 7 ⟨1003, 1004, 1005, 1006⟩) :=
  (media_camera_first_capture kernel_media [] 900 540 (-1) 7 topology_camera topology_camera
    ⟨1003, 1004, 1005, 1006⟩ ⟨rfl, by decide, rfl, rfl, rfl⟩
    ⟨by decide, by decide, by decide, by decide⟩
    ⟨rfl, by decide, rfl, by decide, rfl, by decide, rfl, by decide, rfl, rfl⟩
    ⟨⟨1, MEDIA_ENT_F_CAM_SENSOR⟩, by decide, rfl⟩ (by decide)).2.1 2
    ⟨42, MEDIA_INTF_T_V4L_VIDEO, 81, 1⟩ 501 601 101 (by decide) rfl
    (fun i y hi hy => by
      have hi2 : i = 0 ∨ i = 1 := by omega
      rcases hi2 with rfl | rfl
      · have hy0 : y = ⟨40, 0x203, 81, 3⟩ := by
          have : topology_camera.interfaces[0]? = some ⟨40, 0x203, 81, 3⟩ := rfl
          rw [this] at hy
          exact (Option.some.inj hy).symm
        subst hy0
        rfl
      · have hy1 : y = ⟨41, MEDIA_INTF_T_V4L_VIDEO, 81, 2⟩ := by
          have : topology_camera.interfaces[1]? = some ⟨41, MEDIA_INTF_T_V4L_VIDEO, 81, 2⟩ := rfl
          rw [this] at hy
          exact (Option.some.inj hy).symm
        subst hy1
        rfl)
    ⟨rfl, ⟨rfl, by decide, rfl, rfl, by decide⟩, rfl, by decide⟩

/-! ## Device discovery: resources -/

theorem closes_append (a b : List Call) : closes (a ++ b) = closes a ++ closes b := by
  simp [closes, List.filterMap_append]

theorem frees_append (a b : List Call) : frees (a ++ b) = frees a ++ frees b := by
  simp [frees, List.filterMap_append]

theorem allocated_append (k : Kernel) (a b : List Call) :
    ∀ pos, allocated k pos (a ++ b) = allocated k pos a ++ allocated k (pos + a.length) b := by
  induction a with
  | nil => intro pos; simp [allocated]
  | cons c a ih =>
    intro pos
    have h := ih (pos + 1)
    rw [show pos + 1 + a.length = pos + (c :: a).length by simp only [List.length_cons]; omega]
      at h
    show _ ++ allocated k (pos + 1) (a ++ b) = (_ ++ allocated k (pos + 1) a) ++ _
    rw [h, List.append_assoc]

/-- Calls that are no resource calls close, free and allocate nothing. -/
theorem plain_calls (k : Kernel) (e : List Call) (h : ∀ c, c ∈ e → c.is_resource = false) :
    ∀ pos, closes e = [] ∧ frees e = [] ∧ allocated k pos e = [] := by
  induction e with
  | nil => intro pos; simp [closes, frees, allocated]
  | cons c e ih =>
    intro pos
    have hc := h c (List.mem_cons_self c e)
    obtain ⟨h1, h2, h3⟩ := ih (fun c hc => h c (List.mem_cons_of_mem _ hc)) (pos + 1)
    simp only [Call.is_resource, Bool.or_eq_false_iff] at hc
    obtain ⟨⟨c1, c2⟩, c3⟩ := hc
    have c1 : c.closed = none := by
      cases hq : c.closed with
      | none => rfl
      | some v => rw [hq] at c1; cases c1
    have c2 : c.freed = none := by
      cases hq : c.freed with
      | none => rfl
      | some v => rw [hq] at c2; cases c2
    unfold closes at h1 ⊢
    unfold frees at h2 ⊢
    refine ⟨?_, ?_, ?_⟩
    · rw [List.filterMap_cons, c1]
      exact h1
    · rw [List.filterMap_cons, c2]
      exact h2
    · simp only [allocated, c3, Bool.false_eq_true, false_and, if_false, h3, List.append_nil]

theorem plain_refl (w : World) : plain w w := ⟨[], by simp, by simp⟩

theorem plain_trans {w w1 w2 : World} (h1 : plain w w1) (h2 : plain w1 w2) : plain w w2 := by
  obtain ⟨a, rfl, ha⟩ := h1
  obtain ⟨b, rfl, hb⟩ := h2
  refine ⟨a ++ b, by simp, fun c hc => ?_⟩
  rcases List.mem_append.mp hc with h | h
  · exact ha c h
  · exact hb c h

theorem plain_sys {w w1 : World} (k : Kernel) (c : Call) (h1 : plain w w1)
    (hc : c.is_resource = false) : plain w (sys k w1 c).2 := by
  refine plain_trans h1 ⟨[c], rfl, fun d hd => ?_⟩
  rw [List.mem_singleton.mp hd]
  exact hc

/-- The lookups and the opening of the video node close, free and allocate
nothing. -/
theorem demo_open_media_decoder_resolve_plain (k : Kernel) (w : World) (udev : Int)
    (topology : MediaTopology) (video_fd : Int) :
    plain w (demo_open_media_decoder_resolve k w udev topology video_fd).2.2 := by
  rw [demo_open_media_decoder_resolve_walk]
  cases media_decoder_walk topology with
  | none => exact plain_refl w
  | some x =>
    simp only
    have q1 := plain_sys k (.udev_device_new_from_devnum udev x.major x.minor) (plain_refl w)
      (by rfl)
    split
    · exact q1
    · have q2 := plain_sys k (.udev_device_get_devnode
        (sys k w (.udev_device_new_from_devnum udev x.major x.minor)).1.ret) q1 (by rfl)
      have q3 := plain_sys k (.open (sys k (sys k w
        (.udev_device_new_from_devnum udev x.major x.minor)).2 (.udev_device_get_devnode
        (sys k w (.udev_device_new_from_devnum udev x.major x.minor)).1.ret)).1.ret
        (O_RDWR ||| O_NONBLOCK)) q2 (by rfl)
      have q4 := plain_sys k (.udev_device_unref
        (sys k w (.udev_device_new_from_devnum udev x.major x.minor)).1.ret) q3 (by rfl)
      split
      · exact q4
      · exact q4

/-- The body of the camera loop closes, frees and allocates nothing. -/
theorem demo_open_media_camera_try_plain (k : Kernel) (w : World) (udev : Int)
    (x : MediaInterface) : plain w (demo_open_media_camera_try k w udev x).2 := by
  obtain ⟨device, path, fd, n, h⟩ := demo_open_media_camera_try_calls k w udev x
  refine ⟨_, h, fun c hc => ?_⟩
  have hc2 := List.mem_of_mem_take hc
  simp only [camera_try_calls, List.mem_cons, List.mem_singleton, List.not_mem_nil,
    or_false] at hc2
  rcases hc2 with rfl | rfl | rfl | rfl | rfl <;> rfl

/-- The camera loop closes, frees and allocates nothing. -/
theorem demo_open_media_camera_loop_plain (k : Kernel) (udev : Int)
    (interfaces : List MediaInterface) (video_fd : Int) :
    ∀ (n i : Nat) (w : World) (r : Int × Int × World),
      demo_open_media_camera_loop k udev interfaces n i video_fd w = some r → plain w r.2.2 := by
  intro n
  induction n with
  | zero =>
    intro i w r h
    simp only [demo_open_media_camera_loop, Option.some.injEq] at h
    subst h
    exact plain_refl w
  | succ n ih =>
    intro i w r h
    unfold demo_open_media_camera_loop at h
    split at h
    · simp at h
    · rename_i x hx
      have q := demo_open_media_camera_try_plain k w udev x
      simp only at h
      split at h
      · simp only [Option.some.injEq] at h
        subst h
        exact q
      · exact plain_trans q (ih _ _ r h)

/-- The calls from `media_device_info` to the fill query close and free
nothing, and the arrays they leave are the allocations that succeeded. -/
theorem demo_open_media_topology_resources (k : Kernel) (w : World) (media_fd : Int)
    (r : Int × Option MediaTopology × MediaArrays × World)
    (h : demo_open_media_topology k w media_fd = r) :
    ∃ e, r.2.2.2 = w ++ e ∧ closes e = [] ∧ frees e = [] ∧
      allocated k w.length e
        = [r.2.2.1.interfaces, r.2.2.1.entities, r.2.2.1.pads, r.2.2.1.links].filter
            fun p => decide (p ≠ NULL) := by
  unfold demo_open_media_topology at h
  simp only [sys_reply, sys_world, List.length_append, List.length_cons, List.length_nil,
    Nat.zero_add, List.append_assoc, List.cons_append, List.nil_append] at h
  repeat' split at h
  all_goals subst h
  all_goals refine ⟨_, rfl, rfl, rfl, ?_⟩
  all_goals simp_all [allocated, Call.allocating, media_arrays_null]

/-- The label `complete` closes the media node and frees the arrays that were
allocated, the last one first. -/
theorem demo_open_media_complete_resources (k : Kernel) (w : World) (media_fd : Int)
    (a : MediaArrays) (hfd : 0 ≤ media_fd) :
    ∃ e, demo_open_media_complete k w media_fd a = w ++ e ∧ closes e = [media_fd] ∧
      frees e = ([a.interfaces, a.entities, a.pads, a.links].filter
        fun p => decide (p ≠ NULL)).reverse ∧
      ∀ pos, allocated k pos e = [] := by
  unfold demo_open_media_complete
  simp only [sys_world, ge_iff_le, hfd, if_true, List.append_assoc, List.cons_append,
    List.nil_append]
  by_cases h1 : a.links = NULL <;> by_cases h2 : a.pads = NULL <;>
    by_cases h3 : a.entities = NULL <;> by_cases h4 : a.interfaces = NULL <;>
    simp only [h1, h2, h3, h4, ne_eq, not_true_eq_false, not_false_eq_true, if_true, if_false,
      List.append_assoc, List.cons_append, List.nil_append] <;>
    refine ⟨_, rfl, rfl, ?_, fun pos => rfl⟩ <;>
    simp [frees, Call.freed, h1, h2, h3, h4]

/-- After the graph was fetched or the fetch failed, and after further calls
that close, free and allocate nothing, the label `complete` leaves a trace in
which the media node is closed once and the arrays freed are the arrays
allocated, each once. -/
theorem demo_open_media_complete_balance (k : Kernel) (w0 w2 : World) (media_fd : Int)
    (hfd : 0 ≤ media_fd) (hp : plain (demo_open_media_topology k w0 media_fd).2.2.2 w2) :
    ∃ e, demo_open_media_complete k w2 media_fd (demo_open_media_topology k w0 media_fd).2.2.1
        = w0 ++ e ∧
      closes e = [media_fd] ∧ frees e = (allocated k w0.length e).reverse := by
  obtain ⟨e1, h1, c1, f1, a1⟩ := demo_open_media_topology_resources k w0 media_fd _ rfl
  obtain ⟨e2, h2, q2⟩ := hp
  obtain ⟨c2, f2, _⟩ := plain_calls k e2 q2 0
  obtain ⟨e3, h3, c3, f3, a3⟩ := demo_open_media_complete_resources k w2 media_fd
    (demo_open_media_topology k w0 media_fd).2.2.1 hfd
  refine ⟨e1 ++ e2 ++ e3, ?_, ?_, ?_⟩
  · rw [h3, h2, h1]
    simp only [List.append_assoc]
  · simp only [closes_append, c1, c2, c3, List.nil_append]
  · simp only [frees_append, f1, f2, f3, List.nil_append, allocated_append, a1, a3,
      (plain_calls k e2 q2 _).2.2, List.append_nil]

/-- Claim C15. On every path of `demo_open_media_decoder` and of
`demo_open_media_camera` on which the media node was opened, under every
kernel and for every graph, the calls that follow the opening close exactly
one descriptor, the media node, and free exactly the arrays whose allocation
succeeded, each once, the last one first: no array is freed twice and nothing
is freed that was not allocated. -/
theorem media_probe_releases (k : Kernel) (w : World) (udev media_path video_fd : Int)
    (hopen : 0 ≤ (k w.length (.open media_path O_RDWR)).ret) :
    (∃ e, (demo_open_media_decoder k w udev media_path video_fd).2.2
        = w ++ .open media_path O_RDWR :: e ∧
      closes e = [(k w.length (.open media_path O_RDWR)).ret] ∧
      frees e = (allocated k (w.length + 1) e).reverse) ∧
    (∀ r, demo_open_media_camera k w udev media_path video_fd = some r →
      ∃ e, r.2.2 = w ++ .open media_path O_RDWR :: e ∧
        closes e = [(k w.length (.open media_path O_RDWR)).ret] ∧
        frees e = (allocated k (w.length + 1) e).reverse) := by
  have hlen : (w ++ [Call.open media_path O_RDWR]).length = w.length + 1 := by simp
  constructor
  · unfold demo_open_media_decoder
    simp only [sys_reply, sys_world, not_lt.mpr hopen, if_false]
    cases hg : (demo_open_media_topology k (w ++ [.open media_path O_RDWR])
        (k w.length (.open media_path O_RDWR)).ret).2.1 with
    | none =>
      simp only
      obtain ⟨e, he, hc, hf⟩ := demo_open_media_complete_balance k
        (w ++ [.open media_path O_RDWR]) _ _ hopen (plain_refl _)
      rw [hlen] at hf
      exact ⟨e, by rw [he]; simp, hc, hf⟩
    | some topology =>
      simp only
      obtain ⟨e, he, hc, hf⟩ := demo_open_media_complete_balance k
        (w ++ [.open media_path O_RDWR]) _ _ hopen
        (demo_open_media_decoder_resolve_plain k _ udev topology video_fd)
      rw [hlen] at hf
      exact ⟨e, by rw [he]; simp, hc, hf⟩
  · intro r hr
    unfold demo_open_media_camera at hr
    simp only [sys_reply, sys_world, not_lt.mpr hopen, if_false] at hr
    cases hg : (demo_open_media_topology k (w ++ [.open media_path O_RDWR])
        (k w.length (.open media_path O_RDWR)).ret).2.1 with
    | none =>
      rw [hg] at hr
      simp only [Option.some.injEq] at hr
      subst hr
      obtain ⟨e, he, hc, hf⟩ := demo_open_media_complete_balance k
        (w ++ [.open media_path O_RDWR]) _ _ hopen (plain_refl _)
      rw [hlen] at hf
      exact ⟨e, by rw [he]; simp, hc, hf⟩
    | some topology =>
      rw [hg] at hr
      simp only at hr
      split at hr
      · simp only [Option.some.injEq] at hr
        subst hr
        obtain ⟨e, he, hc, hf⟩ := demo_open_media_complete_balance k
          (w ++ [.open media_path O_RDWR]) _ _ hopen (plain_refl _)
        rw [hlen] at hf
        exact ⟨e, by rw [he]; simp, hc, hf⟩
      · split at hr
        · simp at hr
        · rename_i x hloop
          simp only [Option.some.injEq] at hr
          subst hr
          obtain ⟨e, he, hc, hf⟩ := demo_open_media_complete_balance k
            (w ++ [.open media_path O_RDWR]) _ _ hopen
            (demo_open_media_camera_loop_plain k udev _ video_fd _ _ _ x hloop)
          rw [hlen] at hf
          exact ⟨e, by rw [he]; simp, hc, hf⟩

theorem media_probe_releases_witness :
    0 ≤ (kernel_media 0 (.open 541 O_RDWR)).ret ∧
    ((∃ e, (demo_open_media_decoder kernel_media [] 900 541 (-1)).2.2
        = [] ++ .open 541 O_RDWR :: e ∧
      closes e = [(kernel_media 0 (.open 541 O_RDWR)).ret] ∧
      frees e = (allocated kernel_media (0 + 1) e).reverse) ∧
    (∀ r, demo_open_media_camera kernel_media [] 900 541 (-1) = some r →
      ∃ e, r.2.2 = [] ++ .open 541 O_RDWR :: e ∧
        closes e = [(kernel_media 0 (.open 541 O_RDWR)).ret] ∧
        frees e = (allocated kernel_media (0 + 1) e).reverse)) :=
  ⟨by decide, media_probe_releases kernel_media [] 900 541 (-1) (by decide)⟩

/-! ## Device discovery: the search -/

theorem demo_store_camera_decoder (demo : Demo) (i : Nat) (b : DemoBuffer) :
    (demo.store (.camera_capture i) b).decoder = demo.decoder := rfl

/-- Every call of a script that is issued, but the last, succeeded. -/
theorem issued_ok (k : Kernel) (cs : List Call) :
    ∀ (pos j : Nat) (h : j < cs.length), j + 1 < issued k pos cs →
      call_ok k (pos + j) (cs.get ⟨j, h⟩) = true := by
  induction cs with
  | nil => intro pos j h; simp at h
  | cons c cs ih =>
    intro pos j h hj
    unfold issued at hj
    by_cases hc : call_ok k pos c = true
    · rw [if_pos hc] at hj
      cases j with
      | zero => simpa using hc
      | succ j =>
        have := ih (pos + 1) j (by simpa using h) (by omega)
        rw [show pos + (j + 1) = pos + 1 + j by omega]
        simpa using this
    · rw [if_neg hc] at hj
      omega

theorem issued_le (k : Kernel) (cs : List Call) : ∀ pos, issued k pos cs ≤ cs.length := by
  induction cs with
  | nil => intro pos; simp [issued]
  | cons c cs ih =>
    intro pos
    unfold issued
    split
    · have := ih (pos + 1)
      simp only [List.length_cons]
      omega
    · simp only [List.length_cons]
      omega

/-- A script whose calls all succeed is issued to its end. -/
theorem issued_all (k : Kernel) (cs : List Call) :
    ∀ pos, all_ok k pos cs = true → issued k pos cs = cs.length := by
  induction cs with
  | nil => intro pos _; rfl
  | cons c cs ih =>
    intro pos h
    simp only [all_ok, Bool.and_eq_true] at h
    simp only [issued, h.1, if_true, ih (pos + 1) h.2, List.length_cons]

/-- The calls of `demo_decoder_run` from the first stream-on on follow the
script, each issued after the one before it succeeded; the value returned is 0
exactly when all of them succeeded. -/
theorem demo_decoder_run_stream_script (k : Kernel) (w : World) (demo : Demo) :
    (demo_decoder_run_stream k w demo).2.2
      = w ++ (stream_calls demo).take (issued k w.length (stream_calls demo)) ∧
    ((demo_decoder_run_stream k w demo).1 = 0 ↔ all_ok k w.length (stream_calls demo) = true) := by
  unfold demo_decoder_run_stream stream_calls
  simp only [sys_reply, sys_world, List.length_append, List.length_cons, List.length_nil,
    Nat.zero_add, List.append_assoc, List.cons_append, List.nil_append]
  repeat' split
  all_goals simp_all [issued, all_ok, call_ok, Nat.add_assoc]
  all_goals
    have hp : ¬ 0 < (k (w.length + 2) (Call.v4l2_poll demo.decoder.video_fd)).ret := by omega
    simp [hp]

theorem demo_decoder_buffer_current_capture (demo : Demo) :
    (demo_decoder_buffer_current demo demo.decoder.capture_type).1 = 0 := by
  unfold demo_decoder_buffer_current
  split
  · rfl
  · simp

theorem demo_decoder_buffer_current_output (demo : Demo) :
    (demo_decoder_buffer_current demo demo.decoder.output_type).1 = 0 := by
  unfold demo_decoder_buffer_current
  simp

theorem stream_calls_store (demo : Demo) (ref : BufferRef) (b : DemoBuffer) :
    stream_calls (demo.store ref b) = stream_calls demo := by
  cases ref <;> rfl

/-- The calls of `demo_decoder_run` follow the script, each issued after the
one before it succeeded, and the value returned is 0 exactly when all of them
succeeded. The buffer queued first is the current capture buffer; the buffer
queued second is the current output buffer, with the used lengths of the
camera buffer copied into it when the source is the camera. -/
theorem demo_decoder_run_script (k : Kernel) (w : World) (demo : Demo)
    (r : Int × Demo × World) (h : demo_decoder_run k w demo = some r) :
    ∃ capture output,
      (demo_decoder_buffer_current demo demo.decoder.capture_type).2.bind demo.load
        = some capture ∧
      r.2.2 = w ++ (decode_calls demo capture output).take
        (issued k w.length (decode_calls demo capture output)) ∧
      (r.1 = 0 ↔ all_ok k w.length (decode_calls demo capture output) = true) ∧
      (2 ≤ issued k w.length (decode_calls demo capture output) →
        ∃ output0,
          (demo_decoder_buffer_current demo demo.decoder.output_type).2.bind demo.load
            = some output0 ∧
          (demo.source ≠ DEMO_SOURCE_CAMERA → output = output0) ∧
          (demo.source = DEMO_SOURCE_CAMERA → ∃ camera_buffer,
            demo.load (.camera_capture demo.decoder.capture_buffer_index)
              = some camera_buffer ∧
            output = demo_decoder_run_copy_used camera_buffer output0.planes_count 0
              output0)) := by
  unfold demo_decoder_run at h
  simp only [demo_decoder_buffer_current_capture, demo_decoder_buffer_current_output, ne_eq,
    not_true_eq_false, if_false] at h
  split at h
  · simp at h
  · rename_i capture hcap
    by_cases hq : (sys k w (.v4l2_buffer_queue demo.decoder.video_fd capture.buffer.type
        capture.buffer.index capture.buffer.snapshot)).1.ret = 0
    · simp only [hq, not_true_eq_false, if_false] at h
      split at h
      · rename_i ref output0 href hout
        split at h
        · simp at h
        · rename_i output hcopied
          have hout2 : (∃ output0,
              (demo_decoder_buffer_current demo demo.decoder.output_type).2.bind demo.load
                = some output0 ∧
              (demo.source ≠ DEMO_SOURCE_CAMERA → output = output0) ∧
              (demo.source = DEMO_SOURCE_CAMERA → ∃ camera_buffer,
                demo.load (.camera_capture demo.decoder.capture_buffer_index)
                  = some camera_buffer ∧
                output = demo_decoder_run_copy_used camera_buffer output0.planes_count 0
                  output0)) := by
            refine ⟨output0, hout, ?_, ?_⟩
            · intro hs
              simp only [if_neg hs, Option.some.injEq] at hcopied
              exact hcopied.symm
            · intro hs
              simp only [if_pos hs] at hcopied
              split at hcopied
              · simp at hcopied
              · rename_i cb hcb
                simp only [Option.some.injEq] at hcopied
                exact ⟨cb, hcb, hcopied.symm⟩
          have hq0 : call_ok k w.length (.v4l2_buffer_queue demo.decoder.video_fd
              capture.buffer.type capture.buffer.index capture.buffer.snapshot) = true := by
            simpa [call_ok, sys_reply] using hq
          by_cases hq2 : (sys k (sys k w (.v4l2_buffer_queue demo.decoder.video_fd
              capture.buffer.type capture.buffer.index capture.buffer.snapshot)).2
              (.v4l2_buffer_queue demo.decoder.video_fd output.buffer.type output.buffer.index
                output.buffer.snapshot)).1.ret = 0
          · simp only [hq2, not_true_eq_false, if_false, Option.some.injEq] at h
            subst h
            have hq1 : call_ok k (w.length + 1) (.v4l2_buffer_queue demo.decoder.video_fd
                output.buffer.type output.buffer.index output.buffer.snapshot) = true := by
              simpa [call_ok, sys_reply, sys_world] using hq2
            obtain ⟨s1, s2⟩ := demo_decoder_run_stream_script k
              (sys k (sys k w (.v4l2_buffer_queue demo.decoder.video_fd
                capture.buffer.type capture.buffer.index capture.buffer.snapshot)).2
                (.v4l2_buffer_queue demo.decoder.video_fd output.buffer.type
                  output.buffer.index output.buffer.snapshot)).2 (demo.store ref output)
            rw [stream_calls_store] at s1 s2
            simp only [sys_world, List.length_append, List.length_cons, List.length_nil,
              Nat.zero_add] at s1 s2
            refine ⟨capture, output, hcap, ?_, ?_, fun _ => hout2⟩
            · simp only [sys_world]
              rw [s1]
              simp only [decode_calls, issued, hq0, hq1, if_true, List.take_succ_cons,
                List.append_assoc, List.cons_append, List.nil_append]
            · simp only [sys_world]
              rw [s2]
              simp only [decode_calls, all_ok, hq0, hq1, Bool.true_and]
          · simp only [hq2, not_false_eq_true, if_true, Option.some.injEq] at h
            subst h
            have hq1 : call_ok k (w.length + 1) (.v4l2_buffer_queue demo.decoder.video_fd
                output.buffer.type output.buffer.index output.buffer.snapshot) = false := by
              simpa [call_ok, sys_reply, sys_world] using hq2
            refine ⟨capture, output, hcap, ?_, ?_, fun _ => hout2⟩
            · simp only [decode_calls, issued, hq0, hq1, if_true, Bool.false_eq_true, if_false,
                List.take_succ_cons, List.take_zero, sys_world, List.append_assoc,
                List.cons_append, List.nil_append]
            · simp only [decode_calls, all_ok, hq0, hq1, Bool.true_and, Bool.false_and,
                Bool.false_eq_true, iff_false]
              exact hq2
      · simp at h
    · simp only [hq, not_false_eq_true, if_true, Option.some.injEq] at h
      subst h
      have hq0 : call_ok k w.length (.v4l2_buffer_queue demo.decoder.video_fd
          capture.buffer.type capture.buffer.index capture.buffer.snapshot) = false := by
        simpa [call_ok, sys_reply] using hq
      refine ⟨capture, capture, hcap, ?_, ?_, ?_⟩
      · simp only [decode_calls, issued, hq0, Bool.false_eq_true, if_false, List.take_succ_cons,
          List.take_zero, sys_world]
      · simp only [decode_calls, all_ok, hq0, Bool.false_and, Bool.false_eq_true, iff_false]
        exact hq
      · intro h2
        simp only [decode_calls, issued, hq0, Bool.false_eq_true, if_false] at h2
        omega

/-- With the buffers at the cursors inside the pools, `demo_decoder_run`
returns. -/
theorem demo_decoder_run_returns (k : Kernel) (w : World) (demo : Demo)
    (capture output0 : DemoBuffer)
    (hcap : (demo_decoder_buffer_current demo demo.decoder.capture_type).2.bind demo.load
      = some capture)
    (hout : (demo_decoder_buffer_current demo demo.decoder.output_type).2.bind demo.load
      = some output0)
    (hcam : demo.source = DEMO_SOURCE_CAMERA → ∃ camera_buffer,
      demo.load (.camera_capture demo.decoder.capture_buffer_index) = some camera_buffer) :
    ∃ r, demo_decoder_run k w demo = some r := by
  have href : ∃ ref, (demo_decoder_buffer_current demo demo.decoder.output_type).2 = some ref := by
    unfold demo_decoder_buffer_current
    simp
  obtain ⟨ref, href⟩ := href
  unfold demo_decoder_run
  by_cases hs : demo.source = DEMO_SOURCE_CAMERA
  · obtain ⟨cb, hcb⟩ := hcam hs
    simp only [demo_decoder_buffer_current_capture, demo_decoder_buffer_current_output, ne_eq,
      not_true_eq_false, if_false, hcap, hout, href, if_pos hs, hcb]
    repeat' split
    all_goals first
      | exact ⟨_, rfl⟩
      | simp_all
  · simp only [demo_decoder_buffer_current_capture, demo_decoder_buffer_current_output, ne_eq,
      not_true_eq_false, if_false, hcap, hout, href, if_neg hs]
    repeat' split
    all_goals first
      | exact ⟨_, rfl⟩
      | simp_all

/-- Claim C16. Every run of `demo_decoder_run`, under every kernel, follows the
script `decode_calls`: queue the current capture buffer, queue the current
output buffer, stream-on capture, stream-on output, poll, dequeue capture,
dequeue output, stream-off capture, stream-off output. Each call is issued
only after the one before it succeeded, so the trace is a prefix of the script
in which every call but the last succeeded, and the value returned is 0
exactly when all nine calls succeeded; the trace is then the whole script. A
stream-on stands in the trace only after both queue calls succeeded, and the
fourth call, the stream-on of the output, only after the stream-on of the
capture succeeded. With the buffers at the cursors inside the pools the
function returns. -/
theorem decode_call_order (k : Kernel) (w : World) (demo : Demo) :
    (∀ r, demo_decoder_run k w demo = some r →
      ∃ capture output,
        (demo_decoder_buffer_current demo demo.decoder.capture_type).2.bind demo.load
          = some capture ∧
        (2 ≤ issued k w.length (decode_calls demo capture output) →
          ∃ output0,
            (demo_decoder_buffer_current demo demo.decoder.output_type).2.bind demo.load
              = some output0 ∧
            (demo.source ≠ DEMO_SOURCE_CAMERA → output = output0) ∧
            (demo.source = DEMO_SOURCE_CAMERA → ∃ camera_buffer,
              demo.load (.camera_capture demo.decoder.capture_buffer_index)
                = some camera_buffer ∧
              output = demo_decoder_run_copy_used camera_buffer output0.planes_count 0
                output0)) ∧
        r.2.2 = w ++ (decode_calls demo capture output).take
          (issued k w.length (decode_calls demo capture output)) ∧
        (r.1 = 0 ↔ all_ok k w.length (decode_calls demo capture output) = true) ∧
        (all_ok k w.length (decode_calls demo capture output) = true →
          r.2.2 = w ++ decode_calls demo capture output) ∧
        (∀ (j : Nat) (h : j < (decode_calls demo capture output).length),
          j + 1 < issued k w.length (decode_calls demo capture output) →
          call_ok k (w.length + j) ((decode_calls demo capture output).get ⟨j, h⟩) = true) ∧
        (∀ fd t, Call.v4l2_stream_on fd t ∈ (decode_calls demo capture output).take
            (issued k w.length (decode_calls demo capture output)) →
          call_ok k w.length (.v4l2_buffer_queue demo.decoder.video_fd capture.buffer.type
            capture.buffer.index capture.buffer.snapshot) = true ∧
          call_ok k (w.length + 1) (.v4l2_buffer_queue demo.decoder.video_fd
            output.buffer.type output.buffer.index output.buffer.snapshot) = true) ∧
        (4 ≤ issued k w.length (decode_calls demo capture output) →
          call_ok k (w.length + 2)
            (.v4l2_stream_on demo.decoder.video_fd demo.decoder.capture_type) = true)) ∧
    (∀ capture output0,
      (demo_decoder_buffer_current demo demo.decoder.capture_type).2.bind demo.load
        = some capture →
      (demo_decoder_buffer_current demo demo.decoder.output_type).2.bind demo.load
        = some output0 →
      (demo.source = DEMO_SOURCE_CAMERA → ∃ camera_buffer,
        demo.load (.camera_capture demo.decoder.capture_buffer_index) = some camera_buffer) →
      ∃ r, demo_decoder_run k w demo = some r) := by
  refine ⟨fun r h => ?_, fun capture output0 hcap hout hcam =>
    demo_decoder_run_returns k w demo capture output0 hcap hout hcam⟩
  obtain ⟨capture, output, hcap, htrace, hret, hout⟩ := demo_decoder_run_script k w demo r h
  have hok := issued_ok k (decode_calls demo capture output) w.length
  refine ⟨capture, output, hcap, hout, htrace, hret, fun hall => ?_, hok, fun fd t hmem => ?_,
    fun h4 => ?_⟩
  · rw [htrace, issued_all k _ _ hall, List.take_length]
  · have h3 : 3 ≤ issued k w.length (decode_calls demo capture output) := by
      by_contra hlt
      have hle : issued k w.length (decode_calls demo capture output) ≤ 2 := by omega
      have hsub := List.take_subset_take_left (decode_calls demo capture output) hle hmem
      simp [decode_calls] at hsub
    exact ⟨hok 0 (by simp [decode_calls, stream_calls]) (by omega),
      hok 1 (by simp [decode_calls, stream_calls]) (by omega)⟩
  · exact hok 2 (by simp [decode_calls, stream_calls]) (by omega)

theorem decode_call_order_witness :
    (demo_decoder_run kernel_ok [] demo_sample).map (fun r => (r.1, r.2.2))
      = some (0, decode_calls demo_sample buffer_zero buffer_zero) ∧
    ∃ r, demo_decoder_run kernel_ok [] demo_sample = some r :=
  ⟨by decide, (decode_call_order kernel_ok [] demo_sample).2 buffer_zero buffer_zero rfl rfl
    (fun h => absurd h (by decide))⟩

/-! ## Cursors across a decode cycle -/

theorem demo_store_types (d : Demo) (ref : BufferRef) (b : DemoBuffer) :
    (d.store ref b).decoder.output_type = d.decoder.output_type ∧
    (d.store ref b).decoder.capture_type = d.decoder.capture_type := by
  cases ref <;> simp [Demo.store]

/-- A decode cycle leaves the two buffer types of the decoder as they were. -/
theorem demo_decoder_run_types (k : Kernel) (w w1 : World) (d d1 : Demo) (ret : Int)
    (h : demo_decoder_run k w d = some (ret, d1, w1)) :
    d1.decoder.output_type = d.decoder.output_type ∧
    d1.decoder.capture_type = d.decoder.capture_type := by
  unfold demo_decoder_run at h
  simp only at h
  repeat' split at h
  all_goals first
    | (simp at h; done)
    | (simp only [Option.some.injEq, Prod.mk.injEq] at h
       obtain ⟨_, rfl, _⟩ := h
       first | exact ⟨rfl, rfl⟩ | exact demo_store_types _ _ _)
    | (have h2 := congrArg (fun x => x.2.1) (Option.some.inj h)
       simp only [demo_decoder_run_stream_state] at h2
       subst h2
       exact demo_store_types _ _ _)

/-- Claim C17, counterexample. Under `kernel_ok` the decode cycle from
`demo_sample`, with three buffers in each pool, the output cursor at 1 and the
capture cursor at 2, returns 0 and leaves the output cursor at 1 and the
capture cursor at 2, where the claim asks for `(1 + 1) mod 3 = 2` and
`(2 + 1) mod 3 = 0`. -/
theorem decode_cycle_cursors_stay :
    (demo_decoder_run kernel_ok [] demo_sample).map
        (fun r => (r.1, r.2.1.decoder.output_buffer_index, r.2.1.decoder.capture_buffer_index))
      = some (0, 1, 2) ∧
    (demo_sample.decoder.output_buffer_index + 1) % demo_sample.decoder.output_buffers_count
      = 2 ∧
    (demo_sample.decoder.capture_buffer_index + 1) % demo_sample.decoder.capture_buffers_count
      = 0 := by
  decide

/-- Claim C17, amended. After every `demo_decoder_run`, whatever it returns,
the cursor and the pool size of each direction are what they were before the
call: the function does not advance the cursors. A call of
`demo_decoder_buffer_cycle` for a direction after the run sets the cursor of
that direction to its value before the run plus one, modulo the pool size. -/
theorem decode_cycle_keeps_cursors (k : Kernel) (w w1 : World) (demo d1 : Demo) (ret : Int)
    (h : demo_decoder_run k w demo = some (ret, d1, w1)) :
    d1.decoder.output_buffer_index = demo.decoder.output_buffer_index ∧
    d1.decoder.output_buffers_count = demo.decoder.output_buffers_count ∧
    d1.decoder.capture_buffer_index = demo.decoder.capture_buffer_index ∧
    d1.decoder.capture_buffers_count = demo.decoder.capture_buffers_count ∧
    (demo.decoder.output_buffers_count ≠ 0 →
      ∃ d2, demo_decoder_buffer_cycle d1 demo.decoder.output_type = some (0, d2) ∧
        d2.decoder.output_buffer_index
          = u32 (demo.decoder.output_buffer_index + 1) % demo.decoder.output_buffers_count) ∧
    (demo.decoder.capture_type ≠ demo.decoder.output_type →
      demo.decoder.capture_buffers_count ≠ 0 →
      ∃ d2, demo_decoder_buffer_cycle d1 demo.decoder.capture_type = some (0, d2) ∧
        d2.decoder.capture_buffer_index
          = u32 (demo.decoder.capture_buffer_index + 1)
              % demo.decoder.capture_buffers_count) := by
  obtain ⟨c1, c2, c3, c4, _, _⟩ := demo_decoder_run_cursors k w w1 demo d1 ret h
  obtain ⟨t1, t2⟩ := demo_decoder_run_types k w w1 demo d1 ret h
  refine ⟨c1, c2, c3, c4, fun hN => ?_, fun hne hN => ?_⟩
  · obtain ⟨d2, h1, h2, _⟩ := decoder_cycle_output_step d1 (by rw [c2]; exact hN)
    exact ⟨d2, by rw [← t1]; exact h1, by rw [h2, c1, c2]⟩
  · obtain ⟨d2, h1, h2, _⟩ := decoder_cycle_capture_step d1 (by rw [t1, t2]; exact hne)
      (by rw [c4]; exact hN)
    exact ⟨d2, by rw [← t2]; exact h1, by rw [h2, c3, c4]⟩

theorem decode_cycle_keeps_cursors_witness :
    demo_decoder_run kernel_ok [] demo_sample
      = some (0, (demo_decoder_run kernel_ok [] demo_sample).get (by decide) |>.2.1,
          (demo_decoder_run kernel_ok [] demo_sample).get (by decide) |>.2.2) ∧
    ((demo_decoder_run kernel_ok [] demo_sample).get (by decide)).2.1.decoder.output_buffer_index
      = demo_sample.decoder.output_buffer_index :=
  ⟨rfl, (decode_cycle_keeps_cursors kernel_ok [] _ demo_sample _ 0 rfl).1⟩

/-! ## Traces whose calls all have a property -/

theorem extends_by_refl (p : Call → Bool) (w : World) : extends_by p w w :=
  ⟨[], by simp, by simp⟩

theorem extends_by_trans {p : Call → Bool} {w w1 w2 : World} (h1 : extends_by p w w1)
    (h2 : extends_by p w1 w2) : extends_by p w w2 := by
  obtain ⟨a, rfl, ha⟩ := h1
  obtain ⟨b, rfl, hb⟩ := h2
  refine ⟨a ++ b, by simp, fun c hc => ?_⟩
  rcases List.mem_append.mp hc with h | h
  · exact ha c h
  · exact hb c h

theorem extends_by_sys {p : Call → Bool} {w w1 : World} (k : Kernel) (c : Call)
    (h1 : extends_by p w w1) (hc : p c = true) : extends_by p w (sys k w1 c).2 := by
  refine extends_by_trans h1 ⟨[c], rfl, fun d hd => ?_⟩
  rw [List.mem_singleton.mp hd]
  exact hc

/-- The calls of `demo_buffer_sync` are synchronisation calls. -/
theorem demo_buffer_sync_extends (p : Call → Bool)
    (hp : ∀ fd flags, p (.dma_buf_sync fd flags) = true) (k : Kernel) (w : World) (b : DemoBuffer) (f : Nat) :
    extends_by p w (demo_buffer_sync k w b f).2 := by
  obtain ⟨m, _, ht, _⟩ := demo_buffer_sync_trace k w b f
  refine ⟨_, ht, fun c hc => ?_⟩
  simp only [sync_calls, List.mem_map] at hc
  obtain ⟨i, _, rfl⟩ := hc
  exact hp _ _

/-! ## The dequeued index is not used -/

/-- The calls, the return value and the state of `demo_decoder_run` depend on
the return values of the kernel only. -/
theorem demo_decoder_run_ret_only (k k2 : Kernel) (w : World) (demo : Demo)
    (h : ∀ pos c, (k2 pos c).ret = (k pos c).ret) :
    demo_decoder_run k2 w demo = demo_decoder_run k w demo := by
  unfold demo_decoder_run demo_decoder_run_stream
  simp only [sys_reply, sys_world, h]

theorem call_ok_ret_only (k k2 : Kernel) (h : ∀ pos c, (k2 pos c).ret = (k pos c).ret)
    (pos : Nat) (c : Call) : call_ok k2 pos c = call_ok k pos c := by
  unfold call_ok
  cases c <;> simp only [h]

theorem all_ok_ret_only (k k2 : Kernel) (h : ∀ pos c, (k2 pos c).ret = (k pos c).ret)
    (cs : List Call) : ∀ pos, all_ok k2 pos cs = all_ok k pos cs := by
  induction cs with
  | nil => intro pos; rfl
  | cons c cs ih =>
    intro pos
    simp only [all_ok, ih, call_ok_ret_only k k2 h]

theorem sys_same_but_dequeued (k k2 : Kernel) (hk : same_but_dequeued k k2) (w : World)
    (c : Call) (hc : c.is_dequeue = false) : sys k2 w c = sys k w c := by
  unfold sys
  rw [(hk w.length c).2 hc]

theorem demo_buffer_sync_loop_same (k k2 : Kernel) (hk : same_but_dequeued k k2)
    (b : DemoBuffer) (f : Nat) (n : Nat) :
    ∀ (i : Nat) (w : World),
      demo_buffer_sync_loop k2 b f n i w = demo_buffer_sync_loop k b f n i w := by
  induction n with
  | zero => intro i w; rfl
  | succ n ih =>
    intro i w
    unfold demo_buffer_sync_loop dma_buf_sync
    simp only [sys_same_but_dequeued k k2 hk _ (.dma_buf_sync (b.dma_buf_fd i) f) (by rfl), ih]

/-- The result of `demo_dump` does not depend on what a dequeue reports. -/
theorem demo_dump_same (k k2 : Kernel) (hk : same_but_dequeued k k2) (w : World) (demo : Demo)
    (dump_path : Nat) : demo_dump k2 w demo dump_path = demo_dump k w demo dump_path := by
  have e1 : ∀ w, sys k2 w .open_dump = sys k w .open_dump :=
    fun w => sys_same_but_dequeued k k2 hk w _ (by rfl)
  have e2 : ∀ w fd d s, sys k2 w (.write fd d s) = sys k w (.write fd d s) :=
    fun w _ _ _ => sys_same_but_dequeued k k2 hk w _ (by rfl)
  have e3 : ∀ w fd, sys k2 w (.close fd) = sys k w (.close fd) :=
    fun w _ => sys_same_but_dequeued k k2 hk w _ (by rfl)
  have es : ∀ w b f, demo_buffer_sync k2 w b f = demo_buffer_sync k w b f := by
    intro w b f
    unfold demo_buffer_sync
    rw [demo_buffer_sync_loop_same k k2 hk]
  unfold demo_dump demo_dump_complete demo_buffer_sync_begin demo_buffer_sync_finish
  simp only [e1, e2, e3, es]

/-- What `demo_dump` writes is plane 0 of the capture buffer at the cursor of
the capture queue, in the used length of its descriptor. -/
theorem demo_dump_writes (k : Kernel) (w : World) (demo : Demo) (dump_path : Nat)
    (x : Int × Demo × World) (h : demo_dump k w demo dump_path = some x)
    (hne : demo.decoder.output_type ≠ demo.decoder.capture_type) :
    ∃ buffer, demo.load (.decoder_capture demo.decoder.capture_buffer_index) = some buffer ∧
      extends_by (Call.writes_only (.write (k w.length .open_dump).ret (buffer.data 0)
        (v4l2_buffer_plane_length_used buffer.buffer 0))) w x.2.2 := by
  unfold demo_dump at h
  have hcur : demo_decoder_buffer_current demo demo.decoder.capture_type =
      (0, some (.decoder_capture demo.decoder.capture_buffer_index)) := by
    unfold demo_decoder_buffer_current
    rw [if_neg (fun e => hne e.symm), if_pos rfl]
  simp only [hcur, ne_eq, not_true_eq_false, if_false, Option.bind_some] at h
  split at h
  · simp at h
  · rename_i buffer hb
    refine ⟨buffer, hb, ?_⟩
    have hs : ∀ fd flags, Call.writes_only (.write (k w.length .open_dump).ret (buffer.data 0)
        (v4l2_buffer_plane_length_used buffer.buffer 0)) (.dma_buf_sync fd flags) = true :=
      fun _ _ => rfl
    have hc : ∀ w0 w1 fd ret, extends_by (Call.writes_only (.write (k w.length .open_dump).ret
        (buffer.data 0) (v4l2_buffer_plane_length_used buffer.buffer 0))) w0 w1 →
        extends_by (Call.writes_only (.write (k w.length .open_dump).ret
        (buffer.data 0) (v4l2_buffer_plane_length_used buffer.buffer 0))) w0
          (demo_dump_complete k w1 demo fd ret).2.2 := by
      intro w0 w1 fd ret h1
      unfold demo_dump_complete
      split
      · exact extends_by_sys k _ h1 (by rfl)
      · exact h1
    have h0 := extends_by_sys k .open_dump (extends_by_refl (Call.writes_only
      (.write (k w.length .open_dump).ret (buffer.data 0)
        (v4l2_buffer_plane_length_used buffer.buffer 0))) w) (by rfl)
    have h1 := extends_by_trans h0 (demo_buffer_sync_extends _ hs k (sys k w .open_dump).2 buffer
      (demo_buffer_sync_flags buffer ||| DMA_BUF_SYNC_START))
    have h2 := extends_by_sys k (.write (sys k w .open_dump).1.ret (buffer.data 0)
      (v4l2_buffer_plane_length_used buffer.buffer 0)) h1
      (by simp [Call.writes_only, sys_reply])
    have h3 := extends_by_trans h2 (demo_buffer_sync_extends _ hs k _ buffer
      (demo_buffer_sync_flags buffer ||| DMA_BUF_SYNC_END))
    try simp only at h
    repeat' split at h
    all_goals
      simp only [Option.some.injEq] at h
      subst h
    · exact h0
    · exact hc _ _ _ _ h1
    · exact hc _ _ _ _ h2
    · exact hc _ _ _ _ h3
    · exact hc _ _ _ _ h3

/-- Claim C20. Let two kernels answer alike except for what a dequeue reports
(its buffer index and plane records). Then `demo_decoder_run` gives the same
result under both: the same return value, the same state and the same calls.
The return value is 0 when all calls of the script succeed, under either
kernel, for the successes are the same; the cursors and pool sizes after the
run are those before it, so no cursor takes a dequeued value. With distinct
buffer types for the two queues, `demo_dump` after the run gives the same
result under both kernels, and the only `write` it issues carries plane 0 of
the capture buffer at the cursor of the capture queue, in its used length. -/
theorem dequeue_index_ignored (k k2 : Kernel) (w : World) (demo : Demo)
    (hk : same_but_dequeued k k2) :
    demo_decoder_run k2 w demo = demo_decoder_run k w demo ∧
    ∀ r, demo_decoder_run k w demo = some r →
      (∃ capture output,
        (demo_decoder_buffer_current demo demo.decoder.capture_type).2.bind demo.load
          = some capture ∧
        r.2.2 = w ++ (decode_calls demo capture output).take
          (issued k w.length (decode_calls demo capture output)) ∧
        (all_ok k w.length (decode_calls demo capture output) = true → r.1 = 0) ∧
        all_ok k2 w.length (decode_calls demo capture output) =
          all_ok k w.length (decode_calls demo capture output)) ∧
      same_cursors demo r.2.1 ∧
      (demo.decoder.output_type ≠ demo.decoder.capture_type →
        ∀ dump_path,
          demo_dump k2 r.2.2 r.2.1 dump_path = demo_dump k r.2.2 r.2.1 dump_path ∧
          ∀ x, demo_dump k r.2.2 r.2.1 dump_path = some x →
            ∃ buffer,
              r.2.1.load (.decoder_capture demo.decoder.capture_buffer_index) = some buffer ∧
              extends_by (Call.writes_only (.write (k r.2.2.length .open_dump).ret
                (buffer.data 0) (v4l2_buffer_plane_length_used buffer.buffer 0)))
                r.2.2 x.2.2) := by
  have hret : ∀ pos c, (k2 pos c).ret = (k pos c).ret := fun pos c => (hk pos c).1
  refine ⟨demo_decoder_run_ret_only k k2 w demo hret, fun r h => ?_⟩
  obtain ⟨capture, output, hcap, htr, hz, _⟩ := demo_decoder_run_script k w demo r h
  have hcur := demo_decoder_run_cursors k w r.2.2 demo r.2.1 r.1 h
  have hty := demo_decoder_run_types k w r.2.2 demo r.2.1 r.1 h
  refine ⟨⟨capture, output, hcap, htr, hz.mpr, all_ok_ret_only k k2 hret _ _⟩, hcur,
    fun hne dump_path => ?_⟩
  constructor
  · exact demo_dump_same k k2 hk _ _ _
  · intro x hx
    have hne2 : r.2.1.decoder.output_type ≠ r.2.1.decoder.capture_type := by
      rw [hty.1, hty.2]; exact hne
    obtain ⟨buffer, hb, he⟩ := demo_dump_writes k r.2.2 r.2.1 dump_path x hx hne2
    rw [hcur.2.2.1] at hb
    exact ⟨buffer, hb, he⟩

theorem dequeue_index_ignored_witness :
    same_but_dequeued kernel_ok kernel_dequeue_far ∧
    (kernel_ok 5 (.v4l2_buffer_dequeue 4 1 0)).out ≠
      (demo_sample.decoder.capture_buffer_index : Int) ∧
    (kernel_dequeue_far 5 (.v4l2_buffer_dequeue 4 1 0)).out =
      (demo_sample.decoder.capture_buffer_index : Int) ∧
    (demo_decoder_run kernel_dequeue_far [] demo_sample).map (fun r => r.1) = some 0 ∧
    demo_decoder_run kernel_dequeue_far [] demo_sample =
      demo_decoder_run kernel_ok [] demo_sample :=
  ⟨fun _ c => by
     cases c <;> first | exact ⟨rfl, fun _ => rfl⟩ | exact ⟨rfl, fun h => Bool.noConfusion h⟩,
   by decide, by decide, by decide,
   (dequeue_index_ignored kernel_ok kernel_dequeue_far [] demo_sample
     (fun _ c => by
       cases c <;> first | exact ⟨rfl, fun _ => rfl⟩ | exact ⟨rfl, fun h => Bool.noConfusion h⟩)).1⟩

/-! ## The wait of a streaming cycle -/

theorem poll_error_ne_zero (ret : Int) : poll_error ret ≠ 0 := by
  unfold poll_error
  split
  · decide
  · assumption

theorem polls_pass_refl (k : Kernel) (w : World) : polls_pass k w w :=
  ⟨[], by simp, fun i fd h => by simp at h⟩

theorem polls_pass_trans {k : Kernel} {w w1 w2 : World} (h1 : polls_pass k w w1)
    (h2 : polls_pass k w1 w2) : polls_pass k w w2 := by
  obtain ⟨a, rfl, ha⟩ := h1
  obtain ⟨b, rfl, hb⟩ := h2
  refine ⟨a ++ b, by simp, fun i fd h => ?_⟩
  by_cases hi : i < a.length
  · rw [List.getElem?_append_left hi] at h
    exact ha i fd h
  · rw [List.getElem?_append_right (by omega)] at h
    have := hb (i - a.length) fd h
    rw [List.length_append] at this
    have e : w.length + a.length + (i - a.length) = w.length + i := by omega
    rwa [e] at this

/-- A call that is no wait keeps the waits positive. -/
theorem polls_pass_sys {w w1 : World} (k : Kernel) (c : Call) (h1 : polls_pass k w w1)
    (hc : c.is_poll = false) : polls_pass k w (sys k w1 c).2 := by
  refine polls_pass_trans h1 ⟨[c], rfl, fun i fd h => ?_⟩
  cases i with
  | zero =>
    simp only [List.getElem?_cons_zero, Option.some.injEq] at h
    subst h
    simp [Call.is_poll] at hc
  | succ i => simp at h

/-- A wait with a positive result keeps the waits positive. -/
theorem polls_pass_poll {w w1 : World} (k : Kernel) (fd : Int) (h1 : polls_pass k w w1)
    (hp : 0 < (k w1.length (.v4l2_poll fd)).ret) :
    polls_pass k w (sys k w1 (.v4l2_poll fd)).2 := by
  refine polls_pass_trans h1 ⟨[Call.v4l2_poll fd], rfl, fun i fd2 h => ?_⟩
  cases i with
  | zero =>
    simp only [List.getElem?_cons_zero, Option.some.injEq, Call.v4l2_poll.injEq] at h
    subst h
    exact hp
  | succ i => simp at h

/-- Calls without a wait keep the waits positive. -/
theorem polls_pass_of_extends {k : Kernel} {w w1 : World} (h : extends_by Call.no_poll w w1) :
    polls_pass k w w1 := by
  obtain ⟨e, rfl, he⟩ := h
  refine ⟨e, rfl, fun i fd hi => ?_⟩
  have := he _ (List.getElem?_mem hi)
  simp [Call.no_poll, Call.is_poll] at this

theorem poll_run_pass {k : Kernel} {w w1 : World} (ret : Int) (h : polls_pass k w w1) :
    poll_run k ret w w1 := Or.inl h

theorem poll_run_fail {k : Kernel} {w w1 : World} (fd : Int) (h : polls_pass k w w1)
    (hp : (k w1.length (.v4l2_poll fd)).ret ≤ 0) :
    poll_run k (poll_error (k w1.length (.v4l2_poll fd)).ret) w (sys k w1 (.v4l2_poll fd)).2 :=
  Or.inr ⟨w1, fd, h, rfl, hp, rfl⟩

theorem poll_run_after {k : Kernel} {ret : Int} {w w1 w2 : World} (h1 : polls_pass k w w1)
    (h2 : poll_run k ret w1 w2) : poll_run k ret w w2 := by
  rcases h2 with h2 | ⟨w0, fd, h3, h4, h5, h6⟩
  · exact Or.inl (polls_pass_trans h1 h2)
  · exact Or.inr ⟨w0, fd, polls_pass_trans h1 h3, h4, h5, h6⟩

/-- A run that gave 0 had no failed wait. -/
theorem poll_run_zero {k : Kernel} {w w1 : World} (h : poll_run k 0 w w1) :
    polls_pass k w w1 := by
  rcases h with h | ⟨w0, fd, _, _, _, h6⟩
  · exact h
  · exact absurd h6.symm (poll_error_ne_zero _)

/-- In a run of this shape a wait that gave zero or less is the last call, and
the value returned is `-ETIMEDOUT` after zero and the result of the wait after
a negative result. -/
theorem poll_run_fatal {k : Kernel} {ret : Int} {w w1 : World} (h : poll_run k ret w w1) :
    ∃ e, w1 = w ++ e ∧ ∀ i fd, e[i]? = some (Call.v4l2_poll fd) →
      (k (w.length + i) (.v4l2_poll fd)).ret ≤ 0 →
      e.length = i + 1 ∧
      ret = (if (k (w.length + i) (.v4l2_poll fd)).ret = 0 then -ETIMEDOUT
        else (k (w.length + i) (.v4l2_poll fd)).ret) ∧
      ret ≠ 0 := by
  rcases h with ⟨e, rfl, he⟩ | ⟨w0, fd0, ⟨a, rfl, ha⟩, rfl, h5, h6⟩
  · refine ⟨e, rfl, fun i fd hi hp => ?_⟩
    have := he i fd hi
    omega
  · refine ⟨a ++ [Call.v4l2_poll fd0], by simp, fun i fd hi hp => ?_⟩
    by_cases hlt : i < a.length
    · rw [List.getElem?_append_left hlt] at hi
      have := ha i fd hi
      omega
    · rw [List.getElem?_append_right (by omega)] at hi
      have hz : i - a.length = 0 := by
        by_contra hne
        obtain ⟨m, hm⟩ := Nat.exists_eq_succ_of_ne_zero hne
        rw [hm] at hi
        simp at hi
      rw [hz] at hi
      simp only [List.getElem?_cons_zero, Option.some.injEq, Call.v4l2_poll.injEq] at hi
      subst hi
      have hia : i = a.length := by omega
      subst hia
      rw [List.length_append] at h6
      refine ⟨by simp, h6, ?_⟩
      rw [h6]
      exact poll_error_ne_zero _

/-- The streaming part of `demo_decoder_run` stops at a failed wait. -/
theorem demo_decoder_run_stream_poll (k : Kernel) (w0 w : World) (demo : Demo)
    (h : polls_pass k w0 w) :
    poll_run k (demo_decoder_run_stream k w demo).1 w0 (demo_decoder_run_stream k w demo).2.2 := by
  unfold demo_decoder_run_stream
  have p1 := polls_pass_sys k (.v4l2_stream_on demo.decoder.video_fd demo.decoder.capture_type)
    h (by rfl)
  have p2 := polls_pass_sys k (.v4l2_stream_on demo.decoder.video_fd demo.decoder.output_type)
    p1 (by rfl)
  simp only
  split
  · exact poll_run_pass _ p1
  · split
    · exact poll_run_pass _ p2
    · split
      · rename_i hp
        exact poll_run_fail demo.decoder.video_fd p2 hp
      · rename_i hp
        have p3 := polls_pass_poll k demo.decoder.video_fd p2 (by
          simp only [sys_reply] at hp; omega)
        have p4 := polls_pass_sys k (.v4l2_buffer_dequeue demo.decoder.video_fd
          demo.decoder.capture_type demo.decoder.capture_memory) p3 (by rfl)
        have p5 := polls_pass_sys k (.v4l2_buffer_dequeue demo.decoder.video_fd
          demo.decoder.output_type demo.decoder.output_memory) p4 (by rfl)
        have p6 := polls_pass_sys k (.v4l2_stream_off demo.decoder.video_fd
          demo.decoder.capture_type) p5 (by rfl)
        have p7 := polls_pass_sys k (.v4l2_stream_off demo.decoder.video_fd
          demo.decoder.output_type) p6 (by rfl)
        repeat' split
        · exact poll_run_pass _ p4
        · exact poll_run_pass _ p5
        · exact poll_run_pass _ p6
        · exact poll_run_pass _ p7
        · exact poll_run_pass _ p7

/-- A run of `demo_decoder_run` stops at a failed wait. -/
theorem demo_decoder_run_poll (k : Kernel) (w : World) (demo : Demo) (r : Int × Demo × World)
    (h : demo_decoder_run k w demo = some r) : poll_run k r.1 w r.2.2 := by
  unfold demo_decoder_run at h
  simp only at h
  repeat' split at h
  all_goals first
    | (simp at h; done)
    | (simp only [Option.some.injEq] at h
       subst h
       first
         | exact poll_run_pass _ (polls_pass_refl k w)
         | exact poll_run_pass _ (polls_pass_sys k _ (polls_pass_refl k w) (by rfl))
         | exact poll_run_pass _ (polls_pass_sys k _
             (polls_pass_sys k _ (polls_pass_refl k w) (by rfl)) (by rfl))
         | exact demo_decoder_run_stream_poll k w _ _ (polls_pass_sys k _
             (polls_pass_sys k _ (polls_pass_refl k w) (by rfl)) (by rfl)))

theorem demo_camera_roll_queue_poll (k : Kernel) (n : Nat) :
    ∀ (d d1 : Demo) (w w1 : World) (ret : Int),
      demo_camera_roll_queue k n d w = some (ret, d1, w1) → polls_pass k w w1 := by
  induction n with
  | zero =>
    intro d d1 w w1 ret h
    simp only [demo_camera_roll_queue, Option.some.injEq, Prod.mk.injEq] at h
    obtain ⟨_, _, rfl⟩ := h
    exact polls_pass_refl k _
  | succ n ih =>
    intro d d1 w w1 ret h
    unfold demo_camera_roll_queue at h
    simp only at h
    repeat' split at h
    all_goals first
      | (simp at h; done)
      | (simp only [Option.some.injEq, Prod.mk.injEq] at h
         obtain ⟨_, _, rfl⟩ := h
         first
           | exact polls_pass_refl k _
           | exact polls_pass_sys k _ (polls_pass_refl k _) (by rfl))
      | exact polls_pass_trans (polls_pass_sys k _ (polls_pass_refl k _) (by rfl))
          (ih _ _ _ _ _ h)

/-- The second loop of `demo_camera_roll` stops at a failed wait. -/
theorem demo_camera_roll_capture_poll (k : Kernel) (demo : Demo) (n : Nat) :
    ∀ (next : Option BufferRef) (w w1 : World) (ret : Int),
      demo_camera_roll_capture k demo n next w = some (ret, w1) → poll_run k ret w w1 := by
  induction n with
  | zero =>
    intro next w w1 ret h
    simp only [demo_camera_roll_capture, Option.some.injEq, Prod.mk.injEq] at h
    obtain ⟨rfl, rfl⟩ := h
    exact poll_run_pass _ (polls_pass_refl k _)
  | succ n ih =>
    intro next w w1 ret h
    unfold demo_camera_roll_capture at h
    simp only at h
    split at h
    · simp at h
    · rename_i q hq
      have hqw : polls_pass k w q.2 := by
        split at hq
        · simp only [Option.some.injEq] at hq
          subst hq
          exact polls_pass_refl k _
        · split at hq
          · simp at hq
          · simp only [Option.some.injEq] at hq
            subst hq
            exact polls_pass_sys k _ (polls_pass_refl k _) (by rfl)
      split at h
      · simp only [Option.some.injEq, Prod.mk.injEq] at h
        obtain ⟨rfl, rfl⟩ := h
        exact poll_run_pass _ hqw
      · split at h
        · rename_i hp
          simp only [Option.some.injEq, Prod.mk.injEq] at h
          obtain ⟨rfl, rfl⟩ := h
          exact poll_run_fail demo.camera.video_fd hqw hp
        · rename_i hp
          have p3 := polls_pass_poll k demo.camera.video_fd hqw (by
            simp only [sys_reply] at hp; omega)
          have p4 := polls_pass_sys k (.v4l2_buffer_dequeue demo.camera.video_fd
            demo.camera.capture_type demo.camera.capture_memory) p3 (by rfl)
          split at h
          · simp only [Option.some.injEq, Prod.mk.injEq] at h
            obtain ⟨rfl, rfl⟩ := h
            exact poll_run_pass _ p4
          · exact poll_run_after p4 (ih _ _ _ _ h)

theorem demo_camera_roll_sync_poll (k : Kernel) (demo : Demo) (n : Nat) :
    ∀ (i : Nat) (w w1 : World) (ret : Int),
      demo_camera_roll_sync k demo n i w = some (ret, w1) → polls_pass k w w1 := by
  induction n with
  | zero =>
    intro i w w1 ret h
    simp only [demo_camera_roll_sync, Option.some.injEq, Prod.mk.injEq] at h
    obtain ⟨_, rfl⟩ := h
    exact polls_pass_refl k _
  | succ n ih =>
    intro i w w1 ret h
    unfold demo_camera_roll_sync at h
    split at h
    · simp at h
    · rename_i buffer _
      have hs : polls_pass k w (demo_buffer_sync k w buffer
          (DMA_BUF_SYNC_WRITE ||| DMA_BUF_SYNC_END)).2 :=
        polls_pass_of_extends (demo_buffer_sync_extends Call.no_poll (fun _ _ => rfl) k w buffer _)
      simp only at h
      split at h
      · simp only [Option.some.injEq, Prod.mk.injEq] at h
        obtain ⟨_, rfl⟩ := h
        exact hs
      · exact polls_pass_trans hs (ih _ _ _ _ h)

/-- The state that `demo_camera_roll` returns is the state that its first loop
left: the later parts change nothing in it. -/
theorem demo_camera_roll_state (k : Kernel) (w : World) (demo : Demo) (r : Int × Demo × World)
    (h : demo_camera_roll k w demo = some r) :
    ∃ ret0 w0, demo_camera_roll_queue k demo.camera.capture_buffers_count demo w =
      some (ret0, r.2.1, w0) := by
  unfold demo_camera_roll at h
  split at h
  · simp at h
  · rename_i r0 d0 w0 hq
    refine ⟨r0, w0, ?_⟩
    rw [hq]
    simp only at h
    repeat' split at h
    all_goals first
      | (simp at h; done)
      | (simp only [Option.some.injEq] at h
         subst h
         rfl)

/-- A run of `demo_camera_roll` stops at a failed wait. -/
theorem demo_camera_roll_poll (k : Kernel) (w : World) (demo : Demo) (r : Int × Demo × World)
    (h : demo_camera_roll k w demo = some r) : poll_run k r.1 w r.2.2 := by
  unfold demo_camera_roll at h
  split at h
  · simp at h
  · rename_i r0 d0 w0 hq
    have pq := demo_camera_roll_queue_poll k _ _ _ _ _ _ hq
    simp only at h
    split at h
    · simp only [Option.some.injEq] at h
      subst h
      exact poll_run_pass _ pq
    · have ps := polls_pass_sys k (.v4l2_stream_on d0.camera.video_fd d0.camera.capture_type)
        pq (by rfl)
      split at h
      · simp only [Option.some.injEq] at h
        subst h
        exact poll_run_pass _ ps
      · split at h
        · simp at h
        · rename_i ret2 w2 hc
          have pc := poll_run_after ps (demo_camera_roll_capture_poll k _ _ _ _ _ _ hc)
          split at h
          · simp only [Option.some.injEq] at h
            subst h
            exact pc
          · rename_i hz
            have hz0 : ret2 = 0 := by simpa using hz
            subst hz0
            have pz := poll_run_zero pc
            have po := polls_pass_sys k (.v4l2_stream_off d0.camera.video_fd
              d0.camera.capture_type) pz (by rfl)
            split at h
            · simp only [Option.some.injEq] at h
              subst h
              exact poll_run_pass _ po
            · split at h
              · simp only [Option.some.injEq] at h
                subst h
                exact poll_run_pass _ po
              · split at h
                · simp at h
                · rename_i ret3 w3 hsync
                  simp only [Option.some.injEq] at h
                  subst h
                  exact poll_run_pass _ (polls_pass_trans po
                    (demo_camera_roll_sync_poll k _ _ _ _ _ _ hsync))

/-- Claim C18. In every run of `demo_decoder_run` and in every run of
`demo_camera_roll`, whatever the iteration of the capture loop: a wait that
gives zero or less is the last call of the run, so that it is not retried and
no dequeue and no stream-off follows it; the function returns `-ETIMEDOUT`
when the wait gave zero and the result of the wait when it was negative, in
both cases a value other than zero. The cursors and pool sizes after
`demo_decoder_run` are those before it, and the state that `demo_camera_roll`
returns is the one its queue loop left before the stream was started, so that
nothing after the wait changes a cursor. -/
theorem poll_failure_fatal (k : Kernel) (w : World) (demo : Demo) :
    (∀ r, demo_decoder_run k w demo = some r →
      same_cursors demo r.2.1 ∧
      ∃ e, r.2.2 = w ++ e ∧ ∀ i fd, e[i]? = some (Call.v4l2_poll fd) →
        (k (w.length + i) (.v4l2_poll fd)).ret ≤ 0 →
        e.length = i + 1 ∧
        r.1 = (if (k (w.length + i) (.v4l2_poll fd)).ret = 0 then -ETIMEDOUT
          else (k (w.length + i) (.v4l2_poll fd)).ret) ∧
        r.1 ≠ 0) ∧
    (∀ r, demo_camera_roll k w demo = some r →
      (∃ ret0 w0, demo_camera_roll_queue k demo.camera.capture_buffers_count demo w =
        some (ret0, r.2.1, w0)) ∧
      r.2.1.decoder = demo.decoder ∧
      r.2.1.camera.capture_buffers_count = demo.camera.capture_buffers_count ∧
      ∃ e, r.2.2 = w ++ e ∧ ∀ i fd, e[i]? = some (Call.v4l2_poll fd) →
        (k (w.length + i) (.v4l2_poll fd)).ret ≤ 0 →
        e.length = i + 1 ∧
        r.1 = (if (k (w.length + i) (.v4l2_poll fd)).ret = 0 then -ETIMEDOUT
          else (k (w.length + i) (.v4l2_poll fd)).ret) ∧
        r.1 ≠ 0) := by
  refine ⟨fun r h => ⟨demo_decoder_run_cursors k w r.2.2 demo r.2.1 r.1 h,
    poll_run_fatal (demo_decoder_run_poll k w demo r h)⟩, fun r h => ?_⟩
  have hc := demo_camera_roll_cursors k demo r.2.1 w r.2.2 r.1 h
  exact ⟨demo_camera_roll_state k w demo r h, hc.1, hc.2.1,
    poll_run_fatal (demo_camera_roll_poll k w demo r h)⟩

theorem poll_failure_fatal_witness :
    (demo_decoder_run kernel_poll_timeout [] demo_sample = some decode_timeout_sample ∧
      decode_timeout_sample.1 = -ETIMEDOUT ∧
      decode_timeout_sample.2.2.getLast? = some (Call.v4l2_poll 4) ∧
      same_cursors demo_sample decode_timeout_sample.2.1 ∧
      ∃ e, decode_timeout_sample.2.2 = [] ++ e ∧ ∀ i fd, e[i]? = some (Call.v4l2_poll fd) →
        (kernel_poll_timeout (([] : World).length + i) (.v4l2_poll fd)).ret ≤ 0 →
        e.length = i + 1 ∧
        decode_timeout_sample.1 =
          (if (kernel_poll_timeout (([] : World).length + i) (.v4l2_poll fd)).ret = 0
            then -ETIMEDOUT
            else (kernel_poll_timeout (([] : World).length + i) (.v4l2_poll fd)).ret) ∧
        decode_timeout_sample.1 ≠ 0) ∧
    (demo_camera_roll kernel_poll_error [] demo_sample = some roll_error_sample ∧
      roll_error_sample.1 = -1 ∧
      roll_error_sample.2.2.getLast? = some (Call.v4l2_poll 5) ∧
      roll_error_sample.2.1.decoder = demo_sample.decoder ∧
      ∃ e, roll_error_sample.2.2 = [] ++ e ∧ ∀ i fd, e[i]? = some (Call.v4l2_poll fd) →
        (kernel_poll_error (([] : World).length + i) (.v4l2_poll fd)).ret ≤ 0 →
        e.length = i + 1 ∧
        roll_error_sample.1 =
          (if (kernel_poll_error (([] : World).length + i) (.v4l2_poll fd)).ret = 0
            then -ETIMEDOUT
            else (kernel_poll_error (([] : World).length + i) (.v4l2_poll fd)).ret) ∧
        roll_error_sample.1 ≠ 0) :=
  ⟨⟨rfl, by decide, by decide,
    ((poll_failure_fatal kernel_poll_timeout [] demo_sample).1 decode_timeout_sample rfl).1,
    ((poll_failure_fatal kernel_poll_timeout [] demo_sample).1 decode_timeout_sample rfl).2⟩,
   ⟨rfl, by decide, by decide,
    ((poll_failure_fatal kernel_poll_error [] demo_sample).2 roll_error_sample rfl).2.1,
    ((poll_failure_fatal kernel_poll_error [] demo_sample).2 roll_error_sample rfl).2.2.2⟩⟩

/-! ## The script of a camera roll -/

theorem camera_queue_call_cursor (d : Demo) (x i : Nat) :
    camera_queue_call { d with camera := { d.camera with capture_buffer_index := x } } i =
      camera_queue_call d i := rfl

theorem camera_load_cursor (d : Demo) (x : Nat) (ref : BufferRef) :
    Demo.load { d with camera := { d.camera with capture_buffer_index := x } } ref =
      d.load ref := by
  cases ref <;> rfl

/-- The first loop of `demo_camera_roll`, when it succeeds: it has queued the
buffers at the cursor and after it, modulo the pool size, and advanced the
cursor as often. -/
theorem demo_camera_roll_queue_script (k : Kernel) (n : Nat) :
    ∀ (d d1 : Demo) (w w1 : World),
      d.camera.capture_buffers_count < 2 ^ 32 →
      d.camera.capture_buffer_index < d.camera.capture_buffers_count →
      demo_camera_roll_queue k n d w = some (0, d1, w1) →
      d1 = { d with camera := { d.camera with capture_buffer_index :=
        (d.camera.capture_buffer_index + n) % d.camera.capture_buffers_count } } ∧
      w1 = w ++ (List.range n).map (fun i => camera_queue_call d
        ((d.camera.capture_buffer_index + i) % d.camera.capture_buffers_count)) ∧
      (∀ i, i < n → (d.load (.camera_capture
        ((d.camera.capture_buffer_index + i) % d.camera.capture_buffers_count))).isSome) ∧
      (∀ i, i < n → (k (w.length + i) (camera_queue_call d
        ((d.camera.capture_buffer_index + i) % d.camera.capture_buffers_count))).ret = 0) := by
  induction n with
  | zero =>
    intro d d1 w w1 h32 hc h
    simp only [demo_camera_roll_queue, Option.some.injEq, Prod.mk.injEq, true_and] at h
    obtain ⟨rfl, rfl⟩ := h
    refine ⟨?_, by simp, fun i hi => by omega, fun i hi => by omega⟩
    simp [Nat.mod_eq_of_lt hc]
  | succ n ih =>
    intro d d1 w w1 h32 hc h
    have hN0 : d.camera.capture_buffers_count ≠ 0 := by omega
    unfold demo_camera_roll_queue at h
    simp only [demo_camera_buffer_current, ne_eq, not_true_eq_false, if_false,
      Option.some_bind] at h
    cases hl : d.load (.camera_capture d.camera.capture_buffer_index) with
    | none => simp [hl] at h
    | some b =>
      simp only [hl] at h
      have hcall : Call.v4l2_buffer_queue d.camera.video_fd b.buffer.type b.buffer.index
          b.buffer.snapshot = camera_queue_call d d.camera.capture_buffer_index := by
        simp [camera_queue_call, hl]
      rw [hcall] at h
      by_cases hq : (sys k w (camera_queue_call d d.camera.capture_buffer_index)).1.ret = 0
      · simp only [hq, not_true_eq_false, if_false, demo_camera_buffer_cycle, if_neg hN0] at h
        have hlt : u32 (d.camera.capture_buffer_index + 1) % d.camera.capture_buffers_count <
            d.camera.capture_buffers_count := Nat.mod_lt _ (by omega)
        obtain ⟨e1, e2, e3, e4⟩ := ih
          { d with camera := { d.camera with capture_buffer_index :=
            (u32 (d.camera.capture_buffer_index + 1) % d.camera.capture_buffers_count) } }
          d1 _ w1 h32 hlt h
        simp only [camera_queue_call_cursor, camera_load_cursor, sys_world] at e1 e2 e3 e4
        rw [u32_succ_mod h32 hc] at e1 e2 e3 e4
        have harith : ∀ j, ((d.camera.capture_buffer_index + 1) % d.camera.capture_buffers_count
            + j) % d.camera.capture_buffers_count =
            (d.camera.capture_buffer_index + (j + 1)) % d.camera.capture_buffers_count := by
          intro j
          rw [Nat.add_mod, Nat.mod_mod, ← Nat.add_mod]
          congr 1
          omega
        simp only [harith] at e1 e2 e3 e4
        refine ⟨e1, ?_, fun i hi => ?_, fun i hi => ?_⟩
        · rw [e2, List.range_succ_eq_map, List.map_cons, List.map_map]
          simp [Nat.mod_eq_of_lt hc, Function.comp]
        · cases i with
          | zero => simp [Nat.mod_eq_of_lt hc, hl]
          | succ i => exact e3 i (by omega)
        · cases i with
          | zero => simpa [Nat.mod_eq_of_lt hc, sys_reply] using hq
          | succ i =>
            have := e4 i (by omega)
            simp only [List.length_append, List.length_cons, List.length_nil] at this
            have e : w.length + (0 + 1) + i = w.length + (i + 1) := by omega
            rw [e] at this
            exact this
      · simp only [hq, not_false_eq_true, if_true, Option.some.injEq, Prod.mk.injEq] at h
        exact h.1.elim

/-- The capture loop of `demo_camera_roll` from an iteration that queues a
buffer again, when it succeeds: every iteration has queued the buffer that the
iteration before dequeued, waited and dequeued. -/
theorem demo_camera_roll_capture_script (k : Kernel) (demo : Demo) (p0 : Nat) (n : Nat) :
    ∀ (j0 : Nat) (w w1 : World), w.length = p0 + 3 * j0 + 2 →
      demo_camera_roll_capture k demo n
        (some (.camera_capture (roll_dequeued k demo p0 j0))) w = some (0, w1) →
      w1 = w ++ (List.range n).flatMap (fun j =>
        camera_queue_call demo (roll_dequeued k demo p0 (j0 + j)) :: camera_wait_calls demo) ∧
      (∀ j, j < n →
        (demo.load (.camera_capture (roll_dequeued k demo p0 (j0 + j)))).isSome) := by
  induction n with
  | zero =>
    intro j0 w w1 _ h
    simp only [demo_camera_roll_capture, Option.some.injEq, Prod.mk.injEq, true_and] at h
    subst h
    exact ⟨by simp, fun j hj => by omega⟩
  | succ n ih =>
    intro j0 w w1 hw h
    unfold demo_camera_roll_capture at h
    simp only at h
    cases hl : demo.load (.camera_capture (roll_dequeued k demo p0 j0)) with
    | none => simp [hl] at h
    | some b =>
      simp only [hl] at h
      have hcall : Call.v4l2_buffer_queue demo.camera.video_fd b.buffer.type b.buffer.index
          b.buffer.snapshot = camera_queue_call demo (roll_dequeued k demo p0 j0) := by
        simp [camera_queue_call, hl]
      rw [hcall] at h
      split at h
      · rename_i hq
        simp only [Option.some.injEq, Prod.mk.injEq] at h
        exact absurd h.1 hq
      · split at h
        · simp only [Option.some.injEq, Prod.mk.injEq] at h
          exact absurd h.1 (poll_error_ne_zero _)
        · split at h
          · rename_i hd
            simp only [Option.some.injEq, Prod.mk.injEq] at h
            exact absurd h.1 hd
          · have hidx : int_to_u32 (sys k (sys k (sys k w
                (camera_queue_call demo (roll_dequeued k demo p0 j0))).2
                (Call.v4l2_poll demo.camera.video_fd)).2
                (Call.v4l2_buffer_dequeue demo.camera.video_fd demo.camera.capture_type
                  demo.camera.capture_memory)).1.out = roll_dequeued k demo p0 (j0 + 1) := by
              simp only [sys_reply, sys_world, List.length_append, List.length_cons,
                List.length_nil, roll_dequeued, hw]
              congr 3
            rw [hidx] at h
            obtain ⟨e1, e2⟩ := ih (j0 + 1) _ w1 (by simp [sys_world, hw]; omega) h
            refine ⟨?_, fun j hj => ?_⟩
            · rw [e1, range_succ_flatMap_shift (fun j =>
                camera_queue_call demo (roll_dequeued k demo p0 j) :: camera_wait_calls demo)]
              simp [sys_world, camera_wait_calls]
            · cases j with
              | zero => simp [hl]
              | succ j =>
                have := e2 j (by omega)
                have e : j0 + 1 + j = j0 + (j + 1) := by omega
                rw [e] at this
                exact this

/-- The capture loop of `demo_camera_roll` from its first iteration, which
queues nothing, when it succeeds. -/
theorem demo_camera_roll_capture_first (k : Kernel) (demo : Demo) (m : Nat) (w w1 : World)
    (h : demo_camera_roll_capture k demo (m + 1) none w = some (0, w1)) :
    w1 = w ++ camera_wait_calls demo ++ (List.range m).flatMap (fun j =>
      camera_queue_call demo (roll_dequeued k demo w.length j) :: camera_wait_calls demo) ∧
    (∀ j, j < m → (demo.load (.camera_capture (roll_dequeued k demo w.length j))).isSome) := by
  unfold demo_camera_roll_capture at h
  simp only [ne_eq, not_true_eq_false, if_false] at h
  split at h
  · simp only [Option.some.injEq, Prod.mk.injEq] at h
    exact absurd h.1 (poll_error_ne_zero _)
  · split at h
    · rename_i hd
      simp only [Option.some.injEq, Prod.mk.injEq] at h
      exact absurd h.1 hd
    · have hidx : int_to_u32 (sys k (sys k w (Call.v4l2_poll demo.camera.video_fd)).2
          (Call.v4l2_buffer_dequeue demo.camera.video_fd demo.camera.capture_type
            demo.camera.capture_memory)).1.out = roll_dequeued k demo w.length 0 := by
        simp only [sys_reply, sys_world, List.length_append, List.length_cons,
          List.length_nil, roll_dequeued]
      rw [hidx] at h
      obtain ⟨e1, e2⟩ := demo_camera_roll_capture_script k demo w.length m 0 _ w1
        (by simp [sys_world]) h
      simp only [Nat.zero_add] at e1 e2
      exact ⟨by rw [e1]; simp [sys_world, camera_wait_calls], e2⟩

/-- The calls of the last loop of `demo_camera_roll` are synchronisations. -/
theorem demo_camera_roll_sync_extends (k : Kernel) (demo : Demo) (n : Nat) :
    ∀ (i : Nat) (w w1 : World) (ret : Int),
      demo_camera_roll_sync k demo n i w = some (ret, w1) → extends_by Call.is_sync w w1 := by
  induction n with
  | zero =>
    intro i w w1 ret h
    simp only [demo_camera_roll_sync, Option.some.injEq, Prod.mk.injEq] at h
    obtain ⟨_, rfl⟩ := h
    exact extends_by_refl _ _
  | succ n ih =>
    intro i w w1 ret h
    unfold demo_camera_roll_sync at h
    split at h
    · simp at h
    · rename_i buffer _
      have hs := demo_buffer_sync_extends Call.is_sync (fun _ _ => rfl) k w buffer
        (DMA_BUF_SYNC_WRITE ||| DMA_BUF_SYNC_END)
      simp only at h
      split at h
      · simp only [Option.some.injEq, Prod.mk.injEq] at h
        obtain ⟨_, rfl⟩ := h
        exact hs
      · exact extends_by_trans hs (ih _ _ _ _ h)

theorem camera_load_some_lt (demo : Demo) (i : Nat)
    (h : (demo.load (.camera_capture i)).isSome) : i < 3 := by
  unfold Demo.load at h
  by_contra hn
  simp [hn] at h

theorem countP_map_all {α : Type} (p : Call → Bool) (f : α → Call) (l : List α)
    (h : ∀ x, p (f x) = true) : (l.map f).countP p = l.length := by
  induction l with
  | nil => rfl
  | cons a l ih => simp [List.countP_cons, h, ih]

theorem countP_map_none {α : Type} (p : Call → Bool) (f : α → Call) (l : List α)
    (h : ∀ x, p (f x) = false) : (l.map f).countP p = 0 := by
  induction l with
  | nil => rfl
  | cons a l ih => simp [List.countP_cons, h, ih]

theorem countP_flatMap_each {α : Type} (p : Call → Bool) (f : α → List Call) (l : List α)
    (m : Nat) (h : ∀ x, (f x).countP p = m) : (l.flatMap f).countP p = l.length * m := by
  induction l with
  | nil => simp
  | cons a l ih =>
    rw [List.flatMap_cons, List.countP_append, h, ih, List.length_cons]
    ring

/-- The numbers of calls of each kind in the script of a camera roll. -/
theorem roll_calls_counts (k : Kernel) (demo : Demo) (pos n c : Nat) :
    (roll_calls k demo pos n c).countP Call.is_queue = 2 * n ∧
    (roll_calls k demo pos n c).countP Call.is_stream_on = 1 ∧
    (roll_calls k demo pos n c).countP Call.is_poll = n + 1 ∧
    (roll_calls k demo pos n c).countP Call.is_dequeue = n + 1 ∧
    (roll_calls k demo pos n c).countP Call.is_stream_off = 1 := by
  have hf : ∀ (p : Call → Bool) (m : Nat),
      (∀ j, (camera_queue_call demo (roll_dequeued k demo (pos + n + 1) j) ::
        camera_wait_calls demo).countP p = m) →
      ((List.range n).flatMap (fun j =>
        camera_queue_call demo (roll_dequeued k demo (pos + n + 1) j) ::
          camera_wait_calls demo)).countP p = n * m := by
    intro p m h
    rw [countP_flatMap_each p _ _ m h, List.length_range]
  have hm1 : ∀ (p : Call → Bool), (∀ i, p (camera_queue_call demo i) = true) →
      ((List.range n).map (fun i => camera_queue_call demo ((c + i) % n))).countP p = n := by
    intro p h
    rw [countP_map_all p _ _ (fun _ => h _), List.length_range]
  have hm0 : ∀ (p : Call → Bool), (∀ i, p (camera_queue_call demo i) = false) →
      ((List.range n).map (fun i => camera_queue_call demo ((c + i) % n))).countP p = 0 := by
    intro p h
    rw [countP_map_none p _ _ (fun _ => h _)]
  unfold roll_calls
  simp only [List.countP_append]
  refine ⟨?_, ?_, ?_, ?_, ?_⟩
  · rw [hm1 Call.is_queue (fun _ => rfl), hf Call.is_queue 1 (fun _ => rfl)]
    simp [camera_wait_calls, Call.is_queue, List.countP_cons]
    omega
  · rw [hm0 Call.is_stream_on (fun _ => rfl), hf Call.is_stream_on 0 (fun _ => rfl)]
    simp [camera_wait_calls, Call.is_stream_on, List.countP_cons]
  · rw [hm0 Call.is_poll (fun _ => rfl), hf Call.is_poll 1 (fun _ => rfl)]
    simp [camera_wait_calls, Call.is_poll, List.countP_cons]
    omega
  · rw [hm0 Call.is_dequeue (fun _ => rfl), hf Call.is_dequeue 1 (fun _ => rfl)]
    simp [camera_wait_calls, Call.is_dequeue, List.countP_cons]
    omega
  · rw [hm0 Call.is_stream_off (fun _ => rfl), hf Call.is_stream_off 0 (fun _ => rfl)]
    simp [camera_wait_calls, Call.is_stream_off, List.countP_cons]

/-- The residues `(c + i) % n` for `i < n` are the numbers below `n`, each once. -/
theorem cursor_residues {n c : Nat} (hc : c < n) :
    (∀ m, m < n → ∃ i, i < n ∧ (c + i) % n = m) ∧
    (∀ i j, i < j → j < n → (c + i) % n ≠ (c + j) % n) := by
  refine ⟨fun m hm => ?_, fun i j hij hj => add_mod_ne_of_lt hij (by omega)⟩
  by_cases hle : c ≤ m
  · exact ⟨m - c, by omega, by rw [show c + (m - c) = m by omega, Nat.mod_eq_of_lt hm]⟩
  · refine ⟨m + n - c, by omega, ?_⟩
    rw [show c + (m + n - c) = m + n by omega, Nat.add_mod_right, Nat.mod_eq_of_lt hm]

theorem demo_cursor_same (d : Demo) :
    ({ d with camera := { d.camera with capture_buffer_index := d.camera.capture_buffer_index } }
      : Demo) = d := rfl

/-- A run of `demo_camera_roll` that returns 0, for a pool size that is an
`unsigned int` and a cursor below it: the calls are those of the script
`roll_calls` followed by synchronisation calls only, with the counts of the
script; the cursor residues are all buffers of the pool, each once; every buffer
of the pool and every buffer dequeued is loaded; the state after the run is
the state before it. -/
theorem demo_camera_roll_trace (k : Kernel) (w : World) (demo : Demo) (r : Int × Demo × World)
    (h32 : demo.camera.capture_buffers_count < 2 ^ 32)
    (hc : demo.camera.capture_buffer_index < demo.camera.capture_buffers_count)
    (h : demo_camera_roll k w demo = some r) (h0 : r.1 = 0) :
    (∃ syncs, r.2.2 = w ++ roll_calls k demo w.length demo.camera.capture_buffers_count
        demo.camera.capture_buffer_index ++ syncs ∧
      ∀ x, x ∈ syncs → x.is_sync = true) ∧
    ((roll_calls k demo w.length demo.camera.capture_buffers_count
        demo.camera.capture_buffer_index).countP Call.is_queue =
          2 * demo.camera.capture_buffers_count ∧
      (roll_calls k demo w.length demo.camera.capture_buffers_count
        demo.camera.capture_buffer_index).countP Call.is_stream_on = 1 ∧
      (roll_calls k demo w.length demo.camera.capture_buffers_count
        demo.camera.capture_buffer_index).countP Call.is_poll =
          demo.camera.capture_buffers_count + 1 ∧
      (roll_calls k demo w.length demo.camera.capture_buffers_count
        demo.camera.capture_buffer_index).countP Call.is_dequeue =
          demo.camera.capture_buffers_count + 1 ∧
      (roll_calls k demo w.length demo.camera.capture_buffers_count
        demo.camera.capture_buffer_index).countP Call.is_stream_off = 1) ∧
    ((∀ m, m < demo.camera.capture_buffers_count → ∃ i, i < demo.camera.capture_buffers_count ∧
        (demo.camera.capture_buffer_index + i) % demo.camera.capture_buffers_count = m) ∧
      (∀ i j, i < j → j < demo.camera.capture_buffers_count →
        (demo.camera.capture_buffer_index + i) % demo.camera.capture_buffers_count ≠
          (demo.camera.capture_buffer_index + j) % demo.camera.capture_buffers_count)) ∧
    (∀ i, i < demo.camera.capture_buffers_count →
      (demo.load (.camera_capture i)).isSome) ∧
    (∀ j, j < demo.camera.capture_buffers_count →
      (demo.load (.camera_capture (roll_dequeued k demo
        (w.length + demo.camera.capture_buffers_count + 1) j))).isSome) ∧
    r.2.1 = demo := by
  have hres := cursor_residues hc
  refine ⟨?_, roll_calls_counts k demo _ _ _, hres, ?_⟩
  all_goals
    unfold demo_camera_roll at h
    split at h
    · simp at h
    · rename_i r0 d0 w0 hq
      simp only at h
      split at h
      · rename_i hne
        simp only [Option.some.injEq] at h
        subst h
        exact absurd h0 hne
      · rename_i hz
        have hz0 : r0 = 0 := by simpa using hz
        subst hz0
        obtain ⟨e1, e2, e3, _⟩ := demo_camera_roll_queue_script k _ demo d0 w w0 h32 hc hq
        rw [Nat.add_mod_right, Nat.mod_eq_of_lt hc, demo_cursor_same] at e1
        have e1s := e1.symm
        subst e1s
        have hall : ∀ i, i < demo.camera.capture_buffers_count →
            (demo.load (.camera_capture i)).isSome := by
          intro i hi
          obtain ⟨j, hj, hji⟩ := hres.1 i hi
          have := e3 j hj
          rwa [hji] at this
        have hN3 : demo.camera.capture_buffers_count ≤ 3 := by
          have := camera_load_some_lt demo (demo.camera.capture_buffers_count - 1)
            (hall _ (by omega))
          omega
        have hu : u32 (demo.camera.capture_buffers_count + 1) =
            demo.camera.capture_buffers_count + 1 := u32_of_lt (by omega)
        rw [hu] at h
        split at h
        · simp only [Option.some.injEq] at h
          subst h
          rename_i hs
          exact absurd h0 hs
        · split at h
          · simp at h
          · rename_i ret2 w2 hcap
            split at h
            · rename_i hne
              simp only [Option.some.injEq] at h
              subst h
              exact absurd h0 hne
            · rename_i hz2
              have hz20 : ret2 = 0 := by simpa using hz2
              subst hz20
              obtain ⟨c1, c2⟩ := demo_camera_roll_capture_first k demo _ _ w2 hcap
              simp only [sys_world, List.length_append, List.length_cons, List.length_nil,
                e2, List.length_map, List.length_range, Nat.zero_add] at c1 c2
              split at h
              · simp only [Option.some.injEq] at h
                subst h
                rename_i hs
                exact absurd h0 hs
              · simp only [demo_camera_buffer_current, ne_eq, not_true_eq_false, if_false] at h
                split at h
                · simp at h
                · rename_i ret3 w3 hsync
                  simp only [Option.some.injEq] at h
                  subst h
                  obtain ⟨syncs, hs1, hs2⟩ := demo_camera_roll_sync_extends k _ _ _ _ _ _ hsync
                  first
                    | exact ⟨hall, c2, rfl⟩
                    | (refine ⟨syncs, ?_, hs2⟩
                       rw [hs1, sys_world, c1]
                       simp [roll_calls])

/-- Claim C21. Let the pool size `N` of the camera be an `unsigned int` and the
cursor `c` be below it, and let `demo_camera_roll` return 0, which it does only
when every call succeeded. Then the calls of the run are those of the script
`roll_calls` followed by synchronisation calls only: the queue calls of the
buffers `c`, `c + 1`, ... modulo `N`, which are all buffers of the pool, each
once; one stream-on; the wait and the dequeue of the first iteration; for each
of the `N` further iterations the queue call of the buffer that the iteration
before dequeued, the wait and the dequeue; one stream-off. The script holds
`2 * N` queue calls, one stream-on, `N + 1` waits, `N + 1` dequeues and one
stream-off. The state after the run is the state before it, the cursor of the
camera included. -/
theorem camera_roll_script (k : Kernel) (w : World) (demo : Demo) (r : Int × Demo × World)
    (h32 : demo.camera.capture_buffers_count < 2 ^ 32)
    (hc : demo.camera.capture_buffer_index < demo.camera.capture_buffers_count)
    (h : demo_camera_roll k w demo = some r) (h0 : r.1 = 0) :
    (∃ syncs, r.2.2 = w ++ roll_calls k demo w.length demo.camera.capture_buffers_count
        demo.camera.capture_buffer_index ++ syncs ∧
      ∀ x, x ∈ syncs → x.is_sync = true) ∧
    ((roll_calls k demo w.length demo.camera.capture_buffers_count
        demo.camera.capture_buffer_index).countP Call.is_queue =
          2 * demo.camera.capture_buffers_count ∧
      (roll_calls k demo w.length demo.camera.capture_buffers_count
        demo.camera.capture_buffer_index).countP Call.is_stream_on = 1 ∧
      (roll_calls k demo w.length demo.camera.capture_buffers_count
        demo.camera.capture_buffer_index).countP Call.is_poll =
          demo.camera.capture_buffers_count + 1 ∧
      (roll_calls k demo w.length demo.camera.capture_buffers_count
        demo.camera.capture_buffer_index).countP Call.is_dequeue =
          demo.camera.capture_buffers_count + 1 ∧
      (roll_calls k demo w.length demo.camera.capture_buffers_count
        demo.camera.capture_buffer_index).countP Call.is_stream_off = 1) ∧
    ((∀ m, m < demo.camera.capture_buffers_count → ∃ i, i < demo.camera.capture_buffers_count ∧
        (demo.camera.capture_buffer_index + i) % demo.camera.capture_buffers_count = m) ∧
      (∀ i j, i < j → j < demo.camera.capture_buffers_count →
        (demo.camera.capture_buffer_index + i) % demo.camera.capture_buffers_count ≠
          (demo.camera.capture_buffer_index + j) % demo.camera.capture_buffers_count)) ∧
    (∀ i, i < demo.camera.capture_buffers_count →
      (demo.load (.camera_capture i)).isSome) ∧
    (∀ j, j < demo.camera.capture_buffers_count →
      (demo.load (.camera_capture (roll_dequeued k demo
        (w.length + demo.camera.capture_buffers_count + 1) j))).isSome) ∧
    r.2.1 = demo :=
  demo_camera_roll_trace k w demo r h32 hc h h0

theorem camera_roll_script_witness :
    demo_camera_heap_ready.camera.capture_buffers_count = 3 ∧
    demo_camera_heap_ready.camera.capture_buffer_index = 0 ∧
    demo_camera_roll kernel_dequeue_turn [] demo_camera_heap_ready = some roll_turn_sample ∧
    roll_turn_sample.1 = 0 ∧
    (List.range 4).map (roll_dequeued kernel_dequeue_turn demo_camera_heap_ready 4) =
      [1, 0, 1, 0] ∧
    (∃ syncs, roll_turn_sample.2.2 = [] ++ roll_calls kernel_dequeue_turn demo_camera_heap_ready
        ([] : World).length demo_camera_heap_ready.camera.capture_buffers_count
        demo_camera_heap_ready.camera.capture_buffer_index ++ syncs ∧
      ∀ x, x ∈ syncs → x.is_sync = true) ∧
    roll_turn_sample.2.1 = demo_camera_heap_ready :=
  ⟨by decide, by decide, rfl, by decide, by decide,
   (camera_roll_script kernel_dequeue_turn [] demo_camera_heap_ready roll_turn_sample
     (by decide) (by decide) rfl (by decide)).1,
   (camera_roll_script kernel_dequeue_turn [] demo_camera_heap_ready roll_turn_sample
     (by decide) (by decide) rfl (by decide)).2.2.2.2.2⟩

/-! ## The index of the buffer queued again -/

/-- Claim C30, counterexample. The camera pool has three buffers and every call
succeeds, but the first dequeue reports the index 7: the next iteration of the
capture loop reads `camera->capture_buffers[7]`, outside the array of three
elements, and the run is undefined. Nothing compares the index with the pool
size. -/
theorem camera_requeue_unchecked :
    demo_camera_heap_ready.camera.capture_buffers_count = 3 ∧
    demo_camera_heap_ready.camera.capture_buffers.length = 3 ∧
    (kernel_dequeue_wild 5 (.v4l2_buffer_dequeue 5 1 4)).ret = 0 ∧
    roll_dequeued kernel_dequeue_wild demo_camera_heap_ready 4 0 = 7 ∧
    (demo_camera_roll kernel_dequeue_wild [] demo_camera_heap_ready).isNone = true := by
  decide

/-- Claim C30, amended. The buffer that an iteration of the capture loop of
`demo_camera_roll` queues again is `camera->capture_buffers[index]` for the
index that the dequeue of the iteration before reported, taken as it is. When
that index is 3 or more the access is outside the array and the run is
undefined; when it is below 3 the buffer is the element of the array at that
index, its queue call is the next call, and after a successful queue, wait and
dequeue the loop goes on with the index that this dequeue reports. In a run of
`demo_camera_roll` that returns 0 every dequeue but the last has reported an
index below 3. -/
theorem camera_requeue_follows_dequeue (k : Kernel) (demo : Demo) :
    (∀ n index w, 3 ≤ index →
      demo_camera_roll_capture k demo (n + 1) (some (.camera_capture index)) w = none) ∧
    (∀ n index w, index < 3 → demo.camera.capture_buffers.length = 3 →
      (∃ b, demo.camera.capture_buffers[index]? = some b ∧
        demo.load (.camera_capture index) = some b) ∧
      (∀ r, demo_camera_roll_capture k demo (n + 1) (some (.camera_capture index)) w = some r →
        ∃ e, r.2 = w ++ camera_queue_call demo index :: e) ∧
      ((k w.length (camera_queue_call demo index)).ret = 0 →
        0 < (k (w.length + 1) (.v4l2_poll demo.camera.video_fd)).ret →
        (k (w.length + 2) (.v4l2_buffer_dequeue demo.camera.video_fd demo.camera.capture_type
          demo.camera.capture_memory)).ret = 0 →
        demo_camera_roll_capture k demo (n + 1) (some (.camera_capture index)) w =
          demo_camera_roll_capture k demo n
            (some (.camera_capture (int_to_u32 (k (w.length + 2)
              (.v4l2_buffer_dequeue demo.camera.video_fd demo.camera.capture_type
                demo.camera.capture_memory)).out)))
            (w ++ camera_queue_call demo index :: camera_wait_calls demo))) ∧
    (∀ w r, demo.camera.capture_buffers_count < 2 ^ 32 →
      demo.camera.capture_buffer_index < demo.camera.capture_buffers_count →
      demo_camera_roll k w demo = some r → r.1 = 0 →
      ∀ j, j < demo.camera.capture_buffers_count →
        roll_dequeued k demo (w.length + demo.camera.capture_buffers_count + 1) j < 3) := by
  refine ⟨fun n index w hi => ?_, fun n index w hi hlen => ?_, fun w r h32 hc h h0 j hj => ?_⟩
  · unfold demo_camera_roll_capture
    have hl : demo.load (.camera_capture index) = none := by
      unfold Demo.load
      simp only [if_neg (Nat.not_lt.mpr hi)]
    simp only [hl]
  · have hb : ∃ b, demo.camera.capture_buffers[index]? = some b :=
      ⟨demo.camera.capture_buffers[index], List.getElem?_eq_getElem (by omega)⟩
    obtain ⟨b, hb⟩ := hb
    have hl : demo.load (.camera_capture index) = some b := by
      unfold Demo.load
      simp only [if_pos hi, hb]
    have hcall : Call.v4l2_buffer_queue demo.camera.video_fd b.buffer.type b.buffer.index
        b.buffer.snapshot = camera_queue_call demo index := by
      simp [camera_queue_call, hl]
    refine ⟨⟨b, hb, hl⟩, fun r hr => ?_, fun hq hp hd => ?_⟩
    · unfold demo_camera_roll_capture at hr
      simp only [hl, hcall] at hr
      split at hr
      · simp only [Option.some.injEq] at hr
        subst hr
        exact ⟨[], rfl⟩
      · split at hr
        · simp only [Option.some.injEq] at hr
          subst hr
          exact ⟨[Call.v4l2_poll demo.camera.video_fd], by simp [sys_world]⟩
        · split at hr
          · simp only [Option.some.injEq] at hr
            subst hr
            exact ⟨camera_wait_calls demo, by simp [sys_world, camera_wait_calls]⟩
          · obtain ⟨a, ha, _⟩ := demo_camera_roll_capture_quiet k demo n _ _ _ _
              (show demo_camera_roll_capture k demo n _ _ = some (r.1, r.2) from hr)
            exact ⟨camera_wait_calls demo ++ a, by
              rw [ha]; simp [sys_world, camera_wait_calls]⟩
    · rw [demo_camera_roll_capture]
      simp only [hl, hcall, sys_reply, sys_world, List.length_append, List.length_cons,
        List.length_nil, Nat.zero_add, hq, ne_eq, not_true_eq_false, if_false,
        if_neg (Int.not_le.mpr hp), hd, List.append_assoc, List.cons_append, List.nil_append,
        camera_wait_calls]
  · exact camera_load_some_lt demo _
      ((demo_camera_roll_trace k w demo r h32 hc h h0).2.2.2.2.1 j hj)

theorem camera_requeue_follows_dequeue_witness :
    ((3 : Nat) ≤ 7 ∧
      demo_camera_roll_capture kernel_ok demo_camera_heap_ready (0 + 1)
        (some (.camera_capture 7)) [] = none) ∧
    (demo_camera_roll kernel_dequeue_turn [] demo_camera_heap_ready = some roll_turn_sample ∧
      roll_turn_sample.1 = 0 ∧
      ∀ j, j < demo_camera_heap_ready.camera.capture_buffers_count →
        roll_dequeued kernel_dequeue_turn demo_camera_heap_ready
          (([] : World).length + demo_camera_heap_ready.camera.capture_buffers_count + 1) j
            < 3) :=
  ⟨⟨by decide, (camera_requeue_follows_dequeue kernel_ok demo_camera_heap_ready).1 0 7 []
      (by decide)⟩,
   ⟨rfl, by decide,
    (camera_requeue_follows_dequeue kernel_dequeue_turn demo_camera_heap_ready).2.2 []
      roll_turn_sample (by decide) (by decide) rfl (by decide)⟩⟩

/-! ## The calls of a buffer cleanup -/

/-- The loop of `demo_buffer_cleanup` over the planes `i0`, ..., `i0 + n - 1`:
its calls, and what it leaves in the buffer. -/
theorem demo_buffer_cleanup_loop_script (k : Kernel) (n : Nat) :
    ∀ (i0 : Nat) (b : DemoBuffer) (w : World),
      (demo_buffer_cleanup_loop k n i0 b w).2 =
        w ++ (List.range n).flatMap (fun j => cleanup_plane_calls b (i0 + j)) ∧
      (demo_buffer_cleanup_loop k n i0 b w).1.buffer = b.buffer ∧
      (demo_buffer_cleanup_loop k n i0 b w).1.planes_count = b.planes_count ∧
      (∀ j, (demo_buffer_cleanup_loop k n i0 b w).1.data j =
        if i0 ≤ j ∧ j < i0 + n then NULL else b.data j) ∧
      (∀ j, (demo_buffer_cleanup_loop k n i0 b w).1.dma_buf_fd j =
        if i0 ≤ j ∧ j < i0 + n ∧ 0 ≤ b.dma_buf_fd j then -1 else b.dma_buf_fd j) := by
  induction n with
  | zero =>
    intro i0 b w
    refine ⟨by simp [demo_buffer_cleanup_loop], rfl, rfl, fun j => ?_, fun j => ?_⟩
    · rw [if_neg (by omega)]; rfl
    · rw [if_neg (by omega)]; rfl
  | succ n ih =>
    intro i0 b w
    unfold demo_buffer_cleanup_loop
    simp only
    have hcalls : ∀ (b2 : DemoBuffer), b2.buffer = b.buffer →
        (∀ j, i0 < j → b2.data j = b.data j) →
        (∀ j, i0 < j → b2.dma_buf_fd j = b.dma_buf_fd j) →
        (List.range n).flatMap (fun j => cleanup_plane_calls b2 (i0 + 1 + j)) =
          (List.range n).flatMap (fun j => cleanup_plane_calls b (i0 + 1 + j)) := by
      intro b2 h1 h2 h3
      apply List.flatMap_congr
      intro j _
      unfold cleanup_plane_calls
      rw [h1, h2 _ (by omega), h3 _ (by omega)]
    split
    · rename_i hfd
      obtain ⟨e1, e2, e3, e4, e5⟩ := ih (i0 + 1)
        { b with data := Function.update b.data i0 NULL,
                 dma_buf_fd := Function.update b.dma_buf_fd i0 (-1) }
        (sys k (sys k w (Call.munmap (b.data i0) (v4l2_buffer_plane_length b.buffer i0))).2
          (Call.close (b.dma_buf_fd i0))).2
      try simp only at hfd
      refine ⟨?_, e2, e3, fun j => ?_, fun j => ?_⟩
      · have hc2 := hcalls
          { b with data := Function.update b.data i0 NULL,
                   dma_buf_fd := Function.update b.dma_buf_fd i0 (-1) } rfl
          (fun j hj => Function.update_noteq (by omega) _ _)
          (fun j hj => Function.update_noteq (by omega) _ _)
        rw [e1, hc2, range_succ_flatMap_shift (fun j => cleanup_plane_calls b j)]
        simp [sys_world, cleanup_plane_calls, hfd]
      · rw [e4]
        by_cases hj : j = i0
        · subst hj
          simp
        · simp only [Function.update_noteq hj]
          by_cases hin : i0 + 1 ≤ j ∧ j < i0 + 1 + n
          · rw [if_pos hin, if_pos (by omega)]
          · rw [if_neg hin, if_neg (by omega)]
      · rw [e5]
        by_cases hj : j = i0
        · subst hj
          simp [hfd]
        · simp only [Function.update_noteq hj]
          by_cases hin : i0 + 1 ≤ j ∧ j < i0 + 1 + n ∧ 0 ≤ b.dma_buf_fd j
          · rw [if_pos hin, if_pos ⟨by omega, by omega, hin.2.2⟩]
          · rw [if_neg hin, if_neg (fun h => hin ⟨by omega, by omega, h.2.2⟩)]
    · rename_i hfd
      obtain ⟨e1, e2, e3, e4, e5⟩ := ih (i0 + 1)
        { b with data := Function.update b.data i0 NULL }
        (sys k w (Call.munmap (b.data i0) (v4l2_buffer_plane_length b.buffer i0))).2
      try simp only at hfd
      refine ⟨?_, e2, e3, fun j => ?_, fun j => ?_⟩
      · have hc2 := hcalls { b with data := Function.update b.data i0 NULL } rfl
          (fun j hj => Function.update_noteq (by omega) _ _) (fun j hj => rfl)
        rw [e1, hc2, range_succ_flatMap_shift (fun j => cleanup_plane_calls b j)]
        simp [sys_world, cleanup_plane_calls, hfd]
      · rw [e4]
        by_cases hj : j = i0
        · subst hj
          simp
        · simp only [Function.update_noteq hj]
          by_cases hin : i0 + 1 ≤ j ∧ j < i0 + 1 + n
          · rw [if_pos hin, if_pos (by omega)]
          · rw [if_neg hin, if_neg (by omega)]
      · rw [e5]
        by_cases hj : j = i0
        · subst hj
          simp only
          rw [if_neg (by omega), if_neg (fun h => hfd h.2.2)]
        · by_cases hin : i0 + 1 ≤ j ∧ j < i0 + 1 + n ∧ 0 ≤ b.dma_buf_fd j
          · rw [if_pos hin, if_pos ⟨by omega, by omega, hin.2.2⟩]
          · rw [if_neg hin, if_neg (fun h => hin ⟨by omega, by omega, h.2.2⟩)]

/-- The handles closed by the calls of the planes of a buffer are its
share-handles that are not negative, in the order of the planes. -/
theorem closes_cleanup_calls (b : DemoBuffer) (n : Nat) :
    closes ((List.range n).flatMap (cleanup_plane_calls b)) =
      (List.range n).filterMap (fun i =>
        if 0 ≤ b.dma_buf_fd i then some (b.dma_buf_fd i) else none) := by
  induction n with
  | zero => rfl
  | succ n ih =>
    rw [List.range_succ, List.flatMap_append, closes_append, ih, List.filterMap_append]
    congr 1
    simp only [List.flatMap_cons, List.flatMap_nil, List.append_nil, List.filterMap_cons,
      List.filterMap_nil, cleanup_plane_calls]
    split <;> simp [closes, Call.closed]

/-- In the calls of the planes of a buffer, the `close` of a plane that has a
share-handle stands right after the `munmap` of that plane. -/
theorem cleanup_calls_order (b : DemoBuffer) (n : Nat) :
    ∀ i, i < n → 0 ≤ b.dma_buf_fd i →
      ∃ pre post, (List.range n).flatMap (cleanup_plane_calls b) =
        pre ++ Call.munmap (b.data i) (v4l2_buffer_plane_length b.buffer i) ::
          Call.close (b.dma_buf_fd i) :: post ∧
        pre = (List.range i).flatMap (cleanup_plane_calls b) := by
  induction n with
  | zero => intro i hi; omega
  | succ n ih =>
    intro i hi hfd
    rw [List.range_succ, List.flatMap_append]
    by_cases hin : i = n
    · subst hin
      exact ⟨_, [], by simp [cleanup_plane_calls, hfd], rfl⟩
    · obtain ⟨pre, post, e, hpre⟩ := ih i (by omega) hfd
      exact ⟨pre, post ++ [n].flatMap (cleanup_plane_calls b), by rw [e]; simp, hpre⟩

/-- The first loop of `cedrus_demo_buffer_cleanup`: one `munmap` per plane; the
share-handles and the descriptor are left as they were. -/
theorem cedrus_demo_buffer_cleanup_unmap_script (k : Kernel) (n : Nat) :
    ∀ (i0 : Nat) (b : DemoBuffer) (w : World),
      (cedrus_demo_buffer_cleanup_unmap k n i0 b w).2 =
        w ++ (List.range n).map (fun j =>
          Call.munmap (b.data (i0 + j)) (v4l2_buffer_plane_length b.buffer (i0 + j))) ∧
      (cedrus_demo_buffer_cleanup_unmap k n i0 b w).1.dma_buf_fd = b.dma_buf_fd ∧
      (cedrus_demo_buffer_cleanup_unmap k n i0 b w).1.planes_count = b.planes_count := by
  induction n with
  | zero => intro i0 b w; simp [cedrus_demo_buffer_cleanup_unmap]
  | succ n ih =>
    intro i0 b w
    unfold cedrus_demo_buffer_cleanup_unmap
    obtain ⟨e1, e2, e3⟩ := ih (i0 + 1) { b with data := Function.update b.data i0 NULL }
      (sys k w (Call.munmap (b.data i0) (v4l2_buffer_plane_length b.buffer i0))).2
    refine ⟨?_, e2, e3⟩
    simp only at e1 ⊢
    rw [e1, range_succ_map_shift (fun j =>
      Call.munmap (b.data j) (v4l2_buffer_plane_length b.buffer j))]
    have hmap : (List.range n).map (fun j =>
        Call.munmap (Function.update b.data i0 NULL (i0 + 1 + j))
          (v4l2_buffer_plane_length b.buffer (i0 + 1 + j))) =
        (List.range n).map (fun j =>
          Call.munmap (b.data (i0 + 1 + j)) (v4l2_buffer_plane_length b.buffer (i0 + 1 + j))) := by
      apply List.map_congr_left
      intro j _
      rw [Function.update_noteq (by omega)]
    rw [hmap]
    simp [sys_world]

/-- The second loop of `cedrus_demo_buffer_cleanup`: one `close` per plane. -/
theorem cedrus_demo_buffer_cleanup_close_script (k : Kernel) (n : Nat) :
    ∀ (i0 : Nat) (b : DemoBuffer) (w : World),
      (cedrus_demo_buffer_cleanup_close k n i0 b w).2 =
        w ++ (List.range n).map (fun j => Call.close (b.dma_buf_fd (i0 + j))) := by
  induction n with
  | zero => intro i0 b w; simp [cedrus_demo_buffer_cleanup_close]
  | succ n ih =>
    intro i0 b w
    unfold cedrus_demo_buffer_cleanup_close
    simp only
    rw [ih, range_succ_map_shift (fun j => Call.close (b.dma_buf_fd j))]
    have hmap : (List.range n).map (fun j =>
        Call.close (Function.update b.dma_buf_fd i0 (-1) (i0 + 1 + j))) =
        (List.range n).map (fun j => Call.close (b.dma_buf_fd (i0 + 1 + j))) := by
      apply List.map_congr_left
      intro j _
      rw [Function.update_noteq (by omega)]
    rw [hmap]
    simp [sys_world]

/-- Claim C24. For every buffer, under every kernel and after every trace, the
calls of `demo_buffer_cleanup` are, plane by plane in the order of the planes,
the `munmap` of `data[i]` in the length of the plane record of the descriptor
and then, when `dma_buf_fd[i] >= 0`, the `close` of `dma_buf_fd[i]`: the
`close` of a plane stands right after the `munmap` of that plane, after the
calls of the planes before it, and the handles closed are exactly those that
are not negative. The descriptor and the plane count are left as they were;
afterwards `data[i]` is `NULL` for every plane, and `dma_buf_fd[i]` is -1 where
it was a handle and is left as it was where it was negative, so that it is -1
for every plane when every slot held a handle or the sentinel -1. In the
single-file demo `cedrus_demo_buffer_cleanup` unmaps all planes first and then,
under the heap allocator, closes the handle of every plane. -/
theorem cleanup_unmaps_then_closes (k : Kernel) (w : World) (b : DemoBuffer) :
    (demo_buffer_cleanup k w b).2 =
      w ++ (List.range b.planes_count).flatMap (cleanup_plane_calls b) ∧
    (∀ i, i < b.planes_count → 0 ≤ b.dma_buf_fd i →
      ∃ pre post, (List.range b.planes_count).flatMap (cleanup_plane_calls b) =
        pre ++ Call.munmap (b.data i) (v4l2_buffer_plane_length b.buffer i) ::
          Call.close (b.dma_buf_fd i) :: post ∧
        pre = (List.range i).flatMap (cleanup_plane_calls b)) ∧
    closes ((List.range b.planes_count).flatMap (cleanup_plane_calls b)) =
      (List.range b.planes_count).filterMap (fun i =>
        if 0 ≤ b.dma_buf_fd i then some (b.dma_buf_fd i) else none) ∧
    (demo_buffer_cleanup k w b).1.buffer = b.buffer ∧
    (demo_buffer_cleanup k w b).1.planes_count = b.planes_count ∧
    (∀ i, i < b.planes_count → (demo_buffer_cleanup k w b).1.data i = NULL) ∧
    (∀ i, i < b.planes_count → (demo_buffer_cleanup k w b).1.dma_buf_fd i =
      if 0 ≤ b.dma_buf_fd i then -1 else b.dma_buf_fd i) ∧
    ((∀ i, i < b.planes_count → 0 ≤ b.dma_buf_fd i ∨ b.dma_buf_fd i = -1) →
      ∀ i, i < b.planes_count → (demo_buffer_cleanup k w b).1.dma_buf_fd i = -1) ∧
    (∀ demo : Cedrus, (cedrus_demo_buffer_cleanup k w demo b).2 =
      w ++ (List.range b.planes_count).map (fun i =>
          Call.munmap (b.data i) (v4l2_buffer_plane_length b.buffer i)) ++
        (if demo.allocator = CEDRUS_DEMO_ALLOCATOR_DMA_HEAP then
          (List.range b.planes_count).map (fun i => Call.close (b.dma_buf_fd i))
        else [])) := by
  have hsingle : ∀ demo : Cedrus, (cedrus_demo_buffer_cleanup k w demo b).2 =
      w ++ (List.range b.planes_count).map (fun i =>
          Call.munmap (b.data i) (v4l2_buffer_plane_length b.buffer i)) ++
        (if demo.allocator = CEDRUS_DEMO_ALLOCATOR_DMA_HEAP then
          (List.range b.planes_count).map (fun i => Call.close (b.dma_buf_fd i))
        else []) := by
    intro demo
    unfold cedrus_demo_buffer_cleanup
    obtain ⟨u1, u2, u3⟩ := cedrus_demo_buffer_cleanup_unmap_script k b.planes_count 0 b w
    simp only [Nat.zero_add] at u1
    simp only
    split
    · rw [cedrus_demo_buffer_cleanup_close_script, u1, u2, u3]
      simp
    · rw [u1]
      simp
  unfold demo_buffer_cleanup
  obtain ⟨e1, e2, e3, e4, e5⟩ := demo_buffer_cleanup_loop_script k b.planes_count 0 b w
  simp only [Nat.zero_add] at e1 e4 e5
  have h5 : ∀ i, i < b.planes_count →
      (demo_buffer_cleanup_loop k b.planes_count 0 b w).1.dma_buf_fd i =
        if 0 ≤ b.dma_buf_fd i then -1 else b.dma_buf_fd i := by
    intro i hi
    rw [e5]
    by_cases hfd : 0 ≤ b.dma_buf_fd i
    · rw [if_pos ⟨by omega, hi, hfd⟩, if_pos hfd]
    · rw [if_neg (fun h => hfd h.2.2), if_neg hfd]
  refine ⟨e1, cleanup_calls_order b _, closes_cleanup_calls b _, e2, e3, fun i hi => ?_, h5,
    fun hall i hi => ?_, hsingle⟩
  · rw [e4, if_pos ⟨by omega, hi⟩]
  · rw [h5 i hi]
    rcases hall i hi with h | h
    · rw [if_pos h]
    · rw [h]; rfl

theorem cleanup_unmaps_then_closes_witness :
    (demo_buffer_cleanup kernel_ok [] buffer_three).2 =
      [Call.munmap 4096 4096, Call.close 7, Call.munmap 8192 8192, Call.munmap 12288 12288,
        Call.close 9] ∧
    (∀ i, i < buffer_three.planes_count →
      0 ≤ buffer_three.dma_buf_fd i ∨ buffer_three.dma_buf_fd i = -1) ∧
    ∀ i, i < buffer_three.planes_count →
      (demo_buffer_cleanup kernel_ok [] buffer_three).1.dma_buf_fd i = -1 :=
  ⟨by decide, by decide,
   (cleanup_unmaps_then_closes kernel_ok [] buffer_three).2.2.2.2.2.2.2.1 (by decide)⟩

/-! ## The wait of the single-file demo -/

/-- Claim C19, the code at the failing input. Under a kernel in which the wait
times out (`v4l2_poll` returns 0), `cedrus_demo_run` of the single-file demo
stops after the wait and returns the result of the wait, 0; `main` takes the
decode for done, opens the output file, writes to it and exits with status 0.
Only a negative result of the wait gives a non-zero return value and the exit
status 1 without the output file. -/
theorem cedrus_timeout_exits_zero :
    (kernel_poll_timeout 4 (.v4l2_poll 4)).ret = 0 ∧
    (cedrus_demo_run kernel_poll_timeout [] cedrus_ready).map (fun r => (r.1, r.2.getLast?)) =
      some (0, some (Call.v4l2_poll 4)) ∧
    output_summary (cedrus_main kernel_poll_timeout [] cedrus_opened 6 100) =
      some (0, true, [Call.write 50 86016 0]) ∧
    (cedrus_demo_run kernel_poll_error [] cedrus_ready).map (fun r => (r.1, r.2.getLast?)) =
      some (-1, some (Call.v4l2_poll 4)) ∧
    output_summary (cedrus_main kernel_poll_error [] cedrus_opened 6 100) =
      some (1, false, []) := by
  decide

/-! ## The exit status and the dump file -/

/-- Claim C26, the code at the failing input. Under a kernel in which the dump
file cannot be opened (`open` returns -1) and 2048 bytes are in use in the
capture buffer, `demo_dump` does not return after the `open`: the test that
follows it compares the pointer `dump_path`, not the descriptor, with zero. It
goes on to `write` on the descriptor -1, takes the result -1 of that `write`
for complete, and returns 0, so the pipeline ends with the exit status 0. -/
theorem dump_open_failure_ignored :
    (kernel_dump_fail 0 .open_dump).ret = -1 ∧
    output_summary (main_pipeline kernel_dump_fail [] demo_opened DEMO_SOURCE_CAMERA
      DEMO_ALLOCATOR_DMA_HEAP 1280 720 1000) =
      some (0, true, [Call.write (-1) 126976 2048]) := by
  decide

/-! ## Transfers with a negative result -/

/-- Claim C27, the code at the failing input. With an input file of 100 bytes
and a `read` that returns -1, `demo_file_read` returns 0 and the pipeline goes
on to the exit status 0; with 2048 bytes in use in the capture buffer and a
`write` that returns -1, the pipeline ends with the exit status 0 as well; and
so does `main` of the single-file demo after a `read` that returns -1. The
result -1, converted to `unsigned int` for the comparison with the size, is
4294967295 and not below any size. -/
theorem negative_transfer_accepted :
    (kernel_read_error 29 (.read 6 45056 100)).ret = -1 ∧
    int_to_u32 (-1) = 4294967295 ∧
    (demo_file_read kernel_read_error [] demo_file_ready).map (fun r => (r.1, r.2.2)) =
      some (0, [Call.dma_buf_sync 109 2, Call.read 6 45056 100, Call.dma_buf_sync 109 6]) ∧
    (main_pipeline kernel_read_error [] demo_file_opened DEMO_SOURCE_FILE
      DEMO_ALLOCATOR_DMA_HEAP 1280 720 1000).map (fun r => r.1) = some 0 ∧
    (kernel_write_error 67 (.write 50 126976 2048)).ret = -1 ∧
    output_summary (main_pipeline kernel_write_error [] demo_opened DEMO_SOURCE_CAMERA
      DEMO_ALLOCATOR_DMA_HEAP 1280 720 1000) =
      some (0, true, [Call.write 50 126976 2048]) ∧
    (cedrus_main kernel_read_error [] cedrus_opened 6 100).map (fun r => r.1) = some 0 := by
  decide

/-! ## The used length of a chained output buffer -/

/-- Claim C28, the code at the failing input. After a setup with the camera as
source the output buffer 1 of the decoder has imported the camera buffer 1: its
plane is attached to the handle 109 that the camera buffer 1 owns. The camera
buffers 1 and 2 hold 2000 and 3000 bytes. With the output cursor at 1 and the
capture cursor at 2, `demo_decoder_run` queues the output buffer 1 with a used
length of 3000, that of the camera buffer 2 at the index of the capture cursor,
not the 2000 of the camera buffer 1 whose memory it shares. -/
theorem used_length_from_capture_cursor :
    demo_chain_ready.source = DEMO_SOURCE_CAMERA ∧
    demo_chain_ready.decoder.output_buffer_index = 1 ∧
    demo_chain_ready.decoder.capture_buffer_index = 2 ∧
    attached_handle demo_chain_ready (.decoder_output 1) = some 109 ∧
    owned_handle demo_chain_ready (.camera_capture 1) = some 109 ∧
    owned_handle demo_chain_ready (.camera_capture 2) = some 112 ∧
    used_length demo_chain_ready (.camera_capture 1) = some 2000 ∧
    used_length demo_chain_ready (.camera_capture 2) = some 3000 ∧
    (demo_decoder_run kernel_ok [] demo_chain_ready).map
      (fun r => (r.1, used_length r.2.1 (.decoder_output 1), r.2.2[1]?)) =
      some (0, some 3000, some (Call.v4l2_buffer_queue 4 2 1
        [{ length := 4096, offset := 0, bytesused := 3000, fd := 109 }])) := by
  decide

/-! ## The descriptors of a camera scan -/

/-- Claim C29, the code at the failing input. The media device of
`topology_camera` has two video interfaces; the node of the first one opens as
the descriptor 102 and lacks capture support, the node of the second opens as
101 and is accepted. `demo_open_media_camera` returns 0 with 101 in
`*video_fd`; the only descriptor it has closed is 7, that of the media node: the
descriptor 102 of the rejected interface is neither returned nor closed. -/
theorem camera_scan_leaks_descriptor :
    (kernel_media 10 (.open 602 (O_RDWR ||| O_NONBLOCK))).ret = 102 ∧
    int_to_u32 (kernel_media 12 (.v4l2_capabilities_probe 102)).out &&&
      V4L2_CAP_VIDEO_CAPTURE = 0 ∧
    (demo_open_media_camera kernel_media [] 900 540 (-1)).map
      (fun r => (r.1, r.2.1, r.2.2[10]?, r.2.2.contains (Call.close 102), closes r.2.2)) =
      some (0, 101, some (Call.open 602 (O_RDWR ||| O_NONBLOCK)), false, [7]) := by
  decide

/-! ## An empty input file -/

/-- Claim C25, counterexample. With an input file of size 0 and a kernel in
which every call succeeds, `demo_file_read` issues a `read` of 0 bytes and
returns 0: nothing is short of 0 bytes. The pipeline goes on to both queue
calls, both stream-on calls and the wait and ends with the exit status 0, and
so does `main` of the single-file demo. -/
theorem empty_input_not_short :
    demo_file_empty_ready.file.size = 0 ∧
    (demo_file_read kernel_ok [] demo_file_empty_ready).map (fun r => (r.1, r.2.2)) =
      some (0, [Call.dma_buf_sync 109 2, Call.read 6 45056 0, Call.dma_buf_sync 109 6]) ∧
    (main_pipeline kernel_ok [] demo_file_empty DEMO_SOURCE_FILE DEMO_ALLOCATOR_DMA_HEAP
      1280 720 1000).map (fun r => (r.1, r.2.2.countP Call.is_queue,
        r.2.2.countP Call.is_stream_on, r.2.2.countP Call.is_poll)) = some (0, 2, 2, 1) ∧
    (cedrus_main kernel_ok [] cedrus_opened 6 0).map (fun r => (r.1,
      r.2.2.contains (Call.read 6 45056 0), r.2.2.countP Call.is_queue,
        r.2.2.countP Call.is_stream_on, r.2.2.countP Call.is_poll)) =
      some (0, true, 2, 2, 1) := by
  decide

theorem demo_decoder_buffer_current_output_ref (demo : Demo) :
    demo_decoder_buffer_current demo demo.decoder.output_type =
      (0, some (.decoder_output demo.decoder.output_buffer_index)) := by
  unfold demo_decoder_buffer_current
  rw [if_pos rfl]

/-- Claim C25, amended. With an input file of size 0, `demo_file_read` asks for
a `read` of 0 bytes once the synchronisation before it succeeded, and a result
of that `read` of 0 or more is not short: the function returns 0, with a used
length of 0 in the current output buffer, exactly when both synchronisations
succeed, so that nothing stops the pipeline before the streaming calls. In
`main` of the single-file demo, with an input size of 0, a successful buffer
access and successful synchronisations, the input read step goes on to
`cedrus_demo_run`. -/
theorem empty_input_read (k : Kernel) (w : World) :
    (∀ (demo : Demo) (buffer : DemoBuffer), demo.file.size = 0 →
      demo.load (.decoder_output demo.decoder.output_buffer_index) = some buffer →
      0 ≤ (k (demo_buffer_sync_begin k w buffer).2.length
        (.read demo.file.fd (buffer.data 0) 0)).ret →
      ∃ r, demo_file_read k w demo = some r ∧
        (r.1 = 0 ↔ (demo_buffer_sync_begin k w buffer).1 = 0 ∧
          (demo_buffer_sync_finish k ((demo_buffer_sync_begin k w buffer).2 ++
            [Call.read demo.file.fd (buffer.data 0) 0]) buffer).1 = 0) ∧
        ((demo_buffer_sync_begin k w buffer).1 = 0 →
          ∃ e, r.2.2 = (demo_buffer_sync_begin k w buffer).2 ++
            Call.read demo.file.fd (buffer.data 0) 0 :: e) ∧
        (r.1 = 0 → r.2.1 = demo.store (.decoder_output demo.decoder.output_buffer_index)
          { buffer with buffer := v4l2_buffer_setup_plane_length_used buffer.buffer 0 0 })) ∧
    (∀ (demo demo1 : Cedrus) (input_fd input_data : Int) (wb wf : World),
      cedrus_demo_buffer_access demo demo.output_type 0 0 0 = some (0, demo1, input_data, 0) →
      cedrus_demo_buffer_sync_begin k w demo1 demo1.output_type = some (0, wb) →
      0 ≤ (k wb.length (.read input_fd input_data 0)).ret →
      cedrus_demo_buffer_sync_finish k (wb ++ [Call.read input_fd input_data 0]) demo1
        demo1.output_type = some (0, wf) →
      cedrus_main_read k w demo input_fd 0 =
        match cedrus_demo_run k wf demo1 with
        | none => none
        | some d => if d.1 ≠ 0 then some (1, demo1, d.2)
          else cedrus_main_output k d.2 demo1 input_fd) := by
  constructor
  · intro demo buffer hsize hload _
    unfold demo_file_read
    simp only [demo_decoder_buffer_current_output_ref, ne_eq, not_true_eq_false, if_false,
      Option.some_bind, hload, hsize, Nat.not_lt_zero, sys_world, sys_reply]
    by_cases hb : (demo_buffer_sync_begin k w buffer).1 = 0
    · simp only [hb, not_true_eq_false, if_false, true_and]
      by_cases hf : (demo_buffer_sync_finish k ((demo_buffer_sync_begin k w buffer).2 ++
          [Call.read demo.file.fd (buffer.data 0) 0]) buffer).1 = 0
      · simp only [hf, not_true_eq_false, if_false]
        refine ⟨_, rfl, by simp, fun _ => ?_, fun _ => rfl⟩
        obtain ⟨m, _, ht, _⟩ := demo_buffer_sync_trace k ((demo_buffer_sync_begin k w buffer).2 ++
          [Call.read demo.file.fd (buffer.data 0) 0]) buffer
          (demo_buffer_sync_flags buffer ||| DMA_BUF_SYNC_END)
        exact ⟨_, by
          show (demo_buffer_sync_finish k _ buffer).2 = _
          unfold demo_buffer_sync_finish
          rw [ht, List.append_assoc]
          rfl⟩
      · simp only [hf, not_false_eq_true, if_true]
        refine ⟨_, rfl, by simp [hf], fun _ => ?_, fun h => absurd h hf⟩
        obtain ⟨m, _, ht, _⟩ := demo_buffer_sync_trace k ((demo_buffer_sync_begin k w buffer).2 ++
          [Call.read demo.file.fd (buffer.data 0) 0]) buffer
          (demo_buffer_sync_flags buffer ||| DMA_BUF_SYNC_END)
        exact ⟨_, by
          show (demo_buffer_sync_finish k _ buffer).2 = _
          unfold demo_buffer_sync_finish
          rw [ht, List.append_assoc]
          rfl⟩
    · simp only [hb, not_false_eq_true, if_true]
      exact ⟨_, rfl, by simp [hb], fun h => h.elim, fun h => absurd h hb⟩
  · intro demo demo1 input_fd input_data wb wf hacc hbeg _ hfin
    unfold cedrus_main_read
    simp only [hacc, hbeg, ne_eq, not_true_eq_false, if_false, Nat.not_lt_zero, sys_world, hfin]

theorem empty_input_read_witness :
    demo_file_empty_ready.file.size = 0 ∧
    ∃ r, demo_file_read kernel_ok [] demo_file_empty_ready = some r ∧ r.1 = 0 :=
  ⟨by decide,
   ((empty_input_read kernel_ok []).1 demo_file_empty_ready
      ((demo_file_empty_ready.load (.decoder_output 0)).getD buffer_zero) (by decide) rfl
      (by decide)).elim fun r h => ⟨r, h.1, h.2.1.mpr ⟨by decide, by decide⟩⟩⟩

/-! ## The size estimate of the compressed format -/

/-- Claim C22, counterexample. With the file as source, at 1280 by 720, the
third call of `demo_decoder_setup` is the `v4l2_format_try` of the output
format, and the size estimate in it is 2764800, which is 1280 * 720 * 3 and not
1280 * 720 = 921600. -/
theorem decoder_size_estimate_tripled :
    demo_file_sized.source ≠ DEMO_SOURCE_CAMERA ∧
    (demo_decoder_setup kernel_ok [] demo_file_sized).map (fun r => r.2.2[2]?) =
      some (some (Call.v4l2_format_try 4
        { type := V4L2_BUF_TYPE_VIDEO_OUTPUT, width := 1280, height := 720,
          pixelformat := V4L2_PIX_FMT_JPEG, sizeimage := 2764800 })) ∧
    u32 (1280 * 720) = 921600 ∧
    u32 (1280 * 720 * 3) = 2764800 := by
  decide

theorem emits_extends {w w1 : World} {e : List (Int × Nat)} (h : emits w w1 e) :
    ∃ a, w1 = w ++ a := by
  obtain ⟨a, ha, _⟩ := h
  exact ⟨a, ha⟩

/-- With successful pixel format checks, the third call of the format part of
`demo_decoder_setup` is the `v4l2_format_try` of the output format, with the
size estimate `width * height * 3` when nothing is imported and the length of
plane 0 of the camera buffer 0 otherwise. -/
theorem demo_decoder_setup_formats_try (k : Kernel) (w : World) (demo : Demo) (imp : Bool)
    (r : Int × Demo × World)
    (hchk : ∀ pos fd t f, (k pos (.v4l2_pixel_format_check fd t f)).ret ≠ 0)
    (h : demo_decoder_setup_formats k w demo imp = some r) :
    ∃ size a, r.2.2 = w ++ [Call.v4l2_pixel_format_check demo.decoder.video_fd
          demo.decoder.output_type demo.decoder.output_pixel_format,
        Call.v4l2_pixel_format_check demo.decoder.video_fd demo.decoder.capture_type
          demo.decoder.capture_pixel_format,
        Call.v4l2_format_try demo.decoder.video_fd
          { type := demo.decoder.output_type, width := demo.decoder.output_width,
            height := demo.decoder.output_height,
            pixelformat := demo.decoder.output_pixel_format, sizeimage := size }] ++ a ∧
      (imp = false →
        size = u32 (demo.decoder.output_width * demo.decoder.output_height * 3)) ∧
      (imp = true → ∃ b, demo.load (.camera_capture 0) = some b ∧
        size = v4l2_buffer_plane_length b.buffer 0) := by
  have key : ∀ size : Nat,
      (∀ wt, wt = (sys k (sys k (sys k w (Call.v4l2_pixel_format_check demo.decoder.video_fd
          demo.decoder.output_type demo.decoder.output_pixel_format)).2
          (Call.v4l2_pixel_format_check demo.decoder.video_fd demo.decoder.capture_type
            demo.decoder.capture_pixel_format)).2
          (Call.v4l2_format_try demo.decoder.video_fd
            { type := demo.decoder.output_type, width := demo.decoder.output_width,
              height := demo.decoder.output_height,
              pixelformat := demo.decoder.output_pixel_format, sizeimage := size })).2 →
        emits wt r.2.2 [] →
        ∃ a, r.2.2 = w ++ [Call.v4l2_pixel_format_check demo.decoder.video_fd
          demo.decoder.output_type demo.decoder.output_pixel_format,
        Call.v4l2_pixel_format_check demo.decoder.video_fd demo.decoder.capture_type
          demo.decoder.capture_pixel_format,
        Call.v4l2_format_try demo.decoder.video_fd
          { type := demo.decoder.output_type, width := demo.decoder.output_width,
            height := demo.decoder.output_height,
            pixelformat := demo.decoder.output_pixel_format, sizeimage := size }] ++ a) := by
    intro size wt hwt he
    obtain ⟨a, ha⟩ := emits_extends he
    exact ⟨a, by rw [ha, hwt]; simp [sys_world]⟩
  unfold demo_decoder_setup_formats at h
  simp only [sys_reply, hchk, if_false] at h
  cases imp with
  | false =>
    simp only [Bool.false_eq_true, if_false] at h
    obtain ⟨a, ha⟩ := key _ _ rfl (by
      repeat' split at h
      all_goals first
        | (simp at h; done)
        | (simp only [Option.some.injEq] at h
           subst h
           repeat (first | exact emits_refl _ | refine quiet_sys k _ ?_ (by rfl)))
        | (refine quiet_trans ?_ (demo_decoder_setup_buffers_quiet k _ r.2.2 _ r.2.1 _ r.1 h)
           repeat (first | exact emits_refl _ | refine quiet_sys k _ ?_ (by rfl))))
    exact ⟨_, a, ha, fun _ => rfl, fun hf => Bool.noConfusion hf⟩
  | true =>
    simp only [if_true] at h
    cases hl : demo.load (.camera_capture 0) with
    | none => simp [hl] at h
    | some b =>
      simp only [hl, Option.map_some'] at h
      obtain ⟨a, ha⟩ := key _ _ rfl (by
        repeat' split at h
        all_goals first
          | (simp at h; done)
          | (simp only [Option.some.injEq] at h
             subst h
             repeat (first | exact emits_refl _ | refine quiet_sys k _ ?_ (by rfl)))
          | (refine quiet_trans ?_ (demo_decoder_setup_buffers_quiet k _ r.2.2 _ r.2.1 _ r.1 h)
             repeat (first | exact emits_refl _ | refine quiet_sys k _ ?_ (by rfl))))
      exact ⟨_, a, ha, fun hf => Bool.noConfusion hf, fun _ => ⟨b, rfl, rfl⟩⟩

theorem cedrus_demo_buffer_setup_dma_heap_loop_quiet (k : Kernel) (heap_fd : Int) (n : Nat) :
    ∀ (i0 : Nat) (b : DemoBuffer) (w : World),
      emits w (cedrus_demo_buffer_setup_dma_heap_loop k heap_fd n i0 b w).2.2 [] := by
  induction n with
  | zero => intro i0 b w; exact emits_refl w
  | succ n ih =>
    intro i0 b w
    unfold cedrus_demo_buffer_setup_dma_heap_loop
    simp only
    have ha := dma_heap_alloc_quiet k w heap_fd (v4l2_buffer_plane_length b.buffer i0) O_RDWR
    repeat' split
    · exact ha
    · exact quiet_sys k _ ha (by rfl)
    · exact quiet_trans (quiet_sys k _ ha (by rfl)) (ih _ _ _)

theorem cedrus_demo_buffer_setup_quiet (k : Kernel) (w : World) (demo : Cedrus)
    (b : DemoBuffer) (type index n : Nat) :
    emits w (cedrus_demo_buffer_setup k w demo b type index n).2.2 [] := by
  unfold cedrus_demo_buffer_setup
  simp only
  repeat' split
  all_goals first
    | exact emits_refl w
    | exact quiet_sys k _ (emits_refl w) (by rfl)
    | exact quiet_trans (quiet_sys k _ (emits_refl w) (by rfl))
        (cedrus_demo_buffer_setup_dma_heap_loop_quiet k _ _ _ _ _)
    | exact quiet_trans (quiet_sys k _ (emits_refl w) (by rfl))
        (demo_buffer_setup_v4l2_loop_quiet k _ _ _ _ _)

theorem cedrus_demo_setup_buffers_quiet (k : Kernel) (pool : Nat → CedrusRef)
    (type planes_count : Nat) (n : Nat) :
    ∀ (i : Nat) (demo : Cedrus) (w : World) (r : Int × Cedrus × World),
      cedrus_demo_setup_buffers k pool type planes_count n i demo w = some r →
      emits w r.2.2 [] := by
  induction n with
  | zero =>
    intro i demo w r h
    simp only [cedrus_demo_setup_buffers, Option.some.injEq] at h
    subst h
    exact emits_refl w
  | succ n ih =>
    intro i demo w r h
    unfold cedrus_demo_setup_buffers at h
    split at h
    · simp at h
    · rename_i buffer _
      have hb := cedrus_demo_buffer_setup_quiet k w demo buffer type i planes_count
      simp only at h
      split at h
      · simp only [Option.some.injEq] at h
        subst h
        exact hb
      · exact quiet_trans hb (ih _ _ _ _ h)

theorem cedrus_demo_setup_pools_quiet (k : Kernel) (w : World) (demo : Cedrus)
    (r : Int × Cedrus × World) (h : cedrus_demo_setup_pools k w demo = some r) :
    emits w r.2.2 [] := by
  unfold cedrus_demo_setup_pools at h
  simp only at h
  split at h
  · simp only [Option.some.injEq] at h
    subst h
    exact quiet_sys k _ (emits_refl w) (by rfl)
  · split at h
    · simp at h
    · rename_i ret d1 w1 h1
      have q1 := quiet_trans (quiet_sys k _ (emits_refl w) (by rfl))
        (cedrus_demo_setup_buffers_quiet k _ _ _ _ _ _ _ _ h1)
      simp only at q1
      split at h
      · simp only [Option.some.injEq] at h
        subst h
        exact q1
      · split at h
        · simp only [Option.some.injEq] at h
          subst h
          exact quiet_sys k _ q1 (by rfl)
        · split at h
          · simp at h
          · rename_i ret3 d3 w3 h3
            have q3 := quiet_trans (quiet_sys k _ q1 (by rfl))
              (cedrus_demo_setup_buffers_quiet k _ _ _ _ _ _ _ _ h3)
            simp only at q3
            split at h
            · simp only [Option.some.injEq] at h
              subst h
              exact q3
            · simp only [Option.some.injEq] at h
              subst h
              exact q3

/-- With successful pixel format checks, the third call of the format part of
`cedrus_demo_setup` is the `v4l2_format_try` of the output format, with the
size estimate `width * height`. -/
theorem cedrus_demo_setup_formats_try (k : Kernel) (w : World) (demo : Cedrus)
    (r : Int × Cedrus × World)
    (hchk : ∀ pos fd t f, (k pos (.v4l2_pixel_format_check fd t f)).ret ≠ 0)
    (h : cedrus_demo_setup_formats k w demo = some r) :
    ∃ a, r.2.2 = w ++ [Call.v4l2_pixel_format_check demo.video_fd demo.output_type
          demo.output_pixel_format,
        Call.v4l2_pixel_format_check demo.video_fd demo.capture_type demo.capture_pixel_format,
        Call.v4l2_format_try demo.video_fd
          { type := demo.output_type, width := demo.output_width,
            height := demo.output_height, pixelformat := demo.output_pixel_format,
            sizeimage := u32 (demo.output_width * demo.output_height) }] ++ a := by
  have he : emits (sys k (sys k (sys k w (Call.v4l2_pixel_format_check demo.video_fd
      demo.output_type demo.output_pixel_format)).2
      (Call.v4l2_pixel_format_check demo.video_fd demo.capture_type
        demo.capture_pixel_format)).2
      (Call.v4l2_format_try demo.video_fd
        { type := demo.output_type, width := demo.output_width,
          height := demo.output_height, pixelformat := demo.output_pixel_format,
          sizeimage := u32 (demo.output_width * demo.output_height) })).2 r.2.2 [] := by
    unfold cedrus_demo_setup_formats at h
    simp only [sys_reply, hchk, if_false] at h
    repeat' split at h
    all_goals first
      | (simp at h; done)
      | (simp only [Option.some.injEq] at h
         subst h
         repeat (first | exact emits_refl _ | refine quiet_sys k _ ?_ (by rfl)))
      | (refine quiet_trans ?_ (cedrus_demo_setup_pools_quiet k _ _ r h)
         repeat (first | exact emits_refl _ | refine quiet_sys k _ ?_ (by rfl)))
  obtain ⟨a, ha⟩ := emits_extends he
  exact ⟨a, by rw [ha]; simp [sys_world]⟩

/-- Claim C22, amended. Let every pixel format check succeed. In
`demo_decoder_setup`, with a decoder descriptor and one of the two allocators,
the third call is the `v4l2_format_try` of the output format, and the size
estimate in it is `width * height * 3` in 32-bit unsigned arithmetic when the
source is not the camera, and the length of plane 0 of the camera capture
buffer 0 when it is. In `cedrus_demo_setup` of the single-file demo the
`v4l2_format_try` of the output format follows the two checks (and the opening
of the heap under the heap allocator), and the size estimate in it is
`1280 * 720 = 921600`, the product of width and height. -/
theorem size_estimate_rule (k : Kernel) (w : World)
    (hchk : ∀ pos fd t f, (k pos (.v4l2_pixel_format_check fd t f)).ret ≠ 0) :
    (∀ (demo : Demo) (r : Int × Demo × World), 0 ≤ demo.decoder.video_fd →
      demo.allocator = DEMO_ALLOCATOR_V4L2 ∨ demo.allocator = DEMO_ALLOCATOR_DMA_HEAP →
      demo_decoder_setup k w demo = some r →
      ∃ size a, r.2.2 = w ++ [Call.v4l2_pixel_format_check demo.decoder.video_fd
            V4L2_BUF_TYPE_VIDEO_OUTPUT V4L2_PIX_FMT_JPEG,
          Call.v4l2_pixel_format_check demo.decoder.video_fd V4L2_BUF_TYPE_VIDEO_CAPTURE
            V4L2_PIX_FMT_NV16,
          Call.v4l2_format_try demo.decoder.video_fd (decoder_output_format demo size)] ++ a ∧
        (demo.source ≠ DEMO_SOURCE_CAMERA → size = u32 (demo.width * demo.height * 3)) ∧
        (demo.source = DEMO_SOURCE_CAMERA → ∃ b, demo.load (.camera_capture 0) = some b ∧
          size = v4l2_buffer_plane_length b.buffer 0)) ∧
    (∀ (demo : Cedrus) (allocator : Int) (r : Int × Cedrus × World),
      cedrus_demo_setup k w demo allocator = some r →
      u32 (1280 * 720) = 921600 ∧
      (allocator = CEDRUS_DEMO_ALLOCATOR_V4L2 →
        ∃ a, r.2.2 = w ++ [Call.v4l2_pixel_format_check demo.video_fd
            V4L2_BUF_TYPE_VIDEO_OUTPUT V4L2_PIX_FMT_JPEG,
          Call.v4l2_pixel_format_check demo.video_fd V4L2_BUF_TYPE_VIDEO_CAPTURE
            V4L2_PIX_FMT_NV16,
          Call.v4l2_format_try demo.video_fd (cedrus_output_format 921600)] ++ a) ∧
      (allocator = CEDRUS_DEMO_ALLOCATOR_DMA_HEAP → 0 ≤ (k w.length .dma_heap_open).ret →
        ∃ a, r.2.2 = w ++ [Call.dma_heap_open,
          Call.v4l2_pixel_format_check demo.video_fd V4L2_BUF_TYPE_VIDEO_OUTPUT
            V4L2_PIX_FMT_JPEG,
          Call.v4l2_pixel_format_check demo.video_fd V4L2_BUF_TYPE_VIDEO_CAPTURE
            V4L2_PIX_FMT_NV16,
          Call.v4l2_format_try demo.video_fd (cedrus_output_format 921600)] ++ a)) := by
  have hsz : u32 (1280 * 720) = 921600 := by decide
  refine ⟨fun demo r hfd hall h => ?_, fun demo allocator r h => ⟨hsz, fun ha => ?_,
    fun ha hopen => ?_⟩⟩
  · unfold demo_decoder_setup at h
    rw [if_neg (by omega)] at h
    have hall2 : ¬ (demo.allocator ≠ DEMO_ALLOCATOR_V4L2 ∧
        demo.allocator ≠ DEMO_ALLOCATOR_DMA_HEAP) := by
      rcases hall with h1 | h1 <;> simp [h1]
    simp only [if_neg hall2] at h
    obtain ⟨size, a, e1, e2, e3⟩ := demo_decoder_setup_formats_try k w _ _ r hchk h
    refine ⟨size, a, e1, fun hs => e2 (by simpa using hs), fun hs => ?_⟩
    obtain ⟨b, hb, hsz⟩ := e3 (by simpa using hs)
    exact ⟨b, by
      rw [← hb]
      unfold Demo.load
      rfl, hsz⟩
  · subst ha
    unfold cedrus_demo_setup at h
    simp only [if_true, ne_eq, not_true_eq_false, if_false] at h
    obtain ⟨a, ha⟩ := cedrus_demo_setup_formats_try k _ _ r hchk h
    dsimp only at ha
    rw [hsz] at ha
    exact ⟨a, ha⟩
  · subst ha
    unfold cedrus_demo_setup dma_heap_open at h
    have hne : ¬ (CEDRUS_DEMO_ALLOCATOR_DMA_HEAP = CEDRUS_DEMO_ALLOCATOR_V4L2) := by decide
    simp only [if_neg hne, if_true, sys_reply, if_neg (Int.not_lt.mpr hopen), ne_eq,
      not_true_eq_false, if_false] at h
    obtain ⟨a, ha⟩ := cedrus_demo_setup_formats_try k _ _ r hchk h
    dsimp only at ha
    rw [hsz] at ha
    exact ⟨a, by rw [ha]; simp [sys_world, cedrus_output_format]⟩

theorem size_estimate_rule_witness :
    (∀ pos fd t f, (kernel_ok pos (.v4l2_pixel_format_check fd t f)).ret ≠ 0) ∧
    (∃ size a, ((demo_decoder_setup kernel_ok [] demo_file_sized).getD
          (0, demo_zero, [])).2.2 =
        [] ++ [Call.v4l2_pixel_format_check demo_file_sized.decoder.video_fd
            V4L2_BUF_TYPE_VIDEO_OUTPUT V4L2_PIX_FMT_JPEG,
          Call.v4l2_pixel_format_check demo_file_sized.decoder.video_fd
            V4L2_BUF_TYPE_VIDEO_CAPTURE V4L2_PIX_FMT_NV16,
          Call.v4l2_format_try demo_file_sized.decoder.video_fd
            (decoder_output_format demo_file_sized size)] ++ a ∧
        (demo_file_sized.source ≠ DEMO_SOURCE_CAMERA →
          size = u32 (demo_file_sized.width * demo_file_sized.height * 3)) ∧
        (demo_file_sized.source = DEMO_SOURCE_CAMERA →
          ∃ b, demo_file_sized.load (.camera_capture 0) = some b ∧
            size = v4l2_buffer_plane_length b.buffer 0)) :=
  ⟨fun _ _ _ _ => Int.one_ne_zero,
   (size_estimate_rule kernel_ok [] (fun _ _ _ _ => Int.one_ne_zero)).1 demo_file_sized
     ((demo_decoder_setup kernel_ok [] demo_file_sized).getD (0, demo_zero, []))
     (by decide) (Or.inr rfl) rfl⟩

/-! ## What a successful import leaves to the cleanup -/

/-- A round under the heap allocator that succeeds: the length fitted, the
exporter plane had a share-handle and the `mmap` succeeded. -/
theorem demo_buffer_setup_import_plane_heap_inv (k : Kernel) (demo : Demo) (ib : DemoBuffer)
    (ivfd : Int) (i : Nat) (b : DemoBuffer) (w : World)
    (ha : demo.allocator = DEMO_ALLOCATOR_DMA_HEAP)
    (h0 : (demo_buffer_setup_import_plane k demo ib ivfd i b w).1 = 0) :
    v4l2_buffer_plane_length b.buffer i ≤ v4l2_buffer_plane_length ib.buffer i ∧
    0 ≤ ib.dma_buf_fd i ∧
    (k w.length (.mmap (v4l2_buffer_plane_length b.buffer i) (ib.dma_buf_fd i) 0)).ret ≠
      MAP_FAILED := by
  unfold demo_buffer_setup_import_plane at h0
  rw [demo_buffer_setup_import_loop] at h0
  simp only [demo_buffer_setup_import_loop, ha, if_true, sys_reply] at h0
  by_cases h1 : v4l2_buffer_plane_length ib.buffer i < v4l2_buffer_plane_length b.buffer i
  · rw [if_pos h1] at h0
    simp at h0
  · rw [if_neg h1] at h0
    by_cases h2 : ib.dma_buf_fd i < 0
    · rw [if_pos h2] at h0
      simp at h0
    · rw [if_neg h2] at h0
      by_cases h3 : (k w.length (.mmap (v4l2_buffer_plane_length b.buffer i)
          (ib.dma_buf_fd i) 0)).ret = MAP_FAILED
      · rw [if_pos h3] at h0
        simp at h0
      · exact ⟨by omega, by omega, h3⟩

/-- A round under the other allocator that succeeds: the length fitted and the
export and the `mmap` succeeded. -/
theorem demo_buffer_setup_import_plane_export_inv (k : Kernel) (demo : Demo) (ib : DemoBuffer)
    (ivfd : Int) (i : Nat) (b : DemoBuffer) (w : World)
    (ha : demo.allocator ≠ DEMO_ALLOCATOR_DMA_HEAP)
    (h0 : (demo_buffer_setup_import_plane k demo ib ivfd i b w).1 = 0) :
    v4l2_buffer_plane_length b.buffer i ≤ v4l2_buffer_plane_length ib.buffer i ∧
    (k w.length (.v4l2_buffer_export ivfd ib.buffer.type ib.buffer.index i O_RDWR)).ret = 0 ∧
    (k (w.length + 2) (.mmap (v4l2_buffer_plane_length b.buffer i)
      (k w.length (.v4l2_buffer_export ivfd ib.buffer.type ib.buffer.index i O_RDWR)).out 0)).ret ≠
      MAP_FAILED := by
  unfold demo_buffer_setup_import_plane at h0
  rw [demo_buffer_setup_import_loop] at h0
  simp only [demo_buffer_setup_import_loop, if_neg ha, sys_reply, sys_world, List.length_append,
    List.length_cons, List.length_nil, Nat.zero_add] at h0
  by_cases h1 : v4l2_buffer_plane_length ib.buffer i < v4l2_buffer_plane_length b.buffer i
  · rw [if_pos h1] at h0
    simp at h0
  · rw [if_neg h1] at h0
    by_cases h2 : (k w.length (.v4l2_buffer_export ivfd ib.buffer.type ib.buffer.index i
        O_RDWR)).ret = 0
    · simp only [h2, ne_eq, not_true_eq_false, if_false] at h0
      by_cases h3 : (k (w.length + 1 + 1) (.mmap (v4l2_buffer_plane_length b.buffer i)
          (k w.length (.v4l2_buffer_export ivfd ib.buffer.type ib.buffer.index i O_RDWR)).out
            0)).ret = MAP_FAILED
      · rw [if_pos h3] at h0
        simp at h0
      · exact ⟨by omega, h2, h3⟩
    · simp only [ne_eq, h2, not_false_eq_true, if_true] at h0

/-- Under the heap allocator a successful run of the import loop has issued one
`mmap` per plane, from the share-handle of the exporter, which is attached to
the plane. -/
theorem demo_buffer_setup_import_loop_heap_inv (k : Kernel) (demo : Demo) (ib : DemoBuffer)
    (ivfd : Int) (ha : demo.allocator = DEMO_ALLOCATOR_DMA_HEAP) (n : Nat) :
    ∀ (i0 : Nat) (b : DemoBuffer) (w : World),
      (demo_buffer_setup_import_loop k demo ib ivfd n i0 b w).1 = 0 →
      (demo_buffer_setup_import_loop k demo ib ivfd n i0 b w).2.2 =
        w ++ (List.range n).map (fun j =>
          Call.mmap (v4l2_buffer_plane_length b.buffer (i0 + j)) (ib.dma_buf_fd (i0 + j)) 0) ∧
      (∀ j, j < n → 0 ≤ ib.dma_buf_fd (i0 + j) ∧
        ((demo_buffer_setup_import_loop k demo ib ivfd n i0 b w).2.1.buffer.planes
          (i0 + j)).fd = ib.dma_buf_fd (i0 + j)) := by
  induction n with
  | zero => intro i0 b w _; simp [demo_buffer_setup_import_loop]
  | succ n ih =>
    intro i0 b w
    rw [demo_buffer_setup_import_loop_succ]
    split
    · rename_i hne
      intro h; exact absurd h hne
    · rename_i hz
      have hz0 : (demo_buffer_setup_import_plane k demo ib ivfd i0 b w).1 = 0 := by
        simpa using hz
      obtain ⟨hl0, hf0, hm0⟩ := demo_buffer_setup_import_plane_heap_inv k demo ib ivfd i0 b w ha hz0
      have hround := demo_buffer_setup_import_plane_heap k demo ib ivfd i0 b w ha hl0 hf0 hm0
      rw [hround]
      intro h
      obtain ⟨h2, h4⟩ := ih (i0 + 1) _ _ h
      have hfr := (demo_buffer_setup_import_loop_frame k demo ib ivfd n (i0 + 1)
        { b with
          buffer := v4l2_buffer_setup_fd b.buffer i0 (ib.dma_buf_fd i0)
          data := Function.update b.data i0
            (k w.length (.mmap (v4l2_buffer_plane_length b.buffer i0) (ib.dma_buf_fd i0) 0)).ret }
        (w ++ [Call.mmap (v4l2_buffer_plane_length b.buffer i0) (ib.dma_buf_fd i0) 0])).2.2 i0
        (Or.inl (by omega))
      refine ⟨?_, fun j hj => ?_⟩
      · rw [h2, range_succ_map_shift (fun i =>
          Call.mmap (v4l2_buffer_plane_length b.buffer i) (ib.dma_buf_fd i) 0)]
        simp [v4l2_buffer_setup_fd_length]
      · cases j with
        | zero =>
          simp only [Nat.add_zero]
          rw [hfr.2.2]
          exact ⟨hf0, by simp only [v4l2_buffer_setup_fd_same]⟩
        | succ j =>
          have := h4 j (by omega)
          have e : i0 + 1 + j = i0 + (j + 1) := by omega
          rw [e] at this
          exact this

/-- Under the other allocator a successful run of the import loop has issued
an export, a `dup` and an `mmap` per plane; the plane is attached to the
descriptor exported and the share-handle slot holds the result of the `dup`. -/
theorem demo_buffer_setup_import_loop_export_inv (k : Kernel) (demo : Demo) (ib : DemoBuffer)
    (ivfd : Int) (p0 : Nat) (ha : demo.allocator ≠ DEMO_ALLOCATOR_DMA_HEAP) (n : Nat) :
    ∀ (i0 : Nat) (b : DemoBuffer) (w : World), w.length = p0 + 3 * i0 →
      (demo_buffer_setup_import_loop k demo ib ivfd n i0 b w).1 = 0 →
      (demo_buffer_setup_import_loop k demo ib ivfd n i0 b w).2.2 =
        w ++ (List.range n).flatMap (fun j => import_plane_calls k ib ivfd b p0 (i0 + j)) ∧
      (∀ j, j < n →
        ((demo_buffer_setup_import_loop k demo ib ivfd n i0 b w).2.1.buffer.planes
          (i0 + j)).fd = import_exported_fd k ib ivfd p0 (i0 + j) ∧
        (demo_buffer_setup_import_loop k demo ib ivfd n i0 b w).2.1.dma_buf_fd (i0 + j) =
          (k (p0 + 3 * (i0 + j) + 1) (.dup (import_exported_fd k ib ivfd p0 (i0 + j)))).ret) := by
  induction n with
  | zero => intro i0 b w _ _; simp [demo_buffer_setup_import_loop]
  | succ n ih =>
    intro i0 b w hw
    rw [demo_buffer_setup_import_loop_succ]
    split
    · rename_i hne
      intro h; exact absurd h hne
    · rename_i hz
      have hz0 : (demo_buffer_setup_import_plane k demo ib ivfd i0 b w).1 = 0 := by
        simpa using hz
      obtain ⟨hl0, he0, hm0⟩ :=
        demo_buffer_setup_import_plane_export_inv k demo ib ivfd i0 b w ha hz0
      have hround := demo_buffer_setup_import_plane_export k demo ib ivfd i0 b w ha hl0 he0 hm0
      rw [hround, hw]
      have hfdeq : (k (p0 + 3 * i0)
          (.v4l2_buffer_export ivfd ib.buffer.type ib.buffer.index i0 O_RDWR)).out =
          import_exported_fd k ib ivfd p0 i0 := rfl
      simp only [hfdeq]
      intro h
      obtain ⟨h2, h4⟩ := ih (i0 + 1) _ _ (by simp; omega) h
      have hfr := (demo_buffer_setup_import_loop_frame k demo ib ivfd n (i0 + 1)
        { b with
          dma_buf_fd := Function.update b.dma_buf_fd i0
            (k (p0 + 3 * i0 + 1) (.dup (import_exported_fd k ib ivfd p0 i0))).ret
          buffer := v4l2_buffer_setup_fd b.buffer i0 (import_exported_fd k ib ivfd p0 i0)
          data := Function.update b.data i0
            (k (p0 + 3 * i0 + 2) (.mmap (v4l2_buffer_plane_length b.buffer i0)
              (import_exported_fd k ib ivfd p0 i0) 0)).ret }
        (w ++ [Call.v4l2_buffer_export ivfd ib.buffer.type ib.buffer.index i0 O_RDWR,
            Call.dup (import_exported_fd k ib ivfd p0 i0),
            Call.mmap (v4l2_buffer_plane_length b.buffer i0)
              (import_exported_fd k ib ivfd p0 i0) 0])).2.2 i0 (Or.inl (by omega))
      refine ⟨?_, fun j hj => ?_⟩
      · rw [h2, range_succ_flatMap_shift (fun i => import_plane_calls k ib ivfd b p0 i)]
        simp [import_plane_calls, v4l2_buffer_setup_fd_length]
      · cases j with
        | zero =>
          simp only [Nat.add_zero]
          rw [hfr.2.1, hfr.2.2]
          simp only [Function.update_same, v4l2_buffer_setup_fd_same, and_self]
        | succ j =>
          have := h4 j (by omega)
          have e : i0 + 1 + j = i0 + (j + 1) := by omega
          simp only [e] at this
          exact this

theorem import_plane_calls_length (k : Kernel) (ib : DemoBuffer) (ivfd : Int) (b b2 : DemoBuffer)
    (p0 i : Nat)
    (h : v4l2_buffer_plane_length b2.buffer i = v4l2_buffer_plane_length b.buffer i) :
    import_plane_calls k ib ivfd b2 p0 i = import_plane_calls k ib ivfd b p0 i := by
  unfold import_plane_calls
  rw [h]

/-- The handles that `demo_buffer_cleanup` closes are the share-handles of the
buffer that are not negative, in the order of the planes. -/
theorem demo_buffer_cleanup_closes (k : Kernel) (w : World) (b : DemoBuffer) :
    closes ((demo_buffer_cleanup k w b).2.drop w.length) =
      (List.range b.planes_count).filterMap (fun i =>
        if 0 ≤ b.dma_buf_fd i then some (b.dma_buf_fd i) else none) := by
  unfold demo_buffer_cleanup
  rw [(demo_buffer_cleanup_loop_script k b.planes_count 0 b w).1, List.drop_left]
  simp only [Nat.zero_add]
  exact closes_cleanup_calls b _

/-- Claim C23. Let `demo_buffer_setup` with import succeed on a buffer with
`planes_count` planes; the exporter is the camera buffer of the same index.
Under the heap allocator the calls are the query of the buffer and one `mmap`
per plane from the share-handle of the exporter: no export, no `dup` and no
heap allocation; every plane descriptor is attached to `dma_buf_fd[i]` of the
exporter, the `dma_buf_fd[i]` of the importer is the sentinel -1, and
`demo_buffer_cleanup` of the importer closes nothing. Under the other
allocator the calls are the query and, per plane, one export followed by one
`dup` and one `mmap`, without any heap allocation; the plane is attached to the
descriptor exported, `dma_buf_fd[i]` of the importer holds the result of the
`dup`, and `demo_buffer_cleanup` of the importer closes exactly the results of
`dup` that are descriptors, each once: when every `dup` gave a descriptor, these
are the duplicates of all planes, one `close` per plane. -/
theorem import_frame_effects (k : Kernel) (w : World) (demo : Demo) (buffer : DemoBuffer)
    (video_fd : Int) (memory type index planes_count : Nat) (r : Int × DemoBuffer × World)
    (hs : demo_buffer_setup k w demo buffer video_fd memory type index planes_count true =
      some r)
    (h0 : r.1 = 0) :
    ∃ ib, demo.load (.camera_capture index) = some ib ∧
      r.2.1.planes_count = planes_count ∧
      (demo.allocator = DEMO_ALLOCATOR_DMA_HEAP →
        r.2.2 = w ++ Call.v4l2_buffer_query video_fd type memory index planes_count ::
          (List.range planes_count).map (fun i =>
            Call.mmap (v4l2_buffer_plane_length r.2.1.buffer i) (ib.dma_buf_fd i) 0) ∧
        (∀ i, i < planes_count → 0 ≤ ib.dma_buf_fd i ∧
          (r.2.1.buffer.planes i).fd = ib.dma_buf_fd i ∧ r.2.1.dma_buf_fd i = -1) ∧
        (∀ (k2 : Kernel) (w2 : World),
          closes ((demo_buffer_cleanup k2 w2 r.2.1).2.drop w2.length) = [])) ∧
      (demo.allocator ≠ DEMO_ALLOCATOR_DMA_HEAP →
        r.2.2 = w ++ Call.v4l2_buffer_query video_fd type memory index planes_count ::
          (List.range planes_count).flatMap
            (import_plane_calls k ib demo.camera.video_fd r.2.1 (w.length + 1)) ∧
        (∀ i, i < planes_count →
          (r.2.1.buffer.planes i).fd =
            import_exported_fd k ib demo.camera.video_fd (w.length + 1) i ∧
          r.2.1.dma_buf_fd i = (k (w.length + 1 + 3 * i + 1)
            (.dup (import_exported_fd k ib demo.camera.video_fd (w.length + 1) i))).ret) ∧
        (∀ (k2 : Kernel) (w2 : World),
          closes ((demo_buffer_cleanup k2 w2 r.2.1).2.drop w2.length) =
            (List.range planes_count).filterMap (fun i =>
              if 0 ≤ r.2.1.dma_buf_fd i then some (r.2.1.dma_buf_fd i) else none)) ∧
        ((∀ i, i < planes_count → 0 ≤ r.2.1.dma_buf_fd i) →
          ∀ (k2 : Kernel) (w2 : World),
            closes ((demo_buffer_cleanup k2 w2 r.2.1).2.drop w2.length) =
              (List.range planes_count).map r.2.1.dma_buf_fd)) := by
  unfold demo_buffer_setup at hs
  simp only [↓reduceIte] at hs
  split at hs
  · rename_i hb
    simp only [Option.some.injEq] at hs
    subst hs
    exact absurd h0 hb
  · rename_i hb
    have hb0 : (demo_buffer_setup_base k w buffer video_fd memory type index
        planes_count).1 = 0 := by simpa using hb
    obtain ⟨hn, hfd, _, hbuf, _, htr⟩ :=
      demo_buffer_setup_base_ok k w buffer video_fd memory type index planes_count hb0
    split at hs
    · simp at hs
    · rename_i ib hib
      simp only [Option.some.injEq] at hs
      subst hs
      refine ⟨ib, hib, ?_⟩
      unfold demo_buffer_setup_import at h0 ⊢
      split
      · rename_i hc
        rw [if_pos hc] at h0
        simp at h0
      · rename_i hc
        rw [if_neg hc] at h0
        rw [hn] at h0 ⊢
        have hfr := demo_buffer_setup_import_loop_frame k demo ib demo.camera.video_fd
          planes_count 0
          (demo_buffer_setup_base k w buffer video_fd memory type index planes_count).2.1
          (demo_buffer_setup_base k w buffer video_fd memory type index planes_count).2.2
        refine ⟨by rw [hfr.1, hn], fun ha => ?_, fun ha => ?_⟩
        · obtain ⟨e1, e2⟩ := demo_buffer_setup_import_loop_heap_inv k demo ib
            demo.camera.video_fd ha planes_count 0 _ _ h0
          have e3 := demo_buffer_setup_import_loop_heap_fd k demo ib demo.camera.video_fd ha
            planes_count 0
            (demo_buffer_setup_base k w buffer video_fd memory type index planes_count).2.1
            (demo_buffer_setup_base k w buffer video_fd memory type index planes_count).2.2
          simp only [Nat.zero_add] at e1 e2
          refine ⟨?_, fun i hi => ⟨(e2 i hi).1, (e2 i hi).2, by rw [e3]; exact hfd i hi⟩,
            fun k2 w2 => ?_⟩
          · simp only [hfr.2.1]
            rw [e1, htr]
            simp only [List.append_assoc, List.singleton_append]
          · rw [demo_buffer_cleanup_closes, List.filterMap_eq_nil_iff]
            intro i hi
            rw [hfr.1, hn] at hi
            have hi2 : i < planes_count := List.mem_range.mp hi
            rw [e3, hfd i hi2]
            rfl
        · obtain ⟨e1, e2⟩ := demo_buffer_setup_import_loop_export_inv k demo ib
            demo.camera.video_fd (w.length + 1) ha planes_count 0 _ _
            (by rw [htr]; simp) h0
          simp only [Nat.zero_add] at e1 e2
          refine ⟨?_, fun i hi => e2 i hi,
            fun k2 w2 => by rw [demo_buffer_cleanup_closes, hfr.1, hn],
            fun hall k2 w2 => ?_⟩
          · have hcongr : (List.range planes_count).flatMap
                (import_plane_calls k ib demo.camera.video_fd
                  (demo_buffer_setup_import_loop k demo ib demo.camera.video_fd planes_count 0
                    (demo_buffer_setup_base k w buffer video_fd memory type index
                      planes_count).2.1
                    (demo_buffer_setup_base k w buffer video_fd memory type index
                      planes_count).2.2).2.1 (w.length + 1)) =
                (List.range planes_count).flatMap
                  (import_plane_calls k ib demo.camera.video_fd
                    (demo_buffer_setup_base k w buffer video_fd memory type index
                      planes_count).2.1 (w.length + 1)) := by
              apply List.flatMap_congr
              intro i _
              exact import_plane_calls_length k ib _ _ _ _ i (hfr.2.1 i)
            rw [hcongr, e1, htr]
            simp only [List.append_assoc, List.singleton_append]
          · rw [demo_buffer_cleanup_closes, hfr.1, hn]
            rw [← List.filterMap_eq_map]
            apply List.filterMap_congr
            intro i hi
            have hi2 : i < planes_count := List.mem_range.mp hi
            simp [hall i hi2]

/-- Claim C23, at two samples. In the state `demo_camera_heap_ready` (heap
allocator) the import of capture buffer 0 of the camera under `kernel_ok`
succeeds with the query and one `mmap` from the handle 106 of the exporter, and
cleanup of the importer closes nothing. In the state `demo_camera_v4l2_ready`
(kernel allocator) it succeeds with the query, one export, one `dup` of the
descriptor 301 exported and one `mmap`; the importer holds the duplicate 202,
and cleanup under `kernel_ok` closes it once. -/
theorem import_frame_effects_witness :
    (demo_buffer_setup kernel_ok [] demo_camera_heap_ready buffer_zero 4 V4L2_MEMORY_DMABUF
        V4L2_BUF_TYPE_VIDEO_OUTPUT 0 1 true = some imported_heap_setup ∧
      imported_heap_setup.1 = 0 ∧
      demo_camera_heap_ready.allocator = DEMO_ALLOCATOR_DMA_HEAP ∧
      imported_heap_setup.2.2 =
        [Call.v4l2_buffer_query 4 V4L2_BUF_TYPE_VIDEO_OUTPUT V4L2_MEMORY_DMABUF 0 1,
         Call.mmap 4096 106 0] ∧
      (demo_buffer_cleanup kernel_ok [] imported_heap_setup.2.1).2 = [Call.munmap 8192 4096] ∧
      ∃ ib, demo_camera_heap_ready.load (.camera_capture 0) = some ib ∧
        imported_heap_setup.2.1.planes_count = 1 ∧
        (demo_camera_heap_ready.allocator = DEMO_ALLOCATOR_DMA_HEAP →
          imported_heap_setup.2.2 = [] ++
            Call.v4l2_buffer_query 4 V4L2_BUF_TYPE_VIDEO_OUTPUT V4L2_MEMORY_DMABUF 0 1 ::
              (List.range 1).map (fun i =>
                Call.mmap (v4l2_buffer_plane_length imported_heap_setup.2.1.buffer i)
                  (ib.dma_buf_fd i) 0) ∧
          (∀ i, i < 1 → 0 ≤ ib.dma_buf_fd i ∧
            (imported_heap_setup.2.1.buffer.planes i).fd = ib.dma_buf_fd i ∧
            imported_heap_setup.2.1.dma_buf_fd i = -1) ∧
          (∀ (k2 : Kernel) (w2 : World),
            closes ((demo_buffer_cleanup k2 w2 imported_heap_setup.2.1).2.drop w2.length) =
              []))) ∧
    (demo_buffer_setup kernel_ok [] demo_camera_v4l2_ready buffer_zero 4 V4L2_MEMORY_DMABUF
        V4L2_BUF_TYPE_VIDEO_OUTPUT 0 1 true = some imported_export_setup ∧
      imported_export_setup.1 = 0 ∧
      demo_camera_v4l2_ready.allocator ≠ DEMO_ALLOCATOR_DMA_HEAP ∧
      imported_export_setup.2.2 =
        [Call.v4l2_buffer_query 4 V4L2_BUF_TYPE_VIDEO_OUTPUT V4L2_MEMORY_DMABUF 0 1,
         Call.v4l2_buffer_export 5 V4L2_BUF_TYPE_VIDEO_CAPTURE 0 0 O_RDWR,
         Call.dup 301, Call.mmap 4096 301 0] ∧
      imported_export_setup.2.1.dma_buf_fd 0 = 202 ∧
      (demo_buffer_cleanup kernel_ok [] imported_export_setup.2.1).2 =
        [Call.munmap 16384 4096, Call.close 202] ∧
      ∃ ib, demo_camera_v4l2_ready.load (.camera_capture 0) = some ib ∧
        (∀ i, i < 1 →
          (imported_export_setup.2.1.buffer.planes i).fd =
            import_exported_fd kernel_ok ib demo_camera_v4l2_ready.camera.video_fd
              (([] : World).length + 1) i ∧
          imported_export_setup.2.1.dma_buf_fd i = (kernel_ok (([] : World).length + 1 + 3 * i + 1)
            (.dup (import_exported_fd kernel_ok ib demo_camera_v4l2_ready.camera.video_fd
              (([] : World).length + 1) i))).ret) ∧
        ((∀ i, i < 1 → 0 ≤ imported_export_setup.2.1.dma_buf_fd i) →
          ∀ (k2 : Kernel) (w2 : World),
            closes ((demo_buffer_cleanup k2 w2 imported_export_setup.2.1).2.drop w2.length) =
              (List.range 1).map imported_export_setup.2.1.dma_buf_fd)) :=
  ⟨⟨rfl, by decide, by decide, by decide, by decide,
    (import_frame_effects kernel_ok [] demo_camera_heap_ready buffer_zero 4 V4L2_MEMORY_DMABUF
      V4L2_BUF_TYPE_VIDEO_OUTPUT 0 1 imported_heap_setup rfl (by decide)).imp
      fun _ h => ⟨h.1, h.2.1, h.2.2.1⟩⟩,
   ⟨rfl, by decide, by decide, by decide, by decide, by decide,
    (import_frame_effects kernel_ok [] demo_camera_v4l2_ready buffer_zero 4 V4L2_MEMORY_DMABUF
      V4L2_BUF_TYPE_VIDEO_OUTPUT 0 1 imported_export_setup rfl (by decide)).imp
      fun _ h => ⟨h.1, (h.2.2.2 (by decide)).2.1, (h.2.2.2 (by decide)).2.2.2⟩⟩⟩

end CedrusDemo
